import Mathlib

/-!
# OpenGCS bridge: a shallow embedding of `service/gcs/bridge/bridge.go`

The bridge is a request/response multiplexer.  The embedding follows the Go
source function by function:

* Go maps are partial functions (`GoMap`), read with `m k` and written with
  `GoMap.set`.
* Mutable objects (`Bridge`, `requestResponseWriter`, `Mux`) are passed and
  returned explicitly.
* Channel sends, collaborator calls and `go` statements are appended, in
  program order, to `Bridge.trace`.
* A Go `panic` is an `Option String` next to the state reached when it fired;
  inside a handler it is the event `panic`, the last one that the handler puts
  on the trace.
* Packages that are imported by `bridge.go` but are not part of the sources at
  hand (`prot`, `gcserr`, `commonutils`, `core`, `gcs`, `oslayer`) appear as
  parameters (`Prot`, `Env`) or as definitions marked `Modelled from the spec`.
-/

namespace OpenGCS

set_option autoImplicit false

/-! ## Package `prot` (declarations used by the bridge) -/

abbrev Bytes := List Nat

/-- Modelled from the spec: the frame header of package prot, three unsigned
fields `Type` (32 bit), `Size` (32 bit) and `ID` (64 bit). -/
structure MessageHeader where
  Type_ : Nat
  Size : Nat
  ID : Nat
deriving DecidableEq, Repr

/-- Modelled from the spec: constants of the packages `prot`, `gcserr` and `gcs`
whose declarations are not among the sources.  Their numeric values are not
fixed here; theorems state which relations between them they rely on. -/
structure Prot where
  ComputeSystemCreateV1 : Nat
  ComputeSystemStartV1 : Nat
  ComputeSystemShutdownGracefulV1 : Nat
  ComputeSystemShutdownForcedV1 : Nat
  ComputeSystemExecuteProcessV1 : Nat
  ComputeSystemWaitForProcessV1 : Nat
  ComputeSystemSignalProcessV1 : Nat
  ComputeSystemResizeConsoleV1 : Nat
  ComputeSystemGetPropertiesV1 : Nat
  ComputeSystemModifySettingsV1 : Nat
  ComputeSystemNegotiateProtocolV1 : Nat
  ComputeSystemNotificationV1 : Nat
  GetResponseIdentifier : Nat → Nat
  PvMax : Nat
  OsTypeLinux : String
  NtUnexpectedExit : String
  AoNone : String
  UVMContainerID : String
  HrVmcomputeUnknownMessage : Int
  HrVmcomputeUnsupportedProtocolVersion : Int
  HvVmcomputeTimeout : Int
  HrFail : Int

/-- Modelled from the spec: `PvInvalid` is the value the selected version starts
at, which for the zero-initialised `Bridge.protVer` is 0. -/
def PvInvalid : Nat := 0

/-- Modelled from the spec: protocol version `V3` has the numeric value 3. -/
def PvV3 : Nat := 3

/-- Modelled from the spec: protocol version `V4` has the numeric value 4. -/
def PvV4 : Nat := 4

/-- Modelled from the spec: the header size is 16 bytes in this protocol. -/
def MessageHeaderSize : Nat := 16

/-- The request identifiers that `AssignHandlers` mentions, in the order of
their first registration. -/
def Prot.requestIds (P : Prot) : List Nat :=
  [P.ComputeSystemNegotiateProtocolV1, P.ComputeSystemCreateV1,
   P.ComputeSystemExecuteProcessV1, P.ComputeSystemShutdownForcedV1,
   P.ComputeSystemShutdownGracefulV1, P.ComputeSystemSignalProcessV1,
   P.ComputeSystemGetPropertiesV1, P.ComputeSystemWaitForProcessV1,
   P.ComputeSystemResizeConsoleV1, P.ComputeSystemModifySettingsV1,
   P.ComputeSystemStartV1]

/-- Whether a value is in the range of `int32`, the type of an HRESULT. -/
def isInt32 (x : Int) : Prop := - 2 ^ 31 ≤ x ∧ x < 2 ^ 31

instance (x : Int) : Decidable (isInt32 x) := by
  unfold isInt32
  exact inferInstance

/-- What the spec states about the constants: the request identifiers are
pairwise different, `PvV4 ≤ PvMax` (a 32-bit value), and the HRESULTs are
32-bit codes. -/
structure Prot.WF (P : Prot) : Prop where
  ids_nodup : P.requestIds.Nodup
  v4_le_max : PvV4 ≤ P.PvMax
  max_lt : P.PvMax < 2 ^ 32
  unknownMessage_int32 : isInt32 P.HrVmcomputeUnknownMessage
  unsupportedVersion_int32 : isInt32 P.HrVmcomputeUnsupportedProtocolVersion
  timeout_int32 : isInt32 P.HvVmcomputeTimeout
  fail_int32 : isInt32 P.HrFail

/-- A sample instantiation of the constants (the values of the upstream
`prot`/`gcserr` packages), used to exercise the theorems on concrete inputs. -/
def protSample : Prot where
  ComputeSystemCreateV1 := 0x10100101
  ComputeSystemStartV1 := 0x10100201
  ComputeSystemShutdownGracefulV1 := 0x10100301
  ComputeSystemShutdownForcedV1 := 0x10100401
  ComputeSystemExecuteProcessV1 := 0x10100501
  ComputeSystemWaitForProcessV1 := 0x10100601
  ComputeSystemSignalProcessV1 := 0x10100701
  ComputeSystemResizeConsoleV1 := 0x10100801
  ComputeSystemGetPropertiesV1 := 0x10100901
  ComputeSystemModifySettingsV1 := 0x10100a01
  ComputeSystemNegotiateProtocolV1 := 0x10100b01
  ComputeSystemNotificationV1 := 0x30100101
  GetResponseIdentifier := fun t => 0x20000000 + t % 0x10000000
  PvMax := 4
  OsTypeLinux := "Linux"
  NtUnexpectedExit := "UnexpectedExit"
  AoNone := "None"
  UVMContainerID := "00000000-0000-0000-0000-000000000000"
  HrVmcomputeUnknownMessage := -1070137077
  HrVmcomputeUnsupportedProtocolVersion := -1070137076
  HvVmcomputeTimeout := -1070137079
  HrFail := -2147467259

/-- Modelled from the spec: a `(major, minor)` pair. -/
structure SchemaVersion where
  Major : Nat
  Minor : Nat
deriving DecidableEq, Repr

/-- Modelled from the spec: `SchemaVersion.Cmp`, the total (lexicographic) order
on `(major, minor)`, as -1, 0 or 1. -/
def SchemaVersion.Cmp (a b : SchemaVersion) : Int :=
  if a.Major < b.Major then -1
  else if b.Major < a.Major then 1
  else if a.Minor < b.Minor then -1
  else if b.Minor < a.Minor then 1
  else 0

structure GcsCapabilities where
  SendHostCreateMessage : Bool
  SendHostStartMessage : Bool
  HVSocketConfigOnStartup : Bool
  SupportedSchemaVersions : List SchemaVersion
  RuntimeOsType : String
deriving DecidableEq, Repr

/-- The capabilities of this GCS (`var capabilities`). -/
def capabilities (P : Prot) : GcsCapabilities where
  SendHostCreateMessage := false
  SendHostStartMessage := false
  HVSocketConfigOnStartup := false
  SupportedSchemaVersions := [⟨1, 0⟩, ⟨2, 1⟩]
  RuntimeOsType := P.OsTypeLinux

structure ErrorRecord where
  Result : Int
  Message : String
  StackTrace : String
  ModuleName : String
  FileName : String
  Line : Nat
  FunctionName : String
deriving DecidableEq, Repr

structure MessageResponseBase where
  ActivityID : String
  Result : Int := 0
  ErrorRecords : List ErrorRecord := []
deriving DecidableEq, Repr

/-- The struct `MessageBase`.  The request types below embed it by pointer
(`*MessageBase`, the way the tests build them): their field `MessageBase` is
nil (`none`) after decoding a payload that has neither of its keys, and reading
`request.ContainerID` or `request.ActivityID` through the nil pointer panics. -/
structure MessageBase where
  ContainerID : String
  ActivityID : String
deriving DecidableEq, Repr

structure NegotiateProtocol where
  MessageBase : Option MessageBase
  MinimumVersion : Nat
  MaximumVersion : Nat
deriving DecidableEq, Repr

structure NegotiateProtocolResponse where
  MessageResponseBase : MessageResponseBase
  Version : Nat
  Capabilities : GcsCapabilities
deriving DecidableEq, Repr

structure ContainerCreate where
  MessageBase : Option MessageBase
  ContainerConfig : String
deriving DecidableEq, Repr

structure ContainerCreateResponse where
  MessageResponseBase : MessageResponseBase
  SelectedProtocolVersion : Nat := 0
deriving DecidableEq, Repr

/-- The v2 container settings; only `SchemaVersion` is inspected by the bridge,
the rest of the document is kept as `body`. -/
structure VMHostedContainerSettingsV2 where
  SchemaVersion : SchemaVersion
  body : String
deriving DecidableEq, Repr

/-- The v1 container settings, which the bridge passes on uninspected. -/
structure VMHostedContainerSettings where
  body : String
deriving DecidableEq, Repr

structure ExecuteProcessVsockStdioRelaySettings where
  StdIn : Nat
  StdOut : Nat
  StdErr : Nat
deriving DecidableEq, Repr

structure ExecuteProcessSettings where
  ProcessParameters : String
  VsockStdioRelaySettings : ExecuteProcessVsockStdioRelaySettings
deriving DecidableEq, Repr

structure ContainerExecuteProcess where
  MessageBase : Option MessageBase
  Settings : ExecuteProcessSettings
deriving DecidableEq, Repr

/-- The OCI process document of an exec request, passed on uninspected. -/
structure OCIProcess where
  body : String
deriving DecidableEq, Repr

structure ProcessParameters where
  CreateStdInPipe : Bool
  CreateStdOutPipe : Bool
  CreateStdErrPipe : Bool
  IsExternal : Bool
  SchemaVersion : SchemaVersion
  OCIProcess : Option OCIProcess
  body : String
deriving DecidableEq, Repr

structure ContainerExecuteProcessResponse where
  MessageResponseBase : MessageResponseBase
  ProcessID : Nat
deriving DecidableEq, Repr

structure SignalProcessOptions where
  Signal : Int
deriving DecidableEq, Repr

structure ContainerSignalProcess where
  MessageBase : Option MessageBase
  ProcessID : Nat
  Options : SignalProcessOptions
deriving DecidableEq, Repr

structure ContainerGetProperties where
  MessageBase : Option MessageBase
  Query : String
deriving DecidableEq, Repr

structure ProcessDetails where
  ProcessID : Int
deriving DecidableEq, Repr

structure Properties where
  ProcessList : List ProcessDetails
deriving DecidableEq, Repr

structure ContainerGetPropertiesResponse where
  MessageResponseBase : MessageResponseBase
  Properties : String
deriving DecidableEq, Repr

structure ContainerWaitForProcess where
  MessageBase : Option MessageBase
  ProcessID : Nat
  TimeoutInMs : Nat
deriving DecidableEq, Repr

structure ContainerWaitForProcessResponse where
  MessageResponseBase : MessageResponseBase
  ExitCode : Nat
deriving DecidableEq, Repr

structure ContainerResizeConsole where
  MessageBase : Option MessageBase
  ProcessID : Nat
  Height : Nat
  Width : Nat
deriving DecidableEq, Repr

/-- The v1 modification request, passed on uninspected. -/
structure ResourceModificationRequestResponse where
  body : String
deriving DecidableEq, Repr

/-- The v2 modification request, passed on uninspected. -/
structure ModifySettingRequest where
  body : String
deriving DecidableEq, Repr

structure ContainerModifySettings where
  MessageBase : Option MessageBase
  Request : Option ResourceModificationRequestResponse
  V2Request : Option ModifySettingRequest
deriving DecidableEq, Repr

structure ContainerNotification where
  ContainerID : String
  ActivityID : String
  Type_ : String
  Operation : String
  Result : Int
  ResultInfo : String
deriving DecidableEq, Repr

/-- Conversion to `uint32`. -/
def toUint32 (x : Int) : Nat := (x % 2 ^ 32).toNat

/-- Conversion to `int32`. -/
def toInt32 (x : Int) : Int := (x + 2 ^ 31) % 2 ^ 32 - 2 ^ 31

/-! ## Errors (`github.com/pkg/errors`, `gcserr`) -/

/-- Modelled from the spec: what `setErrorForResponseBase` reads of a stack
trace, namely its `%+v` rendering and the `%s`, `%d` and `%n` renderings of its
bottom frame. -/
structure StackTrace where
  rendered : String
  bottomFile : String
  bottomLine : String
  bottomFunc : String
deriving DecidableEq, Repr

/-- Modelled from the spec: what the bridge observes of a Go `error` value, its
`Error()` text, the HRESULT found in its chain by `gcserr.GetHresult` (if any)
and the stack found by `gcserr.BaseStackTrace` (if any). -/
structure GoError where
  Error : String
  hresult : Option Int
  stack : Option StackTrace
deriving DecidableEq, Repr

/-- Modelled from the spec: `errors.New` and `errors.Errorf`, a fresh error that
carries the stack of its construction site and no HRESULT. -/
def errors.New (msg : String) (site : StackTrace) : GoError :=
  { Error := msg, hresult := none, stack := some site }

/-- Modelled from the spec: `errors.Wrapf`, which prefixes the message and keeps
the chain of the wrapped error (its HRESULT and its earliest stack). -/
def errors.Wrapf (err : GoError) (msg : String) (site : StackTrace) : GoError :=
  { Error := msg ++ ": " ++ err.Error
    hresult := err.hresult
    stack := match err.stack with
      | some s => some s
      | none => some site }

/-- Modelled from the spec: `gcserr.WrapHresult`, which attaches an HRESULT at
the head of the error chain. -/
def gcserr.WrapHresult (err : GoError) (hresult : Int) : GoError :=
  { err with hresult := some hresult }

/-- Modelled from the spec: `gcserr.NewHresultError`, a fresh error carrying
the HRESULT; `text` is its `Error()` rendering. -/
def gcserr.NewHresultError (hresult : Int) (text : String) (site : StackTrace) : GoError :=
  { Error := text, hresult := some hresult, stack := some site }

/-- Go `strconv.Atoi` on the digits of a decimal numeral. -/
def atoiDigits (cs : List Char) : Option Nat :=
  if cs.isEmpty then none
  else if cs.all Char.isDigit then
    some (cs.foldl (fun acc c => 10 * acc + (c.toNat - 48)) 0)
  else none

/-- Go `strconv.Atoi`: an optional sign followed by decimal digits, in the
range of a 64-bit `int`. -/
def Atoi (s : String) : Option Int :=
  let parsed : Option Int :=
    match s.toList with
    | '-' :: cs => (atoiDigits cs).map (fun n => - (n : Int))
    | '+' :: cs => (atoiDigits cs).map (fun n => (n : Int))
    | cs => (atoiDigits cs).map (fun n => (n : Int))
  match parsed with
  | some v => if - 2 ^ 63 ≤ v ∧ v < 2 ^ 63 then some v else none
  | none => none

/-- The function `setErrorForResponseBase`: modifies the passed-in
`MessageResponseBase` to contain information pertaining to the given error. -/
def setErrorForResponseBase (P : Prot) (response : MessageResponseBase)
    (errForResponse : GoError) : MessageResponseBase :=
  let errorMessage := errForResponse.Error
  let stackString := match errForResponse.stack with
    | some stack => stack.rendered
    | none => ""
  let fileName := match errForResponse.stack with
    | some stack => stack.bottomFile
    | none => ""
  let lineNumber : Int := match errForResponse.stack with
    | some stack =>
      match Atoi stack.bottomLine with
      | some n => n
      | none => -1
    | none => -1
  let functionName := match errForResponse.stack with
    | some stack => stack.bottomFunc
    | none => ""
  let hresult := match errForResponse.hresult with
    | some h => h
    | none => P.HrFail
  let newRecord : ErrorRecord :=
    { Result := toInt32 hresult
      Message := errorMessage
      StackTrace := stackString
      ModuleName := "gcs"
      FileName := fileName
      Line := toUint32 lineNumber
      FunctionName := functionName }
  { response with
    Result := toInt32 hresult
    ErrorRecords := response.ErrorRecords ++ [newRecord] }

/-! ## Responses, channels and the effect trace -/

/-- The values a handler passes to `Write` (Go `interface{}`): the response
structs of package `prot`, a notification, or any other value. -/
inductive Payload where
  | base (r : MessageResponseBase)
  | negotiate (r : NegotiateProtocolResponse)
  | create (r : ContainerCreateResponse)
  | executeProcess (r : ContainerExecuteProcessResponse)
  | getProperties (r : ContainerGetPropertiesResponse)
  | waitForProcess (r : ContainerWaitForProcessResponse)
  | notification (n : ContainerNotification)
  | other (tag : Nat)
deriving DecidableEq, Repr

/-- The embedded `MessageResponseBase` of a response payload, when it has one. -/
def Payload.responseBase : Payload → Option MessageResponseBase
  | .base r => some r
  | .negotiate r => some r.MessageResponseBase
  | .create r => some r.MessageResponseBase
  | .executeProcess r => some r.MessageResponseBase
  | .getProperties r => some r.MessageResponseBase
  | .waitForProcess r => some r.MessageResponseBase
  | .notification _ => none
  | .other _ => none

structure bridgeResponse where
  header : MessageHeader
  response : Payload
deriving DecidableEq, Repr

/-- Settings of the stdio relay (`stdio.ConnectionSettings`): each port is
present or nil. -/
structure ConnectionSettings where
  StdIn : Option Nat := none
  StdOut : Option Nat := none
  StdErr : Option Nat := none
deriving DecidableEq, Repr

/-- The task started by the `go func()` statement of `createContainer`: it calls
`exitCodeFn` (absent when the function value is nil; otherwise represented by
the exit code it returns) and publishes the exit notification. -/
structure ExitNotifier where
  exitCodeFn : Option Int
  ContainerID : String
  ActivityID : String
deriving DecidableEq, Repr

/-- The observable steps of the bridge, in program order: channel operations,
calls into the runtime (`core.Core`) and the host state (`gcs.Host` with its
containers and processes), started tasks, and the panic that ends a handler. -/
inductive Event where
  | respSend (r : bridgeResponse)
  | quitSend (v : Bool)
  | doneSend (v : Bool)
  | doneClose
  | goExitNotifier (t : ExitNotifier)
  | panic (msg : String)
  | coreCreateContainer (id : String) (settings : VMHostedContainerSettings)
  | coreWaitContainer (id : String)
  | coreExecProcess (id : String) (params : ProcessParameters) (conn : ConnectionSettings)
  | coreRunExternalProcess (params : ProcessParameters) (conn : ConnectionSettings)
  | coreSignalContainer (id : String) (signal : Int)
  | coreSignalProcess (pid : Int) (options : SignalProcessOptions)
  | coreGetProperties (id : String) (query : String)
  | coreWaitProcess (pid : Int)
  | coreResizeConsole (pid : Int) (height width : Nat)
  | coreModifySettings (id : String) (request : ResourceModificationRequestResponse)
  | hostCreateContainer (id : String) (settings : VMHostedContainerSettingsV2)
  | hostGetContainer (id : String)
  | hostGetAllProcessPids
  | hostModifyHostSettings (request : ModifySettingRequest)
  | hostShutdown
  | containerStart (id : String) (conn : ConnectionSettings)
  | containerExecProcess (id : String) (process : OCIProcess) (conn : ConnectionSettings)
  | containerKill (id : String) (signal : Int)
  | containerGetProcess (id : String) (pid : Nat)
  | processKill (id : String) (pid : Nat) (signal : Int)
  | processWait (id : String) (pid : Nat)
deriving DecidableEq, Repr

/-- The response sent by an event, when the event is a send on the response
channel. -/
def Event.response? : Event → Option bridgeResponse
  | .respSend r => some r
  | _ => none

/-- The message of a panic, when the event is one. -/
def Event.panic? : Event → Option String
  | .panic msg => some msg
  | _ => none

/-- The text of the run-time panic raised by reading through a nil pointer or
calling a nil function value. -/
def nilDereference : String :=
  "runtime error: invalid memory address or nil pointer dereference"

/-- Whether the event is a call into the runtime or the host state. -/
def Event.isCollaboratorCall : Event → Bool
  | .respSend _ => false
  | .quitSend _ => false
  | .doneSend _ => false
  | .doneClose => false
  | .goExitNotifier _ => false
  | .panic _ => false
  | _ => true

/-- The mutable part of the `Bridge` struct: the selected protocol version and,
as `trace`, everything done so far on its channels and collaborators. -/
structure Bridge where
  protVer : Nat := PvInvalid
  trace : List Event := []
deriving DecidableEq, Repr

def Bridge.emit (b : Bridge) (e : Event) : Bridge :=
  { b with trace := b.trace ++ [e] }

/-- Whether a handler has panicked.  The bridge recovers from no panic, so the
program has ended. -/
def Bridge.panicked (b : Bridge) : Bool :=
  b.trace.any (fun e => e.panic?.isSome)

/-- The values sent on `b.responseChan` so far, oldest first. -/
def Bridge.responseChan (b : Bridge) : List bridgeResponse :=
  b.trace.filterMap Event.response?

/-! ## Requests and the response writer -/

/-- The bridge request that has been sent: its header, its payload bytes and
the protocol version it was tagged with on receipt. -/
structure Request where
  Header : MessageHeader
  Message : Bytes
  Version : Nat
deriving DecidableEq, Repr

structure requestResponseWriter where
  header : MessageHeader
  respWritten : Bool := false
deriving DecidableEq, Repr

def requestResponseWriter.Header (w : requestResponseWriter) : MessageHeader :=
  w.header

/-- The method `Write`: sends on the response channel, then sets `respWritten`. -/
def requestResponseWriter.Write (w : requestResponseWriter) (r : Payload) (b : Bridge) :
    requestResponseWriter × Bridge :=
  ({ w with respWritten := true }, b.emit (.respSend { header := w.header, response := r }))

/-- The method `Error`: an empty activity id becomes the empty GUID. -/
def requestResponseWriter.Error (P : Prot) (w : requestResponseWriter) (activityID : String)
    (err : GoError) (b : Bridge) : requestResponseWriter × Bridge :=
  let activityID :=
    if activityID = "" then "00000000-0000-0000-0000-000000000000" else activityID
  let resp : MessageResponseBase := { ActivityID := activityID }
  let resp := setErrorForResponseBase P resp err
  w.Write (.base resp) b

/-! ## Collaborators

The runtime (`core.Core`), the host state (`gcs.Host`), JSON decoding and text
formatting are not part of the bridge.  Each collaborator is a record of
functions that give the outcome of every call the bridge can make. -/

/-- The pair of channels `(exitCodeChan, doneChan)` handed out for a process,
seen through the `select` of `waitOnProcess`: given the timeout in
milliseconds, `recv` is the exit code when it arrives on the exit channel
first, and `none` when the timer fires first. -/
structure WaitChans where
  recv : Nat → Option Int

/-- A process tracked by the host state (`gcs.Process`). -/
structure Process where
  Wait : WaitChans
  Kill : Int → Option GoError

/-- A container tracked by the host state (`gcs.Container`). -/
structure Container where
  Wait : Int
  Start : ConnectionSettings → Except GoError Int
  ExecProcess : OCIProcess → ConnectionSettings → Except GoError Int
  Kill : Int → Option GoError
  GetProcess : Nat → Except GoError Process

/-- The host state (`gcs.Host`). -/
structure Host where
  CreateContainer : String → VMHostedContainerSettingsV2 → Except GoError Container
  GetContainer : String → Except GoError Container
  GetAllProcessPids : List Int
  ModifyHostSettings : ModifySettingRequest → Option GoError

/-- The runtime (`core.Core`).  `WaitContainer` returns both of its Go results:
the exit-code function (nil, or the exit code it returns) and the error. -/
structure Core where
  CreateContainer : String → VMHostedContainerSettings → Option GoError
  WaitContainer : String → Option Int × Option GoError
  ExecProcess : String → ProcessParameters → ConnectionSettings → Except GoError Int
  RunExternalProcess : ProcessParameters → ConnectionSettings → Except GoError Int
  SignalContainer : String → Int → Option GoError
  SignalProcess : Int → SignalProcessOptions → Option GoError
  GetProperties : String → String → Except GoError (Option Properties)
  WaitProcess : Int → Except GoError WaitChans
  ResizeConsole : Int → Nat → Nat → Option GoError
  ModifySettings : String → ResourceModificationRequestResponse → Option GoError

/-- JSON decoding (`commonutils.UnmarshalJSONWithHresult` at each target type,
`prot.UnmarshalContainerModifySettings`) and `json.Marshal` of properties. -/
structure Json where
  NegotiateProtocol : Bytes → Except GoError NegotiateProtocol
  ContainerCreate : Bytes → Except GoError ContainerCreate
  VMHostedContainerSettingsV2 : String → Except GoError VMHostedContainerSettingsV2
  VMHostedContainerSettings : String → Except GoError VMHostedContainerSettings
  MessageBase : Bytes → Except GoError MessageBase
  ContainerExecuteProcess : Bytes → Except GoError ContainerExecuteProcess
  ProcessParameters : String → Except GoError ProcessParameters
  ContainerSignalProcess : Bytes → Except GoError ContainerSignalProcess
  ContainerGetProperties : Bytes → Except GoError ContainerGetProperties
  ContainerWaitForProcess : Bytes → Except GoError ContainerWaitForProcess
  ContainerResizeConsole : Bytes → Except GoError ContainerResizeConsole
  ContainerModifySettings : Bytes → Except GoError ContainerModifySettings
  MarshalProperties : Properties → Except GoError String

/-- Text produced by `fmt` verbs and by `Error()` of HRESULT errors, and the
stack that `pkg/errors` captures inside a named function. -/
structure Fmt where
  bytes : Bytes → String
  messageIdentifier : Nat → String
  properties : Properties → String
  hresultError : Int → String
  callers : String → StackTrace

structure Env where
  core : Core
  host : Host
  json : Json
  fmt : Fmt

/-- The signal `SIGKILL` of `oslayer` and `syscall`. -/
def SIGKILL : Int := 9

/-- The signal `SIGTERM` of `oslayer`. -/
def SIGTERM : Int := 15

/-! ## Handlers -/

/-- The function `UnknownMessage`: the default handler logic for an unmatched
request type. -/
def UnknownMessage (P : Prot) (E : Env) (w : requestResponseWriter) (r : Request)
    (b : Bridge) : requestResponseWriter × Bridge :=
  w.Error P ""
    (gcserr.WrapHresult
      (errors.New
        ("bridge: function not supported, header type: " ++ E.fmt.messageIdentifier r.Header.Type_)
        (E.fmt.callers "UnknownMessage"))
      P.HrVmcomputeUnknownMessage) b

/-- The method `negotiateProtocol`.  Either branch reads `request.ActivityID`
before it does anything else. -/
def negotiateProtocol (P : Prot) (E : Env) (w : requestResponseWriter) (r : Request)
    (b : Bridge) : requestResponseWriter × Bridge :=
  match E.json.NegotiateProtocol r.Message with
  | .error err =>
    w.Error P ""
      (errors.Wrapf err
        ("failed to unmarshal JSON in message \"" ++ E.fmt.bytes r.Message ++ "\"")
        (E.fmt.callers "negotiateProtocol")) b
  | .ok request =>
    if request.MaximumVersion < PvV4 ∨ P.PvMax < request.MinimumVersion then
      match request.MessageBase with
      | none => (w, b.emit (.panic nilDereference))
      | some base =>
        w.Error P base.ActivityID
          (gcserr.NewHresultError P.HrVmcomputeUnsupportedProtocolVersion
            (E.fmt.hresultError P.HrVmcomputeUnsupportedProtocolVersion)
            (E.fmt.callers "negotiateProtocol")) b
    else
      let min := fun (x y : Nat) => if x < y then x else y
      let major := min P.PvMax request.MaximumVersion
      match request.MessageBase with
      | none => (w, b.emit (.panic nilDereference))
      | some base =>
        let response : NegotiateProtocolResponse :=
          { MessageResponseBase := { ActivityID := base.ActivityID }
            Version := major
            Capabilities := capabilities P }
        -- Set our protocol selected version before return.
        let b := { b with protVer := major }
        w.Write (.negotiate response) b

/-- The last statements of `createContainer`: the `go` statement that starts
the wait-and-notify task, the assignment of the selected version on a legacy
create, and the final `Write`.  `base` is the `MessageBase` of the request. -/
def createContainerNotify (w : requestResponseWriter) (base : MessageBase)
    (response : ContainerCreateResponse) (exitCodeFn : Option Int) (b : Bridge) :
    requestResponseWriter × Bridge :=
  let b := b.emit (.goExitNotifier
    { exitCodeFn := exitCodeFn
      ContainerID := base.ContainerID
      ActivityID := base.ActivityID })
  -- Set our protocol selected version before return.
  let b := { b with protVer := if b.protVer = PvInvalid then PvV3 else b.protVer }
  w.Write (.create response) b

/-- The end of `createContainer` (from `response := ...` on): builds the
response and, on the v1 path, obtains the exit-code function from the
runtime. -/
def createContainerRespond (E : Env) (w : requestResponseWriter) (base : MessageBase)
    (exitCodeFn : Option Int) (wasV2Config : Bool) (b : Bridge) :
    requestResponseWriter × Bridge :=
  let id := base.ContainerID
  let response : ContainerCreateResponse :=
    { MessageResponseBase := { ActivityID := base.ActivityID } }
  let response :=
    if b.protVer = PvInvalid then { response with SelectedProtocolVersion := PvV3 }
    else response
  if !wasV2Config then
    -- exitCodeFn, err = b.coreint.WaitContainer(id); an error is only logged
    createContainerNotify w base response (E.core.WaitContainer id).1
      (b.emit (.coreWaitContainer id))
  else createContainerNotify w base response exitCodeFn b

/-- The middle of `createContainer` (`if !wasV2Config { ... }`): the fall back
to the v1 settings and the runtime. -/
def createContainerFallback (P : Prot) (E : Env) (w : requestResponseWriter)
    (request : ContainerCreate) (base : MessageBase) (exitCodeFn : Option Int)
    (wasV2Config : Bool) (b : Bridge) : requestResponseWriter × Bridge :=
  let id := base.ContainerID
  if !wasV2Config then
    match E.json.VMHostedContainerSettings request.ContainerConfig with
    | .error err =>
      w.Error P base.ActivityID
        (errors.Wrapf err
          ("failed to unmarshal JSON for ContainerConfig \"" ++ request.ContainerConfig ++ "\"")
          (E.fmt.callers "createContainer")) b
    | .ok settings =>
      let b := b.emit (.coreCreateContainer id settings)
      match E.core.CreateContainer id settings with
      | some err => w.Error P base.ActivityID err b
      | none => createContainerRespond E w base exitCodeFn wasV2Config b
  else createContainerRespond E w base exitCodeFn wasV2Config b

/-- The method `createContainer`.  After the decoding, the first thing read is
`request.ContainerID`: by the test for the first create message when the
selected version is `PvV4`, and by `id := request.ContainerID` otherwise. -/
def createContainer (P : Prot) (E : Env) (w : requestResponseWriter) (r : Request)
    (b : Bridge) : requestResponseWriter × Bridge :=
  match E.json.ContainerCreate r.Message with
  | .error err =>
    w.Error P ""
      (errors.Wrapf err
        ("failed to unmarshal JSON in message \"" ++ E.fmt.bytes r.Message ++ "\"")
        (E.fmt.callers "createContainer")) b
  | .ok request =>
    match request.MessageBase with
    | none => (w, b.emit (.panic nilDereference))
    | some base =>
      if b.protVer = PvV4 ∧ base.ContainerID = "00000000-0000-0000-0000-000000000000" then
        w.Write (.create { MessageResponseBase := { ActivityID := base.ActivityID } }) b
      else
        let id := base.ContainerID
        if b.protVer ≥ PvV4 then
          -- First try to determine if this is actually a V2 schema.
          match E.json.VMHostedContainerSettingsV2 request.ContainerConfig with
          | .error err =>
            w.Error P base.ActivityID
              (errors.Wrapf err
                ("failed to unmarshal JSON for ContainerConfig \"" ++ request.ContainerConfig
                  ++ "\"")
                (E.fmt.callers "createContainer")) b
          | .ok settingsV2 =>
            if settingsV2.SchemaVersion.Cmp { Major := 2, Minor := 0 } ≥ 0 then
              let b := b.emit (.hostCreateContainer id settingsV2)
              match E.host.CreateContainer id settingsV2 with
              | .error err => w.Error P base.ActivityID err b
              | .ok c => createContainerFallback P E w request base (some c.Wait) true b
            else createContainerFallback P E w request base none false b
        else createContainerFallback P E w request base none false b

/-- The method `startContainer`: a no-op that answers with success.  Its
request is a `MessageBase` value, not a pointer. -/
def startContainer (P : Prot) (E : Env) (w : requestResponseWriter) (r : Request)
    (b : Bridge) : requestResponseWriter × Bridge :=
  match E.json.MessageBase r.Message with
  | .error err =>
    w.Error P ""
      (errors.Wrapf err
        ("failed to unmarshal JSON for message \"" ++ E.fmt.bytes r.Message ++ "\"")
        (E.fmt.callers "startContainer")) b
  | .ok request =>
    let response : MessageResponseBase := { ActivityID := request.ActivityID }
    w.Write (.base response) b

/-- The end of `execProcess` (from `if err != nil` on): the response for the
outcome `(pid, err)` of the call that was made.  Either branch reads
`request.ActivityID` first. -/
def execProcessRespond (P : Prot) (w : requestResponseWriter) (request : ContainerExecuteProcess)
    (result : Except GoError Int) (b : Bridge) : requestResponseWriter × Bridge :=
  match request.MessageBase with
  | none => (w, b.emit (.panic nilDereference))
  | some base =>
    match result with
    | .error err => w.Error P base.ActivityID err b
    | .ok pid =>
      let response : ContainerExecuteProcessResponse :=
        { MessageResponseBase := { ActivityID := base.ActivityID }
          ProcessID := toUint32 pid }
      w.Write (.executeProcess response) b

/-- The connection settings that `execProcess` builds: a port is present when
the matching `CreateStd*Pipe` flag is set. -/
def execProcessConSettings (request : ContainerExecuteProcess) (params : ProcessParameters) :
    ConnectionSettings :=
  { StdIn :=
      if params.CreateStdInPipe then some request.Settings.VsockStdioRelaySettings.StdIn
      else none
    StdOut :=
      if params.CreateStdOutPipe then some request.Settings.VsockStdioRelaySettings.StdOut
      else none
    StdErr :=
      if params.CreateStdErrPipe then some request.Settings.VsockStdioRelaySettings.StdErr
      else none }

/-- The method `execProcess`.  `request.ActivityID` is read when the process
parameters do not decode and when the response is built; `request.ContainerID`
is read, before the call is made, as the argument of `GetContainer` and of
`ExecProcess`.  `RunExternalProcess` takes neither. -/
def execProcess (P : Prot) (E : Env) (w : requestResponseWriter) (r : Request)
    (b : Bridge) : requestResponseWriter × Bridge :=
  match E.json.ContainerExecuteProcess r.Message with
  | .error err =>
    w.Error P ""
      (errors.Wrapf err
        ("failed to unmarshal JSON for message \"" ++ E.fmt.bytes r.Message ++ "\"")
        (E.fmt.callers "execProcess")) b
  | .ok request =>
    match E.json.ProcessParameters request.Settings.ProcessParameters with
    | .error err =>
      match request.MessageBase with
      | none => (w, b.emit (.panic nilDereference))
      | some base =>
        w.Error P base.ActivityID
          (errors.Wrapf err
            ("failed to unmarshal JSON for ProcessParameters \""
              ++ request.Settings.ProcessParameters ++ "\"")
            (E.fmt.callers "execProcess")) b
    | .ok params =>
      let conSettings := execProcessConSettings request params
      if params.IsExternal then
        execProcessRespond P w request (E.core.RunExternalProcess params conSettings)
          (b.emit (.coreRunExternalProcess params conSettings))
      else if params.SchemaVersion.Cmp { Major := 2, Minor := 0 } ≥ 0 then
        match request.MessageBase with
        | none => (w, b.emit (.panic nilDereference))
        | some base =>
          let b := b.emit (.hostGetContainer base.ContainerID)
          match E.host.GetContainer base.ContainerID with
          | .error err => execProcessRespond P w request (.error err) b
          | .ok c =>
            match params.OCIProcess with
            | none =>
              execProcessRespond P w request (c.Start conSettings)
                (b.emit (.containerStart base.ContainerID conSettings))
            | some process =>
              execProcessRespond P w request (c.ExecProcess process conSettings)
                (b.emit (.containerExecProcess base.ContainerID process conSettings))
      else
        match request.MessageBase with
        | none => (w, b.emit (.panic nilDereference))
        | some base =>
          execProcessRespond P w request
            (E.core.ExecProcess base.ContainerID params conSettings)
            (b.emit (.coreExecProcess base.ContainerID params conSettings))

/-- The method `signalContainer`: not a handler func, the signal is implied by
the message type.  Its request is a `MessageBase` value, not a pointer. -/
def signalContainer (P : Prot) (E : Env) (w : requestResponseWriter) (r : Request)
    (signal : Int) (b : Bridge) : requestResponseWriter × Bridge :=
  match E.json.MessageBase r.Message with
  | .error err =>
    w.Error P ""
      (errors.Wrapf err
        ("failed to unmarshal JSON for message \"" ++ E.fmt.bytes r.Message ++ "\"")
        (E.fmt.callers "signalContainer")) b
  | .ok request =>
    if request.ContainerID = P.UVMContainerID then
      -- This is a destructive call. We do not respond to the HCS
      let b := b.emit (.quitSend true)
      let b := b.emit .hostShutdown
      (w, b)
    else
      let b := b.emit (.hostGetContainer request.ContainerID)
      match E.host.GetContainer request.ContainerID with
      | .ok c =>
        let b := b.emit (.containerKill request.ContainerID signal)
        match c.Kill signal with
        | some err => w.Error P request.ActivityID err b
        | none => w.Write (.base { ActivityID := request.ActivityID }) b
      | .error _ =>
        let b := b.emit (.coreSignalContainer request.ContainerID signal)
        match E.core.SignalContainer request.ContainerID signal with
        | some err => w.Error P request.ActivityID err b
        | none => w.Write (.base { ActivityID := request.ActivityID }) b

/-- The method `killContainer`. -/
def killContainer (P : Prot) (E : Env) (w : requestResponseWriter) (r : Request)
    (b : Bridge) : requestResponseWriter × Bridge :=
  signalContainer P E w r SIGKILL b

/-- The method `shutdownContainer`. -/
def shutdownContainer (P : Prot) (E : Env) (w : requestResponseWriter) (r : Request)
    (b : Bridge) : requestResponseWriter × Bridge :=
  signalContainer P E w r SIGTERM b

/-- The method `signalProcess`.  The first thing read after the decoding is
`request.ContainerID`, the argument of `GetContainer`. -/
def signalProcess (P : Prot) (E : Env) (w : requestResponseWriter) (r : Request)
    (b : Bridge) : requestResponseWriter × Bridge :=
  match E.json.ContainerSignalProcess r.Message with
  | .error err =>
    w.Error P ""
      (errors.Wrapf err
        ("failed to unmarshal JSON for message \"" ++ E.fmt.bytes r.Message ++ "\"")
        (E.fmt.callers "signalProcess")) b
  | .ok request =>
    match request.MessageBase with
    | none => (w, b.emit (.panic nilDereference))
    | some base =>
      -- First see if this is a V2 Container.
      let b := b.emit (.hostGetContainer base.ContainerID)
      match E.host.GetContainer base.ContainerID with
      | .ok c =>
        let b := b.emit (.containerGetProcess base.ContainerID request.ProcessID)
        match c.GetProcess request.ProcessID with
        | .error err => w.Error P base.ActivityID err b
        | .ok p =>
          let signal : Int :=
            if request.Options.Signal = 0 then SIGKILL else request.Options.Signal
          let b := b.emit (.processKill base.ContainerID request.ProcessID signal)
          match p.Kill signal with
          | some err => w.Error P base.ActivityID err b
          | none => w.Write (.base { ActivityID := base.ActivityID }) b
      | .error _ =>
        let b := b.emit (.coreSignalProcess (request.ProcessID : Int) request.Options)
        match E.core.SignalProcess (request.ProcessID : Int) request.Options with
        | some err => w.Error P base.ActivityID err b
        | none => w.Write (.base { ActivityID := base.ActivityID }) b

/-- The end of `getProperties` (from `propertyJSON := []byte("{}")` on): the
properties are serialised again and placed in the response.  `base` is the
`MessageBase` of the request. -/
def getPropertiesRespond (P : Prot) (E : Env) (w : requestResponseWriter)
    (base : MessageBase) (properties : Option Properties) (b : Bridge) :
    requestResponseWriter × Bridge :=
  match properties with
  | none =>
    w.Write (.getProperties
      { MessageResponseBase := { ActivityID := base.ActivityID }
        Properties := "\x7b\x7d" }) b
  | some properties =>
    match E.json.MarshalProperties properties with
    | .error err =>
      w.Error P base.ActivityID
        (errors.Wrapf err
          ("failed to marshal properties into JSON: " ++ E.fmt.properties properties)
          (E.fmt.callers "getProperties")) b
    | .ok propertyJSON =>
      w.Write (.getProperties
        { MessageResponseBase := { ActivityID := base.ActivityID }
          Properties := propertyJSON }) b

/-- The process list that `getProperties` builds for the UVM:
`make([]prot.ProcessDetails, len(pids))` followed by one `append` per pid. -/
def uvmProcessList (pids : List Int) : List ProcessDetails :=
  pids.foldl (fun l pid => l ++ [{ ProcessID := pid }])
    (List.replicate pids.length { ProcessID := 0 })

/-- The method `getProperties`.  The first thing read after the decoding is
`request.ContainerID`, in the comparison with the id of the UVM. -/
def getProperties (P : Prot) (E : Env) (w : requestResponseWriter) (r : Request)
    (b : Bridge) : requestResponseWriter × Bridge :=
  match E.json.ContainerGetProperties r.Message with
  | .error err =>
    w.Error P ""
      (errors.Wrapf err
        ("failed to unmarshal JSON for message \"" ++ E.fmt.bytes r.Message ++ "\"")
        (E.fmt.callers "getProperties")) b
  | .ok request =>
    match request.MessageBase with
    | none => (w, b.emit (.panic nilDereference))
    | some base =>
      if base.ContainerID = P.UVMContainerID then
        let pids := E.host.GetAllProcessPids
        let b := b.emit .hostGetAllProcessPids
        let properties : Properties := { ProcessList := uvmProcessList pids }
        getPropertiesRespond P E w base (some properties) b
      else
        let b := b.emit (.coreGetProperties base.ContainerID request.Query)
        match E.core.GetProperties base.ContainerID request.Query with
        | .error err => w.Error P base.ActivityID err b
        | .ok properties => getPropertiesRespond P E w base properties b

/-- The last statements of `waitOnProcess`, after the response was written:
the acknowledgement `doneChan <- true` and the deferred `close(doneChan)`. -/
def waitOnProcessDone (wb : requestResponseWriter × Bridge) : requestResponseWriter × Bridge :=
  (wb.1, (wb.2.emit (.doneSend true)).emit .doneClose)

/-- The end of `waitOnProcess`, once the channels are at hand: the `select`
between the exit code and the timeout.  `base` is the `MessageBase` of the
request. -/
def waitOnProcessSelect (P : Prot) (E : Env) (w : requestResponseWriter)
    (request : ContainerWaitForProcess) (base : MessageBase) (chans : WaitChans) (b : Bridge) :
    requestResponseWriter × Bridge :=
  match chans.recv request.TimeoutInMs with
  | some exitCode =>
    let response : ContainerWaitForProcessResponse :=
      { MessageResponseBase := { ActivityID := base.ActivityID }
        ExitCode := toUint32 exitCode }
    waitOnProcessDone (w.Write (.waitForProcess response) b)
  | none =>
    waitOnProcessDone (w.Error P base.ActivityID
      (gcserr.NewHresultError P.HvVmcomputeTimeout
        (E.fmt.hresultError P.HvVmcomputeTimeout)
        (E.fmt.callers "waitOnProcess")) b)

/-- The method `waitOnProcess`.  The first thing read after the decoding is
`request.ContainerID`, the argument of `GetContainer`. -/
def waitOnProcess (P : Prot) (E : Env) (w : requestResponseWriter) (r : Request)
    (b : Bridge) : requestResponseWriter × Bridge :=
  match E.json.ContainerWaitForProcess r.Message with
  | .error err =>
    w.Error P ""
      (errors.Wrapf err
        ("failed to unmarshal JSON for message \"" ++ E.fmt.bytes r.Message ++ "\"")
        (E.fmt.callers "waitOnProcess")) b
  | .ok request =>
    match request.MessageBase with
    | none => (w, b.emit (.panic nilDereference))
    | some base =>
      -- First see if this is a V2 Container.
      let b := b.emit (.hostGetContainer base.ContainerID)
      match E.host.GetContainer base.ContainerID with
      | .ok c =>
        let b := b.emit (.containerGetProcess base.ContainerID request.ProcessID)
        match c.GetProcess request.ProcessID with
        | .error err => w.Error P base.ActivityID err b
        | .ok p =>
          let b := b.emit (.processWait base.ContainerID request.ProcessID)
          waitOnProcessSelect P E w request base p.Wait b
      | .error _ =>
        let b := b.emit (.coreWaitProcess (request.ProcessID : Int))
        match E.core.WaitProcess (request.ProcessID : Int) with
        | .error err => w.Error P base.ActivityID err b
        | .ok chans => waitOnProcessSelect P E w request base chans b

/-- The method `resizeConsole`.  `ResizeConsole` takes nothing of the
`MessageBase`; `request.ActivityID` is read after the call, for the
response. -/
def resizeConsole (P : Prot) (E : Env) (w : requestResponseWriter) (r : Request)
    (b : Bridge) : requestResponseWriter × Bridge :=
  match E.json.ContainerResizeConsole r.Message with
  | .error err =>
    w.Error P ""
      (errors.Wrapf err
        ("failed to unmarshal JSON for message \"" ++ E.fmt.bytes r.Message ++ "\"")
        (E.fmt.callers "resizeConsole")) b
  | .ok request =>
    let b := b.emit (.coreResizeConsole (request.ProcessID : Int) request.Height request.Width)
    match E.core.ResizeConsole (request.ProcessID : Int) request.Height request.Width with
    | some err =>
      match request.MessageBase with
      | none => (w, b.emit (.panic nilDereference))
      | some base => w.Error P base.ActivityID err b
    | none =>
      match request.MessageBase with
      | none => (w, b.emit (.panic nilDereference))
      | some base => w.Write (.base { ActivityID := base.ActivityID }) b

/-- The method `modifySettings`.  Each of its three branches first reads
`request.ContainerID` or `request.ActivityID`, so the pointer is followed once,
before the branches. -/
def modifySettings (P : Prot) (E : Env) (w : requestResponseWriter) (r : Request)
    (b : Bridge) : requestResponseWriter × Bridge :=
  match E.json.ContainerModifySettings r.Message with
  | .error err =>
    w.Error P ""
      (errors.Wrapf err
        ("failed to unmarshal JSON for message \"" ++ E.fmt.bytes r.Message ++ "\"")
        (E.fmt.callers "modifySettings")) b
  | .ok request =>
    match request.MessageBase with
    | none => (w, b.emit (.panic nilDereference))
    | some base =>
      match request.Request, request.V2Request with
      | some v1, _ =>
        let b := b.emit (.coreModifySettings base.ContainerID v1)
        match E.core.ModifySettings base.ContainerID v1 with
        | some err => w.Error P base.ActivityID err b
        | none => w.Write (.base { ActivityID := base.ActivityID }) b
      | none, some v2 =>
        if base.ContainerID ≠ P.UVMContainerID then
          w.Error P base.ActivityID
            (errors.New "V2 Modify request not supported on anything but UVM"
              (E.fmt.callers "modifySettings")) b
        else
          let b := b.emit (.hostModifyHostSettings v2)
          match E.host.ModifyHostSettings v2 with
          | some err => w.Error P base.ActivityID err b
          | none => w.Write (.base { ActivityID := base.ActivityID }) b
      | none, none =>
        w.Error P base.ActivityID
          (errors.New "neither Request nor v2Request was specified"
            (E.fmt.callers "modifySettings")) b

/-! ## Handler values -/

/-- One call made by a handler on its `ResponseWriter`: `Write`, `Error`, or a
store through the pointer that `Header()` returns. -/
inductive WriterOp where
  | Write (r : Payload)
  | Error (activityID : String) (err : GoError)
  | storeHeader (h : MessageHeader)
deriving DecidableEq, Repr

/-- The values of the interface type `Handler`: `UnknownMessage`, the method
values of the bridge that `AssignHandlers` registers, and `func` for any other
handler function, given by the calls it makes on its response writer. -/
inductive Handler where
  | UnknownMessage
  | negotiateProtocol
  | createContainer
  | startContainer
  | execProcess
  | killContainer
  | shutdownContainer
  | signalProcess
  | getProperties
  | waitOnProcess
  | resizeConsole
  | modifySettings
  | func (ops : List WriterOp)
deriving DecidableEq, Repr

/-- The function `UnknownMessageHandler`: a default `HandlerFunc` out of the
`UnknownMessage` handler logic. -/
def UnknownMessageHandler : Handler := .UnknownMessage

/-- Runs one call of a handler function on the response writer. -/
def WriterOp.run (P : Prot) (op : WriterOp) (wb : requestResponseWriter × Bridge) :
    requestResponseWriter × Bridge :=
  match op with
  | .Write r => wb.1.Write r wb.2
  | .Error activityID err => wb.1.Error P activityID err wb.2
  | .storeHeader h => ({ wb.1 with header := h }, wb.2)

/-- The method `ServeMsg` of a handler value. -/
def Handler.ServeMsg (P : Prot) (E : Env) (h : Handler) (w : requestResponseWriter)
    (r : Request) (b : Bridge) : requestResponseWriter × Bridge :=
  match h with
  | .UnknownMessage => OpenGCS.UnknownMessage P E w r b
  | .negotiateProtocol => OpenGCS.negotiateProtocol P E w r b
  | .createContainer => OpenGCS.createContainer P E w r b
  | .startContainer => OpenGCS.startContainer P E w r b
  | .execProcess => OpenGCS.execProcess P E w r b
  | .killContainer => OpenGCS.killContainer P E w r b
  | .shutdownContainer => OpenGCS.shutdownContainer P E w r b
  | .signalProcess => OpenGCS.signalProcess P E w r b
  | .getProperties => OpenGCS.getProperties P E w r b
  | .waitOnProcess => OpenGCS.waitOnProcess P E w r b
  | .resizeConsole => OpenGCS.resizeConsole P E w r b
  | .modifySettings => OpenGCS.modifySettings P E w r b
  | .func ops => ops.foldl (fun wb op => op.run P wb) (w, b)

/-! ## Mux -/

/-- A Go map: `m k` is the lookup with its `ok` flag, `GoMap.set` the
assignment `m[k] = v`. -/
abbrev GoMap (K V : Type) := K → Option V

/-- The call `make(map[K]V)`. -/
def GoMap.make {K V : Type} : GoMap K V := fun _ => none

def GoMap.set {K V : Type} [DecidableEq K] (m : GoMap K V) (k : K) (v : V) : GoMap K V :=
  fun x => if x = k then some v else m x

/-- The protocol multiplexer: the handler table
`map[prot.MessageIdentifier]map[prot.ProtocolVersion]Handler`. -/
structure Mux where
  m : GoMap Nat (GoMap Nat Handler)

/-- The function `NewBridgeMux`: a default bridge multiplexer. -/
def NewBridgeMux : Mux := { m := GoMap.make }

/-- The method `Mux.Handle`: registers the handler for the given message id and
protocol version.  A nil handler (`none`) panics. -/
def Mux.Handle (mux : Mux) (id ver : Nat) (handler : Option Handler) : Mux × Option String :=
  match handler with
  | none => (mux, some "bridge: nil handler")
  | some handler =>
    let m1 : GoMap Nat (GoMap Nat Handler) :=
      match mux.m id with
      | some _ => mux.m
      | none => mux.m.set id GoMap.make
    let inner : GoMap Nat Handler :=
      match m1 id with
      | some inner => inner
      | none => GoMap.make
    ({ m := m1.set id (inner.set ver handler) }, none)

/-- The method `Mux.HandleFunc`: registers the handler function for the given
message id and protocol version.  A nil function (`none`) panics. -/
def Mux.HandleFunc (mux : Mux) (id ver : Nat) (handler : Option Handler) :
    Mux × Option String :=
  match handler with
  | none => (mux, some "bridge: nil handler func")
  | some f => mux.Handle id ver (some f)

/-- The method `Mux.Handler`: the handler to use for the given request.  The
request is a non-nil `*Request` (the Go method panics on nil before it reads the
table; the dispatch engine only passes requests it has built). -/
def Mux.Handler (mux : Mux) (r : Request) : Handler :=
  match mux.m r.Header.Type_ with
  | none => UnknownMessageHandler
  | some m =>
    match m r.Version with
    | none => UnknownMessageHandler
    | some h => h

/-- The method `Mux.ServeMsg`: dispatches the request to the handler whose type
matches the request type. -/
def Mux.ServeMsg (P : Prot) (E : Env) (mux : Mux) (w : requestResponseWriter) (r : Request)
    (b : Bridge) : requestResponseWriter × Bridge :=
  let h := mux.Handler r
  h.ServeMsg P E w r b

/-- The method `AssignHandlers`: the registrations it makes on `mux`, in source
order.  Its two assignments `b.coreint = gcs` and `b.hostState = host` fix the
collaborators, which the handlers receive here as `Env`; every registered
function is non-nil, so no `HandleFunc` panics. -/
def Bridge.AssignHandlers (P : Prot) (mux : Mux) : Mux :=
  let mux := (mux.HandleFunc P.ComputeSystemNegotiateProtocolV1 PvInvalid (some .negotiateProtocol)).1
  let mux := (mux.HandleFunc P.ComputeSystemCreateV1 PvInvalid (some .createContainer)).1
  -- v3 specific handlers
  let mux := (mux.HandleFunc P.ComputeSystemExecuteProcessV1 PvV3 (some .execProcess)).1
  let mux := (mux.HandleFunc P.ComputeSystemShutdownForcedV1 PvV3 (some .killContainer)).1
  let mux := (mux.HandleFunc P.ComputeSystemShutdownGracefulV1 PvV3 (some .shutdownContainer)).1
  let mux := (mux.HandleFunc P.ComputeSystemSignalProcessV1 PvV3 (some .signalProcess)).1
  let mux := (mux.HandleFunc P.ComputeSystemGetPropertiesV1 PvV3 (some .getProperties)).1
  let mux := (mux.HandleFunc P.ComputeSystemWaitForProcessV1 PvV3 (some .waitOnProcess)).1
  let mux := (mux.HandleFunc P.ComputeSystemResizeConsoleV1 PvV3 (some .resizeConsole)).1
  let mux := (mux.HandleFunc P.ComputeSystemModifySettingsV1 PvV3 (some .modifySettings)).1
  -- v4 specific handlers
  let mux := (mux.HandleFunc P.ComputeSystemStartV1 PvV4 (some .startContainer)).1
  let mux := (mux.HandleFunc P.ComputeSystemCreateV1 PvV4 (some .createContainer)).1
  let mux := (mux.HandleFunc P.ComputeSystemExecuteProcessV1 PvV4 (some .execProcess)).1
  let mux := (mux.HandleFunc P.ComputeSystemShutdownForcedV1 PvV4 (some .killContainer)).1
  let mux := (mux.HandleFunc P.ComputeSystemShutdownGracefulV1 PvV4 (some .shutdownContainer)).1
  let mux := (mux.HandleFunc P.ComputeSystemSignalProcessV1 PvV4 (some .signalProcess)).1
  let mux := (mux.HandleFunc P.ComputeSystemGetPropertiesV1 PvV4 (some .getProperties)).1
  let mux := (mux.HandleFunc P.ComputeSystemWaitForProcessV1 PvV4 (some .waitOnProcess)).1
  let mux := (mux.HandleFunc P.ComputeSystemResizeConsoleV1 PvV4 (some .resizeConsole)).1
  let mux := (mux.HandleFunc P.ComputeSystemModifySettingsV1 PvV4 (some .modifySettings)).1
  mux

/-! ## Dispatch engine and notifications -/

/-- The ingress task of `ListenAndServe`, after a frame has been read: the
request is tagged with the currently selected protocol version. -/
def ListenAndServe.ingress (header : MessageHeader) (message : Bytes) (b : Bridge) : Request :=
  { Header := header, Message := message, Version := b.protVer }

/-- The per-request task of `ListenAndServe`: creates the response writer and
serves the request with `ServeMsg`, the method of the handler held in the field
`b.Handler`.  The returned writer tells whether a response was written. -/
def ListenAndServe.serve (P : Prot)
    (ServeMsg : requestResponseWriter → Request → Bridge → requestResponseWriter × Bridge)
    (r : Request) (b : Bridge) : requestResponseWriter × Bridge :=
  let wr : requestResponseWriter :=
    { header := { Type_ := P.GetResponseIdentifier r.Header.Type_, Size := 0, ID := r.Header.ID } }
  ServeMsg wr r b

/-- The method `PublishNotification`: writes a specific notification to the
bridge.  A nil notification (`none`) panics. -/
def Bridge.PublishNotification (P : Prot) (b : Bridge) (n : Option ContainerNotification) :
    Bridge × Option String :=
  match n with
  | none => (b, some "bridge: cannot publish nil notification")
  | some n =>
    let resp : bridgeResponse :=
      { header := { Type_ := P.ComputeSystemNotificationV1, Size := 0, ID := 0 }
        response := .notification n }
    (b.emit (.respSend resp), none)

/-- One step of a session run sequentially: a frame is read and tagged with the
selected version (ingress), then served to completion by the handler held in
`b.Handler`, here the mux that `AssignHandlers` filled. -/
def ListenAndServe.step (P : Prot) (E : Env) (header : MessageHeader) (message : Bytes)
    (b : Bridge) : Bridge :=
  (ListenAndServe.serve P (Mux.ServeMsg P E (Bridge.AssignHandlers P NewBridgeMux))
    (ListenAndServe.ingress header message b) b).2

/-- A session run sequentially over a list of frames; the outcomes of the
collaborators may differ from frame to frame.  A panic ends the program: no
frame is served after it. -/
def ListenAndServe.run (P : Prot) (frames : List (Env × MessageHeader × Bytes)) (b : Bridge) :
    Bridge :=
  frames.foldl (fun b f => if b.panicked then b else ListenAndServe.step P f.1 f.2.1 f.2.2 b) b

/-! ## Notions used to state the properties -/

/-- The double lookup `mux.m[id][ver]` with its `ok` flag. -/
def Mux.find (mux : Mux) (id ver : Nat) : Option OpenGCS.Handler :=
  match mux.m id with
  | none => none
  | some m => m ver

/-- Registers a list of `(id, version, handler)` triples with `Mux.Handle`, one
after the other. -/
def Mux.registerAll (mux : Mux) : List (Nat × Nat × OpenGCS.Handler) → Mux
  | [] => mux
  | reg :: rest => Mux.registerAll (mux.Handle reg.1 reg.2.1 (some reg.2.2)).1 rest

/-- The handler most recently registered under `(id, ver)` in a list of
registrations, oldest first. -/
def lastRegistered (regs : List (Nat × Nat × Handler)) (id ver : Nat) : Option Handler :=
  (regs.reverse.find? (fun reg => decide (reg.1 = id ∧ reg.2.1 = ver))).map (fun reg => reg.2.2)

/-- The registrations of `AssignHandlers`, as a list in source order. -/
def Bridge.registrations (P : Prot) : List (Nat × Nat × Handler) :=
  [(P.ComputeSystemNegotiateProtocolV1, PvInvalid, .negotiateProtocol),
   (P.ComputeSystemCreateV1, PvInvalid, .createContainer),
   (P.ComputeSystemExecuteProcessV1, PvV3, .execProcess),
   (P.ComputeSystemShutdownForcedV1, PvV3, .killContainer),
   (P.ComputeSystemShutdownGracefulV1, PvV3, .shutdownContainer),
   (P.ComputeSystemSignalProcessV1, PvV3, .signalProcess),
   (P.ComputeSystemGetPropertiesV1, PvV3, .getProperties),
   (P.ComputeSystemWaitForProcessV1, PvV3, .waitOnProcess),
   (P.ComputeSystemResizeConsoleV1, PvV3, .resizeConsole),
   (P.ComputeSystemModifySettingsV1, PvV3, .modifySettings),
   (P.ComputeSystemStartV1, PvV4, .startContainer),
   (P.ComputeSystemCreateV1, PvV4, .createContainer),
   (P.ComputeSystemExecuteProcessV1, PvV4, .execProcess),
   (P.ComputeSystemShutdownForcedV1, PvV4, .killContainer),
   (P.ComputeSystemShutdownGracefulV1, PvV4, .shutdownContainer),
   (P.ComputeSystemSignalProcessV1, PvV4, .signalProcess),
   (P.ComputeSystemGetPropertiesV1, PvV4, .getProperties),
   (P.ComputeSystemWaitForProcessV1, PvV4, .waitOnProcess),
   (P.ComputeSystemResizeConsoleV1, PvV4, .resizeConsole),
   (P.ComputeSystemModifySettingsV1, PvV4, .modifySettings)]

/-- The routing table in the words of the spec: which handler answers a message
identifier under a protocol version. -/
def routing (P : Prot) (id ver : Nat) : Handler :=
  if id = P.ComputeSystemNegotiateProtocolV1 then
    if ver = PvInvalid then .negotiateProtocol else .UnknownMessage
  else if id = P.ComputeSystemCreateV1 then
    if ver = PvInvalid ∨ ver = PvV4 then .createContainer else .UnknownMessage
  else if id = P.ComputeSystemStartV1 then
    if ver = PvV4 then .startContainer else .UnknownMessage
  else if ver = PvV3 ∨ ver = PvV4 then
    if id = P.ComputeSystemExecuteProcessV1 then .execProcess
    else if id = P.ComputeSystemShutdownForcedV1 then .killContainer
    else if id = P.ComputeSystemShutdownGracefulV1 then .shutdownContainer
    else if id = P.ComputeSystemSignalProcessV1 then .signalProcess
    else if id = P.ComputeSystemGetPropertiesV1 then .getProperties
    else if id = P.ComputeSystemWaitForProcessV1 then .waitOnProcess
    else if id = P.ComputeSystemResizeConsoleV1 then .resizeConsole
    else if id = P.ComputeSystemModifySettingsV1 then .modifySettings
    else .UnknownMessage
  else .UnknownMessage

/-- Whether a handler function stores into the header it gets from `Header()`.
The handlers of the bridge never call `Header()`. -/
def Handler.storesHeader : Handler → Bool
  | .func ops => ops.any (fun op => match op with
      | .storeHeader _ => true
      | _ => false)
  | _ => false

/-- Whether a handler is one of the bridge itself: `UnknownMessage` or a method
registered by `AssignHandlers`. -/
def Handler.ofBridge : Handler → Bool
  | .func _ => false
  | _ => true

/-- Whether the request is a decodable kill or shutdown message addressed to
the UVM itself, the one case in which `signalContainer` does not respond. -/
def isUVMSignal (P : Prot) (E : Env) (h : Handler) (r : Request) : Bool :=
  (decide (h = .killContainer) || decide (h = .shutdownContainer)) &&
    match E.json.MessageBase r.Message with
    | .ok request => decide (request.ContainerID = P.UVMContainerID)
    | .error _ => false

/-- Whether the payload decodes into a request whose embedded `*MessageBase` is
nil, for the methods whose request type embeds the pointer.  Each of these
methods reads `request.ContainerID` or `request.ActivityID` on every path. -/
def Handler.nilBase (E : Env) (h : Handler) (r : Request) : Bool :=
  match h with
  | .negotiateProtocol =>
    match E.json.NegotiateProtocol r.Message with
    | .ok request => request.MessageBase.isNone
    | .error _ => false
  | .createContainer =>
    match E.json.ContainerCreate r.Message with
    | .ok request => request.MessageBase.isNone
    | .error _ => false
  | .execProcess =>
    match E.json.ContainerExecuteProcess r.Message with
    | .ok request => request.MessageBase.isNone
    | .error _ => false
  | .signalProcess =>
    match E.json.ContainerSignalProcess r.Message with
    | .ok request => request.MessageBase.isNone
    | .error _ => false
  | .getProperties =>
    match E.json.ContainerGetProperties r.Message with
    | .ok request => request.MessageBase.isNone
    | .error _ => false
  | .waitOnProcess =>
    match E.json.ContainerWaitForProcess r.Message with
    | .ok request => request.MessageBase.isNone
    | .error _ => false
  | .resizeConsole =>
    match E.json.ContainerResizeConsole r.Message with
    | .ok request => request.MessageBase.isNone
    | .error _ => false
  | .modifySettings =>
    match E.json.ContainerModifySettings r.Message with
    | .ok request => request.MessageBase.isNone
    | .error _ => false
  | _ => false

/-- The relation `Wrote n w b out`: from writer `w` and bridge `b` the run
reached `out` by appending events to the trace, among them exactly `n` sends on
the response channel, each carrying the header of `w`; the writer keeps its
header, is marked written when `n` is positive and is untouched otherwise; a
run that sends does not panic. -/
def Wrote (n : Nat) (w : requestResponseWriter) (b : Bridge)
    (out : requestResponseWriter × Bridge) : Prop :=
  out.1.header = w.header ∧
  ∃ new, out.2.trace = b.trace ++ new ∧
    (∀ resp ∈ new.filterMap Event.response?, resp.header = w.header) ∧
    (new.filterMap Event.response?).length = n ∧
    (0 < n → out.1.respWritten = true) ∧ (n = 0 → out.1.respWritten = w.respWritten) ∧
    (0 < n → new.filterMap Event.panic? = [])

/-- Whether a payload is an error response with the given HRESULT: a bare
`MessageResponseBase` with that `Result` and at least one error record. -/
def Payload.isErrorWith (p : Payload) (hresult : Int) : Prop :=
  ∃ base, p = .base base ∧ base.Result = hresult ∧ base.ErrorRecords ≠ []

/-! ## Sample collaborators

A concrete `Env`, used to run the definitions on concrete inputs.  The decoders
read a request from the first bytes of the message. -/

def sampleStack : StackTrace :=
  { rendered := "bridge.go:1", bottomFile := "bridge.go", bottomLine := "1", bottomFunc := "f" }

def sampleError : GoError :=
  { Error := "invalid character", hresult := none, stack := none }

def sampleProcess : Process :=
  { Wait := { recv := fun t => if t = 0 then none else some 0 }
    Kill := fun _ => none }

def sampleContainer : Container :=
  { Wait := 37
    Start := fun _ => .ok 101
    ExecProcess := fun _ _ => .ok 102
    Kill := fun _ => none
    GetProcess := fun _ => .ok sampleProcess }

def sampleEnv : Env where
  core :=
    { CreateContainer := fun _ _ => none
      WaitContainer := fun _ => (some 0, none)
      ExecProcess := fun _ _ _ => .ok 7
      RunExternalProcess := fun _ _ => .ok 8
      SignalContainer := fun _ _ => none
      SignalProcess := fun _ _ => none
      GetProperties := fun _ _ => .ok none
      WaitProcess := fun _ => .ok { recv := fun _ => some 0 }
      ResizeConsole := fun _ _ _ => none
      ModifySettings := fun _ _ => none }
  host :=
    { CreateContainer := fun _ _ => .ok sampleContainer
      GetContainer := fun id => if id = "c2" then .ok sampleContainer else .error sampleError
      GetAllProcessPids := [101, 102]
      ModifyHostSettings := fun _ => none }
  json :=
    { NegotiateProtocol := fun m =>
        match m with
        | [lo, hi] => .ok { MessageBase := some { ContainerID := "", ActivityID := "a1" }
                            MinimumVersion := lo, MaximumVersion := hi }
        | [lo, hi, _] => .ok { MessageBase := some { ContainerID := "", ActivityID := "" }
                               MinimumVersion := lo, MaximumVersion := hi }
        | _ => .error sampleError
      ContainerCreate := fun m =>
        match m with
        | [] => .ok { MessageBase := some { ContainerID := "00000000-0000-0000-0000-000000000000"
                                            ActivityID := "a1" }
                      ContainerConfig := "v1" }
        | [_] => .ok { MessageBase := some { ContainerID := "c1", ActivityID := "a1" }
                       ContainerConfig := "v1" }
        | _ => .error sampleError
      VMHostedContainerSettingsV2 := fun s =>
        .ok { SchemaVersion := if s = "v2" then { Major := 2, Minor := 1 }
                               else { Major := 0, Minor := 0 }, body := s }
      VMHostedContainerSettings := fun s => .ok { body := s }
      MessageBase := fun m =>
        match m with
        | [] => .ok { ContainerID := "c1", ActivityID := "a1" }
        | [_] => .ok { ContainerID := "00000000-0000-0000-0000-000000000000", ActivityID := "a1" }
        | _ => .error sampleError
      ContainerExecuteProcess := fun _ => .error sampleError
      ProcessParameters := fun _ => .error sampleError
      ContainerSignalProcess := fun _ => .error sampleError
      ContainerGetProperties := fun _ => .error sampleError
      ContainerWaitForProcess := fun _ => .error sampleError
      ContainerResizeConsole := fun _ => .error sampleError
      ContainerModifySettings := fun _ => .error sampleError
      MarshalProperties := fun _ => .ok "\x7b\x7d" }
  fmt :=
    { bytes := fun _ => ""
      messageIdentifier := fun n => toString n
      properties := fun _ => ""
      hresultError := fun _ => "HRESULT"
      callers := fun _ => sampleStack }

/-! ## The wait-and-notify task and further notions -/

/-- The task started by the `go` statement of `createContainer`: it calls the
exit-code function, builds the exit notification and publishes it.  Calling a
nil function value panics. -/
def ExitNotifier.run (P : Prot) (t : ExitNotifier) (b : Bridge) : Bridge × Option String :=
  match t.exitCodeFn with
  | none => (b, some nilDereference)
  | some exitCode =>
    let notification : ContainerNotification :=
      { ContainerID := t.ContainerID
        ActivityID := t.ActivityID
        Type_ := P.NtUnexpectedExit
        Operation := P.AoNone
        Result := toInt32 exitCode
        ResultInfo := "" }
    b.PublishNotification P (some notification)

/-- The task started by an event, when the event is a `go` statement. -/
def Event.task? : Event → Option ExitNotifier
  | .goExitNotifier t => some t
  | _ => none

/-- Whether the event is a call of `CreateContainer`, on the host or on the
runtime. -/
def Event.isCreateContainer : Event → Bool
  | .hostCreateContainer _ _ => true
  | .coreCreateContainer _ _ => true
  | _ => false

/-- Whether, in a list of events, no task is started before the first send on
the response channel. -/
def writesBeforeSpawning (events : List Event) : Bool :=
  (events.takeWhile (fun e => e.response?.isNone)).all (fun e => e.task?.isNone)

/-- Whether the HRESULT found in the chain of an error, if any, is a value of
the type `int32` that `gcserr.Hresult` is converted to. -/
def GoError.hresultInt32 (e : GoError) : Prop :=
  ∀ h, e.hresult = some h → isInt32 h

/-- The HRESULT that `setErrorForResponseBase` reports for an error: the one
found in its chain, `HrFail` when there is none. -/
def GoError.hresultOr (P : Prot) (e : GoError) : Int :=
  match e.hresult with
  | some h => h
  | none => P.HrFail

/-- The sample collaborators, with a decoder that rejects every container
configuration as v1 settings. -/
def sampleEnvBadConfig : Env :=
  { sampleEnv with
    json := { sampleEnv.json with VMHostedContainerSettings := fun _ => .error sampleError } }

/-- The sample collaborators, with a decoder that reads every create request as
a create of container `"c2"` with a v2 configuration. -/
def sampleEnvV2 : Env :=
  { sampleEnv with
    json := { sampleEnv.json with
      ContainerCreate := fun _ =>
        .ok { MessageBase := some { ContainerID := "c2", ActivityID := "a2" }
              ContainerConfig := "v2" } } }

/-- The sample collaborators, with decoders for execute-process requests: the
message `[]` asks for an external process, `[0]` for a process of the v2
container `"c2"`, `[0, 0]` for one of the unknown v2 container `"c9"` (with no
activity id), any other message for a v1 process. -/
def sampleEnvExec : Env :=
  { sampleEnv with
    json := { sampleEnv.json with
      ContainerExecuteProcess := fun m =>
        .ok { MessageBase := some { ContainerID := if m = [0, 0] then "c9" else "c2"
                                    ActivityID := if m = [0, 0] then "" else "a1" }
              Settings :=
                { ProcessParameters := if m = [] then "ext" else if m.length ≤ 2 then "v2" else "v1"
                  VsockStdioRelaySettings := { StdIn := 1, StdOut := 2, StdErr := 3 } } }
      ProcessParameters := fun s =>
        .ok { CreateStdInPipe := true
              CreateStdOutPipe := false
              CreateStdErrPipe := true
              IsExternal := decide (s = "ext")
              SchemaVersion := if s = "v1" then { Major := 1, Minor := 0 }
                               else { Major := 2, Minor := 1 }
              OCIProcess := none
              body := s } } }


/-- The outcomes of `createContainer`.  Every run ends in one of five ways: the
panic on a request that decoded without a `MessageBase`; an error response
after at most one `CreateContainer` call; the skip of the first create message;
a v2 create on the host; a v1 create on the runtime. -/
inductive CreateOutcome (P : Prot) (E : Env) (w : requestResponseWriter) (r : Request)
    (b : Bridge) (out : requestResponseWriter × Bridge) : Prop where
  | panicked (request : ContainerCreate)
      (hdec : E.json.ContainerCreate r.Message = .ok request)
      (hbase : request.MessageBase = none)
      (hout : out = (w, b.emit (.panic nilDereference)))
  | failed (activityID : String) (err : GoError) (calls : List Event)
      (hcalls : calls = [] ∨ (∃ id s, calls = [.hostCreateContainer id s]) ∨
        (∃ id s, calls = [.coreCreateContainer id s]))
      (hout : out = w.Error P activityID err { b with trace := b.trace ++ calls })
  | skipped (request : ContainerCreate) (base : MessageBase)
      (hdec : E.json.ContainerCreate r.Message = .ok request)
      (hbase : request.MessageBase = some base)
      (hskip : b.protVer = PvV4 ∧
        base.ContainerID = "00000000-0000-0000-0000-000000000000")
      (hout : out = w.Write
        (.create { MessageResponseBase := { ActivityID := base.ActivityID } }) b)
  | createdV2 (request : ContainerCreate) (base : MessageBase)
      (settingsV2 : VMHostedContainerSettingsV2) (c : Container)
      (hdec : E.json.ContainerCreate r.Message = .ok request)
      (hbase : request.MessageBase = some base)
      (hskip : ¬ (b.protVer = PvV4 ∧
        base.ContainerID = "00000000-0000-0000-0000-000000000000"))
      (hver : PvV4 ≤ b.protVer)
      (hcfg : E.json.VMHostedContainerSettingsV2 request.ContainerConfig = .ok settingsV2)
      (hschema : settingsV2.SchemaVersion.Cmp { Major := 2, Minor := 0 } ≥ 0)
      (hcreate : E.host.CreateContainer base.ContainerID settingsV2 = .ok c)
      (hout : out =
        ({ w with respWritten := true },
          { protVer := b.protVer
            trace := b.trace ++
              [.hostCreateContainer base.ContainerID settingsV2,
               .goExitNotifier { exitCodeFn := some c.Wait, ContainerID := base.ContainerID,
                                 ActivityID := base.ActivityID },
               .respSend
                 { header := w.header
                   response := .create
                     { MessageResponseBase := { ActivityID := base.ActivityID } } }] }))
  | createdV1 (request : ContainerCreate) (base : MessageBase)
      (settings : VMHostedContainerSettings)
      (hdec : E.json.ContainerCreate r.Message = .ok request)
      (hbase : request.MessageBase = some base)
      (hskip : ¬ (b.protVer = PvV4 ∧
        base.ContainerID = "00000000-0000-0000-0000-000000000000"))
      (hver : b.protVer < PvV4 ∨ ∃ settingsV2,
        E.json.VMHostedContainerSettingsV2 request.ContainerConfig = .ok settingsV2 ∧
        settingsV2.SchemaVersion.Cmp { Major := 2, Minor := 0 } < 0)
      (hcfg : E.json.VMHostedContainerSettings request.ContainerConfig = .ok settings)
      (hcreate : E.core.CreateContainer base.ContainerID settings = none)
      (hout : out =
        ({ w with respWritten := true },
          { protVer := if b.protVer = PvInvalid then PvV3 else b.protVer
            trace := b.trace ++
              [.coreCreateContainer base.ContainerID settings,
               .coreWaitContainer base.ContainerID,
               .goExitNotifier { exitCodeFn := (E.core.WaitContainer base.ContainerID).1,
                                 ContainerID := base.ContainerID,
                                 ActivityID := base.ActivityID },
               .respSend
                 { header := w.header
                   response := .create
                     { MessageResponseBase := { ActivityID := base.ActivityID }
                       SelectedProtocolVersion :=
                         if b.protVer = PvInvalid then PvV3 else 0 } }] }))

/-- The execute-process request that the sample decoder reads from the message
`[0]`. -/
def sampleExecRequest : ContainerExecuteProcess :=
  { MessageBase := some { ContainerID := "c2", ActivityID := "a1" }
    Settings :=
      { ProcessParameters := "v2"
        VsockStdioRelaySettings := { StdIn := 1, StdOut := 2, StdErr := 3 } } }

/-- The `MessageBase` of the sample execute-process request. -/
def sampleExecBase : MessageBase :=
  { ContainerID := "c2", ActivityID := "a1" }

/-- The process parameters that the sample decoder reads from `"v2"`. -/
def sampleExecParams : ProcessParameters :=
  { CreateStdInPipe := true
    CreateStdOutPipe := false
    CreateStdErrPipe := true
    IsExternal := false
    SchemaVersion := { Major := 2, Minor := 1 }
    OCIProcess := none
    body := "v2" }

/-- The connection settings handed to a collaborator by an event, when the
event is a call that takes them. -/
def Event.conn? : Event → Option ConnectionSettings
  | .coreExecProcess _ _ conn => some conn
  | .coreRunExternalProcess _ conn => some conn
  | .containerStart _ conn => some conn
  | .containerExecProcess _ _ conn => some conn
  | _ => none

/-- The sample collaborators for kill and shutdown requests without an activity
id: the message `[]` names the v2 container `"c2"`, any other message the
unknown container `"c9"`, for which the runtime refuses the signal. -/
def sampleEnvSignal : Env :=
  { sampleEnv with
    core := { sampleEnv.core with SignalContainer := fun _ _ => some sampleError }
    json := { sampleEnv.json with
      MessageBase := fun m =>
        .ok { ContainerID := if m = [] then "c2" else "c9", ActivityID := "" } } }

/-- The sample collaborators, with decoders for the remaining request types.
Signal-process: the message `[]` asks to signal process 101 of the v2 container
`"c2"` with signal 0, any other message process 101 of the unknown container
`"c9"` with signal 15.  Get-properties: every message queries the UVM.
Wait-for-process: the message `[]` waits for process 101 of `"c2"` for up to
1000 ms, any other message, without an activity id, for 0 ms.
Modify-settings: the message `[]` carries a v1 request, `[0]` a v2 request for
the container `"c1"`, any other message neither; only `[]` has an activity id.
Execute-process: every message, without an activity id, carries process
parameters that do not decode.  Properties are rendered as the list of their
process ids. -/
def sampleEnvRequests : Env :=
  { sampleEnv with
    json := { sampleEnv.json with
      ContainerExecuteProcess := fun _ =>
        .ok { MessageBase := some { ContainerID := "c2", ActivityID := "" }
              Settings :=
                { ProcessParameters := "bad"
                  VsockStdioRelaySettings := { StdIn := 1, StdOut := 2, StdErr := 3 } } }
      ContainerSignalProcess := fun m =>
        .ok { MessageBase := some { ContainerID := if m = [] then "c2" else "c9"
                                    ActivityID := "a1" }
              ProcessID := 101, Options := { Signal := if m = [] then 0 else 15 } }
      ContainerGetProperties := fun _ =>
        .ok { MessageBase := some { ContainerID := "00000000-0000-0000-0000-000000000000"
                                    ActivityID := "a1" }
              Query := "" }
      ContainerWaitForProcess := fun m =>
        .ok { MessageBase := some { ContainerID := "c2"
                                    ActivityID := if m = [] then "a1" else "" }
              ProcessID := 101, TimeoutInMs := if m = [] then 1000 else 0 }
      ContainerResizeConsole := fun _ =>
        .ok { MessageBase := some { ContainerID := "c1", ActivityID := "a1" }
              ProcessID := 101, Height := 24, Width := 80 }
      ContainerModifySettings := fun m =>
        .ok { MessageBase := some { ContainerID := "c1"
                                    ActivityID := if m = [] then "a1" else "" }
              Request := if m = [] then some { body := "v1" } else none
              V2Request := if m = [0] then some { body := "v2" } else none }
      MarshalProperties := fun p => .ok (toString (p.ProcessList.map (fun d => d.ProcessID))) } }

/-- The sample collaborators, with decoders that read every request from a
payload that has neither a `ContainerId` nor an `ActivityId` key, so that the
embedded `*MessageBase` stays nil.  A negotiation request `[lo, hi]` offers the
versions `lo` to `hi`.  An execute-process request asks for an external
process in the message `[]`, carries process parameters that do not decode in
the message `[0]`, and asks for a v2 process in any other message.  A
modify-settings request carries a v1 request in the message `[]`, a v2 request
in the message `[0]` and neither in any other message. -/
def sampleEnvNilBase : Env :=
  { sampleEnvExec with
    json := { sampleEnvExec.json with
      NegotiateProtocol := fun m =>
        match m with
        | [lo, hi] => .ok { MessageBase := none, MinimumVersion := lo, MaximumVersion := hi }
        | _ => .error sampleError
      ContainerCreate := fun _ => .ok { MessageBase := none, ContainerConfig := "v1" }
      ContainerExecuteProcess := fun m =>
        .ok { MessageBase := none
              Settings :=
                { ProcessParameters := if m = [] then "ext" else if m = [0] then "bad" else "v2"
                  VsockStdioRelaySettings := { StdIn := 1, StdOut := 2, StdErr := 3 } } }
      ProcessParameters := fun s =>
        if s = "bad" then .error sampleError else sampleEnvExec.json.ProcessParameters s
      ContainerSignalProcess := fun _ =>
        .ok { MessageBase := none, ProcessID := 101, Options := { Signal := 0 } }
      ContainerGetProperties := fun _ => .ok { MessageBase := none, Query := "" }
      ContainerWaitForProcess := fun _ =>
        .ok { MessageBase := none, ProcessID := 101, TimeoutInMs := 1000 }
      ContainerResizeConsole := fun _ =>
        .ok { MessageBase := none, ProcessID := 101, Height := 24, Width := 80 }
      ContainerModifySettings := fun m =>
        .ok { MessageBase := none
              Request := if m = [] then some { body := "v1" } else none
              V2Request := if m = [0] then some { body := "v2" } else none } } }

/-- The error of a call that failed, `none` for a call that succeeded. -/
def errorOf {α : Type} : Except GoError α → Option GoError
  | .error err => some err
  | .ok _ => none

/-- The error with which the decoding of the outer payload fails, for each
method of the bridge: the first statement of each method decodes `r.Message`
into its request type.  `none` when the payload decodes. -/
def Handler.decodeError? (E : Env) (h : Handler) (r : Request) : Option GoError :=
  match h with
  | .negotiateProtocol => errorOf (E.json.NegotiateProtocol r.Message)
  | .createContainer => errorOf (E.json.ContainerCreate r.Message)
  | .startContainer => errorOf (E.json.MessageBase r.Message)
  | .execProcess => errorOf (E.json.ContainerExecuteProcess r.Message)
  | .killContainer => errorOf (E.json.MessageBase r.Message)
  | .shutdownContainer => errorOf (E.json.MessageBase r.Message)
  | .signalProcess => errorOf (E.json.ContainerSignalProcess r.Message)
  | .getProperties => errorOf (E.json.ContainerGetProperties r.Message)
  | .waitOnProcess => errorOf (E.json.ContainerWaitForProcess r.Message)
  | .resizeConsole => errorOf (E.json.ContainerResizeConsole r.Message)
  | .modifySettings => errorOf (E.json.ContainerModifySettings r.Message)
  | .UnknownMessage => none
  | .func _ => none

/-- Whether `AssignHandlers` registers the handler: the table it fills on a new
mux holds the handler under some message identifier and protocol version. -/
def Handler.registered (P : Prot) (h : Handler) : Prop :=
  ∃ id ver, (Bridge.AssignHandlers P NewBridgeMux).find id ver = some h

/-- The success path of `signalContainer`, in the words of the spec: the
payload decodes, the request is not addressed to the UVM, and the signal is
delivered without error, by the host container when the host recognises the
container and by the runtime otherwise. -/
def signalContainerSucceeds (P : Prot) (E : Env) (r : Request) (signal : Int)
    (activityID : String) : Prop :=
  ∃ request, E.json.MessageBase r.Message = .ok request ∧
    request.ActivityID = activityID ∧
    request.ContainerID ≠ P.UVMContainerID ∧
    ((∃ c, E.host.GetContainer request.ContainerID = .ok c ∧ c.Kill signal = none) ∨
      ((∃ err, E.host.GetContainer request.ContainerID = .error err) ∧
        E.core.SignalContainer request.ContainerID signal = none))

/-- The success path of each method of the bridge, in the words of the spec:
the payload and every nested JSON string that is read decode, the request has
its `MessageBase`, the method does not reject the request on its own account,
and every operation it relies on
answers without error and in time (for a container that the host does not
recognise, the runtime answers in its stead).  `activityID` is the `ActivityID`
of the decoded request. -/
def Handler.succeedsWith (P : Prot) (E : Env) (h : Handler) (r : Request) (b : Bridge)
    (activityID : String) : Prop :=
  match h with
  | .negotiateProtocol =>
    ∃ request base, E.json.NegotiateProtocol r.Message = .ok request ∧
      request.MessageBase = some base ∧
      base.ActivityID = activityID ∧
      PvV4 ≤ request.MaximumVersion ∧ request.MinimumVersion ≤ P.PvMax
  | .createContainer =>
    ∃ request base, E.json.ContainerCreate r.Message = .ok request ∧
      request.MessageBase = some base ∧
      base.ActivityID = activityID ∧
      ((b.protVer = PvV4 ∧ base.ContainerID = "00000000-0000-0000-0000-000000000000") ∨
        (¬ (b.protVer = PvV4 ∧
            base.ContainerID = "00000000-0000-0000-0000-000000000000") ∧
          PvV4 ≤ b.protVer ∧
          ∃ settingsV2 c,
            E.json.VMHostedContainerSettingsV2 request.ContainerConfig = .ok settingsV2 ∧
            settingsV2.SchemaVersion.Cmp { Major := 2, Minor := 0 } ≥ 0 ∧
            E.host.CreateContainer base.ContainerID settingsV2 = .ok c) ∨
        (¬ (b.protVer = PvV4 ∧
            base.ContainerID = "00000000-0000-0000-0000-000000000000") ∧
          (b.protVer < PvV4 ∨ ∃ settingsV2,
            E.json.VMHostedContainerSettingsV2 request.ContainerConfig = .ok settingsV2 ∧
            settingsV2.SchemaVersion.Cmp { Major := 2, Minor := 0 } < 0) ∧
          ∃ settings,
            E.json.VMHostedContainerSettings request.ContainerConfig = .ok settings ∧
            E.core.CreateContainer base.ContainerID settings = none))
  | .startContainer =>
    ∃ request, E.json.MessageBase r.Message = .ok request ∧ request.ActivityID = activityID
  | .execProcess =>
    ∃ request base params pid, E.json.ContainerExecuteProcess r.Message = .ok request ∧
      request.MessageBase = some base ∧
      base.ActivityID = activityID ∧
      E.json.ProcessParameters request.Settings.ProcessParameters = .ok params ∧
      ((params.IsExternal = true ∧
          E.core.RunExternalProcess params (execProcessConSettings request params) = .ok pid) ∨
        (params.IsExternal = false ∧
          params.SchemaVersion.Cmp { Major := 2, Minor := 0 } ≥ 0 ∧
          ∃ c, E.host.GetContainer base.ContainerID = .ok c ∧
            ((params.OCIProcess = none ∧
                c.Start (execProcessConSettings request params) = .ok pid) ∨
              ∃ process, params.OCIProcess = some process ∧
                c.ExecProcess process (execProcessConSettings request params) = .ok pid)) ∨
        (params.IsExternal = false ∧
          params.SchemaVersion.Cmp { Major := 2, Minor := 0 } < 0 ∧
          E.core.ExecProcess base.ContainerID params
            (execProcessConSettings request params) = .ok pid))
  | .killContainer => signalContainerSucceeds P E r SIGKILL activityID
  | .shutdownContainer => signalContainerSucceeds P E r SIGTERM activityID
  | .signalProcess =>
    ∃ request base, E.json.ContainerSignalProcess r.Message = .ok request ∧
      request.MessageBase = some base ∧
      base.ActivityID = activityID ∧
      ((∃ c p, E.host.GetContainer base.ContainerID = .ok c ∧
          c.GetProcess request.ProcessID = .ok p ∧
          p.Kill (if request.Options.Signal = 0 then SIGKILL else request.Options.Signal) =
            none) ∨
        ((∃ err, E.host.GetContainer base.ContainerID = .error err) ∧
          E.core.SignalProcess (request.ProcessID : Int) request.Options = none))
  | .getProperties =>
    ∃ request base, E.json.ContainerGetProperties r.Message = .ok request ∧
      request.MessageBase = some base ∧
      base.ActivityID = activityID ∧
      ((base.ContainerID = P.UVMContainerID ∧
          ∃ propertyJSON,
            E.json.MarshalProperties { ProcessList := uvmProcessList E.host.GetAllProcessPids } =
              .ok propertyJSON) ∨
        (base.ContainerID ≠ P.UVMContainerID ∧
          ∃ properties,
            E.core.GetProperties base.ContainerID request.Query = .ok properties ∧
            (properties = none ∨ ∃ p propertyJSON,
              properties = some p ∧ E.json.MarshalProperties p = .ok propertyJSON)))
  | .waitOnProcess =>
    ∃ request base chans exitCode, E.json.ContainerWaitForProcess r.Message = .ok request ∧
      request.MessageBase = some base ∧
      base.ActivityID = activityID ∧
      ((∃ c p, E.host.GetContainer base.ContainerID = .ok c ∧
          c.GetProcess request.ProcessID = .ok p ∧ p.Wait = chans) ∨
        ((∃ err, E.host.GetContainer base.ContainerID = .error err) ∧
          E.core.WaitProcess (request.ProcessID : Int) = .ok chans)) ∧
      chans.recv request.TimeoutInMs = some exitCode
  | .resizeConsole =>
    ∃ request base, E.json.ContainerResizeConsole r.Message = .ok request ∧
      request.MessageBase = some base ∧
      base.ActivityID = activityID ∧
      E.core.ResizeConsole (request.ProcessID : Int) request.Height request.Width = none
  | .modifySettings =>
    ∃ request base, E.json.ContainerModifySettings r.Message = .ok request ∧
      request.MessageBase = some base ∧
      base.ActivityID = activityID ∧
      ((∃ v1, request.Request = some v1 ∧
          E.core.ModifySettings base.ContainerID v1 = none) ∨
        (request.Request = none ∧ ∃ v2, request.V2Request = some v2 ∧
          base.ContainerID = P.UVMContainerID ∧ E.host.ModifyHostSettings v2 = none))
  | .UnknownMessage => False
  | .func _ => False

/-! ## The egress task -/

/-- The little-endian bytes of an unsigned integer of `n` bytes, as
`binary.LittleEndian` puts them; bits beyond the `n` bytes are dropped. -/
def putUintLE : Nat → Nat → Bytes
  | 0, _ => []
  | n + 1, x => x % 256 :: putUintLE n (x / 256)

/-- The unsigned integer that `binary.LittleEndian` reads from bytes. -/
def getUintLE : Bytes → Nat
  | [] => 0
  | x :: rest => x + 256 * getUintLE rest

/-- Modelled from the spec: the bytes that `binary.Write` produces for a header
in little-endian order, its fields in declaration order: `Type` (32 bit),
`Size` (32 bit), `ID` (64 bit). -/
def MessageHeader.encode (h : MessageHeader) : Bytes :=
  putUintLE 4 h.Type_ ++ putUintLE 4 h.Size ++ putUintLE 8 h.ID

/-- The stream `bridgeOut` (an `io.Writer`): the bytes written so far and, as
`fault`, the outcome of a call of `Write`, given the bytes already written and
the bytes to write: `none` when the call writes them all, or the number of
bytes written before the error that the call returns. -/
structure Writer where
  written : Bytes
  fault : Bytes → Bytes → Option (Nat × GoError)

/-- The method `Write` of the stream. -/
def Writer.Write (o : Writer) (p : Bytes) : Writer × Option GoError :=
  match o.fault o.written p with
  | none => ({ o with written := o.written ++ p }, none)
  | some (n, err) => ({ o with written := o.written ++ p.take n }, some err)

/-- The function `binary.Write` on a header: the header is encoded into a
buffer, which is written with one call of `Write`. -/
def binary.Write (o : Writer) (h : MessageHeader) : Writer × Option GoError :=
  o.Write h.encode

/-- The state of the egress task: the stream `bridgeOut` and the errors sent on
`responseErrChan` so far. -/
structure Egress where
  bridgeOut : Writer
  responseErrChan : List GoError

/-- What the egress task takes from outside the bridge: `json.Marshal` of a
response, the `%v` rendering of a response and the stack that `pkg/errors`
captures. -/
structure EgressEnv where
  Marshal : Payload → Except GoError Bytes
  render : Payload → String
  callers : String → StackTrace

/-- The body of the egress loop of `ListenAndServe`, for one value received
from `b.responseChan`. -/
def ListenAndServe.egressStep (X : EgressEnv) (resp : bridgeResponse) (s : Egress) : Egress :=
  match X.Marshal resp.response with
  | .error err =>
    { s with
      responseErrChan := s.responseErrChan ++
        [errors.Wrapf err
          ("bridge: failed to marshal JSON for response \"" ++ X.render resp.response ++ "\"")
          (X.callers "ListenAndServe")] }
  | .ok responseBytes =>
    let header : MessageHeader :=
      { resp.header with Size := toUint32 ((responseBytes.length + MessageHeaderSize : Nat) : Int) }
    match binary.Write s.bridgeOut header with
    | (bridgeOut, some err) =>
      { bridgeOut := bridgeOut
        responseErrChan := s.responseErrChan ++
          [errors.Wrapf err "bridge: failed writing message header"
            (X.callers "ListenAndServe")] }
    | (bridgeOut, none) =>
      match bridgeOut.Write responseBytes with
      | (bridgeOut, some err) =>
        { bridgeOut := bridgeOut
          responseErrChan := s.responseErrChan ++
            [errors.Wrapf err "bridge: failed writing message payload"
              (X.callers "ListenAndServe")] }
      | (bridgeOut, none) => { s with bridgeOut := bridgeOut }

/-- A sample environment of the egress task, in which every response marshals
to the two bytes of `"\x7b\x7d"`. -/
def sampleEgressEnv : EgressEnv :=
  { Marshal := fun _ => .ok [123, 125]
    render := fun _ => ""
    callers := fun _ => sampleStack }

/-- A sample stream on which no write fails. -/
def sampleWriter : Writer :=
  { written := [], fault := fun _ _ => none }

/-! ## The ingress task -/

/-- Modelled from the spec: the header that `binary.Read` decodes from 16 bytes
in little-endian order, its fields in declaration order: `Type` (bytes 0 to 3),
`Size` (bytes 4 to 7), `ID` (bytes 8 to 15). -/
def MessageHeader.decode (bs : Bytes) : MessageHeader :=
  { Type_ := getUintLE (bs.take 4)
    Size := getUintLE ((bs.drop 4).take 4)
    ID := getUintLE ((bs.drop 8).take 8) }

/-- One item of the stream `bridgeIn` (an `io.Reader`), as the reads of the
bridge meet it: a byte of data, or an error that a call of `Read` returns at
this point of the stream.  The end of the list is the end of the stream. -/
inductive StreamItem where
  | byte (b : Nat)
  | fault (err : GoError)
deriving DecidableEq, Repr

/-- The stream `bridgeIn`: what is still to be read. -/
abbrev Reader := List StreamItem

/-- The error `io.EOF`. -/
def EOF : GoError := { Error := "EOF", hresult := none, stack := none }

/-- The error `io.ErrUnexpectedEOF`. -/
def ErrUnexpectedEOF : GoError := { Error := "unexpected EOF", hresult := none, stack := none }

/-- The function `io.ReadFull` on a buffer of `n` bytes, of which `acc` are
read already: it reads until the buffer is full or a read returns an error.
At the end of the stream the error is `io.EOF` when no byte was read and
`io.ErrUnexpectedEOF` otherwise.  A buffer of length 0 is full at once. -/
def ReadFull : Reader → Nat → Bytes → Except GoError Bytes × Reader
  | r, 0, acc => (.ok acc, r)
  | [], _ + 1, acc => (.error (if acc = [] then EOF else ErrUnexpectedEOF), [])
  | .byte x :: rest, n + 1, acc => ReadFull rest n (acc ++ [x])
  | .fault err :: rest, _ + 1, acc =>
    (.error (if acc ≠ [] ∧ err = EOF then ErrUnexpectedEOF else err), rest)

/-- The function `binary.Read` on a header: it fills a buffer of the 16 bytes
of the header with `io.ReadFull` and decodes it. -/
def binary.Read (r : Reader) : Except GoError MessageHeader × Reader :=
  match ReadFull r 16 [] with
  | (.error err, r) => (.error err, r)
  | (.ok bs, r) => (.ok (MessageHeader.decode bs), r)

/-- The steps of the ingress task, in program order: the two reads of a frame
and the sends on `requestChan` and `requestErrChan`. -/
inductive IngressEvent where
  | readHeader
  | readPayload (n : Nat)
  | requestErrSend (err : GoError)
  | requestSend (r : Request)
deriving DecidableEq, Repr

/-- The state of the ingress task: the stream `bridgeIn` and what the task has
done so far. -/
structure Ingress where
  bridgeIn : Reader
  trace : List IngressEvent
deriving DecidableEq, Repr

/-- The body of the ingress loop of `ListenAndServe`, run once, with `b` the
bridge at the time the request is tagged.  Either `continue` and the end of the
body lead to the next run of the body.  A send is recorded when the task
reaches it: the task goes on after it once the value has been received. -/
def ListenAndServe.ingressStep (E : Env) (b : Bridge) (s : Ingress) : Ingress :=
  match binary.Read s.bridgeIn with
  | (.error err, bridgeIn) =>
    { bridgeIn := bridgeIn
      trace := s.trace ++
        [.readHeader,
         .requestErrSend (errors.Wrapf err "bridge: failed reading message header"
           (E.fmt.callers "ListenAndServe"))] }
  | (.ok header, bridgeIn) =>
    let n := toUint32 ((header.Size : Int) - (MessageHeaderSize : Int))
    match ReadFull bridgeIn n [] with
    | (.error err, bridgeIn) =>
      { bridgeIn := bridgeIn
        trace := s.trace ++
          [.readHeader, .readPayload n,
           .requestErrSend (errors.Wrapf err "bridge: failed reading message payload"
             (E.fmt.callers "ListenAndServe"))] }
    | (.ok message, bridgeIn) =>
      { bridgeIn := bridgeIn
        trace := s.trace ++
          [.readHeader, .readPayload n,
           .requestSend (ListenAndServe.ingress header message b)] }

/-- The ingress loop of `ListenAndServe` (`for \x7b ... \x7d`), run as many times
as the list is long; the list gives the bridge at each run. -/
def ListenAndServe.ingressLoop (E : Env) (bs : List Bridge) (s : Ingress) : Ingress :=
  bs.foldl (fun s b => ListenAndServe.ingressStep E b s) s

/-- The event that ends `ListenAndServe`: the first value to arrive at its
final `select`. -/
inductive SessionEnd where
  | requestErr (err : GoError)
  | responseErr (err : GoError)
  | quit (v : Bool)
deriving DecidableEq, Repr

/-- The final `select` of `ListenAndServe`: the error that the function
returns (`conerr`). -/
def ListenAndServe.conerr : SessionEnd → Option GoError
  | .requestErr err => some err
  | .responseErr err => some err
  | .quit _ => none

/-- The bytes of a stream as stream items. -/
def Reader.ofBytes (bs : Bytes) : Reader := bs.map StreamItem.byte

/-- A sample error of a read that can be tried again (a timeout). -/
def sampleTimeout : GoError :=
  { Error := "i/o timeout", hresult := none, stack := none }

/-- A sample stream: a read that times out, followed by the complete frame of
a request of type 1 with identifier 5 and the one payload byte 7. -/
def sampleStreamTimeout : Reader :=
  .fault sampleTimeout ::
    Reader.ofBytes [1, 0, 0, 0, 17, 0, 0, 0, 5, 0, 0, 0, 0, 0, 0, 0, 7]

/-- A sample stream: a header that announces a frame of 3 bytes, less than the
header itself, followed by nothing. -/
def sampleStreamShort : Reader :=
  Reader.ofBytes [1, 0, 0, 0, 3, 0, 0, 0, 5, 0, 0, 0, 0, 0, 0, 0]

/-- The sample collaborators, with a runtime whose `WaitContainer` fails: it
returns no exit-code function and an error. -/
def sampleEnvWaitFails : Env :=
  { sampleEnv with
    core := { sampleEnv.core with WaitContainer := fun _ => (none, some sampleError) } }

/-! ## Size estimation for ext4 (`gcsutils/fs/ext4.go`)

The fields and arguments of type `uint64` are natural numbers below `2^64`;
the arithmetic of the code wraps around at `2^64`. -/

/-- Addition of `uint64` values. -/
def addU64 (x y : Nat) : Nat := (x + y) % 2 ^ 64

/-- Subtraction of `uint64` values. -/
def subU64 (x y : Nat) : Nat := (x + 2 ^ 64 - y) % 2 ^ 64

/-- Multiplication of `uint64` values. -/
def mulU64 (x y : Nat) : Nat := (x * y) % 2 ^ 64

/-- The struct `Ext4Fs`: the size context of an ext4 file system. -/
structure Ext4Fs where
  BlockSize : Nat
  InodeSize : Nat
  totalSize : Nat
  numInodes : Nat
deriving DecidableEq, Repr

/-- The struct `FilesystemSizeInfo` that `GetSizeInfo` returns; its declaration
is not among the sources, its two fields are the ones `GetSizeInfo` sets. -/
structure FilesystemSizeInfo where
  NumInodes : Nat
  TotalSize : Nat
deriving DecidableEq, Repr

/-- The function `maxU64`. -/
def maxU64 (x y : Nat) : Nat :=
  if x > y then x else y

/-- The function `alignN`.  The remainder `n % alignto` panics when `alignto`
is 0: the result is then `none`. -/
def alignN (n alignto : Nat) : Option Nat :=
  if alignto = 0 then none
  else if n % alignto = 0 then some n
  else some (subU64 (addU64 n alignto) (n % alignto))

/-- The method `addInode`. -/
def Ext4Fs.addInode (e : Ext4Fs) : Ext4Fs :=
  let e := { e with numInodes := addU64 e.numInodes 1 }
  { e with totalSize := addU64 e.totalSize e.InodeSize }

/-- The method `InitSizeContext`: creates the context for a new ext4 file
system.  It returns a nil error. -/
def Ext4Fs.InitSizeContext (e : Ext4Fs) : Ext4Fs :=
  let e := { e with numInodes := 11 }
  { e with totalSize := maxU64 (addU64 2048 (mulU64 e.numInodes e.InodeSize)) e.BlockSize }

/-- The method `CalcRegFileSize`.  It returns a nil error, or panics (second
component) in `alignN`. -/
def Ext4Fs.CalcRegFileSize (e : Ext4Fs) (_fileName : String) (fileSize : Nat) :
    Ext4Fs × Option String :=
  let e := e.addInode
  let e := { e with totalSize := addU64 e.totalSize e.BlockSize }
  match alignN fileSize e.BlockSize with
  | none => (e, some "runtime error: integer divide by zero")
  | some aligned => ({ e with totalSize := addU64 e.totalSize aligned }, none)

/-- The method `CalcDirSize`.  It returns a nil error. -/
def Ext4Fs.CalcDirSize (e : Ext4Fs) (_dirName : String) : Ext4Fs :=
  let e := e.addInode
  { e with totalSize := addU64 e.totalSize (mulU64 3 e.BlockSize) }

/-- The method `CalcSymlinkSize`; `len(dstName)` is the length in bytes.  It
returns a nil error, or panics (second component) in `alignN`. -/
def Ext4Fs.CalcSymlinkSize (e : Ext4Fs) (_srcName : String) (dstName : String) :
    Ext4Fs × Option String :=
  let e := e.addInode
  if dstName.utf8ByteSize > 60 then
    match alignN dstName.utf8ByteSize e.BlockSize with
    | none => (e, some "runtime error: integer divide by zero")
    | some aligned => ({ e with totalSize := addU64 e.totalSize aligned }, none)
  else (e, none)

/-- The method `CalcHardlinkSize`.  It returns a nil error. -/
def Ext4Fs.CalcHardlinkSize (e : Ext4Fs) (_srcName : String) (_dstName : String) : Ext4Fs :=
  { e with totalSize := addU64 e.totalSize e.BlockSize }

/-- The method `CalcCharDeviceSize`.  It returns a nil error. -/
def Ext4Fs.CalcCharDeviceSize (e : Ext4Fs) (_devName : String) (_major _minor : Nat) : Ext4Fs :=
  e.addInode

/-- The method `CalcBlockDeviceSize`.  It returns a nil error. -/
def Ext4Fs.CalcBlockDeviceSize (e : Ext4Fs) (_devName : String) (_major _minor : Nat) :
    Ext4Fs :=
  e.addInode

/-- The method `CalcFIFOPipeSize`.  It returns a nil error. -/
def Ext4Fs.CalcFIFOPipeSize (e : Ext4Fs) (_pipeName : String) : Ext4Fs :=
  e.addInode

/-- The method `CalcSocketSize`.  It returns a nil error. -/
def Ext4Fs.CalcSocketSize (e : Ext4Fs) (_sockName : String) : Ext4Fs :=
  e.addInode

/-- The method `CalcAddExAttrSize`: extended attributes are stored in the
inode and use no more space.  It returns a nil error. -/
def Ext4Fs.CalcAddExAttrSize (e : Ext4Fs) (_fileName : String) (_attr : String)
    (_data : Bytes) (_flags : Int) : Ext4Fs :=
  e

/-- The number of low bits to drop from a positive number so that at most 53
bits remain (for numbers below `2^181`). -/
def dropTo53 : Nat → Nat → Nat
  | 0, _ => 0
  | fuel + 1, n => if n < 2 ^ 53 then 0 else dropTo53 fuel (n / 2) + 1

/-- Rounding to `float64` (53 significant bits, to nearest, ties to even) of a
positive number given by its numerator over a fixed power of two; the result
is over the same power of two. -/
def roundFloat64 (num : Nat) : Nat :=
  let drop := dropTo53 128 num
  if drop = 0 then num
  else
    let q := num / 2 ^ drop
    let rem := num % 2 ^ drop
    let half := 2 ^ (drop - 1)
    (if rem > half ∨ (rem = half ∧ q % 2 = 1) then q + 1 else q) * 2 ^ drop

/-- The product `float64(x) * 1.10` for a `uint64` value `x`, as the numerator
of the result over `2^52`: the conversion of `x` to `float64` and the product
with the `float64` nearest to 1.10, which is `4953959590107546 / 2^52`, each
rounded to 53 significant bits. -/
def mulTenPercent (x : Nat) : Nat :=
  roundFloat64 (roundFloat64 x * 4953959590107546)

/-- The conversion `uint64(f)` of a `float64` value `f ≥ 0`, given by its
numerator over `2^52`: the fraction is discarded.  A value of `2^64` or more
cannot be represented in `uint64`; the conversion succeeds and Go leaves its
result to the implementation, which `outOfRange` stands for. -/
def float64ToUint64 (outOfRange : Nat → Nat) (num : Nat) : Nat :=
  if num / 2 ^ 52 < 2 ^ 64 then num / 2 ^ 52 else outOfRange num % 2 ^ 64

/-- The expression `uint64(float64(x) * 1.10)` for a `uint64` value `x`. -/
def growTenPercent (outOfRange : Nat → Nat) (x : Nat) : Nat :=
  float64ToUint64 outOfRange (mulTenPercent x)

/-- The method `FinalizeSizeContext`.  It returns a nil error, or panics
(second component) in the remainder by `64 * BlockSize` or in `alignN`.
`outOfRange` is the result of the implementation for a conversion to `uint64`
of a `float64` value that `uint64` cannot represent. -/
def Ext4Fs.FinalizeSizeContext (e : Ext4Fs) (outOfRange : Nat → Nat) :
    Ext4Fs × Option String :=
  let e := { e with totalSize := growTenPercent outOfRange e.totalSize }
  let e := { e with numInodes := growTenPercent outOfRange e.numInodes }
  -- Align to 64 * blocksize
  if mulU64 64 e.BlockSize = 0 then (e, some "runtime error: integer divide by zero")
  else if e.totalSize % mulU64 64 e.BlockSize ≠ 0 then
    match alignN e.totalSize (mulU64 64 e.BlockSize) with
    | none => (e, some "runtime error: integer divide by zero")
    | some aligned => ({ e with totalSize := aligned }, none)
  else (e, none)

/-- The method `GetSizeInfo`. -/
def Ext4Fs.GetSizeInfo (e : Ext4Fs) : FilesystemSizeInfo :=
  { NumInodes := e.numInodes, TotalSize := e.totalSize }

/-- A call of one of the `Calc*` methods with its arguments. -/
inductive Ext4Fs.Call where
  | regFile (fileName : String) (fileSize : Nat)
  | dir (dirName : String)
  | symlink (srcName dstName : String)
  | hardlink (srcName dstName : String)
  | charDevice (devName : String) (major minor : Nat)
  | blockDevice (devName : String) (major minor : Nat)
  | fifoPipe (pipeName : String)
  | socket (sockName : String)
  | addExAttr (fileName attr : String) (data : Bytes) (flags : Int)
deriving DecidableEq, Repr

/-- Runs one `Calc*` call.  The second component is the panic, if any. -/
def Ext4Fs.call (e : Ext4Fs) : Ext4Fs.Call → Ext4Fs × Option String
  | .regFile fileName fileSize => e.CalcRegFileSize fileName fileSize
  | .dir dirName => (e.CalcDirSize dirName, none)
  | .symlink srcName dstName => e.CalcSymlinkSize srcName dstName
  | .hardlink srcName dstName => (e.CalcHardlinkSize srcName dstName, none)
  | .charDevice devName major minor => (e.CalcCharDeviceSize devName major minor, none)
  | .blockDevice devName major minor => (e.CalcBlockDeviceSize devName major minor, none)
  | .fifoPipe pipeName => (e.CalcFIFOPipeSize pipeName, none)
  | .socket sockName => (e.CalcSocketSize sockName, none)
  | .addExAttr fileName attr data flags => (e.CalcAddExAttrSize fileName attr data flags, none)

/-- Runs a sequence of `Calc*` calls, up to the first panic. -/
def Ext4Fs.calls (e : Ext4Fs) : List Ext4Fs.Call → Ext4Fs × Option String
  | [] => (e, none)
  | c :: cs =>
    match e.call c with
    | (e, none) => Ext4Fs.calls e cs
    | (e, some msg) => (e, some msg)

/-- The number `n` rounded up to a multiple of `a`, without wrap-around. -/
def roundUp (n a : Nat) : Nat := (n + a - 1) / a * a

/-- The reference count of inodes of a `Calc*` call. -/
def Ext4Fs.Call.inodes : Ext4Fs.Call → Nat
  | .hardlink _ _ => 0
  | .addExAttr _ _ _ _ => 0
  | _ => 1

/-- The reference sum of a `Calc*` call: the bytes that the call adds to the
total size, as a natural number without wrap-around.  For `CalcSymlinkSize` it
is what the code adds. -/
def Ext4Fs.Call.bytes (e : Ext4Fs) : Ext4Fs.Call → Nat
  | .regFile _ fileSize => e.InodeSize + e.BlockSize + roundUp fileSize e.BlockSize
  | .dir _ => e.InodeSize + 3 * e.BlockSize
  | .symlink _ dstName =>
    e.InodeSize +
      (if dstName.utf8ByteSize > 60 then roundUp dstName.utf8ByteSize e.BlockSize else 0)
  | .hardlink _ _ => e.BlockSize
  | .charDevice _ _ _ => e.InodeSize
  | .blockDevice _ _ _ => e.InodeSize
  | .fifoPipe _ => e.InodeSize
  | .socket _ => e.InodeSize
  | .addExAttr _ _ _ _ => 0

/-- Absence of 64-bit overflow in one call: the count of inodes and the total
size with the reference sum added stay below `2^64`. -/
def Ext4Fs.Call.fits (e : Ext4Fs) (c : Ext4Fs.Call) : Prop :=
  e.numInodes + c.inodes < 2 ^ 64 ∧ e.totalSize + c.bytes e < 2 ^ 64

/-- Absence of 64-bit overflow in a sequence of calls run from `e`. -/
def Ext4Fs.fitsAll (e : Ext4Fs) : List Ext4Fs.Call → Prop
  | [] => True
  | c :: cs => c.fits e ∧ Ext4Fs.fitsAll (e.call c).1 cs

/-- A sample size context: blocks of 4096 bytes, inodes of 256 bytes. -/
def sampleExt4 : Ext4Fs :=
  { BlockSize := 4096, InodeSize := 256, totalSize := 0, numInodes := 0 }

/-- The size context after `InitSizeContext` with a block size of 0 and inodes
of 256 bytes. -/
def sampleExt4Zero : Ext4Fs :=
  { BlockSize := 0, InodeSize := 256, totalSize := 4864, numInodes := 11 }

/-- A symlink target of exactly 60 bytes. -/
def sampleTarget60 : String :=
  "/usr/lib/x86_64-linux-gnu/security/pam_systemd_home_extra.so"

/-- A sample size context before `FinalizeSizeContext`: a total of 1000000
bytes and 20 inodes, with blocks of 4096 bytes. -/
def sampleExt4Full : Ext4Fs :=
  { BlockSize := 4096, InodeSize := 256, totalSize := 1000000, numInodes := 20 }

/-- A sample implementation of the conversion to `uint64` of a `float64` value
that `uint64` cannot represent: the result is `2^63` for every such value. -/
def sampleOutOfRange : Nat → Nat := fun _ => 9223372036854775808

/-- A sample size context before `FinalizeSizeContext` with a large total:
1128344274151669814 bytes, with blocks of 4096 bytes. -/
def sampleExt4Large : Ext4Fs :=
  { BlockSize := 4096, InodeSize := 256, totalSize := 1128344274151669814, numInodes := 20 }

/-- A sample size context before `FinalizeSizeContext` with a small total: 59
bytes, with blocks of one byte. -/
def sampleExt4Small : Ext4Fs :=
  { BlockSize := 1, InodeSize := 1, totalSize := 59, numInodes := 1 }

/-! # Theorems -/

set_option linter.unusedTactic false

/-! ### Every handler writes through its response writer -/

theorem Wrote.skip (w : requestResponseWriter) (b : Bridge) : Wrote 0 w b (w, b) :=
  ⟨rfl, [], by simp, by simp, rfl, by simp, fun _ => rfl, by simp⟩

theorem Wrote.Write (w : requestResponseWriter) (r : Payload) (b : Bridge) :
    Wrote 1 w b (w.Write r b) :=
  ⟨rfl, [.respSend { header := w.header, response := r }],
    by simp [requestResponseWriter.Write, Bridge.emit],
    by simp [Event.response?], by simp [Event.response?],
    fun _ => rfl, by simp, by simp [Event.panic?]⟩

theorem Wrote.Error (P : Prot) (w : requestResponseWriter) (a : String) (err : GoError)
    (b : Bridge) : Wrote 1 w b (w.Error P a err b) := by
  unfold requestResponseWriter.Error
  exact Wrote.Write _ _ _

theorem Wrote.emit {n : Nat} {w : requestResponseWriter} {b : Bridge}
    {out : requestResponseWriter × Bridge} (e : Event) (he : e.response? = none)
    (hp : e.panic? = none) (h : Wrote n w (b.emit e) out) : Wrote n w b out := by
  obtain ⟨h1, new, h2, h3, h4, h5, h6, h7⟩ := h
  refine ⟨h1, e :: new, ?_, ?_, ?_, h5, h6, ?_⟩
  · simpa [Bridge.emit] using h2
  · simpa [List.filterMap_cons, he] using h3
  · simpa [List.filterMap_cons, he] using h4
  · simpa [List.filterMap_cons, hp] using h7

theorem Wrote.protVer {n : Nat} {w : requestResponseWriter} {b : Bridge}
    {out : requestResponseWriter × Bridge} (v : Nat)
    (h : Wrote n w { b with protVer := v } out) : Wrote n w b out := h

theorem Wrote.done {n : Nat} {w : requestResponseWriter} {b : Bridge}
    {out : requestResponseWriter × Bridge} (h : Wrote n w b out) :
    Wrote n w b (waitOnProcessDone out) := by
  obtain ⟨h1, new, h2, h3, h4, h5, h6, h7⟩ := h
  refine ⟨h1, new ++ [.doneSend true, .doneClose], ?_, ?_, ?_, h5, h6, ?_⟩
  · simp [waitOnProcessDone, Bridge.emit, h2]
  · simpa [List.filterMap_append, Event.response?] using h3
  · simpa [List.filterMap_append, Event.response?] using h4
  · simpa [List.filterMap_append, Event.panic?] using h7

theorem Wrote.panic (w : requestResponseWriter) (b : Bridge) (msg : String) :
    Wrote 0 w b (w, b.emit (.panic msg)) :=
  ⟨rfl, [.panic msg], by simp [Bridge.emit], by simp [Event.response?],
    by simp [Event.response?], by simp, fun _ => rfl, by simp⟩

theorem UnknownMessage_wrote (P : Prot) (E : Env) (w : requestResponseWriter) (r : Request)
    (b : Bridge) : Wrote 1 w b (UnknownMessage P E w r b) :=
  Wrote.Error _ _ _ _ _

theorem negotiateProtocol_wrote (P : Prot) (E : Env) (w : requestResponseWriter) (r : Request)
    (b : Bridge) :
    Wrote (if Handler.nilBase E .negotiateProtocol r = true then 0 else 1) w b
      (negotiateProtocol P E w r b) := by
  unfold negotiateProtocol
  unfold Handler.nilBase
  dsimp only
  cases hdec : E.json.NegotiateProtocol r.Message with
  | error err => exact Wrote.Error _ _ _ _ _
  | ok request =>
    dsimp only
    cases hbase : request.MessageBase with
    | none =>
      show Wrote 0 w b _
      dsimp only
      split
      · exact Wrote.panic _ _ _
      · exact Wrote.panic _ _ _
    | some base =>
      show Wrote 1 w b _
      dsimp only
      split
      · exact Wrote.Error _ _ _ _ _
      · exact Wrote.protVer _ (Wrote.Write _ _ _)

theorem createContainerNotify_wrote (w : requestResponseWriter) (base : MessageBase)
    (response : ContainerCreateResponse) (exitCodeFn : Option Int) (b : Bridge) :
    Wrote 1 w b (createContainerNotify w base response exitCodeFn b) := by
  unfold createContainerNotify
  exact Wrote.emit _ (by rfl) (by rfl) (Wrote.protVer _ (Wrote.Write _ _ _))

theorem createContainerRespond_wrote (E : Env) (w : requestResponseWriter)
    (base : MessageBase) (exitCodeFn : Option Int) (wasV2Config : Bool) (b : Bridge) :
    Wrote 1 w b (createContainerRespond E w base exitCodeFn wasV2Config b) := by
  unfold createContainerRespond
  dsimp only
  split
  · exact Wrote.emit _ (by rfl) (by rfl) (createContainerNotify_wrote _ _ _ _ _)
  · exact createContainerNotify_wrote _ _ _ _ _

theorem createContainerFallback_wrote (P : Prot) (E : Env) (w : requestResponseWriter)
    (request : ContainerCreate) (base : MessageBase) (exitCodeFn : Option Int)
    (wasV2Config : Bool) (b : Bridge) :
    Wrote 1 w b (createContainerFallback P E w request base exitCodeFn wasV2Config b) := by
  unfold createContainerFallback
  split
  · split
    · exact Wrote.Error _ _ _ _ _
    · dsimp only
      split
      · exact Wrote.emit _ (by rfl) (by rfl) (Wrote.Error _ _ _ _ _)
      · exact Wrote.emit _ (by rfl) (by rfl) (createContainerRespond_wrote _ _ _ _ _ _)
  · exact createContainerRespond_wrote _ _ _ _ _ _

theorem createContainer_wrote (P : Prot) (E : Env) (w : requestResponseWriter) (r : Request)
    (b : Bridge) :
    Wrote (if Handler.nilBase E .createContainer r = true then 0 else 1) w b
      (createContainer P E w r b) := by
  unfold createContainer
  unfold Handler.nilBase
  dsimp only
  cases hdec : E.json.ContainerCreate r.Message with
  | error err => exact Wrote.Error _ _ _ _ _
  | ok request =>
    dsimp only
    cases hbase : request.MessageBase with
    | none =>
      show Wrote 0 w b _
      exact Wrote.panic _ _ _
    | some base =>
      show Wrote 1 w b _
      dsimp only
      split
      · exact Wrote.Write _ _ _
      · split
        · split
          · exact Wrote.Error _ _ _ _ _
          · split
            · try dsimp only
              split
              · exact Wrote.emit _ (by rfl) (by rfl) (Wrote.Error _ _ _ _ _)
              · exact Wrote.emit _ (by rfl) (by rfl) (createContainerFallback_wrote _ _ _ _ _ _ _ _)
            · exact createContainerFallback_wrote _ _ _ _ _ _ _ _
        · exact createContainerFallback_wrote _ _ _ _ _ _ _ _

theorem startContainer_wrote (P : Prot) (E : Env) (w : requestResponseWriter) (r : Request)
    (b : Bridge) : Wrote 1 w b (startContainer P E w r b) := by
  unfold startContainer
  split
  · exact Wrote.Error _ _ _ _ _
  · exact Wrote.Write _ _ _

theorem execProcessRespond_wrote (P : Prot) (w : requestResponseWriter)
    (request : ContainerExecuteProcess) (result : Except GoError Int) (b : Bridge) :
    Wrote (if request.MessageBase.isNone = true then 0 else 1) w b
      (execProcessRespond P w request result b) := by
  unfold execProcessRespond
  cases hbase : request.MessageBase with
  | none => exact Wrote.panic _ _ _
  | some base =>
    show Wrote 1 w b _
    dsimp only
    split
    · exact Wrote.Error _ _ _ _ _
    · exact Wrote.Write _ _ _

theorem execProcess_wrote (P : Prot) (E : Env) (w : requestResponseWriter) (r : Request)
    (b : Bridge) :
    Wrote (if Handler.nilBase E .execProcess r = true then 0 else 1) w b
      (execProcess P E w r b) := by
  unfold execProcess
  unfold Handler.nilBase
  dsimp only
  cases hdec : E.json.ContainerExecuteProcess r.Message with
  | error err => exact Wrote.Error _ _ _ _ _
  | ok request =>
    dsimp only
    have hresp := execProcessRespond_wrote P w request
    cases hbase : request.MessageBase with
    | none =>
      rw [hbase] at hresp
      show Wrote 0 w b _
      dsimp only
      split
      · exact Wrote.panic _ _ _
      · split
        · exact Wrote.emit _ (by rfl) (by rfl) (hresp _ _)
        · split
          · exact Wrote.panic _ _ _
          · exact Wrote.panic _ _ _
    | some base =>
      rw [hbase] at hresp
      show Wrote 1 w b _
      dsimp only
      split
      · exact Wrote.Error _ _ _ _ _
      · split
        · exact Wrote.emit _ (by rfl) (by rfl) (hresp _ _)
        · split
          · try dsimp only
            split
            · exact Wrote.emit _ (by rfl) (by rfl) (hresp _ _)
            · split
              · exact Wrote.emit _ (by rfl) (by rfl) (Wrote.emit _ (by rfl) (by rfl) (hresp _ _))
              · exact Wrote.emit _ (by rfl) (by rfl) (Wrote.emit _ (by rfl) (by rfl) (hresp _ _))
          · exact Wrote.emit _ (by rfl) (by rfl) (hresp _ _)

theorem signalContainer_wrote (P : Prot) (E : Env) (w : requestResponseWriter) (r : Request)
    (signal : Int) (b : Bridge) :
    Wrote (match E.json.MessageBase r.Message with
      | .ok request => if request.ContainerID = P.UVMContainerID then 0 else 1
      | .error _ => 1) w b (signalContainer P E w r signal b) := by
  unfold signalContainer
  cases hdec : E.json.MessageBase r.Message with
  | error err => exact Wrote.Error _ _ _ _ _
  | ok request =>
    dsimp only
    by_cases huvm : request.ContainerID = P.UVMContainerID
    · rw [if_pos huvm, if_pos huvm]
      exact Wrote.emit _ (by rfl) (by rfl) (Wrote.emit _ (by rfl) (by rfl) (Wrote.skip _ _))
    · rw [if_neg huvm, if_neg huvm]
      split
      · split
        · exact Wrote.emit _ (by rfl) (by rfl) (Wrote.emit _ (by rfl) (by rfl) (Wrote.Error _ _ _ _ _))
        · exact Wrote.emit _ (by rfl) (by rfl) (Wrote.emit _ (by rfl) (by rfl) (Wrote.Write _ _ _))
      · split
        · exact Wrote.emit _ (by rfl) (by rfl) (Wrote.emit _ (by rfl) (by rfl) (Wrote.Error _ _ _ _ _))
        · exact Wrote.emit _ (by rfl) (by rfl) (Wrote.emit _ (by rfl) (by rfl) (Wrote.Write _ _ _))

theorem signalProcess_wrote (P : Prot) (E : Env) (w : requestResponseWriter) (r : Request)
    (b : Bridge) :
    Wrote (if Handler.nilBase E .signalProcess r = true then 0 else 1) w b
      (signalProcess P E w r b) := by
  unfold signalProcess
  unfold Handler.nilBase
  dsimp only
  cases hdec : E.json.ContainerSignalProcess r.Message with
  | error err => exact Wrote.Error _ _ _ _ _
  | ok request =>
    dsimp only
    cases hbase : request.MessageBase with
    | none =>
      show Wrote 0 w b _
      exact Wrote.panic _ _ _
    | some base =>
      show Wrote 1 w b _
      dsimp only
      split
      · split
        · exact Wrote.emit _ (by rfl) (by rfl) (Wrote.emit _ (by rfl) (by rfl) (Wrote.Error _ _ _ _ _))
        · split
          · exact Wrote.emit _ (by rfl) (by rfl) (Wrote.emit _ (by rfl) (by rfl) (Wrote.emit _ (by rfl) (by rfl)
              (Wrote.Error _ _ _ _ _)))
          · exact Wrote.emit _ (by rfl) (by rfl) (Wrote.emit _ (by rfl) (by rfl) (Wrote.emit _ (by rfl) (by rfl)
              (Wrote.Write _ _ _)))
      · split
        · exact Wrote.emit _ (by rfl) (by rfl) (Wrote.emit _ (by rfl) (by rfl) (Wrote.Error _ _ _ _ _))
        · exact Wrote.emit _ (by rfl) (by rfl) (Wrote.emit _ (by rfl) (by rfl) (Wrote.Write _ _ _))

theorem getPropertiesRespond_wrote (P : Prot) (E : Env) (w : requestResponseWriter)
    (base : MessageBase) (properties : Option Properties) (b : Bridge) :
    Wrote 1 w b (getPropertiesRespond P E w base properties b) := by
  unfold getPropertiesRespond
  split
  · exact Wrote.Write _ _ _
  · split
    · exact Wrote.Error _ _ _ _ _
    · exact Wrote.Write _ _ _

theorem getProperties_wrote (P : Prot) (E : Env) (w : requestResponseWriter) (r : Request)
    (b : Bridge) :
    Wrote (if Handler.nilBase E .getProperties r = true then 0 else 1) w b
      (getProperties P E w r b) := by
  unfold getProperties
  unfold Handler.nilBase
  dsimp only
  cases hdec : E.json.ContainerGetProperties r.Message with
  | error err => exact Wrote.Error _ _ _ _ _
  | ok request =>
    dsimp only
    cases hbase : request.MessageBase with
    | none =>
      show Wrote 0 w b _
      exact Wrote.panic _ _ _
    | some base =>
      show Wrote 1 w b _
      dsimp only
      split
      · exact Wrote.emit _ (by rfl) (by rfl) (getPropertiesRespond_wrote _ _ _ _ _ _)
      · try dsimp only
        split
        · exact Wrote.emit _ (by rfl) (by rfl) (Wrote.Error _ _ _ _ _)
        · exact Wrote.emit _ (by rfl) (by rfl) (getPropertiesRespond_wrote _ _ _ _ _ _)

theorem waitOnProcessSelect_wrote (P : Prot) (E : Env) (w : requestResponseWriter)
    (request : ContainerWaitForProcess) (base : MessageBase) (chans : WaitChans) (b : Bridge) :
    Wrote 1 w b (waitOnProcessSelect P E w request base chans b) := by
  unfold waitOnProcessSelect
  split
  · exact Wrote.done (Wrote.Write _ _ _)
  · exact Wrote.done (Wrote.Error _ _ _ _ _)

theorem waitOnProcess_wrote (P : Prot) (E : Env) (w : requestResponseWriter) (r : Request)
    (b : Bridge) :
    Wrote (if Handler.nilBase E .waitOnProcess r = true then 0 else 1) w b
      (waitOnProcess P E w r b) := by
  unfold waitOnProcess
  unfold Handler.nilBase
  dsimp only
  cases hdec : E.json.ContainerWaitForProcess r.Message with
  | error err => exact Wrote.Error _ _ _ _ _
  | ok request =>
    dsimp only
    cases hbase : request.MessageBase with
    | none =>
      show Wrote 0 w b _
      exact Wrote.panic _ _ _
    | some base =>
      show Wrote 1 w b _
      dsimp only
      split
      · split
        · exact Wrote.emit _ (by rfl) (by rfl) (Wrote.emit _ (by rfl) (by rfl) (Wrote.Error _ _ _ _ _))
        · exact Wrote.emit _ (by rfl) (by rfl) (Wrote.emit _ (by rfl) (by rfl) (Wrote.emit _ (by rfl) (by rfl)
            (waitOnProcessSelect_wrote _ _ _ _ _ _ _)))
      · split
        · exact Wrote.emit _ (by rfl) (by rfl) (Wrote.emit _ (by rfl) (by rfl) (Wrote.Error _ _ _ _ _))
        · exact Wrote.emit _ (by rfl) (by rfl) (Wrote.emit _ (by rfl) (by rfl)
            (waitOnProcessSelect_wrote _ _ _ _ _ _ _))

theorem resizeConsole_wrote (P : Prot) (E : Env) (w : requestResponseWriter) (r : Request)
    (b : Bridge) :
    Wrote (if Handler.nilBase E .resizeConsole r = true then 0 else 1) w b
      (resizeConsole P E w r b) := by
  unfold resizeConsole
  unfold Handler.nilBase
  dsimp only
  cases hdec : E.json.ContainerResizeConsole r.Message with
  | error err => exact Wrote.Error _ _ _ _ _
  | ok request =>
    dsimp only
    cases hbase : request.MessageBase with
    | none =>
      show Wrote 0 w b _
      dsimp only
      split
      · exact Wrote.emit _ (by rfl) (by rfl) (Wrote.panic _ _ _)
      · exact Wrote.emit _ (by rfl) (by rfl) (Wrote.panic _ _ _)
    | some base =>
      show Wrote 1 w b _
      dsimp only
      split
      · exact Wrote.emit _ (by rfl) (by rfl) (Wrote.Error _ _ _ _ _)
      · exact Wrote.emit _ (by rfl) (by rfl) (Wrote.Write _ _ _)

theorem modifySettings_wrote (P : Prot) (E : Env) (w : requestResponseWriter) (r : Request)
    (b : Bridge) :
    Wrote (if Handler.nilBase E .modifySettings r = true then 0 else 1) w b
      (modifySettings P E w r b) := by
  unfold modifySettings
  unfold Handler.nilBase
  dsimp only
  cases hdec : E.json.ContainerModifySettings r.Message with
  | error err => exact Wrote.Error _ _ _ _ _
  | ok request =>
    dsimp only
    cases hbase : request.MessageBase with
    | none =>
      show Wrote 0 w b _
      exact Wrote.panic _ _ _
    | some base =>
      show Wrote 1 w b _
      dsimp only
      split
      · try dsimp only
        split
        · exact Wrote.emit _ (by rfl) (by rfl) (Wrote.Error _ _ _ _ _)
        · exact Wrote.emit _ (by rfl) (by rfl) (Wrote.Write _ _ _)
      · split
        · exact Wrote.Error _ _ _ _ _
        · try dsimp only
          split
          · exact Wrote.emit _ (by rfl) (by rfl) (Wrote.Error _ _ _ _ _)
          · exact Wrote.emit _ (by rfl) (by rfl) (Wrote.Write _ _ _)
      · exact Wrote.Error _ _ _ _ _

/-! ### Requests without a `MessageBase` -/

theorem negotiateProtocol_nilBase (P : Prot) (E : Env) (w : requestResponseWriter) (r : Request)
    (b : Bridge) (request : NegotiateProtocol)
    (hdec : E.json.NegotiateProtocol r.Message = .ok request)
    (hbase : request.MessageBase = none) :
    negotiateProtocol P E w r b = (w, b.emit (.panic nilDereference)) := by
  simp only [negotiateProtocol, hdec, hbase]
  split <;> rfl

theorem createContainer_nilBase (P : Prot) (E : Env) (w : requestResponseWriter) (r : Request)
    (b : Bridge) (request : ContainerCreate)
    (hdec : E.json.ContainerCreate r.Message = .ok request)
    (hbase : request.MessageBase = none) :
    createContainer P E w r b = (w, b.emit (.panic nilDereference)) := by
  simp only [createContainer, hdec, hbase]

theorem execProcessRespond_nilBase (P : Prot) (w : requestResponseWriter)
    (request : ContainerExecuteProcess) (result : Except GoError Int) (b : Bridge)
    (hbase : request.MessageBase = none) :
    execProcessRespond P w request result b = (w, b.emit (.panic nilDereference)) := by
  simp only [execProcessRespond, hbase]

/-- Without a `MessageBase`, `execProcess` panics: after the call of
`RunExternalProcess` for an external process, and before any call otherwise. -/
theorem execProcess_nilBase (P : Prot) (E : Env) (w : requestResponseWriter) (r : Request)
    (b : Bridge) (request : ContainerExecuteProcess)
    (hdec : E.json.ContainerExecuteProcess r.Message = .ok request)
    (hbase : request.MessageBase = none) :
    execProcess P E w r b =
      (w, { b with trace := b.trace ++
        (match E.json.ProcessParameters request.Settings.ProcessParameters with
          | .ok params =>
            if params.IsExternal = true then
              [.coreRunExternalProcess params (execProcessConSettings request params)]
            else []
          | .error _ => []) ++ [.panic nilDereference] }) := by
  simp only [execProcess, hdec, hbase]
  cases hparams : E.json.ProcessParameters request.Settings.ProcessParameters with
  | error err => simp [Bridge.emit]
  | ok params =>
    dsimp only
    cases hext : params.IsExternal with
    | true => simp [execProcessRespond_nilBase, hbase, Bridge.emit]
    | false =>
      simp only [Bool.false_eq_true, if_false]
      split <;> simp [Bridge.emit]

theorem signalProcess_nilBase (P : Prot) (E : Env) (w : requestResponseWriter) (r : Request)
    (b : Bridge) (request : ContainerSignalProcess)
    (hdec : E.json.ContainerSignalProcess r.Message = .ok request)
    (hbase : request.MessageBase = none) :
    signalProcess P E w r b = (w, b.emit (.panic nilDereference)) := by
  simp only [signalProcess, hdec, hbase]

theorem getProperties_nilBase (P : Prot) (E : Env) (w : requestResponseWriter) (r : Request)
    (b : Bridge) (request : ContainerGetProperties)
    (hdec : E.json.ContainerGetProperties r.Message = .ok request)
    (hbase : request.MessageBase = none) :
    getProperties P E w r b = (w, b.emit (.panic nilDereference)) := by
  simp only [getProperties, hdec, hbase]

theorem waitOnProcess_nilBase (P : Prot) (E : Env) (w : requestResponseWriter) (r : Request)
    (b : Bridge) (request : ContainerWaitForProcess)
    (hdec : E.json.ContainerWaitForProcess r.Message = .ok request)
    (hbase : request.MessageBase = none) :
    waitOnProcess P E w r b = (w, b.emit (.panic nilDereference)) := by
  simp only [waitOnProcess, hdec, hbase]

/-- Without a `MessageBase`, `resizeConsole` panics after the call of
`ResizeConsole`. -/
theorem resizeConsole_nilBase (P : Prot) (E : Env) (w : requestResponseWriter) (r : Request)
    (b : Bridge) (request : ContainerResizeConsole)
    (hdec : E.json.ContainerResizeConsole r.Message = .ok request)
    (hbase : request.MessageBase = none) :
    resizeConsole P E w r b =
      (w, { b with trace := b.trace ++
        [.coreResizeConsole (request.ProcessID : Int) request.Height request.Width,
         .panic nilDereference] }) := by
  simp only [resizeConsole, hdec, hbase]
  split <;> simp [Bridge.emit]

theorem modifySettings_nilBase (P : Prot) (E : Env) (w : requestResponseWriter) (r : Request)
    (b : Bridge) (request : ContainerModifySettings)
    (hdec : E.json.ContainerModifySettings r.Message = .ok request)
    (hbase : request.MessageBase = none) :
    modifySettings P E w r b = (w, b.emit (.panic nilDereference)) := by
  simp only [modifySettings, hdec, hbase]

/-- A request that decodes without a `MessageBase` makes its handler panic: the
writer is untouched, and the trace gains at most one collaborator call (the one
that takes nothing of the `MessageBase`) and then the panic. -/
theorem Handler.ServeMsg_nilBase (P : Prot) (E : Env) (h : Handler) (w : requestResponseWriter)
    (r : Request) (b : Bridge) (hn : h.nilBase E r = true) :
    ∃ calls, h.ServeMsg P E w r b =
        (w, { b with trace := b.trace ++ calls ++ [.panic nilDereference] }) ∧
      (∀ e ∈ calls, e.isCollaboratorCall = true) ∧ calls.length ≤ 1 := by
  cases h with
  | negotiateProtocol =>
    simp only [Handler.nilBase] at hn
    cases hdec : E.json.NegotiateProtocol r.Message with
    | error err => simp [hdec] at hn
    | ok request =>
      simp only [hdec, Option.isNone_iff_eq_none] at hn
      exact ⟨[], by simp [Handler.ServeMsg, negotiateProtocol_nilBase P E w r b request hdec hn,
        Bridge.emit], by simp, by simp⟩
  | createContainer =>
    simp only [Handler.nilBase] at hn
    cases hdec : E.json.ContainerCreate r.Message with
    | error err => simp [hdec] at hn
    | ok request =>
      simp only [hdec, Option.isNone_iff_eq_none] at hn
      exact ⟨[], by simp [Handler.ServeMsg, createContainer_nilBase P E w r b request hdec hn,
        Bridge.emit], by simp, by simp⟩
  | execProcess =>
    simp only [Handler.nilBase] at hn
    cases hdec : E.json.ContainerExecuteProcess r.Message with
    | error err => simp [hdec] at hn
    | ok request =>
      simp only [hdec, Option.isNone_iff_eq_none] at hn
      refine ⟨_, execProcess_nilBase P E w r b request hdec hn, ?_, ?_⟩
      · intro e he
        split at he
        · split at he
          · simp only [List.mem_singleton] at he
            rw [he]
            rfl
          · simp at he
        · simp at he
      · split
        · split <;> simp
        · simp
  | signalProcess =>
    simp only [Handler.nilBase] at hn
    cases hdec : E.json.ContainerSignalProcess r.Message with
    | error err => simp [hdec] at hn
    | ok request =>
      simp only [hdec, Option.isNone_iff_eq_none] at hn
      exact ⟨[], by simp [Handler.ServeMsg, signalProcess_nilBase P E w r b request hdec hn,
        Bridge.emit], by simp, by simp⟩
  | getProperties =>
    simp only [Handler.nilBase] at hn
    cases hdec : E.json.ContainerGetProperties r.Message with
    | error err => simp [hdec] at hn
    | ok request =>
      simp only [hdec, Option.isNone_iff_eq_none] at hn
      exact ⟨[], by simp [Handler.ServeMsg, getProperties_nilBase P E w r b request hdec hn,
        Bridge.emit], by simp, by simp⟩
  | waitOnProcess =>
    simp only [Handler.nilBase] at hn
    cases hdec : E.json.ContainerWaitForProcess r.Message with
    | error err => simp [hdec] at hn
    | ok request =>
      simp only [hdec, Option.isNone_iff_eq_none] at hn
      exact ⟨[], by simp [Handler.ServeMsg, waitOnProcess_nilBase P E w r b request hdec hn,
        Bridge.emit], by simp, by simp⟩
  | resizeConsole =>
    simp only [Handler.nilBase] at hn
    cases hdec : E.json.ContainerResizeConsole r.Message with
    | error err => simp [hdec] at hn
    | ok request =>
      simp only [hdec, Option.isNone_iff_eq_none] at hn
      exact ⟨[.coreResizeConsole (request.ProcessID : Int) request.Height request.Width],
        by simp [Handler.ServeMsg, resizeConsole_nilBase P E w r b request hdec hn],
        by simp [Event.isCollaboratorCall], by simp⟩
  | modifySettings =>
    simp only [Handler.nilBase] at hn
    cases hdec : E.json.ContainerModifySettings r.Message with
    | error err => simp [hdec] at hn
    | ok request =>
      simp only [hdec, Option.isNone_iff_eq_none] at hn
      exact ⟨[], by simp [Handler.ServeMsg, modifySettings_nilBase P E w r b request hdec hn,
        Bridge.emit], by simp, by simp⟩
  | UnknownMessage => simp [Handler.nilBase] at hn
  | startContainer => simp [Handler.nilBase] at hn
  | killContainer => simp [Handler.nilBase] at hn
  | shutdownContainer => simp [Handler.nilBase] at hn
  | func ops => simp [Handler.nilBase] at hn

/-! ### The selected protocol version -/

@[simp] theorem Bridge.emit_protVer (b : Bridge) (e : Event) : (b.emit e).protVer = b.protVer := rfl

@[simp] theorem requestResponseWriter.Write_protVer (w : requestResponseWriter) (r : Payload)
    (b : Bridge) : (w.Write r b).2.protVer = b.protVer := rfl

@[simp] theorem requestResponseWriter.Error_protVer (P : Prot) (w : requestResponseWriter)
    (a : String) (err : GoError) (b : Bridge) : (w.Error P a err b).2.protVer = b.protVer := rfl

@[simp] theorem waitOnProcessDone_protVer (wb : requestResponseWriter × Bridge) :
    (waitOnProcessDone wb).2.protVer = wb.2.protVer := rfl

theorem UnknownMessage_protVer (P : Prot) (E : Env) (w : requestResponseWriter) (r : Request)
    (b : Bridge) : (UnknownMessage P E w r b).2.protVer = b.protVer := rfl

theorem startContainer_protVer (P : Prot) (E : Env) (w : requestResponseWriter) (r : Request)
    (b : Bridge) : (startContainer P E w r b).2.protVer = b.protVer := by
  unfold startContainer
  split <;> simp

theorem execProcessRespond_protVer (P : Prot) (w : requestResponseWriter)
    (request : ContainerExecuteProcess) (result : Except GoError Int) (b : Bridge) :
    (execProcessRespond P w request result b).2.protVer = b.protVer := by
  unfold execProcessRespond
  split
  · rfl
  · split <;> simp

theorem execProcess_protVer (P : Prot) (E : Env) (w : requestResponseWriter) (r : Request)
    (b : Bridge) : (execProcess P E w r b).2.protVer = b.protVer := by
  unfold execProcess
  repeat' split
  all_goals try dsimp only
  all_goals repeat' split
  all_goals simp [execProcessRespond_protVer]

theorem signalContainer_protVer (P : Prot) (E : Env) (w : requestResponseWriter) (r : Request)
    (signal : Int) (b : Bridge) : (signalContainer P E w r signal b).2.protVer = b.protVer := by
  unfold signalContainer
  repeat' split
  all_goals try dsimp only
  all_goals repeat' split
  all_goals simp

theorem signalProcess_protVer (P : Prot) (E : Env) (w : requestResponseWriter) (r : Request)
    (b : Bridge) : (signalProcess P E w r b).2.protVer = b.protVer := by
  unfold signalProcess
  repeat' split
  all_goals try dsimp only
  all_goals repeat' split
  all_goals simp

theorem getPropertiesRespond_protVer (P : Prot) (E : Env) (w : requestResponseWriter)
    (base : MessageBase) (properties : Option Properties) (b : Bridge) :
    (getPropertiesRespond P E w base properties b).2.protVer = b.protVer := by
  unfold getPropertiesRespond
  repeat' split
  all_goals try dsimp only
  all_goals repeat' split
  all_goals simp

theorem getProperties_protVer (P : Prot) (E : Env) (w : requestResponseWriter) (r : Request)
    (b : Bridge) : (getProperties P E w r b).2.protVer = b.protVer := by
  unfold getProperties
  repeat' split
  all_goals try dsimp only
  all_goals repeat' split
  all_goals simp [getPropertiesRespond_protVer]

theorem waitOnProcessSelect_protVer (P : Prot) (E : Env) (w : requestResponseWriter)
    (request : ContainerWaitForProcess) (base : MessageBase) (chans : WaitChans) (b : Bridge) :
    (waitOnProcessSelect P E w request base chans b).2.protVer = b.protVer := by
  unfold waitOnProcessSelect
  split <;> simp

theorem waitOnProcess_protVer (P : Prot) (E : Env) (w : requestResponseWriter) (r : Request)
    (b : Bridge) : (waitOnProcess P E w r b).2.protVer = b.protVer := by
  unfold waitOnProcess
  repeat' split
  all_goals try dsimp only
  all_goals repeat' split
  all_goals simp [waitOnProcessSelect_protVer]

theorem resizeConsole_protVer (P : Prot) (E : Env) (w : requestResponseWriter) (r : Request)
    (b : Bridge) : (resizeConsole P E w r b).2.protVer = b.protVer := by
  unfold resizeConsole
  repeat' split
  all_goals try dsimp only
  all_goals repeat' split
  all_goals simp

theorem modifySettings_protVer (P : Prot) (E : Env) (w : requestResponseWriter) (r : Request)
    (b : Bridge) : (modifySettings P E w r b).2.protVer = b.protVer := by
  unfold modifySettings
  repeat' split
  all_goals try dsimp only
  all_goals repeat' split
  all_goals simp

theorem WriterOp.run_protVer (P : Prot) (op : WriterOp) (wb : requestResponseWriter × Bridge) :
    (op.run P wb).2.protVer = wb.2.protVer := by
  cases op <;> rfl

theorem func_protVer (P : Prot) (ops : List WriterOp) (wb : requestResponseWriter × Bridge) :
    (ops.foldl (fun wb op => op.run P wb) wb).2.protVer = wb.2.protVer := by
  induction ops generalizing wb with
  | nil => rfl
  | cons op ops ih => rw [List.foldl_cons, ih, WriterOp.run_protVer]

theorem createContainerNotify_protVer (w : requestResponseWriter) (base : MessageBase)
    (response : ContainerCreateResponse) (exitCodeFn : Option Int) (b : Bridge) :
    (createContainerNotify w base response exitCodeFn b).2.protVer =
      if b.protVer = PvInvalid then PvV3 else b.protVer := rfl

theorem createContainerRespond_protVer (E : Env) (w : requestResponseWriter)
    (base : MessageBase) (exitCodeFn : Option Int) (wasV2Config : Bool) (b : Bridge) :
    (createContainerRespond E w base exitCodeFn wasV2Config b).2.protVer =
      if b.protVer = PvInvalid then PvV3 else b.protVer := by
  unfold createContainerRespond
  dsimp only
  split <;> simp [createContainerNotify_protVer]

theorem createContainerFallback_protVer (P : Prot) (E : Env) (w : requestResponseWriter)
    (request : ContainerCreate) (base : MessageBase) (exitCodeFn : Option Int)
    (wasV2Config : Bool) (b : Bridge) :
    (createContainerFallback P E w request base exitCodeFn wasV2Config b).2.protVer = b.protVer ∨
    (createContainerFallback P E w request base exitCodeFn wasV2Config b).2.protVer =
      if b.protVer = PvInvalid then PvV3 else b.protVer := by
  unfold createContainerFallback
  dsimp only
  split
  · split
    · exact Or.inl rfl
    · split
      · exact Or.inl rfl
      · right
        rw [createContainerRespond_protVer]
        rfl
  · right
    rw [createContainerRespond_protVer]

/-- What `createContainer` does to the selected version: nothing, or `PvV3`
when it was still `PvInvalid`. -/
theorem createContainer_protVer (P : Prot) (E : Env) (w : requestResponseWriter) (r : Request)
    (b : Bridge) :
    (createContainer P E w r b).2.protVer = b.protVer ∨
    (b.protVer = PvInvalid ∧ (createContainer P E w r b).2.protVer = PvV3) := by
  have key : ∀ (request : ContainerCreate) (base : MessageBase) (exitCodeFn : Option Int)
      (wasV2Config : Bool) (b0 : Bridge), b0.protVer = b.protVer →
      (createContainerFallback P E w request base exitCodeFn wasV2Config b0).2.protVer =
        b.protVer ∨
      (b.protVer = PvInvalid ∧
        (createContainerFallback P E w request base exitCodeFn wasV2Config b0).2.protVer =
          PvV3) := by
    intro request base exitCodeFn wasV2Config b0 hb0
    rcases createContainerFallback_protVer P E w request base exitCodeFn wasV2Config b0
      with h | h
    · exact Or.inl (h.trans hb0)
    · by_cases hz : b.protVer = PvInvalid
      · right
        refine ⟨hz, ?_⟩
        rw [h, hb0, if_pos hz]
      · left
        rw [h, hb0, if_neg hz]
  unfold createContainer
  split
  · exact Or.inl rfl
  · split
    · exact Or.inl rfl
    · split
      · exact Or.inl rfl
      · dsimp only
        split
        · split
          · exact Or.inl rfl
          · split
            · split
              · exact Or.inl rfl
              · exact key _ _ _ _ _ rfl
            · exact key _ _ _ _ _ rfl
        · exact key _ _ _ _ _ rfl

/-- What `negotiateProtocol` does to the selected version: nothing, or, for a
decodable request, `min(PvMax, MaximumVersion)`. -/
theorem negotiateProtocol_protVer (P : Prot) (E : Env) (w : requestResponseWriter) (r : Request)
    (b : Bridge) :
    (negotiateProtocol P E w r b).2.protVer = b.protVer ∨
    ∃ request, E.json.NegotiateProtocol r.Message = .ok request ∧
      (negotiateProtocol P E w r b).2.protVer = min P.PvMax request.MaximumVersion := by
  unfold negotiateProtocol
  split
  · exact Or.inl rfl
  · rename_i request hdec
    split
    · split
      · exact Or.inl rfl
      · exact Or.inl rfl
    · dsimp only
      split
      · exact Or.inl rfl
      · right
        refine ⟨request, hdec, ?_⟩
        simp only [requestResponseWriter.Write_protVer]
        by_cases hlt : P.PvMax < request.MaximumVersion
        · rw [if_pos hlt, Nat.min_eq_left (Nat.le_of_lt hlt)]
        · rw [if_neg hlt, Nat.min_eq_right (Nat.le_of_not_lt hlt)]

/-- Every handler but `negotiateProtocol` and `createContainer` leaves the
selected version as it was. -/
theorem Handler.ServeMsg_protVer (P : Prot) (E : Env) (h : Handler) (w : requestResponseWriter)
    (r : Request) (b : Bridge) (h1 : h ≠ .negotiateProtocol) (h2 : h ≠ .createContainer) :
    (h.ServeMsg P E w r b).2.protVer = b.protVer := by
  cases h with
  | UnknownMessage => rfl
  | negotiateProtocol => exact absurd rfl h1
  | createContainer => exact absurd rfl h2
  | startContainer => exact startContainer_protVer P E w r b
  | execProcess => exact execProcess_protVer P E w r b
  | killContainer => exact signalContainer_protVer P E w r SIGKILL b
  | shutdownContainer => exact signalContainer_protVer P E w r SIGTERM b
  | signalProcess => exact signalProcess_protVer P E w r b
  | getProperties => exact getProperties_protVer P E w r b
  | waitOnProcess => exact waitOnProcess_protVer P E w r b
  | resizeConsole => exact resizeConsole_protVer P E w r b
  | modifySettings => exact modifySettings_protVer P E w r b
  | func ops => exact func_protVer P ops (w, b)

/-! ### The handler table -/

theorem Mux.Handler_eq_find (mux : Mux) (r : Request) :
    mux.Handler r = (mux.find r.Header.Type_ r.Version).getD UnknownMessageHandler := by
  unfold Mux.Handler Mux.find
  cases mux.m r.Header.Type_ with
  | none => rfl
  | some m =>
    dsimp only
    cases hv : m r.Version <;> simp

theorem Mux.find_Handle (mux : Mux) (id ver : Nat) (h : OpenGCS.Handler) (id2 ver2 : Nat) :
    (mux.Handle id ver (some h)).1.find id2 ver2 =
      if id2 = id ∧ ver2 = ver then some h else mux.find id2 ver2 := by
  unfold Mux.find Mux.Handle GoMap.set
  by_cases hid : id2 = id
  · subst hid
    by_cases hver : ver2 = ver
    · subst hver
      cases hm : mux.m id2 <;> simp [hm]
    · cases hm : mux.m id2 <;> simp [hm, hver, GoMap.make]
  · cases hm : mux.m id <;> simp [hm, hid]

theorem Mux.Handle_some_ok (mux : Mux) (id ver : Nat) (h : OpenGCS.Handler) :
    (mux.Handle id ver (some h)).2 = none := rfl

theorem Mux.HandleFunc_some (mux : Mux) (id ver : Nat) (h : OpenGCS.Handler) :
    mux.HandleFunc id ver (some h) = mux.Handle id ver (some h) := rfl

theorem Mux.find_NewBridgeMux (id ver : Nat) : NewBridgeMux.find id ver = none := rfl

theorem Mux.find_registerAll (regs : List (Nat × Nat × OpenGCS.Handler)) (mux : Mux)
    (id ver : Nat) :
    (mux.registerAll regs).find id ver =
      match lastRegistered regs id ver with
      | some h => some h
      | none => mux.find id ver := by
  induction regs generalizing mux with
  | nil => rfl
  | cons reg rest ih =>
    rw [Mux.registerAll, ih, Mux.find_Handle]
    unfold lastRegistered
    rw [List.reverse_cons, List.find?_append]
    cases hrest : List.find? (fun reg => decide (reg.1 = id ∧ reg.2.1 = ver)) rest.reverse with
    | some found => simp
    | none =>
      by_cases hk : id = reg.1 ∧ ver = reg.2.1
      · obtain ⟨h1, h2⟩ := hk
        simp [h1, h2]
      · have hk2 : ¬ (reg.1 = id ∧ reg.2.1 = ver) := fun h => hk ⟨h.1.symm, h.2.symm⟩
        simp [hk, hk2]

theorem lastRegistered_eq_none (regs : List (Nat × Nat × OpenGCS.Handler)) (id ver : Nat) :
    lastRegistered regs id ver = none ↔ ∀ reg ∈ regs, ¬ (reg.1 = id ∧ reg.2.1 = ver) := by
  unfold lastRegistered
  simp [List.find?_eq_none]

/-! ### Headers of the responses -/

/-- Every handler of the bridge writes at most once, with the header of its
writer: once, except for a kill or shutdown addressed to the UVM and for a
request that decodes without a `MessageBase`. -/
theorem Handler.ServeMsg_wrote (P : Prot) (E : Env) (h : Handler) (hh : h.ofBridge = true)
    (w : requestResponseWriter) (r : Request) (b : Bridge) :
    Wrote (if isUVMSignal P E h r = true ∨ h.nilBase E r = true then 0 else 1) w b
      (h.ServeMsg P E w r b) := by
  have hsig : ∀ signal : Int,
      Wrote (if (match E.json.MessageBase r.Message with
          | .ok request => decide (request.ContainerID = P.UVMContainerID)
          | .error _ => false) = true then 0 else 1) w b (signalContainer P E w r signal b) := by
    intro signal
    have hs := signalContainer_wrote P E w r signal b
    cases hdec : E.json.MessageBase r.Message with
    | error err =>
      rw [hdec] at hs
      simpa using hs
    | ok request =>
      rw [hdec] at hs
      by_cases huvm : request.ContainerID = P.UVMContainerID
      · simpa [huvm] using hs
      · simpa [huvm] using hs
  cases h with
  | UnknownMessage => exact UnknownMessage_wrote P E w r b
  | negotiateProtocol =>
    simpa [isUVMSignal, Handler.ServeMsg] using negotiateProtocol_wrote P E w r b
  | createContainer =>
    simpa [isUVMSignal, Handler.ServeMsg] using createContainer_wrote P E w r b
  | startContainer => exact startContainer_wrote P E w r b
  | execProcess => simpa [isUVMSignal, Handler.ServeMsg] using execProcess_wrote P E w r b
  | killContainer =>
    simpa [isUVMSignal, Handler.nilBase, Handler.ServeMsg, killContainer] using hsig SIGKILL
  | shutdownContainer =>
    simpa [isUVMSignal, Handler.nilBase, Handler.ServeMsg, shutdownContainer] using hsig SIGTERM
  | signalProcess => simpa [isUVMSignal, Handler.ServeMsg] using signalProcess_wrote P E w r b
  | getProperties => simpa [isUVMSignal, Handler.ServeMsg] using getProperties_wrote P E w r b
  | waitOnProcess => simpa [isUVMSignal, Handler.ServeMsg] using waitOnProcess_wrote P E w r b
  | resizeConsole => simpa [isUVMSignal, Handler.ServeMsg] using resizeConsole_wrote P E w r b
  | modifySettings =>
    simpa [isUVMSignal, Handler.ServeMsg] using modifySettings_wrote P E w r b
  | func ops => exact absurd hh (by simp [Handler.ofBridge])

/-- A handler function that does not store into the header writes only
responses that carry the header of its writer. -/
theorem func_header (P : Prot) (ops : List WriterOp)
    (hops : (Handler.func ops).storesHeader = false) (w : requestResponseWriter) (b : Bridge) :
    ∃ new, (ops.foldl (fun wb op => op.run P wb) (w, b)).2.trace = b.trace ++ new ∧
      ∀ resp ∈ new.filterMap Event.response?, resp.header = w.header := by
  induction ops generalizing w b with
  | nil => exact ⟨[], by simp, by simp⟩
  | cons op ops ih =>
    have hrest : (Handler.func ops).storesHeader = false := by
      simp only [Handler.storesHeader, List.any_cons, Bool.or_eq_false_iff] at hops ⊢
      exact hops.2
    have step : ∀ x : Payload,
        ∃ new, (ops.foldl (fun wb op => op.run P wb) (w.Write x b)).2.trace = b.trace ++ new ∧
          ∀ resp ∈ new.filterMap Event.response?, resp.header = w.header := by
      intro x
      obtain ⟨new, h1, h2⟩ := ih hrest (w.Write x b).1 (w.Write x b).2
      refine ⟨.respSend { header := w.header, response := x } :: new, ?_, ?_⟩
      · simpa [requestResponseWriter.Write, Bridge.emit] using h1
      · intro resp hresp
        simp only [List.filterMap_cons, Event.response?, List.mem_cons] at hresp
        rcases hresp with hresp | hresp
        · rw [hresp]
        · exact h2 resp hresp
    rw [List.foldl_cons]
    cases op with
    | Write x => exact step x
    | Error a err => exact step _
    | storeHeader hd => simp [Handler.storesHeader] at hops

/-- Any handler that does not store into the header writes only responses that
carry the header of its writer. -/
theorem Handler.ServeMsg_header (P : Prot) (E : Env) (h : Handler)
    (hh : h.storesHeader = false) (w : requestResponseWriter) (r : Request) (b : Bridge) :
    ∃ new, (h.ServeMsg P E w r b).2.trace = b.trace ++ new ∧
      ∀ resp ∈ new.filterMap Event.response?, resp.header = w.header := by
  by_cases hb : h.ofBridge = true
  · obtain ⟨_, new, h1, h2, _⟩ := Handler.ServeMsg_wrote P E h hb w r b
    exact ⟨new, h1, h2⟩
  · cases h with
    | func ops => exact func_header P ops hh w b
    | _ => exact absurd rfl hb

/-- C1 (as amended): for every request `r` served by the dispatch engine through
a mux none of whose registered handlers stores into the header obtained from
`Header()` (no handler of the bridge does), every response enqueued while `r`
is served carries a header whose `Type` is `GetResponseIdentifier(r.Header.Type)`
and whose `ID` is `r.Header.ID`. -/
theorem ListenAndServe.serve_response_header (P : Prot) (E : Env) (mux : Mux) (r : Request)
    (b : Bridge)
    (hmux : ∀ id ver h, mux.find id ver = some h → Handler.storesHeader h = false) :
    ∃ new, (ListenAndServe.serve P (mux.ServeMsg P E) r b).2.trace = b.trace ++ new ∧
      ∀ resp ∈ new.filterMap Event.response?,
        resp.header.Type_ = P.GetResponseIdentifier r.Header.Type_ ∧
        resp.header.ID = r.Header.ID := by
  have hh : Handler.storesHeader (mux.Handler r) = false := by
    rw [Mux.Handler_eq_find]
    cases hf : mux.find r.Header.Type_ r.Version with
    | none => rfl
    | some h => exact hmux _ _ h hf
  obtain ⟨new, h1, h2⟩ := Handler.ServeMsg_header P E (mux.Handler r) hh
    { header := { Type_ := P.GetResponseIdentifier r.Header.Type_, Size := 0, ID := r.Header.ID } }
    r b
  refine ⟨new, h1, ?_⟩
  intro resp hresp
  rw [h2 resp hresp]
  exact ⟨rfl, rfl⟩

/-- Witness for C1: the mux filled with one handler function that writes twice,
serving a create request with correlation id 7. -/
theorem ListenAndServe.serve_response_header_witness :
    ∃ new, (ListenAndServe.serve protSample
        (Mux.ServeMsg protSample sampleEnv
          (NewBridgeMux.HandleFunc 1 0
            (some (.func [.Write (.other 0), .Error "" sampleError]))).1)
        { Header := { Type_ := 1, Size := 16, ID := 7 }, Message := [], Version := 0 }
        { }).2.trace = ([] : List Event) ++ new ∧
      ∀ resp ∈ new.filterMap Event.response?,
        resp.header.Type_ = protSample.GetResponseIdentifier 1 ∧ resp.header.ID = 7 :=
  ListenAndServe.serve_response_header protSample sampleEnv _
    { Header := { Type_ := 1, Size := 16, ID := 7 }, Message := [], Version := 0 } { }
    (by
      intro id ver h hf
      rw [Mux.HandleFunc_some, Mux.find_Handle, Mux.find_NewBridgeMux] at hf
      split at hf
      · cases hf
        rfl
      · cases hf)

/-- Counterexample to C1 as stated: a handler that stores into the header it
gets from `Header()` and then writes; the enqueued response carries neither the
response identifier nor the id of the request. -/
theorem ListenAndServe.stored_header_is_enqueued :
    ¬ ∀ resp ∈ (ListenAndServe.serve protSample
        (Mux.ServeMsg protSample sampleEnv
          (NewBridgeMux.HandleFunc 1 0
            (some (.func [.storeHeader { Type_ := 0, Size := 0, ID := 99 },
              .Write (.other 0)]))).1)
        { Header := { Type_ := 1, Size := 16, ID := 7 }, Message := [], Version := 0 }
        { }).2.responseChan,
      resp.header.Type_ = protSample.GetResponseIdentifier 1 ∧ resp.header.ID = 7 := by
  decide

/-- Counterexample to C2 as stated: a negotiation request whose payload decodes
without a `MessageBase` (it has neither a `ContainerId` nor an `ActivityId`
key).  `negotiateProtocol` panics when it reads `request.ActivityID`: no
response is written. -/
theorem negotiateProtocol_without_MessageBase_writes_nothing :
    sampleEnvNilBase.json.NegotiateProtocol [4, 4] =
      .ok { MessageBase := none, MinimumVersion := 4, MaximumVersion := 4 } ∧
    Handler.negotiateProtocol.ServeMsg protSample sampleEnvNilBase
        { header := { Type_ := 2, Size := 0, ID := 7 } }
        { Header := { Type_ := 1, Size := 18, ID := 7 }, Message := [4, 4], Version := 0 }
        { } =
      ({ header := { Type_ := 2, Size := 0, ID := 7 }, respWritten := false },
        { protVer := 0, trace := [.panic nilDereference] }) ∧
    (Handler.negotiateProtocol.ServeMsg protSample sampleEnvNilBase
        { header := { Type_ := 2, Size := 0, ID := 7 } }
        { Header := { Type_ := 1, Size := 18, ID := 7 }, Message := [4, 4], Version := 0 }
        { }).2.responseChan = [] :=
  ⟨rfl, rfl, rfl⟩

/-- C2 (as amended): every handler registered by `AssignHandlers`, and
`UnknownMessage`, calls `Write` on its response writer exactly once for every
request and every outcome of the collaborators (one send on the response
channel, with the writer marked written), with two exceptions, in which
nothing is written: `killContainer` and `shutdownContainer` on a decodable
request addressed to the UVM; and a request whose payload decodes without a
`MessageBase`, on which the handler panics, after at most one collaborator
call, when it reads `ContainerID` or `ActivityID`. -/
theorem Handler.ServeMsg_writes_once (P : Prot) (E : Env) (h : Handler)
    (w : requestResponseWriter) (r : Request) (b : Bridge) (hh : h.ofBridge = true) :
    ∃ new, (h.ServeMsg P E w r b).2.trace = b.trace ++ new ∧
      (isUVMSignal P E h r = false → h.nilBase E r = false →
        (new.filterMap Event.response?).length = 1 ∧
        (h.ServeMsg P E w r b).1.respWritten = true ∧
        new.filterMap Event.panic? = []) ∧
      (isUVMSignal P E h r = true →
        (new.filterMap Event.response?).length = 0 ∧
        (h.ServeMsg P E w r b).1.respWritten = w.respWritten) ∧
      (h.nilBase E r = true →
        (new.filterMap Event.response?).length = 0 ∧
        (h.ServeMsg P E w r b).1.respWritten = w.respWritten ∧
        ∃ calls, new = calls ++ [.panic nilDereference] ∧ calls.length ≤ 1 ∧
          ∀ e ∈ calls, e.isCollaboratorCall = true) := by
  obtain ⟨_, new, h1, _, h3, h4, h5, h6⟩ := Handler.ServeMsg_wrote P E h hh w r b
  refine ⟨new, h1, ?_, ?_, ?_⟩
  · intro hs hn
    rw [hs, hn] at h3 h4 h6
    exact ⟨h3, h4 (by decide), h6 (by decide)⟩
  · intro hs
    rw [hs] at h3 h5
    exact ⟨h3, h5 rfl⟩
  · intro hn
    rw [hn] at h3 h5
    refine ⟨by simpa using h3, h5 (by simp), ?_⟩
    obtain ⟨calls, hrun, hcalls, hlen⟩ := Handler.ServeMsg_nilBase P E h w r b hn
    refine ⟨calls, ?_, hlen, hcalls⟩
    rw [hrun] at h1
    simp only [List.append_assoc] at h1
    exact (List.append_cancel_left h1).symm

/-- Witness for C2: `createContainer` on a legacy create request, and
`killContainer` on a request addressed to the UVM. -/
theorem Handler.ServeMsg_writes_once_witness :
    (∃ new, (Handler.createContainer.ServeMsg protSample sampleEnv
        { header := { Type_ := 2, Size := 0, ID := 7 } }
        { Header := { Type_ := 1, Size := 16, ID := 7 }, Message := [0], Version := 0 }
        { }).2.trace = ([] : List Event) ++ new ∧
      (isUVMSignal protSample sampleEnv .createContainer
          { Header := { Type_ := 1, Size := 16, ID := 7 }, Message := [0], Version := 0 } = false →
        Handler.createContainer.nilBase sampleEnv
          { Header := { Type_ := 1, Size := 16, ID := 7 }, Message := [0], Version := 0 } = false →
        (new.filterMap Event.response?).length = 1 ∧
        (Handler.createContainer.ServeMsg protSample sampleEnv
          { header := { Type_ := 2, Size := 0, ID := 7 } }
          { Header := { Type_ := 1, Size := 16, ID := 7 }, Message := [0], Version := 0 }
          { }).1.respWritten = true ∧
        new.filterMap Event.panic? = []) ∧
      (isUVMSignal protSample sampleEnv .createContainer
          { Header := { Type_ := 1, Size := 16, ID := 7 }, Message := [0], Version := 0 } = true →
        (new.filterMap Event.response?).length = 0 ∧
        (Handler.createContainer.ServeMsg protSample sampleEnv
          { header := { Type_ := 2, Size := 0, ID := 7 } }
          { Header := { Type_ := 1, Size := 16, ID := 7 }, Message := [0], Version := 0 }
          { }).1.respWritten = false) ∧
      (Handler.createContainer.nilBase sampleEnv
          { Header := { Type_ := 1, Size := 16, ID := 7 }, Message := [0], Version := 0 } = true →
        (new.filterMap Event.response?).length = 0 ∧
        (Handler.createContainer.ServeMsg protSample sampleEnv
          { header := { Type_ := 2, Size := 0, ID := 7 } }
          { Header := { Type_ := 1, Size := 16, ID := 7 }, Message := [0], Version := 0 }
          { }).1.respWritten = false ∧
        ∃ calls, new = calls ++ [.panic nilDereference] ∧ calls.length ≤ 1 ∧
          ∀ e ∈ calls, e.isCollaboratorCall = true)) ∧
    isUVMSignal protSample sampleEnv .createContainer
      { Header := { Type_ := 1, Size := 16, ID := 7 }, Message := [0], Version := 0 } = false ∧
    Handler.createContainer.nilBase sampleEnv
      { Header := { Type_ := 1, Size := 16, ID := 7 }, Message := [0], Version := 0 } = false ∧
    isUVMSignal protSample sampleEnv .killContainer
      { Header := { Type_ := 1, Size := 16, ID := 7 }, Message := [0], Version := 4 } = true ∧
    Handler.resizeConsole.nilBase sampleEnvNilBase
      { Header := { Type_ := 1, Size := 16, ID := 7 }, Message := [], Version := 4 } = true :=
  ⟨Handler.ServeMsg_writes_once protSample sampleEnv .createContainer
      { header := { Type_ := 2, Size := 0, ID := 7 } }
      { Header := { Type_ := 1, Size := 16, ID := 7 }, Message := [0], Version := 0 } { } rfl,
    by decide, by decide, by decide, by decide⟩

/-- Counterexample to C3 as stated: after `UnknownMessageHandler()` itself was
registered under a key, the lookup returns the `UnknownMessage` handler although
a handler was registered under exactly that key. -/
theorem Mux.registered_UnknownMessage_is_returned :
    ¬ ((NewBridgeMux.registerAll [(1, 0, UnknownMessageHandler)]).Handler
          { Header := { Type_ := 1, Size := 16, ID := 7 }, Message := [], Version := 0 } =
        UnknownMessageHandler ↔
      ∀ reg ∈ [((1 : Nat), (0 : Nat), UnknownMessageHandler)], ¬ (reg.1 = 1 ∧ reg.2.1 = 0)) := by
  decide

/-- C3 (as amended): the mux is a finite map with a default.  After any sequence
of registrations with non-nil handlers (none of which panics), `Mux.Handler(r)`
is the handler most recently registered under `(r.Header.Type, r.Version)`, and
the `UnknownMessage` handler when there is none; the lookup finds no entry
exactly when no handler was registered under exactly that key, so a result
that is the `UnknownMessage` handler means that the key was never registered or
that this very handler was the last one registered under it; a registration
under another key does not change the result; `HandleFunc` with a non-nil
function registers like `Handle`. -/
theorem Mux.Handler_registerAll (regs : List (Nat × Nat × OpenGCS.Handler)) (r : Request) :
    (NewBridgeMux.registerAll regs).Handler r =
      (lastRegistered regs r.Header.Type_ r.Version).getD UnknownMessageHandler ∧
    ((NewBridgeMux.registerAll regs).find r.Header.Type_ r.Version = none ↔
      ∀ reg ∈ regs, ¬ (reg.1 = r.Header.Type_ ∧ reg.2.1 = r.Version)) ∧
    ((∀ reg ∈ regs, ¬ (reg.1 = r.Header.Type_ ∧ reg.2.1 = r.Version)) →
      (NewBridgeMux.registerAll regs).Handler r = UnknownMessageHandler) ∧
    ((NewBridgeMux.registerAll regs).Handler r = UnknownMessageHandler →
      (∀ reg ∈ regs, ¬ (reg.1 = r.Header.Type_ ∧ reg.2.1 = r.Version)) ∨
      lastRegistered regs r.Header.Type_ r.Version = some UnknownMessageHandler) ∧
    (∀ (mux : Mux) (id ver : Nat) (h : OpenGCS.Handler),
      (mux.Handle id ver (some h)).2 = none ∧
      mux.HandleFunc id ver (some h) = mux.Handle id ver (some h) ∧
      (¬ (r.Header.Type_ = id ∧ r.Version = ver) →
        (mux.Handle id ver (some h)).1.Handler r = mux.Handler r)) := by
  have hfind : (NewBridgeMux.registerAll regs).find r.Header.Type_ r.Version =
      lastRegistered regs r.Header.Type_ r.Version := by
    rw [Mux.find_registerAll, Mux.find_NewBridgeMux]
    cases lastRegistered regs r.Header.Type_ r.Version <;> rfl
  have hget : (NewBridgeMux.registerAll regs).Handler r =
      (lastRegistered regs r.Header.Type_ r.Version).getD UnknownMessageHandler := by
    rw [Mux.Handler_eq_find, hfind]
  refine ⟨hget, ?_, ?_, ?_, ?_⟩
  · rw [hfind]
    exact lastRegistered_eq_none regs _ _
  · intro hnone
    rw [hget, (lastRegistered_eq_none regs _ _).2 hnone]
    rfl
  · intro hres
    cases hl : lastRegistered regs r.Header.Type_ r.Version with
    | none => exact Or.inl ((lastRegistered_eq_none regs _ _).1 hl)
    | some h =>
      right
      rw [hget, hl] at hres
      exact congrArg some hres
  · intro mux id ver h
    refine ⟨rfl, rfl, ?_⟩
    intro hne
    rw [Mux.Handler_eq_find, Mux.Handler_eq_find, Mux.find_Handle, if_neg hne]

/-- C4: registering a nil handler with `Handle`, registering a nil function with
`HandleFunc` and publishing a nil notification each panic, and leave the handler
table, respectively the bridge with its response channel, exactly as they
were. -/
theorem nil_arguments_panic (P : Prot) (mux : Mux) (id ver : Nat) (b : Bridge) :
    mux.Handle id ver none = (mux, some "bridge: nil handler") ∧
    mux.HandleFunc id ver none = (mux, some "bridge: nil handler func") ∧
    b.PublishNotification P none = (b, some "bridge: cannot publish nil notification") ∧
    (b.PublishNotification P none).1.responseChan = b.responseChan ∧
    (∀ id2 ver2, (mux.Handle id ver none).1.find id2 ver2 = mux.find id2 ver2) ∧
    (∀ id2 ver2, (mux.HandleFunc id ver none).1.find id2 ver2 = mux.find id2 ver2) :=
  ⟨rfl, rfl, rfl, rfl, fun _ _ => rfl, fun _ _ => rfl⟩

/-! ### Routing -/

theorem Mux.find_HandleFunc (mux : Mux) (id ver : Nat) (h : OpenGCS.Handler) (id2 ver2 : Nat) :
    (mux.HandleFunc id ver (some h)).1.find id2 ver2 =
      if id2 = id ∧ ver2 = ver then some h else mux.find id2 ver2 :=
  Mux.find_Handle mux id ver h id2 ver2

/-- The table that `AssignHandlers` builds, read as a chain of tests: later
registrations are tried first. -/
theorem Bridge.AssignHandlers_find (P : Prot) (id ver : Nat) :
    (Bridge.AssignHandlers P NewBridgeMux).find id ver =
      if id = P.ComputeSystemModifySettingsV1 ∧ ver = PvV4 then some .modifySettings
      else if id = P.ComputeSystemResizeConsoleV1 ∧ ver = PvV4 then some .resizeConsole
      else if id = P.ComputeSystemWaitForProcessV1 ∧ ver = PvV4 then some .waitOnProcess
      else if id = P.ComputeSystemGetPropertiesV1 ∧ ver = PvV4 then some .getProperties
      else if id = P.ComputeSystemSignalProcessV1 ∧ ver = PvV4 then some .signalProcess
      else if id = P.ComputeSystemShutdownGracefulV1 ∧ ver = PvV4 then some .shutdownContainer
      else if id = P.ComputeSystemShutdownForcedV1 ∧ ver = PvV4 then some .killContainer
      else if id = P.ComputeSystemExecuteProcessV1 ∧ ver = PvV4 then some .execProcess
      else if id = P.ComputeSystemCreateV1 ∧ ver = PvV4 then some .createContainer
      else if id = P.ComputeSystemStartV1 ∧ ver = PvV4 then some .startContainer
      else if id = P.ComputeSystemModifySettingsV1 ∧ ver = PvV3 then some .modifySettings
      else if id = P.ComputeSystemResizeConsoleV1 ∧ ver = PvV3 then some .resizeConsole
      else if id = P.ComputeSystemWaitForProcessV1 ∧ ver = PvV3 then some .waitOnProcess
      else if id = P.ComputeSystemGetPropertiesV1 ∧ ver = PvV3 then some .getProperties
      else if id = P.ComputeSystemSignalProcessV1 ∧ ver = PvV3 then some .signalProcess
      else if id = P.ComputeSystemShutdownGracefulV1 ∧ ver = PvV3 then some .shutdownContainer
      else if id = P.ComputeSystemShutdownForcedV1 ∧ ver = PvV3 then some .killContainer
      else if id = P.ComputeSystemExecuteProcessV1 ∧ ver = PvV3 then some .execProcess
      else if id = P.ComputeSystemCreateV1 ∧ ver = PvInvalid then some .createContainer
      else if id = P.ComputeSystemNegotiateProtocolV1 ∧ ver = PvInvalid then
        some .negotiateProtocol
      else none := by
  simp only [Bridge.AssignHandlers, Mux.find_HandleFunc, Mux.find_NewBridgeMux]

/-- C5: after `AssignHandlers` on an empty mux, every `(message id, version)`
pair resolves to the handler that the routing table of the spec names, and to
the `UnknownMessage` handler when the table names none. -/
theorem Bridge.AssignHandlers_routing (P : Prot) (r : Request) (hP : P.requestIds.Nodup) :
    (Bridge.AssignHandlers P NewBridgeMux).Handler r = routing P r.Header.Type_ r.Version := by
  rw [Mux.Handler_eq_find, Bridge.AssignHandlers_find]
  have hR : P.requestIds.reverse.Nodup := List.nodup_reverse.2 hP
  simp only [Prot.requestIds, List.nodup_cons, List.mem_cons, List.mem_singleton, not_or,
    List.not_mem_nil, not_false_eq_true, List.nodup_nil, and_true, List.reverse_cons,
    List.reverse_nil, List.nil_append, List.cons_append, List.singleton_append] at hP hR
  unfold routing
  generalize r.Header.Type_ = id
  generalize r.Version = ver
  have hv : PvInvalid ≠ PvV3 ∧ PvInvalid ≠ PvV4 ∧ PvV3 ≠ PvV4 ∧ PvV3 ≠ PvInvalid ∧
      PvV4 ≠ PvInvalid ∧ PvV4 ≠ PvV3 := by decide
  have hid : id = P.ComputeSystemNegotiateProtocolV1 ∨ id = P.ComputeSystemCreateV1 ∨
      id = P.ComputeSystemExecuteProcessV1 ∨ id = P.ComputeSystemShutdownForcedV1 ∨
      id = P.ComputeSystemShutdownGracefulV1 ∨ id = P.ComputeSystemSignalProcessV1 ∨
      id = P.ComputeSystemGetPropertiesV1 ∨ id = P.ComputeSystemWaitForProcessV1 ∨
      id = P.ComputeSystemResizeConsoleV1 ∨ id = P.ComputeSystemModifySettingsV1 ∨
      id = P.ComputeSystemStartV1 ∨
      (id ≠ P.ComputeSystemNegotiateProtocolV1 ∧ id ≠ P.ComputeSystemCreateV1 ∧
        id ≠ P.ComputeSystemExecuteProcessV1 ∧ id ≠ P.ComputeSystemShutdownForcedV1 ∧
        id ≠ P.ComputeSystemShutdownGracefulV1 ∧ id ≠ P.ComputeSystemSignalProcessV1 ∧
        id ≠ P.ComputeSystemGetPropertiesV1 ∧ id ≠ P.ComputeSystemWaitForProcessV1 ∧
        id ≠ P.ComputeSystemResizeConsoleV1 ∧ id ≠ P.ComputeSystemModifySettingsV1 ∧
        id ≠ P.ComputeSystemStartV1) := by
    by_cases h1 : id = P.ComputeSystemNegotiateProtocolV1
    · exact Or.inl h1
    refine Or.inr ?_
    by_cases h2 : id = P.ComputeSystemCreateV1
    · exact Or.inl h2
    refine Or.inr ?_
    by_cases h3 : id = P.ComputeSystemExecuteProcessV1
    · exact Or.inl h3
    refine Or.inr ?_
    by_cases h4 : id = P.ComputeSystemShutdownForcedV1
    · exact Or.inl h4
    refine Or.inr ?_
    by_cases h5 : id = P.ComputeSystemShutdownGracefulV1
    · exact Or.inl h5
    refine Or.inr ?_
    by_cases h6 : id = P.ComputeSystemSignalProcessV1
    · exact Or.inl h6
    refine Or.inr ?_
    by_cases h7 : id = P.ComputeSystemGetPropertiesV1
    · exact Or.inl h7
    refine Or.inr ?_
    by_cases h8 : id = P.ComputeSystemWaitForProcessV1
    · exact Or.inl h8
    refine Or.inr ?_
    by_cases h9 : id = P.ComputeSystemResizeConsoleV1
    · exact Or.inl h9
    refine Or.inr ?_
    by_cases h10 : id = P.ComputeSystemModifySettingsV1
    · exact Or.inl h10
    refine Or.inr ?_
    by_cases h11 : id = P.ComputeSystemStartV1
    · exact Or.inl h11
    refine Or.inr ?_
    exact ⟨h1, h2, h3, h4, h5, h6, h7, h8, h9, h10, h11⟩
  have hver : ver = PvInvalid ∨ ver = PvV3 ∨ ver = PvV4 ∨
      (ver ≠ PvInvalid ∧ ver ≠ PvV3 ∧ ver ≠ PvV4) := by
    by_cases v0 : ver = PvInvalid
    · exact Or.inl v0
    refine Or.inr ?_
    by_cases v3 : ver = PvV3
    · exact Or.inl v3
    refine Or.inr ?_
    by_cases v4 : ver = PvV4
    · exact Or.inl v4
    exact Or.inr ⟨v0, v3, v4⟩
  rcases hid with hid | hid | hid | hid | hid | hid | hid | hid | hid | hid | hid | hid <;>
    rcases hver with hver | hver | hver | hver <;>
    simp [hP, hR, hv, hid, hver, UnknownMessageHandler]

/-- Witness for C5: with the sample constants, a create message under `PvV3`
resolves to what the routing table says (the `UnknownMessage` handler). -/
theorem Bridge.AssignHandlers_routing_witness :
    protSample.requestIds.Nodup ∧
    (Bridge.AssignHandlers protSample NewBridgeMux).Handler
        { Header := { Type_ := protSample.ComputeSystemCreateV1, Size := 16, ID := 1 },
          Message := [], Version := PvV3 } =
      routing protSample protSample.ComputeSystemCreateV1 PvV3 ∧
    routing protSample protSample.ComputeSystemCreateV1 PvV3 = .UnknownMessage :=
  ⟨by decide,
    Bridge.AssignHandlers_routing protSample
      { Header := { Type_ := protSample.ComputeSystemCreateV1, Size := 16, ID := 1 },
        Message := [], Version := PvV3 } (by decide),
    by decide⟩

/-! ### Error responses -/

theorem toInt32_of_isInt32 (x : Int) (hx : isInt32 x) : toInt32 x = x := by
  unfold isInt32 at hx
  unfold toInt32
  have h1 : (0 : Int) ≤ x + 2 ^ 31 := by omega
  have h2 : x + 2 ^ 31 < 2 ^ 32 := by omega
  rw [Int.emod_eq_of_lt h1 h2]
  omega

/-- C6: a request whose `(Type, Version)` has no registered handler is answered
by the mux with a single error response: `Result` is
`HrVmcomputeUnknownMessage`, the activity id is the nil GUID and there is
exactly one error record; nothing else happens (no collaborator is called and
the selected protocol version stays; the handler table is only read). -/
theorem Mux.ServeMsg_unknown (P : Prot) (E : Env) (mux : Mux) (w : requestResponseWriter)
    (r : Request) (b : Bridge) (hP : isInt32 P.HrVmcomputeUnknownMessage)
    (hno : mux.find r.Header.Type_ r.Version = none) :
    ∃ record : ErrorRecord,
      mux.ServeMsg P E w r b =
        ({ w with respWritten := true },
          { protVer := b.protVer
            trace := b.trace ++ [.respSend
              { header := w.header
                response := .base
                  { ActivityID := "00000000-0000-0000-0000-000000000000"
                    Result := P.HrVmcomputeUnknownMessage
                    ErrorRecords := [record] } }] }) ∧
      record.Result = P.HrVmcomputeUnknownMessage ∧ record.ModuleName = "gcs" := by
  have hh : mux.Handler r = .UnknownMessage := by
    rw [Mux.Handler_eq_find, hno]
    rfl
  refine ⟨{ Result := toInt32 P.HrVmcomputeUnknownMessage
            Message := "bridge: function not supported, header type: "
              ++ E.fmt.messageIdentifier r.Header.Type_
            StackTrace := (E.fmt.callers "UnknownMessage").rendered
            ModuleName := "gcs"
            FileName := (E.fmt.callers "UnknownMessage").bottomFile
            Line := toUint32 (match Atoi (E.fmt.callers "UnknownMessage").bottomLine with
              | some n => n
              | none => -1)
            FunctionName := (E.fmt.callers "UnknownMessage").bottomFunc },
    ?_, toInt32_of_isInt32 _ hP, rfl⟩
  have hr := toInt32_of_isInt32 _ hP
  unfold Mux.ServeMsg
  rw [hh]
  simp [Handler.ServeMsg, UnknownMessage, requestResponseWriter.Error,
    requestResponseWriter.Write, Bridge.emit, setErrorForResponseBase, gcserr.WrapHresult,
    errors.New, hr]

/-- Witness for C6: the empty mux answers a request of type `0xDEADBEEF`. -/
theorem Mux.ServeMsg_unknown_witness :
    isInt32 protSample.HrVmcomputeUnknownMessage ∧
    NewBridgeMux.find 0xDEADBEEF 0 = none ∧
    ∃ record : ErrorRecord,
      NewBridgeMux.ServeMsg protSample sampleEnv
          { header := { Type_ := protSample.GetResponseIdentifier 0xDEADBEEF, Size := 0, ID := 5 } }
          { Header := { Type_ := 0xDEADBEEF, Size := 16, ID := 5 }, Message := [], Version := 0 }
          { } =
        ({ header := { Type_ := protSample.GetResponseIdentifier 0xDEADBEEF, Size := 0, ID := 5 },
           respWritten := true },
          { protVer := 0
            trace := [] ++ [.respSend
              { header := { Type_ := protSample.GetResponseIdentifier 0xDEADBEEF, Size := 0,
                            ID := 5 }
                response := .base
                  { ActivityID := "00000000-0000-0000-0000-000000000000"
                    Result := protSample.HrVmcomputeUnknownMessage
                    ErrorRecords := [record] } }] }) ∧
      record.Result = protSample.HrVmcomputeUnknownMessage ∧ record.ModuleName = "gcs" :=
  ⟨by decide, rfl,
    Mux.ServeMsg_unknown protSample sampleEnv NewBridgeMux
      { header := { Type_ := protSample.GetResponseIdentifier 0xDEADBEEF, Size := 0, ID := 5 } }
      { Header := { Type_ := 0xDEADBEEF, Size := 16, ID := 5 }, Message := [], Version := 0 }
      { } (by decide) rfl⟩

/-! ### Protocol negotiation -/

/-- Counterexample to C7 as stated: a rejected request whose `ActivityID` is
empty is answered with the nil GUID, not with the request's `ActivityID`; and a
rejected request whose payload decodes without a `MessageBase` is not answered
at all, because `negotiateProtocol` panics when it reads
`request.ActivityID`. -/
theorem negotiateProtocol_rejection_loses_ActivityID :
    (∃ request base0 base,
      sampleEnv.json.NegotiateProtocol [4, 3, 0] = .ok request ∧
      request.MessageBase = some base0 ∧
      request.MaximumVersion < PvV4 ∧
      (negotiateProtocol protSample sampleEnv
          { header := { Type_ := 2, Size := 0, ID := 5 } }
          { Header := { Type_ := 1, Size := 19, ID := 5 }, Message := [4, 3, 0], Version := 0 }
          { }).2.responseChan =
        [{ header := { Type_ := 2, Size := 0, ID := 5 }, response := .base base }] ∧
      base.Result = protSample.HrVmcomputeUnsupportedProtocolVersion ∧
      base.ActivityID = "00000000-0000-0000-0000-000000000000" ∧
      base.ActivityID ≠ base0.ActivityID) ∧
    (∃ request,
      sampleEnvNilBase.json.NegotiateProtocol [3, 3] = .ok request ∧
      request.MessageBase = none ∧
      request.MaximumVersion < PvV4 ∧
      negotiateProtocol protSample sampleEnvNilBase
          { header := { Type_ := 2, Size := 0, ID := 5 } }
          { Header := { Type_ := 1, Size := 18, ID := 5 }, Message := [3, 3], Version := 0 }
          { } =
        ({ header := { Type_ := 2, Size := 0, ID := 5 }, respWritten := false },
          { protVer := 0, trace := [.panic nilDereference] })) :=
  ⟨⟨_, _, _, rfl, rfl, by decide, rfl, by decide, by decide, by decide⟩,
    ⟨_, rfl, rfl, by decide, rfl⟩⟩

/-- C7 (as amended): for every decodable NegotiateProtocol request that has its
`MessageBase`, `negotiateProtocol` writes one response, and that response is an
error with HRESULT `HrVmcomputeUnsupportedProtocolVersion` if and only if
`MaximumVersion < PvV4` or `MinimumVersion > PvMax`; in that case the selected
protocol version is left unchanged and the error response carries the
request's `ActivityID`, or the nil GUID when that `ActivityID` is empty.  On a
decodable request without a `MessageBase`, `negotiateProtocol` panics: it
writes no response and leaves the selected protocol version unchanged. -/
theorem negotiateProtocol_unsupported (P : Prot) (E : Env) (w : requestResponseWriter)
    (r : Request) (b : Bridge) (request : NegotiateProtocol)
    (hP : isInt32 P.HrVmcomputeUnsupportedProtocolVersion)
    (hdec : E.json.NegotiateProtocol r.Message = .ok request) :
    (∀ base, request.MessageBase = some base →
      ∃ payload,
        (negotiateProtocol P E w r b).2.trace =
          b.trace ++ [.respSend { header := w.header, response := payload }] ∧
        (payload.isErrorWith P.HrVmcomputeUnsupportedProtocolVersion ↔
          (request.MaximumVersion < PvV4 ∨ P.PvMax < request.MinimumVersion)) ∧
        ((request.MaximumVersion < PvV4 ∨ P.PvMax < request.MinimumVersion) →
          (negotiateProtocol P E w r b).2.protVer = b.protVer ∧
          ∃ response, payload = .base response ∧
            response.ActivityID =
              (if base.ActivityID = "" then "00000000-0000-0000-0000-000000000000"
                else base.ActivityID) ∧
            response.Result = P.HrVmcomputeUnsupportedProtocolVersion ∧
            response.ErrorRecords.length = 1)) ∧
    (request.MessageBase = none →
      negotiateProtocol P E w r b =
        (w, { protVer := b.protVer, trace := b.trace ++ [.panic nilDereference] })) := by
  have hr := toInt32_of_isInt32 _ hP
  refine ⟨?_, fun hbase => negotiateProtocol_nilBase P E w r b request hdec hbase⟩
  intro base hbase
  by_cases hrej : request.MaximumVersion < PvV4 ∨ P.PvMax < request.MinimumVersion
  · refine ⟨.base (setErrorForResponseBase P
        { ActivityID :=
            (if base.ActivityID = "" then "00000000-0000-0000-0000-000000000000"
              else base.ActivityID) }
        (gcserr.NewHresultError P.HrVmcomputeUnsupportedProtocolVersion
          (E.fmt.hresultError P.HrVmcomputeUnsupportedProtocolVersion)
          (E.fmt.callers "negotiateProtocol"))), ?_, ?_, ?_⟩
    · simp only [negotiateProtocol, hdec, hbase, if_pos hrej]
      rfl
    · constructor
      · intro _
        exact hrej
      · intro _
        exact ⟨_, rfl, by simp [setErrorForResponseBase, gcserr.NewHresultError, hr],
          by simp [setErrorForResponseBase]⟩
    · intro _
      refine ⟨?_, _, rfl, rfl, ?_, ?_⟩
      · simp only [negotiateProtocol, hdec, hbase, if_pos hrej]
        rfl
      · simp [setErrorForResponseBase, gcserr.NewHresultError, hr]
      · simp [setErrorForResponseBase]
  · refine ⟨.negotiate
        { MessageResponseBase := { ActivityID := base.ActivityID }
          Version := if P.PvMax < request.MaximumVersion then P.PvMax else request.MaximumVersion
          Capabilities := capabilities P }, ?_, ?_, ?_⟩
    · simp only [negotiateProtocol, hdec, hbase, if_neg hrej]
      rfl
    · constructor
      · rintro ⟨response, hresponse, _⟩
        cases hresponse
      · intro h
        exact absurd h hrej
    · intro h
      exact absurd h hrej

/-- Witness for C7: a request offering versions 3 to 3 is rejected. -/
theorem negotiateProtocol_unsupported_witness :
    isInt32 protSample.HrVmcomputeUnsupportedProtocolVersion ∧
    sampleEnv.json.NegotiateProtocol [3, 3] =
      .ok { MessageBase := some { ContainerID := "", ActivityID := "a1" }
            MinimumVersion := 3, MaximumVersion := 3 } ∧
    (∀ base, some ({ ContainerID := "", ActivityID := "a1" } : MessageBase) = some base →
      ∃ payload,
        (negotiateProtocol protSample sampleEnv
            { header := { Type_ := 2, Size := 0, ID := 5 } }
            { Header := { Type_ := 1, Size := 18, ID := 5 }, Message := [3, 3], Version := 0 }
            { }).2.trace =
          [] ++ [.respSend { header := { Type_ := 2, Size := 0, ID := 5 }, response := payload }] ∧
        (payload.isErrorWith protSample.HrVmcomputeUnsupportedProtocolVersion ↔
          ((3 : Nat) < PvV4 ∨ protSample.PvMax < 3)) ∧
        (((3 : Nat) < PvV4 ∨ protSample.PvMax < 3) →
          (negotiateProtocol protSample sampleEnv
            { header := { Type_ := 2, Size := 0, ID := 5 } }
            { Header := { Type_ := 1, Size := 18, ID := 5 }, Message := [3, 3], Version := 0 }
            { }).2.protVer = 0 ∧
          ∃ response, payload = .base response ∧
            response.ActivityID =
              (if base.ActivityID = "" then "00000000-0000-0000-0000-000000000000"
                else base.ActivityID) ∧
            response.Result = protSample.HrVmcomputeUnsupportedProtocolVersion ∧
            response.ErrorRecords.length = 1)) ∧
    (some ({ ContainerID := "", ActivityID := "a1" } : MessageBase) = none →
      negotiateProtocol protSample sampleEnv
          { header := { Type_ := 2, Size := 0, ID := 5 } }
          { Header := { Type_ := 1, Size := 18, ID := 5 }, Message := [3, 3], Version := 0 }
          { } =
        ({ header := { Type_ := 2, Size := 0, ID := 5 } },
          { protVer := 0, trace := [] ++ [.panic nilDereference] })) :=
  ⟨by decide, rfl,
    negotiateProtocol_unsupported protSample sampleEnv
      { header := { Type_ := 2, Size := 0, ID := 5 } }
      { Header := { Type_ := 1, Size := 18, ID := 5 }, Message := [3, 3], Version := 0 }
      { }
      { MessageBase := some { ContainerID := "", ActivityID := "a1" }
        MinimumVersion := 3, MaximumVersion := 3 }
      (by decide) rfl⟩

/-- Counterexample to C8 as stated: the request
`{MinimumVersion: 4, MaximumVersion: 4}` decodes, without a `MessageBase`, and
is not rejected; `negotiateProtocol` panics when it reads `request.ActivityID`
for the response: no response is written and the selected protocol version
stays `PvInvalid`. -/
theorem negotiateProtocol_accepted_without_MessageBase_panics :
    ∃ request,
      sampleEnvNilBase.json.NegotiateProtocol [4, 4] = .ok request ∧
      request.MessageBase = none ∧
      ¬ (request.MaximumVersion < PvV4 ∨ protSample.PvMax < request.MinimumVersion) ∧
      negotiateProtocol protSample sampleEnvNilBase
          { header := { Type_ := 2, Size := 0, ID := 5 } }
          { Header := { Type_ := 1, Size := 18, ID := 5 }, Message := [4, 4], Version := 0 }
          { } =
        ({ header := { Type_ := 2, Size := 0, ID := 5 }, respWritten := false },
          { protVer := PvInvalid, trace := [.panic nilDereference] }) ∧
      (negotiateProtocol protSample sampleEnvNilBase
          { header := { Type_ := 2, Size := 0, ID := 5 } }
          { Header := { Type_ := 1, Size := 18, ID := 5 }, Message := [4, 4], Version := 0 }
          { }).2.responseChan = [] :=
  ⟨_, rfl, rfl, by decide, rfl, rfl⟩

/-- C8 (as amended): for every decodable NegotiateProtocol request that has its
`MessageBase` and is not rejected, `negotiateProtocol` writes exactly one
response, a success (`Result = 0`, no error records) whose `Version` is
`min(PvMax, MaximumVersion)`, whose `ActivityID` is the request's and whose
`Capabilities` are the static capabilities; it sets the selected protocol
version to the same minimum, and the next request read by ingress is tagged
with it.  On a decodable request without a `MessageBase`, `negotiateProtocol`
panics: it writes no response and leaves the selected protocol version
unchanged. -/
theorem negotiateProtocol_success (P : Prot) (E : Env) (w : requestResponseWriter)
    (r : Request) (b : Bridge) (request : NegotiateProtocol)
    (hdec : E.json.NegotiateProtocol r.Message = .ok request)
    (hacc : ¬ (request.MaximumVersion < PvV4 ∨ P.PvMax < request.MinimumVersion)) :
    (∀ base, request.MessageBase = some base →
      negotiateProtocol P E w r b =
        ({ w with respWritten := true },
          { protVer := min P.PvMax request.MaximumVersion
            trace := b.trace ++ [.respSend
              { header := w.header
                response := .negotiate
                  { MessageResponseBase :=
                      { ActivityID := base.ActivityID, Result := 0, ErrorRecords := [] }
                    Version := min P.PvMax request.MaximumVersion
                    Capabilities := capabilities P } }] }) ∧
      ∀ (header : MessageHeader) (message : Bytes),
        (ListenAndServe.ingress header message (negotiateProtocol P E w r b).2).Version =
          min P.PvMax request.MaximumVersion) ∧
    (request.MessageBase = none →
      negotiateProtocol P E w r b =
        (w, { protVer := b.protVer, trace := b.trace ++ [.panic nilDereference] })) := by
  refine ⟨?_, fun hbase => negotiateProtocol_nilBase P E w r b request hdec hbase⟩
  intro base hbase
  have hmin : (if P.PvMax < request.MaximumVersion then P.PvMax else request.MaximumVersion) =
      min P.PvMax request.MaximumVersion := by
    by_cases hlt : P.PvMax < request.MaximumVersion
    · rw [if_pos hlt, Nat.min_eq_left (Nat.le_of_lt hlt)]
    · rw [if_neg hlt, Nat.min_eq_right (Nat.le_of_not_lt hlt)]
  have hrun : negotiateProtocol P E w r b =
      ({ w with respWritten := true },
        { protVer := min P.PvMax request.MaximumVersion
          trace := b.trace ++ [.respSend
            { header := w.header
              response := .negotiate
                { MessageResponseBase :=
                    { ActivityID := base.ActivityID, Result := 0, ErrorRecords := [] }
                  Version := min P.PvMax request.MaximumVersion
                  Capabilities := capabilities P } }] }) := by
    simp only [negotiateProtocol, hdec, hbase, if_neg hacc, hmin]
    rfl
  refine ⟨hrun, ?_⟩
  intro header message
  rw [hrun]
  rfl

/-- Witness for C8: a request with its `MessageBase` that offers the versions 4
to 7. -/
theorem negotiateProtocol_success_witness :
    ((∀ base, some ({ ContainerID := "", ActivityID := "a1" } : MessageBase) = some base →
      negotiateProtocol protSample sampleEnv
          { header := { Type_ := 2, Size := 0, ID := 5 } }
          { Header := { Type_ := 1, Size := 18, ID := 5 }, Message := [4, 7], Version := 0 }
          { } =
        ({ header := { Type_ := 2, Size := 0, ID := 5 }, respWritten := true },
          { protVer := min protSample.PvMax 7
            trace := [] ++ [.respSend
              { header := { Type_ := 2, Size := 0, ID := 5 }
                response := .negotiate
                  { MessageResponseBase :=
                      { ActivityID := base.ActivityID, Result := 0, ErrorRecords := [] }
                    Version := min protSample.PvMax 7
                    Capabilities := capabilities protSample } }] }) ∧
      ∀ (header : MessageHeader) (message : Bytes),
        (ListenAndServe.ingress header message (negotiateProtocol protSample sampleEnv
          { header := { Type_ := 2, Size := 0, ID := 5 } }
          { Header := { Type_ := 1, Size := 18, ID := 5 }, Message := [4, 7], Version := 0 }
          { }).2).Version = min protSample.PvMax 7) ∧
    (some ({ ContainerID := "", ActivityID := "a1" } : MessageBase) = none →
      negotiateProtocol protSample sampleEnv
          { header := { Type_ := 2, Size := 0, ID := 5 } }
          { Header := { Type_ := 1, Size := 18, ID := 5 }, Message := [4, 7], Version := 0 }
          { } =
        ({ header := { Type_ := 2, Size := 0, ID := 5 } },
          { protVer := 0, trace := [] ++ [.panic nilDereference] }))) ∧
    min protSample.PvMax 7 = 4 :=
  ⟨negotiateProtocol_success protSample sampleEnv
      { header := { Type_ := 2, Size := 0, ID := 5 } }
      { Header := { Type_ := 1, Size := 18, ID := 5 }, Message := [4, 7], Version := 0 }
      { }
      { MessageBase := some { ContainerID := "", ActivityID := "a1" }
        MinimumVersion := 4, MaximumVersion := 7 }
      rfl (by decide),
    by decide⟩

theorem Bridge.AssignHandlers_eq_registerAll (P : Prot) (mux : Mux) :
    Bridge.AssignHandlers P mux = mux.registerAll (Bridge.registrations P) := rfl

theorem lastRegistered_some (regs : List (Nat × Nat × Handler)) (id ver : Nat) (h : Handler)
    (hl : lastRegistered regs id ver = some h) :
    ∃ reg ∈ regs, reg.1 = id ∧ reg.2.1 = ver ∧ reg.2.2 = h := by
  unfold lastRegistered at hl
  cases hf : List.find? (fun reg => decide (reg.1 = id ∧ reg.2.1 = ver)) regs.reverse with
  | none =>
    rw [hf] at hl
    cases hl
  | some reg =>
    rw [hf] at hl
    have hmem : reg ∈ regs := List.mem_reverse.1 (List.mem_of_find?_eq_some hf)
    have hkey := List.find?_some hf
    simp only [decide_eq_true_eq] at hkey
    exact ⟨reg, hmem, hkey.1, hkey.2, Option.some.inj hl⟩

/-- In the table of `AssignHandlers`, `negotiateProtocol` answers only requests
tagged with `PvInvalid`. -/
theorem Bridge.AssignHandlers_negotiate (P : Prot) (r : Request)
    (h : (Bridge.AssignHandlers P NewBridgeMux).Handler r = .negotiateProtocol) :
    r.Version = PvInvalid := by
  rw [Mux.Handler_eq_find, Bridge.AssignHandlers_eq_registerAll, Mux.find_registerAll,
    Mux.find_NewBridgeMux] at h
  cases hl : lastRegistered (Bridge.registrations P) r.Header.Type_ r.Version with
  | none =>
    rw [hl] at h
    exact absurd h (by simp [UnknownMessageHandler])
  | some found =>
    rw [hl] at h
    have hfound : found = .negotiateProtocol := h
    obtain ⟨reg, hmem, _, hver, hreg⟩ := lastRegistered_some _ _ _ _ hl
    rw [hfound] at hreg
    rw [← hver]
    simp only [Bridge.registrations, List.mem_cons, List.mem_singleton, List.not_mem_nil,
      or_false] at hmem
    rcases hmem with rfl | rfl | rfl | rfl | rfl | rfl | rfl | rfl | rfl | rfl | rfl | rfl |
      rfl | rfl | rfl | rfl | rfl | rfl | rfl | rfl
    all_goals first
      | rfl
      | exact absurd hreg (by simp)

/-- C9: in a session that serves one request at a time, each tagged with the
selected protocol version and dispatched through the mux of `AssignHandlers`,
a selected version different from `PvInvalid` is never changed, by one step or
by any run; starting from `PvInvalid` a step leaves it, or makes it `PvV3`, or
makes it `min(PvMax, MaximumVersion)` for the decoded negotiation request. -/
theorem ListenAndServe.step_protVer (P : Prot) (E : Env) (header : MessageHeader)
    (message : Bytes) (b : Bridge) :
    (b.protVer ≠ PvInvalid → (ListenAndServe.step P E header message b).protVer = b.protVer) ∧
    (b.protVer = PvInvalid →
      (ListenAndServe.step P E header message b).protVer = PvInvalid ∨
      (ListenAndServe.step P E header message b).protVer = PvV3 ∨
      ∃ request, E.json.NegotiateProtocol message = .ok request ∧
        (ListenAndServe.step P E header message b).protVer =
          min P.PvMax request.MaximumVersion) ∧
    (∀ frames : List (Env × MessageHeader × Bytes),
      b.protVer ≠ PvInvalid → (ListenAndServe.run P frames b).protVer = b.protVer) := by
  have one : ∀ (E : Env) (header : MessageHeader) (message : Bytes) (b : Bridge),
      b.protVer ≠ PvInvalid → (ListenAndServe.step P E header message b).protVer = b.protVer := by
    intro E header message b hb
    unfold ListenAndServe.step ListenAndServe.serve Mux.ServeMsg
    dsimp only
    by_cases hn : (Bridge.AssignHandlers P NewBridgeMux).Handler
        (ListenAndServe.ingress header message b) = .negotiateProtocol
    · exact absurd (Bridge.AssignHandlers_negotiate P _ hn) hb
    · by_cases hc : (Bridge.AssignHandlers P NewBridgeMux).Handler
          (ListenAndServe.ingress header message b) = .createContainer
      · rw [hc]
        rcases createContainer_protVer P E _ (ListenAndServe.ingress header message b) b
          with h | h
        · exact h
        · exact absurd h.1 hb
      · exact Handler.ServeMsg_protVer P E _ _ _ b hn hc
  refine ⟨one E header message b, ?_, ?_⟩
  · intro hb
    unfold ListenAndServe.step ListenAndServe.serve Mux.ServeMsg
    dsimp only
    by_cases hn : (Bridge.AssignHandlers P NewBridgeMux).Handler
        (ListenAndServe.ingress header message b) = .negotiateProtocol
    · rw [hn]
      rcases negotiateProtocol_protVer P E _ (ListenAndServe.ingress header message b) b
        with h | ⟨request, h1, h2⟩
      · exact Or.inl (h.trans hb)
      · exact Or.inr (Or.inr ⟨request, h1, h2⟩)
    · by_cases hc : (Bridge.AssignHandlers P NewBridgeMux).Handler
          (ListenAndServe.ingress header message b) = .createContainer
      · rw [hc]
        rcases createContainer_protVer P E _ (ListenAndServe.ingress header message b) b
          with h | h
        · exact Or.inl (h.trans hb)
        · exact Or.inr (Or.inl h.2)
      · exact Or.inl ((Handler.ServeMsg_protVer P E _ _ _ b hn hc).trans hb)
  · intro frames
    induction frames generalizing b with
    | nil => intro _; rfl
    | cons f rest ih =>
      intro hb
      have h1 := one f.1 f.2.1 f.2.2 b hb
      have h2 := ih (ListenAndServe.step P f.1 f.2.1 f.2.2 b) (by rw [h1]; exact hb)
      have h3 := ih b hb
      unfold ListenAndServe.run at h2 h3 ⊢
      rw [List.foldl_cons]
      by_cases hp : b.panicked = true
      · rw [if_pos hp, h3]
      · rw [if_neg hp, h2, h1]

/-- C10: for every decodable create request, when the selected version is
`PvV4` and `ContainerID` (read through the `MessageBase` of the request, which
a request with a `ContainerID` has) is the nil GUID, `createContainer` only
writes a
success `ContainerCreateResponse` with the request's `ActivityID`: no call to
the host or the runtime, no exit-notification task, and the selected protocol
version stays. -/
theorem createContainer_skip_first (P : Prot) (E : Env) (w : requestResponseWriter)
    (r : Request) (b : Bridge) (request : ContainerCreate) (base : MessageBase)
    (hdec : E.json.ContainerCreate r.Message = .ok request)
    (hbase : request.MessageBase = some base)
    (hver : b.protVer = PvV4)
    (hid : base.ContainerID = "00000000-0000-0000-0000-000000000000") :
    createContainer P E w r b =
      ({ w with respWritten := true },
        { protVer := b.protVer
          trace := b.trace ++ [.respSend
            { header := w.header
              response := .create
                { MessageResponseBase :=
                    { ActivityID := base.ActivityID, Result := 0, ErrorRecords := [] }
                  SelectedProtocolVersion := 0 } }] }) := by
  simp only [createContainer, hdec, hbase, if_pos (And.intro hver hid)]
  rfl

/-- Witness for C10: the first create message after a negotiation of version 4. -/
theorem createContainer_skip_first_witness :
    createContainer protSample sampleEnv
        { header := { Type_ := 2, Size := 0, ID := 5 } }
        { Header := { Type_ := 1, Size := 16, ID := 5 }, Message := [], Version := 4 }
        { protVer := 4 } =
      ({ header := { Type_ := 2, Size := 0, ID := 5 }, respWritten := true },
        { protVer := 4
          trace := [] ++ [.respSend
            { header := { Type_ := 2, Size := 0, ID := 5 }
              response := .create
                { MessageResponseBase := { ActivityID := "a1", Result := 0, ErrorRecords := [] }
                  SelectedProtocolVersion := 0 } }] }) :=
  createContainer_skip_first protSample sampleEnv
    { header := { Type_ := 2, Size := 0, ID := 5 } }
    { Header := { Type_ := 1, Size := 16, ID := 5 }, Message := [], Version := 4 }
    { protVer := 4 }
    { MessageBase := some { ContainerID := "00000000-0000-0000-0000-000000000000"
                            ActivityID := "a1" }
      ContainerConfig := "v1" }
    { ContainerID := "00000000-0000-0000-0000-000000000000", ActivityID := "a1" }
    rfl rfl rfl rfl

/-! ### Creating a container -/

theorem createContainerNotify_eq (w : requestResponseWriter) (base : MessageBase)
    (response : ContainerCreateResponse) (exitCodeFn : Option Int) (b : Bridge) :
    createContainerNotify w base response exitCodeFn b =
      ({ w with respWritten := true },
        { protVer := if b.protVer = PvInvalid then PvV3 else b.protVer
          trace := b.trace ++
            [.goExitNotifier { exitCodeFn := exitCodeFn, ContainerID := base.ContainerID,
                               ActivityID := base.ActivityID },
             .respSend { header := w.header, response := .create response }] }) := by
  simp [createContainerNotify, requestResponseWriter.Write, Bridge.emit]

theorem createContainerRespond_eq (E : Env) (w : requestResponseWriter)
    (base : MessageBase) (exitCodeFn : Option Int) (wasV2Config : Bool) (b : Bridge) :
    createContainerRespond E w base exitCodeFn wasV2Config b =
      createContainerNotify w base
        { MessageResponseBase := { ActivityID := base.ActivityID }
          SelectedProtocolVersion := if b.protVer = PvInvalid then PvV3 else 0 }
        (if wasV2Config then exitCodeFn else (E.core.WaitContainer base.ContainerID).1)
        (if wasV2Config then b else b.emit (.coreWaitContainer base.ContainerID)) := by
  unfold createContainerRespond
  cases wasV2Config <;> by_cases hv : b.protVer = PvInvalid <;> simp [hv]

/-- Every run of `createContainer` ends in one of the five outcomes. -/
theorem createContainer_outcome (P : Prot) (E : Env) (w : requestResponseWriter) (r : Request)
    (b : Bridge) : CreateOutcome P E w r b (createContainer P E w r b) := by
  unfold createContainer
  cases hdec : E.json.ContainerCreate r.Message with
  | error err =>
    exact .failed ""
      (errors.Wrapf err
        ("failed to unmarshal JSON in message \"" ++ E.fmt.bytes r.Message ++ "\"")
        (E.fmt.callers "createContainer")) [] (Or.inl rfl) (by simp)
  | ok request =>
    dsimp only
    cases hbase : request.MessageBase with
    | none => exact .panicked request hdec hbase rfl
    | some base =>
    dsimp only
    by_cases hskip : b.protVer = PvV4 ∧
        base.ContainerID = "00000000-0000-0000-0000-000000000000"
    · rw [if_pos hskip]
      exact .skipped request base hdec hbase hskip rfl
    · rw [if_neg hskip]
      -- the v1 path, entered with the writer and bridge untouched
      have v1 : (b.protVer < PvV4 ∨ ∃ settingsV2,
          E.json.VMHostedContainerSettingsV2 request.ContainerConfig = .ok settingsV2 ∧
          settingsV2.SchemaVersion.Cmp { Major := 2, Minor := 0 } < 0) →
          CreateOutcome P E w r b (createContainerFallback P E w request base none false b) := by
        intro hver
        unfold createContainerFallback
        cases hcfg : E.json.VMHostedContainerSettings request.ContainerConfig with
        | error err =>
          exact .failed base.ActivityID
            (errors.Wrapf err
            ("failed to unmarshal JSON for ContainerConfig \"" ++ request.ContainerConfig ++ "\"")
            (E.fmt.callers "createContainer")) [] (Or.inl rfl) (by simp)
        | ok settings =>
          cases hcreate : E.core.CreateContainer base.ContainerID settings with
          | some err =>
            exact .failed base.ActivityID err
              [.coreCreateContainer base.ContainerID settings]
              (Or.inr (Or.inr ⟨_, _, rfl⟩)) (by simp [hcreate, Bridge.emit])
          | none =>
            refine .createdV1 request base settings hdec hbase hskip hver hcfg hcreate ?_
            simp [hcreate, createContainerRespond_eq, createContainerNotify_eq, Bridge.emit]
      by_cases hver : PvV4 ≤ b.protVer
      · rw [if_pos hver]
        cases hcfg : E.json.VMHostedContainerSettingsV2 request.ContainerConfig with
        | error err =>
          exact .failed base.ActivityID
            (errors.Wrapf err
            ("failed to unmarshal JSON for ContainerConfig \"" ++ request.ContainerConfig ++ "\"")
            (E.fmt.callers "createContainer")) [] (Or.inl rfl) (by simp)
        | ok settingsV2 =>
          dsimp only
          by_cases hschema : settingsV2.SchemaVersion.Cmp { Major := 2, Minor := 0 } ≥ 0
          · rw [if_pos hschema]
            cases hcreate : E.host.CreateContainer base.ContainerID settingsV2 with
            | error err =>
              exact .failed base.ActivityID err
                [.hostCreateContainer base.ContainerID settingsV2]
                (Or.inr (Or.inl ⟨_, _, rfl⟩)) (by simp [Bridge.emit])
            | ok c =>
              refine .createdV2 request base settingsV2 c hdec hbase hskip hver hcfg hschema
                hcreate ?_
              have hne : ¬ b.protVer = PvInvalid := by
                unfold PvV4 at hver
                unfold PvInvalid
                omega
              simp [createContainerFallback, createContainerRespond_eq,
                createContainerNotify_eq, Bridge.emit, hne]
          · rw [if_neg hschema]
            exact v1 (Or.inr ⟨settingsV2, hcfg, lt_of_not_ge hschema⟩)
      · rw [if_neg hver]
        exact v1 (Or.inl (Nat.lt_of_not_le hver))

/-- C11: a create request that succeeds while the selected protocol version is
still `PvInvalid` is answered with `SelectedProtocolVersion = PvV3`, and the
selected version is `PvV3` afterwards; one that succeeds while the selected
version is not `PvInvalid` is answered with `SelectedProtocolVersion` left at
zero, and the selected version is unchanged. -/
theorem createContainer_selected_version (P : Prot) (E : Env) (w : requestResponseWriter)
    (r : Request) (b : Bridge) (new : List Event) (header : MessageHeader)
    (response : ContainerCreateResponse)
    (hnew : (createContainer P E w r b).2.trace = b.trace ++ new)
    (hsucc : Event.respSend { header := header, response := .create response } ∈ new) :
    response.MessageResponseBase.Result = 0 ∧
    (b.protVer = PvInvalid →
      response.SelectedProtocolVersion = PvV3 ∧ (createContainer P E w r b).2.protVer = PvV3) ∧
    (b.protVer ≠ PvInvalid →
      response.SelectedProtocolVersion = 0 ∧
      (createContainer P E w r b).2.protVer = b.protVer) := by
  cases createContainer_outcome P E w r b with
  | panicked request hdec hbase hout =>
    rw [hout] at hnew
    simp [Bridge.emit] at hnew
    subst hnew
    simp at hsucc
  | failed a err calls hcalls hout =>
    rw [hout] at hnew
    simp [requestResponseWriter.Error, requestResponseWriter.Write, Bridge.emit] at hnew
    subst hnew
    rcases hcalls with rfl | ⟨id, s, rfl⟩ | ⟨id, s, rfl⟩ <;> simp at hsucc
  | skipped request base hdec hbase hskip hout =>
    rw [hout] at hnew ⊢
    simp [requestResponseWriter.Write, Bridge.emit] at hnew
    subst hnew
    simp at hsucc
    obtain ⟨_, rfl⟩ := hsucc
    have hne : b.protVer ≠ PvInvalid := by
      rw [hskip.1]
      decide
    exact ⟨rfl, fun h => absurd h hne, fun _ => ⟨rfl, rfl⟩⟩
  | createdV2 request base settingsV2 c hdec hbase hskip hver hcfg hschema hcreate hout =>
    rw [hout] at hnew ⊢
    simp at hnew
    subst hnew
    simp at hsucc
    obtain ⟨_, rfl⟩ := hsucc
    have hne : b.protVer ≠ PvInvalid := by
      unfold PvV4 at hver
      unfold PvInvalid
      omega
    exact ⟨rfl, fun h => absurd h hne, fun _ => ⟨rfl, rfl⟩⟩
  | createdV1 request base settings hdec hbase hskip hver hcfg hcreate hout =>
    rw [hout] at hnew ⊢
    simp at hnew
    subst hnew
    simp at hsucc
    obtain ⟨_, rfl⟩ := hsucc
    refine ⟨rfl, ?_, ?_⟩
    · intro h
      simp [h]
    · intro h
      simp [h]

/-- Witness for C11: a legacy create of container `"c1"` before any
negotiation. -/
theorem createContainer_selected_version_witness :
    (createContainer protSample sampleEnv
        { header := { Type_ := 2, Size := 0, ID := 5 } }
        { Header := { Type_ := 1, Size := 17, ID := 5 }, Message := [0], Version := 0 }
        { }).2.trace =
      [] ++ [.coreCreateContainer "c1" { body := "v1" }, .coreWaitContainer "c1",
        .goExitNotifier { exitCodeFn := some 0, ContainerID := "c1", ActivityID := "a1" },
        .respSend { header := { Type_ := 2, Size := 0, ID := 5 }
                    response := .create { MessageResponseBase := { ActivityID := "a1" }
                                          SelectedProtocolVersion := 3 } }] ∧
    (0 : Int) = 0 ∧
    ((0 : Nat) = PvInvalid →
      (3 : Nat) = PvV3 ∧
      (createContainer protSample sampleEnv
        { header := { Type_ := 2, Size := 0, ID := 5 } }
        { Header := { Type_ := 1, Size := 17, ID := 5 }, Message := [0], Version := 0 }
        { }).2.protVer = PvV3) ∧
    ((0 : Nat) ≠ PvInvalid →
      (3 : Nat) = 0 ∧
      (createContainer protSample sampleEnv
        { header := { Type_ := 2, Size := 0, ID := 5 } }
        { Header := { Type_ := 1, Size := 17, ID := 5 }, Message := [0], Version := 0 }
        { }).2.protVer = 0) :=
  ⟨rfl,
    createContainer_selected_version protSample sampleEnv
      { header := { Type_ := 2, Size := 0, ID := 5 } }
      { Header := { Type_ := 1, Size := 17, ID := 5 }, Message := [0], Version := 0 }
      { }
      [.coreCreateContainer "c1" { body := "v1" }, .coreWaitContainer "c1",
        .goExitNotifier { exitCodeFn := some 0, ContainerID := "c1", ActivityID := "a1" },
        .respSend { header := { Type_ := 2, Size := 0, ID := 5 }
                    response := .create { MessageResponseBase := { ActivityID := "a1" }
                                          SelectedProtocolVersion := 3 } }]
      { Type_ := 2, Size := 0, ID := 5 }
      { MessageResponseBase := { ActivityID := "a1" }, SelectedProtocolVersion := 3 }
      rfl (by decide)⟩

/-- Counterexample to C12 as stated: a create request that is not taken by the
skip path and is not a v2 create, but whose `ContainerConfig` does not decode
as v1 settings; and a create request whose payload decodes without a
`MessageBase`, on which `createContainer` panics when it reads
`request.ContainerID`.  Neither run calls `CreateContainer`. -/
theorem createContainer_makes_no_create_call :
    (sampleEnvBadConfig.json.ContainerCreate [0] =
        .ok { MessageBase := some { ContainerID := "c1", ActivityID := "a1" }
              ContainerConfig := "v1" } ∧
      ¬ (PvV4 ≤ ({ } : Bridge).protVer) ∧
      ((createContainer protSample sampleEnvBadConfig
          { header := { Type_ := 2, Size := 0, ID := 5 } }
          { Header := { Type_ := 1, Size := 17, ID := 5 }, Message := [0], Version := 0 }
          { }).2.trace.filter Event.isCreateContainer) = []) ∧
    (sampleEnvNilBase.json.ContainerCreate [0] =
        .ok { MessageBase := none, ContainerConfig := "v1" } ∧
      sampleEnvNilBase.json.VMHostedContainerSettings "v1" = .ok { body := "v1" } ∧
      createContainer protSample sampleEnvNilBase
          { header := { Type_ := 2, Size := 0, ID := 5 } }
          { Header := { Type_ := 1, Size := 17, ID := 5 }, Message := [0], Version := 0 }
          { } =
        ({ header := { Type_ := 2, Size := 0, ID := 5 }, respWritten := false },
          { protVer := 0, trace := [.panic nilDereference] })) :=
  ⟨⟨rfl, by decide, by decide⟩, ⟨rfl, rfl, rfl⟩⟩

/-- C12 (as amended): for every decodable create request that has its
`MessageBase`, is not taken by the skip-first-create path and whose
`ContainerConfig` decodes (as v2 settings when the selected version is at least
`PvV4`, as v1 settings when the v2 path is not taken), `createContainer` makes
exactly one `CreateContainer` call: on the host, with the request's
`ContainerID` and the v2 settings, if and only if the selected version is at
least `PvV4` and the `SchemaVersion` of the configuration is at least `(2, 0)`;
otherwise on the runtime, with the request's `ContainerID` and the v1 settings;
never both.  On a decodable request without a `MessageBase`, `createContainer`
only panics. -/
theorem createContainer_create_call (P : Prot) (E : Env) (w : requestResponseWriter)
    (r : Request) (b : Bridge) (request : ContainerCreate)
    (settingsV2 : VMHostedContainerSettingsV2) (settings : VMHostedContainerSettings)
    (new : List Event)
    (hdec : E.json.ContainerCreate r.Message = .ok request)
    (hnew : (createContainer P E w r b).2.trace = b.trace ++ new) :
    (∀ base, request.MessageBase = some base →
      ¬ (b.protVer = PvV4 ∧ base.ContainerID = "00000000-0000-0000-0000-000000000000") →
      (PvV4 ≤ b.protVer →
        E.json.VMHostedContainerSettingsV2 request.ContainerConfig = .ok settingsV2) →
      (¬ (PvV4 ≤ b.protVer ∧
          settingsV2.SchemaVersion.Cmp { Major := 2, Minor := 0 } ≥ 0) →
        E.json.VMHostedContainerSettings request.ContainerConfig = .ok settings) →
      new.filter Event.isCreateContainer =
        if PvV4 ≤ b.protVer ∧ settingsV2.SchemaVersion.Cmp { Major := 2, Minor := 0 } ≥ 0 then
          [.hostCreateContainer base.ContainerID settingsV2]
        else [.coreCreateContainer base.ContainerID settings]) ∧
    (request.MessageBase = none → new = [.panic nilDereference]) := by
  constructor
  swap
  · intro hbase
    rw [createContainer_nilBase P E w r b request hdec hbase] at hnew
    simpa [Bridge.emit] using hnew.symm
  intro base hbase hskip hcfg2 hcfg1
  have v1 : ¬ (PvV4 ≤ b.protVer ∧
      settingsV2.SchemaVersion.Cmp { Major := 2, Minor := 0 } ≥ 0) →
      ∀ new1, (createContainerFallback P E w request base none false b).2.trace =
        b.trace ++ new1 →
      new1.filter Event.isCreateContainer =
        [.coreCreateContainer base.ContainerID settings] := by
    intro hv new1 hnew1
    unfold createContainerFallback at hnew1
    cases hcreate : E.core.CreateContainer base.ContainerID settings with
    | some err =>
      simp [hcfg1 hv, hcreate, requestResponseWriter.Error, requestResponseWriter.Write,
        Bridge.emit] at hnew1
      subst hnew1
      simp [Event.isCreateContainer]
    | none =>
      simp [hcfg1 hv, hcreate, createContainerRespond_eq, createContainerNotify_eq,
        Bridge.emit] at hnew1
      subst hnew1
      simp [Event.isCreateContainer]
  unfold createContainer at hnew
  simp only [hdec, hbase, if_neg hskip] at hnew
  by_cases hver : PvV4 ≤ b.protVer
  · simp only [ge_iff_le, hver, if_true, hcfg2 hver] at hnew
    by_cases hschema : settingsV2.SchemaVersion.Cmp { Major := 2, Minor := 0 } ≥ 0
    · rw [if_pos ⟨hver, hschema⟩]
      have hschema2 : 0 ≤ settingsV2.SchemaVersion.Cmp { Major := 2, Minor := 0 } := hschema
      cases hcreate : E.host.CreateContainer base.ContainerID settingsV2 with
      | error err =>
        simp [hschema2, hcreate, requestResponseWriter.Error, requestResponseWriter.Write,
          Bridge.emit] at hnew
        subst hnew
        simp [Event.isCreateContainer]
      | ok c =>
        simp [hschema2, hcreate, createContainerFallback, createContainerRespond_eq,
          createContainerNotify_eq, Bridge.emit] at hnew
        subst hnew
        simp [Event.isCreateContainer]
    · have hv : ¬ (PvV4 ≤ b.protVer ∧
          settingsV2.SchemaVersion.Cmp { Major := 2, Minor := 0 } ≥ 0) := fun h => hschema h.2
      rw [if_neg hv]
      have hschema2 : ¬ 0 ≤ settingsV2.SchemaVersion.Cmp { Major := 2, Minor := 0 } := hschema
      simp only [hschema2, if_false] at hnew
      exact v1 hv new hnew
  · have hv : ¬ (PvV4 ≤ b.protVer ∧
        settingsV2.SchemaVersion.Cmp { Major := 2, Minor := 0 } ≥ 0) := fun h => hver h.1
    rw [if_neg hv]
    simp only [ge_iff_le, hver, if_false] at hnew
    exact v1 hv new hnew

/-- Witness for C12: a v2 create of container `"c2"` under protocol version 4
goes to the host. -/
theorem createContainer_create_call_witness :
    sampleEnvV2.json.ContainerCreate [] =
      .ok { MessageBase := some { ContainerID := "c2", ActivityID := "a2" }
            ContainerConfig := "v2" } ∧
    (createContainer protSample sampleEnvV2
        { header := { Type_ := 2, Size := 0, ID := 5 } }
        { Header := { Type_ := 1, Size := 16, ID := 5 }, Message := [], Version := 4 }
        { protVer := 4 }).2.trace =
      [] ++ [.hostCreateContainer "c2" { SchemaVersion := { Major := 2, Minor := 1 }, body := "v2" },
        .goExitNotifier { exitCodeFn := some 37, ContainerID := "c2", ActivityID := "a2" },
        .respSend { header := { Type_ := 2, Size := 0, ID := 5 }
                    response := .create { MessageResponseBase := { ActivityID := "a2" } } }] ∧
    List.filter Event.isCreateContainer
      [.hostCreateContainer "c2" { SchemaVersion := { Major := 2, Minor := 1 }, body := "v2" },
        .goExitNotifier { exitCodeFn := some 37, ContainerID := "c2", ActivityID := "a2" },
        .respSend { header := { Type_ := 2, Size := 0, ID := 5 }
                    response := .create { MessageResponseBase := { ActivityID := "a2" } } }] =
      (if PvV4 ≤ 4 ∧
          SchemaVersion.Cmp { Major := 2, Minor := 1 } { Major := 2, Minor := 0 } ≥ 0 then
        [.hostCreateContainer "c2" { SchemaVersion := { Major := 2, Minor := 1 }, body := "v2" }]
      else [.coreCreateContainer "c2" { body := "v2" }]) :=
  ⟨rfl, rfl,
    (createContainer_create_call protSample sampleEnvV2
      { header := { Type_ := 2, Size := 0, ID := 5 } }
      { Header := { Type_ := 1, Size := 16, ID := 5 }, Message := [], Version := 4 }
      { protVer := 4 }
      { MessageBase := some { ContainerID := "c2", ActivityID := "a2" }, ContainerConfig := "v2" }
      { SchemaVersion := { Major := 2, Minor := 1 }, body := "v2" } { body := "v2" }
      _ rfl rfl).1 { ContainerID := "c2", ActivityID := "a2" } rfl (by decide) (fun _ => rfl)
      (fun _ => rfl)⟩

/-- Counterexample to C14 as stated: in a successful legacy create the task is
started before the create response is written. -/
theorem createContainer_spawns_before_writing :
    (createContainer protSample sampleEnv
        { header := { Type_ := 2, Size := 0, ID := 5 } }
        { Header := { Type_ := 1, Size := 17, ID := 5 }, Message := [0], Version := 0 }
        { }).2.trace =
      [.coreCreateContainer "c1" { body := "v1" }, .coreWaitContainer "c1",
        .goExitNotifier { exitCodeFn := some 0, ContainerID := "c1", ActivityID := "a1" },
        .respSend { header := { Type_ := 2, Size := 0, ID := 5 }
                    response := .create { MessageResponseBase := { ActivityID := "a1" }
                                          SelectedProtocolVersion := 3 } }] ∧
    writesBeforeSpawning (createContainer protSample sampleEnv
        { header := { Type_ := 2, Size := 0, ID := 5 } }
        { Header := { Type_ := 1, Size := 17, ID := 5 }, Message := [0], Version := 0 }
        { }).2.trace = false :=
  ⟨rfl, by decide⟩

/-- C14 (as amended): in every successful execution of `createContainer` other
than the skipped first create (which starts no task), the wait-and-notify task
is started immediately before the handler's `Write` of the create response, so
the response is not written before the task is spawned and the exit
notification may be enqueued first. -/
theorem createContainer_spawn_order (P : Prot) (E : Env) (w : requestResponseWriter)
    (r : Request) (b : Bridge) (new : List Event) (header : MessageHeader)
    (response : ContainerCreateResponse)
    (hnew : (createContainer P E w r b).2.trace = b.trace ++ new)
    (hsucc : Event.respSend { header := header, response := .create response } ∈ new) :
    (new = [.respSend { header := header, response := .create response }] ∧
      b.protVer = PvV4) ∨
    ((∃ calls t, new = calls ++
        [.goExitNotifier t, .respSend { header := header, response := .create response }] ∧
        ∀ e ∈ calls, e.isCollaboratorCall = true) ∧
      writesBeforeSpawning new = false) := by
  cases createContainer_outcome P E w r b with
  | panicked request hdec hbase hout =>
    rw [hout] at hnew
    simp [Bridge.emit] at hnew
    subst hnew
    simp at hsucc
  | failed a err calls hcalls hout =>
    rw [hout] at hnew
    simp [requestResponseWriter.Error, requestResponseWriter.Write, Bridge.emit] at hnew
    subst hnew
    rcases hcalls with rfl | ⟨id, s, rfl⟩ | ⟨id, s, rfl⟩ <;> simp at hsucc
  | skipped request base hdec hbase hskip hout =>
    rw [hout] at hnew
    simp [requestResponseWriter.Write, Bridge.emit] at hnew
    subst hnew
    simp at hsucc
    obtain ⟨rfl, rfl⟩ := hsucc
    exact Or.inl ⟨rfl, hskip.1⟩
  | createdV2 request base settingsV2 c hdec hbase hskip hver hcfg hschema hcreate hout =>
    rw [hout] at hnew
    simp at hnew
    subst hnew
    simp at hsucc
    obtain ⟨rfl, rfl⟩ := hsucc
    exact Or.inr ⟨⟨[.hostCreateContainer base.ContainerID settingsV2], _, rfl,
      by simp [Event.isCollaboratorCall]⟩,
      by simp [writesBeforeSpawning, Event.response?, Event.task?]⟩
  | createdV1 request base settings hdec hbase hskip hver hcfg hcreate hout =>
    rw [hout] at hnew
    simp at hnew
    subst hnew
    simp at hsucc
    obtain ⟨rfl, rfl⟩ := hsucc
    exact Or.inr ⟨⟨[.coreCreateContainer base.ContainerID settings,
        .coreWaitContainer base.ContainerID], _, rfl,
      by simp [Event.isCollaboratorCall]⟩,
      by simp [writesBeforeSpawning, Event.response?, Event.task?]⟩

/-- Witness for C14: the legacy create of container `"c1"`. -/
theorem createContainer_spawn_order_witness :
    (createContainer protSample sampleEnv
        { header := { Type_ := 2, Size := 0, ID := 5 } }
        { Header := { Type_ := 1, Size := 17, ID := 5 }, Message := [0], Version := 0 }
        { }).2.trace =
      [] ++ [.coreCreateContainer "c1" { body := "v1" }, .coreWaitContainer "c1",
        .goExitNotifier { exitCodeFn := some 0, ContainerID := "c1", ActivityID := "a1" },
        .respSend { header := { Type_ := 2, Size := 0, ID := 5 }, response := .create { MessageResponseBase := { ActivityID := "a1" }, SelectedProtocolVersion := 3 } }] ∧
    ((([.coreCreateContainer "c1" { body := "v1" }, .coreWaitContainer "c1",
        .goExitNotifier { exitCodeFn := some 0, ContainerID := "c1", ActivityID := "a1" },
        .respSend { header := { Type_ := 2, Size := 0, ID := 5 }, response := .create { MessageResponseBase := { ActivityID := "a1" }, SelectedProtocolVersion := 3 } }] : List Event) =
        [.respSend { header := { Type_ := 2, Size := 0, ID := 5 }, response := .create { MessageResponseBase := { ActivityID := "a1" }, SelectedProtocolVersion := 3 } }] ∧
      (0 : Nat) = PvV4) ∨
    ((∃ calls t, ([.coreCreateContainer "c1" { body := "v1" }, .coreWaitContainer "c1",
        .goExitNotifier { exitCodeFn := some 0, ContainerID := "c1", ActivityID := "a1" },
        .respSend { header := { Type_ := 2, Size := 0, ID := 5 }, response := .create { MessageResponseBase := { ActivityID := "a1" }, SelectedProtocolVersion := 3 } }] : List Event) =
        calls ++ [.goExitNotifier t, .respSend { header := { Type_ := 2, Size := 0, ID := 5 }, response := .create { MessageResponseBase := { ActivityID := "a1" }, SelectedProtocolVersion := 3 } }] ∧
        ∀ e ∈ calls, e.isCollaboratorCall = true) ∧
      writesBeforeSpawning [.coreCreateContainer "c1" { body := "v1" }, .coreWaitContainer "c1",
        .goExitNotifier { exitCodeFn := some 0, ContainerID := "c1", ActivityID := "a1" },
        .respSend { header := { Type_ := 2, Size := 0, ID := 5 }, response := .create { MessageResponseBase := { ActivityID := "a1" }, SelectedProtocolVersion := 3 } }] = false)) :=
  ⟨rfl,
    createContainer_spawn_order protSample sampleEnv
      { header := { Type_ := 2, Size := 0, ID := 5 } }
      { Header := { Type_ := 1, Size := 17, ID := 5 }, Message := [0], Version := 0 }
      { } [.coreCreateContainer "c1" { body := "v1" }, .coreWaitContainer "c1",
        .goExitNotifier { exitCodeFn := some 0, ContainerID := "c1", ActivityID := "a1" },
        .respSend { header := { Type_ := 2, Size := 0, ID := 5 }, response := .create { MessageResponseBase := { ActivityID := "a1" }, SelectedProtocolVersion := 3 } }]
      { Type_ := 2, Size := 0, ID := 5 }
      { MessageResponseBase := { ActivityID := "a1" }, SelectedProtocolVersion := 3 }
      rfl (by decide)⟩

/-! ### The response writer and the error mapping -/

/-- Counterexample to C15 as stated: a second `Write` on the same response
writer enqueues a second response; nothing aborts. -/
theorem requestResponseWriter.second_Write_is_enqueued :
    ((requestResponseWriter.Write
        (requestResponseWriter.Write { header := { Type_ := 2, Size := 0, ID := 5 } }
          (.other 1) { }).1
        (.other 2)
        (requestResponseWriter.Write { header := { Type_ := 2, Size := 0, ID := 5 } }
          (.other 1) { }).2).2.responseChan) =
      [{ header := { Type_ := 2, Size := 0, ID := 5 }, response := .other 1 },
       { header := { Type_ := 2, Size := 0, ID := 5 }, response := .other 2 }] := by
  decide

/-- C15 (as amended): `Write` does not look at `respWritten`; calling it a
second time on the same response writer enqueues a second response with the
same header, after the first one, and leaves the writer marked written. -/
theorem requestResponseWriter.Write_twice (w : requestResponseWriter) (x y : Payload)
    (b : Bridge) :
    (w.Write x b).1.Write y (w.Write x b).2 =
      ({ w with respWritten := true },
        { protVer := b.protVer
          trace := b.trace ++
            [.respSend { header := w.header, response := x },
             .respSend { header := w.header, response := y }] }) ∧
    ((w.Write x b).1.Write y (w.Write x b).2).2.responseChan =
      b.responseChan ++
        [{ header := w.header, response := x }, { header := w.header, response := y }] := by
  constructor
  · simp [requestResponseWriter.Write, Bridge.emit]
  · simp [requestResponseWriter.Write, Bridge.emit, Bridge.responseChan, List.filterMap_append,
      Event.response?]

/-- C16: for every activity id `a` and error `e`, `Error(a, e)` enqueues exactly
one `MessageResponseBase`, whose `ActivityID` is `a` when `a` is not empty and
the nil GUID when it is, and whose `Result` and `ErrorRecords` are those that
`setErrorForResponseBase` produces for `e` on a fresh response; it marks the
writer as written. -/
theorem requestResponseWriter.Error_spec (P : Prot) (w : requestResponseWriter) (a : String)
    (e : GoError) (b : Bridge) :
    ∃ resp : MessageResponseBase,
      w.Error P a e b =
        ({ w with respWritten := true },
          { protVer := b.protVer
            trace := b.trace ++ [.respSend { header := w.header, response := .base resp }] }) ∧
      (a ≠ "" → resp.ActivityID = a) ∧
      (a = "" → resp.ActivityID = "00000000-0000-0000-0000-000000000000") ∧
      resp.Result = (setErrorForResponseBase P { ActivityID := resp.ActivityID } e).Result ∧
      resp.ErrorRecords =
        (setErrorForResponseBase P { ActivityID := resp.ActivityID } e).ErrorRecords := by
  refine ⟨setErrorForResponseBase P
    { ActivityID := if a = "" then "00000000-0000-0000-0000-000000000000" else a } e,
    ?_, ?_, ?_, ?_, ?_⟩
  · simp [requestResponseWriter.Error, requestResponseWriter.Write, Bridge.emit]
  · intro ha
    simp [setErrorForResponseBase, ha]
  · intro ha
    simp [setErrorForResponseBase, ha]
  · simp [setErrorForResponseBase]
  · simp [setErrorForResponseBase]

/-- C17: `setErrorForResponseBase` sets `Result` to the HRESULT found in the
error chain, or to `HrFail` when there is none, and appends exactly one
`ErrorRecord` after the existing ones, whose `Result` equals the new
`response.Result`, whose `Message` is `e.Error()` and whose `ModuleName` is
`"gcs"`; the `ActivityID` is not modified.  HRESULTs are 32-bit values. -/
theorem setErrorForResponseBase_spec (P : Prot) (response : MessageResponseBase) (e : GoError)
    (hfail : isInt32 P.HrFail) (he : e.hresultInt32) :
    (setErrorForResponseBase P response e).Result = e.hresultOr P ∧
    (setErrorForResponseBase P response e).ActivityID = response.ActivityID ∧
    ∃ record : ErrorRecord,
      (setErrorForResponseBase P response e).ErrorRecords = response.ErrorRecords ++ [record] ∧
      record.Result = (setErrorForResponseBase P response e).Result ∧
      record.Message = e.Error ∧
      record.ModuleName = "gcs" := by
  have hr : toInt32 (e.hresultOr P) = e.hresultOr P := by
    apply toInt32_of_isInt32
    unfold GoError.hresultOr
    cases hh : e.hresult with
    | none => exact hfail
    | some h => exact he h hh
  have hres : (setErrorForResponseBase P response e).Result = e.hresultOr P := by
    rw [← hr]
    unfold setErrorForResponseBase GoError.hresultOr
    cases e.hresult <;> rfl
  refine ⟨hres, rfl, ?_⟩
  refine ⟨_, rfl, ?_, rfl, rfl⟩
  rw [hres, ← hr]
  unfold GoError.hresultOr
  cases e.hresult <;> rfl

/-- Witness for C17: an error wrapped with the HRESULT of an unknown message,
set on a response that already holds one record. -/
theorem setErrorForResponseBase_spec_witness :
    isInt32 protSample.HrFail ∧
    (gcserr.WrapHresult sampleError protSample.HrVmcomputeUnknownMessage).hresultInt32 ∧
    (setErrorForResponseBase protSample
        { ActivityID := "a1", Result := 5,
          ErrorRecords := [{ Result := 5, Message := "m", StackTrace := "", ModuleName := "gcs",
                             FileName := "", Line := 1, FunctionName := "" }] }
        (gcserr.WrapHresult sampleError protSample.HrVmcomputeUnknownMessage)).Result =
      (gcserr.WrapHresult sampleError protSample.HrVmcomputeUnknownMessage).hresultOr protSample ∧
    (gcserr.WrapHresult sampleError protSample.HrVmcomputeUnknownMessage).hresultOr protSample =
      protSample.HrVmcomputeUnknownMessage :=
  ⟨by decide,
    by
      intro h hh
      cases hh
      decide,
    (setErrorForResponseBase_spec protSample
      { ActivityID := "a1", Result := 5,
        ErrorRecords := [{ Result := 5, Message := "m", StackTrace := "", ModuleName := "gcs",
                           FileName := "", Line := 1, FunctionName := "" }] }
      (gcserr.WrapHresult sampleError protSample.HrVmcomputeUnknownMessage)
      (by decide)
      (by
        intro h hh
        cases hh
        decide)).1,
    rfl⟩

/-- Counterexample to C18 as stated: an error value whose HRESULT is 0 and whose
`Error()` text is empty yields an error response with `Result = 0` and a record
with `Result = 0` and an empty `Message`. -/
theorem requestResponseWriter.Error_zero_result_empty_message :
    (requestResponseWriter.Error protSample { header := { Type_ := 2, Size := 0, ID := 5 } } "a1"
        { Error := "", hresult := some 0, stack := none } { }).2.responseChan =
      [{ header := { Type_ := 2, Size := 0, ID := 5 }
         response := .base
           { ActivityID := "a1"
             Result := 0
             ErrorRecords := [{ Result := 0, Message := "", StackTrace := "", ModuleName := "gcs",
                                FileName := "", Line := 4294967295, FunctionName := "" }] } }] := by
  decide

/-- C18 (as amended): every response written through `Error` has exactly one
error record; its `Result` and the record's `Result` are the HRESULT of the
error (the one in its chain, `HrFail` when there is none), hence nonzero
exactly when that HRESULT is nonzero, and the record's `Message` is `e.Error()`,
hence nonempty exactly when that text is nonempty. -/
theorem requestResponseWriter.Error_records (P : Prot) (w : requestResponseWriter) (a : String)
    (e : GoError) (b : Bridge) (hfail : isInt32 P.HrFail) (he : e.hresultInt32) :
    ∃ (resp : MessageResponseBase) (record : ErrorRecord),
      (w.Error P a e b).2.trace =
        b.trace ++ [.respSend { header := w.header, response := .base resp }] ∧
      resp.ErrorRecords = [record] ∧
      resp.Result = e.hresultOr P ∧ record.Result = e.hresultOr P ∧
      record.Message = e.Error ∧
      (resp.Result ≠ 0 ↔ e.hresultOr P ≠ 0) ∧
      (record.Result ≠ 0 ↔ e.hresultOr P ≠ 0) ∧
      (record.Message ≠ "" ↔ e.Error ≠ "") := by
  have hr : toInt32 (e.hresultOr P) = e.hresultOr P := by
    apply toInt32_of_isInt32
    unfold GoError.hresultOr
    cases hh : e.hresult with
    | none => exact hfail
    | some h => exact he h hh
  have hres : ∀ response : MessageResponseBase,
      (setErrorForResponseBase P response e).Result = e.hresultOr P := by
    intro response
    rw [← hr]
    unfold setErrorForResponseBase GoError.hresultOr
    cases e.hresult <;> rfl
  refine ⟨setErrorForResponseBase P
      { ActivityID := if a = "" then "00000000-0000-0000-0000-000000000000" else a } e,
    { Result := toInt32 (e.hresultOr P)
      Message := e.Error
      StackTrace := (match e.stack with
        | some stack => stack.rendered
        | none => "")
      ModuleName := "gcs"
      FileName := (match e.stack with
        | some stack => stack.bottomFile
        | none => "")
      Line := toUint32 (match e.stack with
        | some stack =>
          match Atoi stack.bottomLine with
          | some n => n
          | none => -1
        | none => -1)
      FunctionName := (match e.stack with
        | some stack => stack.bottomFunc
        | none => "") }, ?_, ?_, hres _, hr, rfl, ?_, ?_, Iff.rfl⟩
  · simp [requestResponseWriter.Error, requestResponseWriter.Write, Bridge.emit]
  · unfold setErrorForResponseBase GoError.hresultOr
    cases e.hresult <;> cases e.stack <;> rfl
  · rw [hres]
  · rw [hr]

/-- Witness for C18: the error that `UnknownMessage` builds. -/
theorem requestResponseWriter.Error_records_witness :
    isInt32 protSample.HrFail ∧
    (gcserr.WrapHresult sampleError protSample.HrVmcomputeUnknownMessage).hresultInt32 ∧
    ∃ (resp : MessageResponseBase) (record : ErrorRecord),
      (requestResponseWriter.Error protSample { header := { Type_ := 2, Size := 0, ID := 5 } } ""
        (gcserr.WrapHresult sampleError protSample.HrVmcomputeUnknownMessage) { }).2.trace =
        [] ++ [.respSend { header := { Type_ := 2, Size := 0, ID := 5 }, response := .base resp }] ∧
      resp.ErrorRecords = [record] ∧
      resp.Result =
        (gcserr.WrapHresult sampleError protSample.HrVmcomputeUnknownMessage).hresultOr protSample ∧
      record.Result =
        (gcserr.WrapHresult sampleError protSample.HrVmcomputeUnknownMessage).hresultOr protSample ∧
      record.Message = (gcserr.WrapHresult sampleError protSample.HrVmcomputeUnknownMessage).Error ∧
      (resp.Result ≠ 0 ↔
        (gcserr.WrapHresult sampleError protSample.HrVmcomputeUnknownMessage).hresultOr protSample
          ≠ 0) ∧
      (record.Result ≠ 0 ↔
        (gcserr.WrapHresult sampleError protSample.HrVmcomputeUnknownMessage).hresultOr protSample
          ≠ 0) ∧
      (record.Message ≠ "" ↔
        (gcserr.WrapHresult sampleError protSample.HrVmcomputeUnknownMessage).Error ≠ "") :=
  ⟨by decide,
    by
      intro h hh
      cases hh
      decide,
    requestResponseWriter.Error_records protSample
      { header := { Type_ := 2, Size := 0, ID := 5 } } ""
      (gcserr.WrapHresult sampleError protSample.HrVmcomputeUnknownMessage) { }
      (by decide)
      (by
        intro h hh
        cases hh
        decide)⟩

/-- Counterexample to C19 as stated: for an error without a stack trace the
record's `Line`, an unsigned 32-bit field, is 4294967295 and not -1. -/
theorem setErrorForResponseBase_line_without_stack :
    (setErrorForResponseBase protSample { ActivityID := "a1" } sampleError).ErrorRecords.map
        (fun record => (record.Line : Int)) = [4294967295] ∧
    ¬ ((setErrorForResponseBase protSample { ActivityID := "a1" } sampleError).ErrorRecords.map
        (fun record => (record.Line : Int)) = [-1]) := by
  decide

/-- C19 (as amended): the record appended by `setErrorForResponseBase` has
`Line = uint32(-1) = 4294967295` when the error carries no stack trace or the
line of the bottom frame does not parse as a decimal number; otherwise `Line`
is the parsed line number converted to `uint32`, which is that number itself
when it lies between 0 and 4294967295. -/
theorem setErrorForResponseBase_line (P : Prot) (response : MessageResponseBase) (e : GoError) :
    ∃ record : ErrorRecord,
      (setErrorForResponseBase P response e).ErrorRecords = response.ErrorRecords ++ [record] ∧
      (e.stack = none → record.Line = 4294967295) ∧
      (∀ stack, e.stack = some stack → Atoi stack.bottomLine = none →
        record.Line = 4294967295) ∧
      (∀ stack n, e.stack = some stack → Atoi stack.bottomLine = some n →
        record.Line = toUint32 n ∧ (0 ≤ n → n < 2 ^ 32 → (record.Line : Int) = n)) := by
  have hm1 : toUint32 (-1) = 4294967295 := by decide
  have hsmall : ∀ n : Int, 0 ≤ n → n < 2 ^ 32 → ((toUint32 n : Nat) : Int) = n := by
    intro n h0 h1
    unfold toUint32
    rw [Int.emod_eq_of_lt h0 h1]
    exact Int.toNat_of_nonneg h0
  refine ⟨_, rfl, ?_, ?_, ?_⟩
  · intro hs
    simp [hs, hm1]
  · intro stack hs ha
    simp [hs, ha, hm1]
  · intro stack n hs ha
    refine ⟨?_, ?_⟩
    · simp only [hs, ha]
    · intro h0 h1
      simp only [hs, ha]
      exact hsmall n h0 h1

/-! ### Executing a process -/

/-- Counterexample to C20 as stated: the lookup of the host container fails for
a request without an activity id, and the error response carries the nil GUID,
not the request's (empty) `ActivityID`; and a request for a v2 process whose
payload decodes without a `MessageBase` makes `execProcess` panic when it reads
`request.ContainerID`, before any collaborator is called and without a
response, while one for an external process panics after the call of
`RunExternalProcess`, without a response. -/
theorem execProcess_fails_without_ActivityID :
    (∃ request base0 base,
      sampleEnvExec.json.ContainerExecuteProcess [0, 0] = .ok request ∧
      request.MessageBase = some base0 ∧
      base0.ActivityID = "" ∧
      (execProcess protSample sampleEnvExec
          { header := { Type_ := 2, Size := 0, ID := 5 } }
          { Header := { Type_ := 1, Size := 18, ID := 5 }, Message := [0, 0], Version := 4 }
          { protVer := 4 }).2.trace =
        [.hostGetContainer "c9",
         .respSend { header := { Type_ := 2, Size := 0, ID := 5 }, response := .base base }] ∧
      base.ErrorRecords ≠ [] ∧
      base.ActivityID = "00000000-0000-0000-0000-000000000000" ∧
      base.ActivityID ≠ base0.ActivityID) ∧
    (∃ request params,
      sampleEnvNilBase.json.ContainerExecuteProcess [1] = .ok request ∧
      request.MessageBase = none ∧
      sampleEnvNilBase.json.ProcessParameters request.Settings.ProcessParameters = .ok params ∧
      params.IsExternal = false ∧
      execProcess protSample sampleEnvNilBase
          { header := { Type_ := 2, Size := 0, ID := 5 } }
          { Header := { Type_ := 1, Size := 17, ID := 5 }, Message := [1], Version := 4 }
          { protVer := 4 } =
        ({ header := { Type_ := 2, Size := 0, ID := 5 }, respWritten := false },
          { protVer := 4, trace := [.panic nilDereference] })) ∧
    (∃ request params,
      sampleEnvNilBase.json.ContainerExecuteProcess [] = .ok request ∧
      request.MessageBase = none ∧
      sampleEnvNilBase.json.ProcessParameters request.Settings.ProcessParameters = .ok params ∧
      params.IsExternal = true ∧
      execProcess protSample sampleEnvNilBase
          { header := { Type_ := 2, Size := 0, ID := 5 } }
          { Header := { Type_ := 1, Size := 16, ID := 5 }, Message := [], Version := 4 }
          { protVer := 4 } =
        ({ header := { Type_ := 2, Size := 0, ID := 5 }, respWritten := false },
          { protVer := 4
            trace := [.coreRunExternalProcess params (execProcessConSettings request params),
                      .panic nilDereference] })) :=
  ⟨⟨_, _, _, rfl, rfl, rfl, rfl, by decide, by decide, by decide⟩,
    ⟨_, _, rfl, rfl, rfl, rfl, rfl⟩, ⟨_, _, rfl, rfl, rfl, rfl, rfl⟩⟩

/-- C20 (as amended): for every execute-process request that has its
`MessageBase` and whose outer payload and `ProcessParameters` decode,
`execProcess` takes exactly one route, chosen in this order:
`runtime.RunExternalProcess(params, conn)` if `IsExternal`;
otherwise, if `params.SchemaVersion >= (2,0)`, the host container looked up by
`ContainerID`, with `Start(conn)` when `OCIProcess` is nil and
`ExecProcess(OCIProcess, conn)` when it is not; otherwise
`runtime.ExecProcess(ContainerID, params, conn)`.  On success the response
carries the request's `ActivityID` and the returned pid converted to `uint32`;
on failure (also of the container lookup, after which nothing else is called)
it writes an error with the request's `ActivityID`, or with the nil GUID when
that `ActivityID` is empty.  On a request without a `MessageBase`,
`execProcess` panics without a response: after the call of
`RunExternalProcess` if `IsExternal`, and before any call otherwise. -/
theorem execProcess_dispatch (P : Prot) (E : Env) (w : requestResponseWriter) (r : Request)
    (b : Bridge) (request : ContainerExecuteProcess) (params : ProcessParameters)
    (hdec : E.json.ContainerExecuteProcess r.Message = .ok request)
    (hparams : E.json.ProcessParameters request.Settings.ProcessParameters = .ok params) :
    (request.MessageBase = none →
      execProcess P E w r b =
        (w, { protVer := b.protVer
              trace := b.trace ++
                (if params.IsExternal = true then
                  [.coreRunExternalProcess params (execProcessConSettings request params)]
                else []) ++ [.panic nilDereference] })) ∧
    ∀ base, request.MessageBase = some base →
    ∃ (calls : List Event) (result : Except GoError Int),
      -- the route taken
      (params.IsExternal = true →
        calls = [.coreRunExternalProcess params (execProcessConSettings request params)] ∧
        result = E.core.RunExternalProcess params (execProcessConSettings request params)) ∧
      (params.IsExternal = false →
        params.SchemaVersion.Cmp { Major := 2, Minor := 0 } ≥ 0 →
        (∀ err, E.host.GetContainer base.ContainerID = .error err →
          calls = [.hostGetContainer base.ContainerID] ∧ result = .error err) ∧
        (∀ c, E.host.GetContainer base.ContainerID = .ok c → params.OCIProcess = none →
          calls = [.hostGetContainer base.ContainerID,
            .containerStart base.ContainerID (execProcessConSettings request params)] ∧
          result = c.Start (execProcessConSettings request params)) ∧
        (∀ c process, E.host.GetContainer base.ContainerID = .ok c →
          params.OCIProcess = some process →
          calls = [.hostGetContainer base.ContainerID,
            .containerExecProcess base.ContainerID process
              (execProcessConSettings request params)] ∧
          result = c.ExecProcess process (execProcessConSettings request params))) ∧
      (params.IsExternal = false →
        params.SchemaVersion.Cmp { Major := 2, Minor := 0 } < 0 →
        calls = [.coreExecProcess base.ContainerID params
          (execProcessConSettings request params)] ∧
        result = E.core.ExecProcess base.ContainerID params
          (execProcessConSettings request params)) ∧
      -- the response
      (∀ pid, result = .ok pid →
        execProcess P E w r b =
          ({ w with respWritten := true },
            { protVer := b.protVer
              trace := b.trace ++ calls ++ [.respSend
                { header := w.header
                  response := .executeProcess
                    { MessageResponseBase :=
                        { ActivityID := base.ActivityID, Result := 0, ErrorRecords := [] }
                      ProcessID := toUint32 pid } }] })) ∧
      (∀ err, result = .error err →
        execProcess P E w r b =
          ({ w with respWritten := true },
            { protVer := b.protVer
              trace := b.trace ++ calls ++ [.respSend
                { header := w.header
                  response := .base (setErrorForResponseBase P
                    { ActivityID :=
                        if base.ActivityID = "" then "00000000-0000-0000-0000-000000000000"
                        else base.ActivityID }
                    err) }] })) := by
  constructor
  · intro hbase
    rw [execProcess_nilBase P E w r b request hdec hbase, hparams]
  intro base hbase
  have respond : ∀ (calls : List Event) (result : Except GoError Int),
      (∀ pid, result = .ok pid →
        execProcessRespond P w request result { b with trace := b.trace ++ calls } =
          ({ w with respWritten := true },
            { protVer := b.protVer
              trace := b.trace ++ calls ++ [.respSend
                { header := w.header
                  response := .executeProcess
                    { MessageResponseBase :=
                        { ActivityID := base.ActivityID, Result := 0, ErrorRecords := [] }
                      ProcessID := toUint32 pid } }] })) ∧
      (∀ err, result = .error err →
        execProcessRespond P w request result { b with trace := b.trace ++ calls } =
          ({ w with respWritten := true },
            { protVer := b.protVer
              trace := b.trace ++ calls ++ [.respSend
                { header := w.header
                  response := .base (setErrorForResponseBase P
                    { ActivityID :=
                        if base.ActivityID = "" then "00000000-0000-0000-0000-000000000000"
                        else base.ActivityID }
                    err) }] })) := by
    intro calls result
    constructor
    · intro pid hres
      subst hres
      simp [execProcessRespond, hbase, requestResponseWriter.Write, Bridge.emit]
    · intro err hres
      subst hres
      simp [execProcessRespond, hbase, requestResponseWriter.Error,
        requestResponseWriter.Write, Bridge.emit]
  unfold execProcess
  simp only [hdec, hparams, hbase]
  by_cases hext : params.IsExternal = true
  · refine ⟨[.coreRunExternalProcess params (execProcessConSettings request params)],
      E.core.RunExternalProcess params (execProcessConSettings request params), ?_, ?_, ?_, ?_⟩
    · intro _
      exact ⟨rfl, rfl⟩
    · intro h
      rw [hext] at h
      cases h
    · intro h
      rw [hext] at h
      cases h
    · simpa [hext, Bridge.emit] using respond _ _
  · have hext2 : params.IsExternal = false := by
      cases h : params.IsExternal
      · rfl
      · exact absurd h hext
    by_cases hschema : params.SchemaVersion.Cmp { Major := 2, Minor := 0 } ≥ 0
    · have hschema2 : 0 ≤ params.SchemaVersion.Cmp { Major := 2, Minor := 0 } := hschema
      cases hget : E.host.GetContainer base.ContainerID with
      | error err =>
        refine ⟨[.hostGetContainer base.ContainerID], .error err, ?_, ?_, ?_, ?_⟩
        · intro h
          rw [hext2] at h
          cases h
        · intro _ _
          refine ⟨?_, ?_, ?_⟩
          · intro err2 h
            cases h
            exact ⟨rfl, rfl⟩
          · intro c h
            cases h
          · intro c process h
            cases h
        · intro _ h
          exact absurd hschema (not_le.2 h)
        · refine ⟨?_, ?_⟩
          · intro pid h
            cases h
          · intro err2 h
            cases h
            simp [hext2, hschema2, hget, execProcessRespond, hbase,
              requestResponseWriter.Error, requestResponseWriter.Write, Bridge.emit]
      | ok c =>
        cases hoci : params.OCIProcess with
        | none =>
          refine ⟨[.hostGetContainer base.ContainerID,
              .containerStart base.ContainerID (execProcessConSettings request params)],
            c.Start (execProcessConSettings request params), ?_, ?_, ?_, ?_⟩
          · intro h
            rw [hext2] at h
            cases h
          · intro _ _
            refine ⟨?_, ?_, ?_⟩
            · intro err2 h
              cases h
            · intro c2 h _
              cases h
              exact ⟨rfl, rfl⟩
            · intro c2 process _ h
              cases h
          · intro _ h
            exact absurd hschema (not_le.2 h)
          · simpa [hext2, hschema2, hget, hoci, Bridge.emit] using respond _ _
        | some process =>
          refine ⟨[.hostGetContainer base.ContainerID,
              .containerExecProcess base.ContainerID process
                (execProcessConSettings request params)],
            c.ExecProcess process (execProcessConSettings request params), ?_, ?_, ?_, ?_⟩
          · intro h
            rw [hext2] at h
            cases h
          · intro _ _
            refine ⟨?_, ?_, ?_⟩
            · intro err2 h
              cases h
            · intro c2 _ h
              cases h
            · intro c2 process2 h1 h2
              cases h1
              cases h2
              exact ⟨rfl, rfl⟩
          · intro _ h
            exact absurd hschema (not_le.2 h)
          · simpa [hext2, hschema2, hget, hoci, Bridge.emit] using respond _ _
    · have hschema2 : ¬ 0 ≤ params.SchemaVersion.Cmp { Major := 2, Minor := 0 } := hschema
      refine ⟨[.coreExecProcess base.ContainerID params
          (execProcessConSettings request params)],
        E.core.ExecProcess base.ContainerID params (execProcessConSettings request params),
        ?_, ?_, ?_, ?_⟩
      · intro h
        rw [hext2] at h
        cases h
      · intro _ h
        exact absurd h hschema
      · intro _ _
        exact ⟨rfl, rfl⟩
      · simpa [hext2, hschema2, Bridge.emit] using respond _ _

/-- Witness for C20: a request for the v2 container `"c2"` without an OCI
process starts the container, which returns pid 101. -/
theorem execProcess_dispatch_witness :
    sampleEnvExec.json.ContainerExecuteProcess [0] = .ok sampleExecRequest ∧
    sampleEnvExec.json.ProcessParameters sampleExecRequest.Settings.ProcessParameters =
      .ok sampleExecParams ∧
    sampleEnvExec.host.GetContainer sampleExecBase.ContainerID = .ok sampleContainer ∧
    sampleContainer.Start (execProcessConSettings sampleExecRequest sampleExecParams) = .ok 101 ∧
    sampleExecRequest.MessageBase = some sampleExecBase ∧
    (∃ (calls : List Event) (result : Except GoError Int),
      -- the route taken
      (sampleExecParams.IsExternal = true →
        calls = [.coreRunExternalProcess sampleExecParams (execProcessConSettings sampleExecRequest sampleExecParams)] ∧
        result = sampleEnvExec.core.RunExternalProcess sampleExecParams (execProcessConSettings sampleExecRequest sampleExecParams)) ∧
      (sampleExecParams.IsExternal = false →
        sampleExecParams.SchemaVersion.Cmp { Major := 2, Minor := 0 } ≥ 0 →
        (∀ err, sampleEnvExec.host.GetContainer sampleExecBase.ContainerID = .error err →
          calls = [.hostGetContainer sampleExecBase.ContainerID] ∧ result = .error err) ∧
        (∀ c, sampleEnvExec.host.GetContainer sampleExecBase.ContainerID = .ok c → sampleExecParams.OCIProcess = none →
          calls = [.hostGetContainer sampleExecBase.ContainerID,
            .containerStart sampleExecBase.ContainerID (execProcessConSettings sampleExecRequest sampleExecParams)] ∧
          result = c.Start (execProcessConSettings sampleExecRequest sampleExecParams)) ∧
        (∀ c process, sampleEnvExec.host.GetContainer sampleExecBase.ContainerID = .ok c →
          sampleExecParams.OCIProcess = some process →
          calls = [.hostGetContainer sampleExecBase.ContainerID,
            .containerExecProcess sampleExecBase.ContainerID process
              (execProcessConSettings sampleExecRequest sampleExecParams)] ∧
          result = c.ExecProcess process (execProcessConSettings sampleExecRequest sampleExecParams))) ∧
      (sampleExecParams.IsExternal = false →
        sampleExecParams.SchemaVersion.Cmp { Major := 2, Minor := 0 } < 0 →
        calls = [.coreExecProcess sampleExecBase.ContainerID sampleExecParams
          (execProcessConSettings sampleExecRequest sampleExecParams)] ∧
        result = sampleEnvExec.core.ExecProcess sampleExecBase.ContainerID sampleExecParams
          (execProcessConSettings sampleExecRequest sampleExecParams)) ∧
      -- the response
      (∀ pid, result = .ok pid →
        execProcess protSample sampleEnvExec
            { header := { Type_ := 2, Size := 0, ID := 5 } }
            { Header := { Type_ := 1, Size := 17, ID := 5 }, Message := [0], Version := 4 }
            { protVer := 4 } =
          ({ header := { Type_ := 2, Size := 0, ID := 5 }, respWritten := true },
            { protVer := 4
              trace := ([] : List Event) ++ calls ++ [.respSend
                { header := { Type_ := 2, Size := 0, ID := 5 }
                  response := .executeProcess
                    { MessageResponseBase :=
                        { ActivityID := sampleExecBase.ActivityID, Result := 0, ErrorRecords := [] }
                      ProcessID := toUint32 pid } }] })) ∧
      (∀ err, result = .error err →
        execProcess protSample sampleEnvExec
            { header := { Type_ := 2, Size := 0, ID := 5 } }
            { Header := { Type_ := 1, Size := 17, ID := 5 }, Message := [0], Version := 4 }
            { protVer := 4 } =
          ({ header := { Type_ := 2, Size := 0, ID := 5 }, respWritten := true },
            { protVer := 4
              trace := ([] : List Event) ++ calls ++ [.respSend
                { header := { Type_ := 2, Size := 0, ID := 5 }
                  response := .base (setErrorForResponseBase protSample
                    { ActivityID :=
                        if sampleExecBase.ActivityID = "" then "00000000-0000-0000-0000-000000000000"
                        else sampleExecBase.ActivityID }
                    err) }] }))) :=
  ⟨rfl, rfl, rfl, rfl, rfl,
    (execProcess_dispatch protSample sampleEnvExec
      { header := { Type_ := 2, Size := 0, ID := 5 } }
      { Header := { Type_ := 1, Size := 17, ID := 5 }, Message := [0], Version := 4 }
      { protVer := 4 } sampleExecRequest sampleExecParams rfl rfl).2 sampleExecBase rfl⟩

/-! ### Connection settings of a process -/

theorem execProcessRespond_trace (P : Prot) (w : requestResponseWriter)
    (request : ContainerExecuteProcess) (result : Except GoError Int) (b : Bridge) :
    ∃ e, (execProcessRespond P w request result b).2.trace = b.trace ++ [e] ∧
      e.conn? = none := by
  unfold execProcessRespond
  split
  · exact ⟨_, rfl, rfl⟩
  · split
    · exact ⟨_, rfl, rfl⟩
    · exact ⟨_, rfl, rfl⟩

/-- C21: for every execute-process request whose payload and process parameters
decode, every collaborator call that `execProcess` makes with connection
settings passes the settings `conn` in which, for each of the three streams
independently, the port is present exactly when the matching `CreateStd*Pipe`
flag is set and is then the matching port of the request's
`VsockStdioRelaySettings`; exactly one such call is made for an external
process, and for any other process when the request has its `MessageBase` and
the lookup of the host container, if there is one, succeeds (otherwise no call
takes connection settings). -/
theorem execProcess_connection_settings (P : Prot) (E : Env) (w : requestResponseWriter)
    (r : Request) (b : Bridge) (request : ContainerExecuteProcess) (params : ProcessParameters)
    (hdec : E.json.ContainerExecuteProcess r.Message = .ok request)
    (hparams : E.json.ProcessParameters request.Settings.ProcessParameters = .ok params) :
    ∃ (new : List Event) (conn : ConnectionSettings),
      (execProcess P E w r b).2.trace = b.trace ++ new ∧
      (∀ c ∈ new.filterMap Event.conn?, c = conn) ∧
      ((params.IsExternal = true ∨
          ∃ base, request.MessageBase = some base ∧
            (params.SchemaVersion.Cmp { Major := 2, Minor := 0 } < 0 ∨
              ∃ c, E.host.GetContainer base.ContainerID = .ok c)) →
        new.filterMap Event.conn? = [conn]) ∧
      (conn.StdIn.isSome = true ↔ params.CreateStdInPipe = true) ∧
      (∀ port, conn.StdIn = some port →
        port = request.Settings.VsockStdioRelaySettings.StdIn) ∧
      (conn.StdOut.isSome = true ↔ params.CreateStdOutPipe = true) ∧
      (∀ port, conn.StdOut = some port →
        port = request.Settings.VsockStdioRelaySettings.StdOut) ∧
      (conn.StdErr.isSome = true ↔ params.CreateStdErrPipe = true) ∧
      (∀ port, conn.StdErr = some port →
        port = request.Settings.VsockStdioRelaySettings.StdErr) := by
  have hprops : ∀ conn, conn = execProcessConSettings request params →
      (conn.StdIn.isSome = true ↔ params.CreateStdInPipe = true) ∧
      (∀ port, conn.StdIn = some port →
        port = request.Settings.VsockStdioRelaySettings.StdIn) ∧
      (conn.StdOut.isSome = true ↔ params.CreateStdOutPipe = true) ∧
      (∀ port, conn.StdOut = some port →
        port = request.Settings.VsockStdioRelaySettings.StdOut) ∧
      (conn.StdErr.isSome = true ↔ params.CreateStdErrPipe = true) ∧
      (∀ port, conn.StdErr = some port →
        port = request.Settings.VsockStdioRelaySettings.StdErr) := by
    intro conn hconn
    subst hconn
    unfold execProcessConSettings
    cases params.CreateStdInPipe <;> cases params.CreateStdOutPipe <;>
      cases params.CreateStdErrPipe <;> simp
  have key : ∃ new, (execProcess P E w r b).2.trace = b.trace ++ new ∧
      (∀ c ∈ new.filterMap Event.conn?, c = execProcessConSettings request params) ∧
      ((params.IsExternal = true ∨
          ∃ base, request.MessageBase = some base ∧
            (params.SchemaVersion.Cmp { Major := 2, Minor := 0 } < 0 ∨
              ∃ c, E.host.GetContainer base.ContainerID = .ok c)) →
        new.filterMap Event.conn? = [execProcessConSettings request params]) := by
    unfold execProcess
    simp only [hdec, hparams]
    by_cases hext : params.IsExternal = true
    · rw [if_pos hext]
      obtain ⟨e, he, hconn⟩ := execProcessRespond_trace P w request
        (E.core.RunExternalProcess params (execProcessConSettings request params))
        (b.emit (.coreRunExternalProcess params (execProcessConSettings request params)))
      refine ⟨[.coreRunExternalProcess params (execProcessConSettings request params), e],
        by rw [he]; simp [Bridge.emit], ?_, ?_⟩ <;>
        (simp only [List.filterMap_cons, List.filterMap_nil, hconn]; simp [Event.conn?])
    · rw [if_neg hext]
      cases hbase : request.MessageBase with
      | none =>
        refine ⟨[.panic nilDereference], by split <;> rfl, by simp [Event.conn?], ?_⟩
        intro h
        rcases h with h | ⟨base, h, _⟩
        · exact absurd h hext
        · cases h
      | some base =>
      dsimp only
      by_cases hschema : params.SchemaVersion.Cmp { Major := 2, Minor := 0 } ≥ 0
      · rw [if_pos hschema]
        cases hget : E.host.GetContainer base.ContainerID with
        | error err =>
          obtain ⟨e, he, hconn⟩ := execProcessRespond_trace P w request (.error err)
            (b.emit (.hostGetContainer base.ContainerID))
          refine ⟨[.hostGetContainer base.ContainerID, e],
            by dsimp only; rw [he]; simp [Bridge.emit], ?_, ?_⟩
          · (simp only [List.filterMap_cons, List.filterMap_nil, hconn]; simp [Event.conn?])
          · intro h
            rcases h with h | ⟨base2, hb2, h | ⟨c, h⟩⟩
            · exact absurd h hext
            · exact absurd hschema (not_le.2 h)
            · cases hb2
              rw [hget] at h
              cases h
        | ok c =>
          cases hoci : params.OCIProcess with
          | none =>
            obtain ⟨e, he, hconn⟩ := execProcessRespond_trace P w request
              (c.Start (execProcessConSettings request params))
              ((b.emit (.hostGetContainer base.ContainerID)).emit
                (.containerStart base.ContainerID (execProcessConSettings request params)))
            refine ⟨[.hostGetContainer base.ContainerID,
              .containerStart base.ContainerID (execProcessConSettings request params),
              e], by dsimp only; rw [he]; simp [Bridge.emit], ?_, ?_⟩ <;>
              (simp only [List.filterMap_cons, List.filterMap_nil, hconn]; simp [Event.conn?])
          | some process =>
            obtain ⟨e, he, hconn⟩ := execProcessRespond_trace P w request
              (c.ExecProcess process (execProcessConSettings request params))
              ((b.emit (.hostGetContainer base.ContainerID)).emit
                (.containerExecProcess base.ContainerID process
                  (execProcessConSettings request params)))
            refine ⟨[.hostGetContainer base.ContainerID,
              .containerExecProcess base.ContainerID process
                (execProcessConSettings request params),
              e], by dsimp only; rw [he]; simp [Bridge.emit], ?_, ?_⟩ <;>
              (simp only [List.filterMap_cons, List.filterMap_nil, hconn]; simp [Event.conn?])
      · rw [if_neg hschema]
        obtain ⟨e, he, hconn⟩ := execProcessRespond_trace P w request
          (E.core.ExecProcess base.ContainerID params (execProcessConSettings request params))
          (b.emit (.coreExecProcess base.ContainerID params
            (execProcessConSettings request params)))
        refine ⟨[.coreExecProcess base.ContainerID params
            (execProcessConSettings request params), e],
          by rw [he]; simp [Bridge.emit], ?_, ?_⟩ <;>
          (simp only [List.filterMap_cons, List.filterMap_nil, hconn]; simp [Event.conn?])
  obtain ⟨new, h1, h2, h3⟩ := key
  exact ⟨new, _, h1, h2, h3, hprops _ rfl⟩

/-- Witness for C21: the sample request for the v2 container `"c2"` asks for
stdin and stderr pipes only; the container is started with ports 1 and 3. -/
theorem execProcess_connection_settings_witness :
    sampleEnvExec.json.ContainerExecuteProcess [0] = .ok sampleExecRequest ∧
    sampleEnvExec.json.ProcessParameters sampleExecRequest.Settings.ProcessParameters =
      .ok sampleExecParams ∧
    ∃ (new : List Event) (conn : ConnectionSettings),
      (execProcess protSample sampleEnvExec
          { header := { Type_ := 2, Size := 0, ID := 5 } }
          { Header := { Type_ := 1, Size := 17, ID := 5 }, Message := [0], Version := 4 }
          { protVer := 4 }).2.trace = ([] : List Event) ++ new ∧
      (∀ c ∈ new.filterMap Event.conn?, c = conn) ∧
      ((sampleExecParams.IsExternal = true ∨
          ∃ base, sampleExecRequest.MessageBase = some base ∧
            (sampleExecParams.SchemaVersion.Cmp { Major := 2, Minor := 0 } < 0 ∨
              ∃ c, sampleEnvExec.host.GetContainer base.ContainerID = .ok c)) →
        new.filterMap Event.conn? = [conn]) ∧
      (conn.StdIn.isSome = true ↔ sampleExecParams.CreateStdInPipe = true) ∧
      (∀ port, conn.StdIn = some port →
        port = sampleExecRequest.Settings.VsockStdioRelaySettings.StdIn) ∧
      (conn.StdOut.isSome = true ↔ sampleExecParams.CreateStdOutPipe = true) ∧
      (∀ port, conn.StdOut = some port →
        port = sampleExecRequest.Settings.VsockStdioRelaySettings.StdOut) ∧
      (conn.StdErr.isSome = true ↔ sampleExecParams.CreateStdErrPipe = true) ∧
      (∀ port, conn.StdErr = some port →
        port = sampleExecRequest.Settings.VsockStdioRelaySettings.StdErr) :=
  ⟨rfl, rfl,
    execProcess_connection_settings protSample sampleEnvExec
      { header := { Type_ := 2, Size := 0, ID := 5 } }
      { Header := { Type_ := 1, Size := 17, ID := 5 }, Message := [0], Version := 4 }
      { protVer := 4 } sampleExecRequest sampleExecParams rfl rfl⟩

/-! ### Signalling a container -/

theorem signalContainer_deliver (P : Prot) (E : Env) (w : requestResponseWriter) (r : Request)
    (signal : Int) (b : Bridge) (request : MessageBase)
    (hdec : E.json.MessageBase r.Message = .ok request)
    (huvm : request.ContainerID ≠ P.UVMContainerID) :
    ∃ (call : Event) (result : Option GoError),
      (∀ c, E.host.GetContainer request.ContainerID = .ok c →
        call = .containerKill request.ContainerID signal ∧ result = c.Kill signal) ∧
      (∀ err, E.host.GetContainer request.ContainerID = .error err →
        call = .coreSignalContainer request.ContainerID signal ∧
        result = E.core.SignalContainer request.ContainerID signal) ∧
      (result = none →
        signalContainer P E w r signal b =
          ({ w with respWritten := true },
            { protVer := b.protVer
              trace := b.trace ++ [.hostGetContainer request.ContainerID, call, .respSend
                { header := w.header
                  response := .base
                    { ActivityID := request.ActivityID, Result := 0, ErrorRecords := [] } }] })) ∧
      (∀ err, result = some err →
        signalContainer P E w r signal b =
          ({ w with respWritten := true },
            { protVer := b.protVer
              trace := b.trace ++ [.hostGetContainer request.ContainerID, call, .respSend
                { header := w.header
                  response := .base (setErrorForResponseBase P
                    { ActivityID :=
                        if request.ActivityID = "" then "00000000-0000-0000-0000-000000000000"
                        else request.ActivityID }
                    err) }] })) := by
  unfold signalContainer
  simp only [hdec]
  rw [if_neg huvm]
  cases hget : E.host.GetContainer request.ContainerID with
  | ok c =>
    refine ⟨.containerKill request.ContainerID signal, c.Kill signal, ?_, ?_, ?_, ?_⟩
    · intro c2 h
      cases h
      exact ⟨rfl, rfl⟩
    · intro err h
      cases h
    · intro h
      simp [h, requestResponseWriter.Write, Bridge.emit]
    · intro err h
      simp [h, requestResponseWriter.Error, requestResponseWriter.Write, Bridge.emit]
  | error e =>
    refine ⟨.coreSignalContainer request.ContainerID signal,
      E.core.SignalContainer request.ContainerID signal, ?_, ?_, ?_, ?_⟩
    · intro c2 h
      cases h
    · intro err h
      exact ⟨rfl, rfl⟩
    · intro h
      simp [h, requestResponseWriter.Write, Bridge.emit]
    · intro err h
      simp [h, requestResponseWriter.Error, requestResponseWriter.Write, Bridge.emit]

/-- Counterexample to C22 as stated: a kill request without an activity id for
a container that the host does not recognise and that the runtime refuses to
signal; the error response carries the nil GUID, not the request's (empty)
`ActivityID`. -/
theorem killContainer_failure_empty_ActivityID :
    ∃ request base,
      sampleEnvSignal.json.MessageBase [1] = .ok request ∧
      request.ContainerID ≠ protSample.UVMContainerID ∧
      request.ActivityID = "" ∧
      (killContainer protSample sampleEnvSignal
          { header := { Type_ := 2, Size := 0, ID := 5 } }
          { Header := { Type_ := 1, Size := 17, ID := 5 }, Message := [1], Version := 4 }
          { protVer := 4 }).2.trace =
        [.hostGetContainer "c9", .coreSignalContainer "c9" SIGKILL,
         .respSend { header := { Type_ := 2, Size := 0, ID := 5 }, response := .base base }] ∧
      base.ErrorRecords ≠ [] ∧
      base.ActivityID = "00000000-0000-0000-0000-000000000000" ∧
      base.ActivityID ≠ request.ActivityID :=
  ⟨_, _, rfl, by decide, rfl, rfl, by decide, by decide, by decide⟩

/-- C22 (as amended): for every decodable request whose `ContainerID` is not
`UVMContainerID`, `killContainer` delivers `SIGKILL` and `shutdownContainer`
delivers `SIGTERM` to that container id: after the lookup of the container on
the host, by `Kill(signal)` on the container when the host recognises it and by
`runtime.SignalContainer(id, signal)` otherwise, never both.  It then writes a
success response with the request's `ActivityID`, or, if the delivery failed,
an error with that `ActivityID`, or with the nil GUID when that `ActivityID` is
empty. -/
theorem killContainer_shutdownContainer_deliver (P : Prot) (E : Env)
    (w : requestResponseWriter) (r : Request) (b : Bridge) (request : MessageBase)
    (hdec : E.json.MessageBase r.Message = .ok request)
    (huvm : request.ContainerID ≠ P.UVMContainerID) :
    ∀ (out : requestResponseWriter × Bridge) (signal : Int),
      (out, signal) ∈ [(killContainer P E w r b, SIGKILL),
        (shutdownContainer P E w r b, SIGTERM)] →
      ∃ (call : Event) (result : Option GoError),
        (∀ c, E.host.GetContainer request.ContainerID = .ok c →
          call = .containerKill request.ContainerID signal ∧ result = c.Kill signal) ∧
        (∀ err, E.host.GetContainer request.ContainerID = .error err →
          call = .coreSignalContainer request.ContainerID signal ∧
          result = E.core.SignalContainer request.ContainerID signal) ∧
        (result = none →
          out =
            ({ w with respWritten := true },
              { protVer := b.protVer
                trace := b.trace ++ [.hostGetContainer request.ContainerID, call, .respSend
                  { header := w.header
                    response := .base
                      { ActivityID := request.ActivityID, Result := 0,
                        ErrorRecords := [] } }] })) ∧
        (∀ err, result = some err →
          out =
            ({ w with respWritten := true },
              { protVer := b.protVer
                trace := b.trace ++ [.hostGetContainer request.ContainerID, call, .respSend
                  { header := w.header
                    response := .base (setErrorForResponseBase P
                      { ActivityID :=
                          if request.ActivityID = "" then "00000000-0000-0000-0000-000000000000"
                          else request.ActivityID }
                      err) }] })) := by
  intro out signal hmem
  simp only [List.mem_cons, Prod.mk.injEq, List.mem_singleton, List.not_mem_nil, or_false] at hmem
  rcases hmem with ⟨hout, hsig⟩ | ⟨hout, hsig⟩
  · subst hout hsig
    exact signalContainer_deliver P E w r SIGKILL b request hdec huvm
  · subst hout hsig
    exact signalContainer_deliver P E w r SIGTERM b request hdec huvm

/-- Witness for C22: the sample request names container `"c1"`, which the
sample host does not recognise. -/
theorem killContainer_shutdownContainer_deliver_witness :
    sampleEnv.json.MessageBase [] = .ok { ContainerID := "c1", ActivityID := "a1" } ∧
    "c1" ≠ protSample.UVMContainerID ∧
    ∀ (out : requestResponseWriter × Bridge) (signal : Int),
      (out, signal) ∈
        [(killContainer protSample sampleEnv
            { header := { Type_ := 2, Size := 0, ID := 5 } }
            { Header := { Type_ := 1, Size := 16, ID := 5 }, Message := [], Version := 4 }
            { protVer := 4 }, SIGKILL),
         (shutdownContainer protSample sampleEnv
            { header := { Type_ := 2, Size := 0, ID := 5 } }
            { Header := { Type_ := 1, Size := 16, ID := 5 }, Message := [], Version := 4 }
            { protVer := 4 }, SIGTERM)] →
      ∃ (call : Event) (result : Option GoError),
        (∀ c, sampleEnv.host.GetContainer "c1" = .ok c →
          call = .containerKill "c1" signal ∧ result = c.Kill signal) ∧
        (∀ err, sampleEnv.host.GetContainer "c1" = .error err →
          call = .coreSignalContainer "c1" signal ∧
          result = sampleEnv.core.SignalContainer "c1" signal) ∧
        (result = none →
          out =
            ({ header := { Type_ := 2, Size := 0, ID := 5 }, respWritten := true },
              { protVer := 4
                trace := ([] : List Event) ++ [.hostGetContainer "c1", call, .respSend
                  { header := { Type_ := 2, Size := 0, ID := 5 }
                    response := .base
                      { ActivityID := "a1", Result := 0, ErrorRecords := [] } }] })) ∧
        (∀ err, result = some err →
          out =
            ({ header := { Type_ := 2, Size := 0, ID := 5 }, respWritten := true },
              { protVer := 4
                trace := ([] : List Event) ++ [.hostGetContainer "c1", call, .respSend
                  { header := { Type_ := 2, Size := 0, ID := 5 }
                    response := .base (setErrorForResponseBase protSample
                      { ActivityID :=
                          if ("a1" : String) = "" then "00000000-0000-0000-0000-000000000000"
                          else "a1" }
                      err) }] })) :=
  ⟨rfl, by decide,
    killContainer_shutdownContainer_deliver protSample sampleEnv
      { header := { Type_ := 2, Size := 0, ID := 5 } }
      { Header := { Type_ := 1, Size := 16, ID := 5 }, Message := [], Version := 4 }
      { protVer := 4 } { ContainerID := "c1", ActivityID := "a1" } rfl (by decide)⟩

/-- C23: for every decodable kill or shutdown request with
`ContainerID == UVMContainerID`, and for every signal (so for `SIGKILL` and for
`SIGTERM`), `signalContainer` sends `true` on the shutdown signal, then calls
`host.Shutdown()`, and does nothing else: it writes no response and calls
neither a container `Kill` nor `runtime.SignalContainer`. -/
theorem signalContainer_uvm (P : Prot) (E : Env) (w : requestResponseWriter) (r : Request)
    (b : Bridge) (request : MessageBase) (signal : Int)
    (hdec : E.json.MessageBase r.Message = .ok request)
    (huvm : request.ContainerID = P.UVMContainerID) :
    signalContainer P E w r signal b =
      (w, { protVer := b.protVer, trace := b.trace ++ [.quitSend true, .hostShutdown] }) ∧
    killContainer P E w r b =
      (w, { protVer := b.protVer, trace := b.trace ++ [.quitSend true, .hostShutdown] }) ∧
    shutdownContainer P E w r b =
      (w, { protVer := b.protVer, trace := b.trace ++ [.quitSend true, .hostShutdown] }) := by
  have h : ∀ s : Int, signalContainer P E w r s b =
      (w, { protVer := b.protVer, trace := b.trace ++ [.quitSend true, .hostShutdown] }) := by
    intro s
    unfold signalContainer
    simp only [hdec]
    rw [if_pos huvm]
    simp [Bridge.emit]
  exact ⟨h signal, h SIGKILL, h SIGTERM⟩

/-- Witness for C23: the sample message `[0]` names the UVM itself; the signal
7 is neither `SIGKILL` nor `SIGTERM`. -/
theorem signalContainer_uvm_witness :
    sampleEnv.json.MessageBase [0] =
      .ok { ContainerID := "00000000-0000-0000-0000-000000000000", ActivityID := "a1" } ∧
    "00000000-0000-0000-0000-000000000000" = protSample.UVMContainerID ∧
    signalContainer protSample sampleEnv
        { header := { Type_ := 2, Size := 0, ID := 5 } }
        { Header := { Type_ := 1, Size := 17, ID := 5 }, Message := [0], Version := 4 }
        7 { protVer := 4 } =
      ({ header := { Type_ := 2, Size := 0, ID := 5 } },
        { protVer := 4, trace := ([] : List Event) ++ [.quitSend true, .hostShutdown] }) ∧
    killContainer protSample sampleEnv
        { header := { Type_ := 2, Size := 0, ID := 5 } }
        { Header := { Type_ := 1, Size := 17, ID := 5 }, Message := [0], Version := 4 }
        { protVer := 4 } =
      ({ header := { Type_ := 2, Size := 0, ID := 5 } },
        { protVer := 4, trace := ([] : List Event) ++ [.quitSend true, .hostShutdown] }) ∧
    shutdownContainer protSample sampleEnv
        { header := { Type_ := 2, Size := 0, ID := 5 } }
        { Header := { Type_ := 1, Size := 17, ID := 5 }, Message := [0], Version := 4 }
        { protVer := 4 } =
      ({ header := { Type_ := 2, Size := 0, ID := 5 } },
        { protVer := 4, trace := ([] : List Event) ++ [.quitSend true, .hostShutdown] }) :=
  ⟨rfl, rfl,
    signalContainer_uvm protSample sampleEnv
      { header := { Type_ := 2, Size := 0, ID := 5 } }
      { Header := { Type_ := 1, Size := 17, ID := 5 }, Message := [0], Version := 4 }
      { protVer := 4 }
      { ContainerID := "00000000-0000-0000-0000-000000000000", ActivityID := "a1" } 7 rfl rfl⟩

/-! ### Signalling a process -/

/-- Counterexample to C24 as stated: a signal-process request whose payload
decodes without a `MessageBase`.  `signalProcess` panics when it reads
`request.ContainerID`: it neither asks the host for the container nor calls
`runtime.SignalProcess`, and it writes no response. -/
theorem signalProcess_without_MessageBase_panics :
    ∃ request,
      sampleEnvNilBase.json.ContainerSignalProcess [] = .ok request ∧
      request.MessageBase = none ∧
      signalProcess protSample sampleEnvNilBase
          { header := { Type_ := 2, Size := 0, ID := 5 } }
          { Header := { Type_ := 1, Size := 16, ID := 5 }, Message := [], Version := 4 }
          { protVer := 4 } =
        ({ header := { Type_ := 2, Size := 0, ID := 5 }, respWritten := false },
          { protVer := 4, trace := [.panic nilDereference] }) :=
  ⟨_, rfl, rfl, rfl⟩

/-- C24 (as amended): for every decodable signal-process request that has its
`MessageBase`, `signalProcess` first asks the host for the container.  If the
host recognises it, the process is looked up by `ProcessID` and sent `SIGKILL`
when `Options.Signal == 0` and the signal numbered `Options.Signal` otherwise;
a failed process lookup yields an error response and nothing else;
`runtime.SignalProcess` is never called.  If the host does not recognise the
container, the only call after that lookup is
`runtime.SignalProcess(ProcessID, Options)`: nothing is done on a host
container or process.  On a decodable request without a `MessageBase`,
`signalProcess` only panics. -/
theorem signalProcess_routes (P : Prot) (E : Env) (w : requestResponseWriter) (r : Request)
    (b : Bridge) (request : ContainerSignalProcess)
    (hdec : E.json.ContainerSignalProcess r.Message = .ok request) :
    (request.MessageBase = none →
      signalProcess P E w r b =
        (w, { protVer := b.protVer, trace := b.trace ++ [.panic nilDereference] })) ∧
    ∀ base, request.MessageBase = some base →
    (∀ c, E.host.GetContainer base.ContainerID = .ok c →
      (∀ err, c.GetProcess request.ProcessID = .error err →
        signalProcess P E w r b =
          w.Error P base.ActivityID err
            { b with trace := b.trace ++
                [.hostGetContainer base.ContainerID,
                 .containerGetProcess base.ContainerID request.ProcessID] }) ∧
      (∀ p, c.GetProcess request.ProcessID = .ok p →
        ∃ signal : Int,
          signal = (if request.Options.Signal = 0 then SIGKILL else request.Options.Signal) ∧
          (p.Kill signal = none →
            signalProcess P E w r b =
              w.Write (.base { ActivityID := base.ActivityID })
                { b with trace := b.trace ++
                    [.hostGetContainer base.ContainerID,
                     .containerGetProcess base.ContainerID request.ProcessID,
                     .processKill base.ContainerID request.ProcessID signal] }) ∧
          (∀ err, p.Kill signal = some err →
            signalProcess P E w r b =
              w.Error P base.ActivityID err
                { b with trace := b.trace ++
                    [.hostGetContainer base.ContainerID,
                     .containerGetProcess base.ContainerID request.ProcessID,
                     .processKill base.ContainerID request.ProcessID signal] }))) ∧
    (∀ e, E.host.GetContainer base.ContainerID = .error e →
      (E.core.SignalProcess (request.ProcessID : Int) request.Options = none →
        signalProcess P E w r b =
          w.Write (.base { ActivityID := base.ActivityID })
            { b with trace := b.trace ++
                [.hostGetContainer base.ContainerID,
                 .coreSignalProcess (request.ProcessID : Int) request.Options] }) ∧
      (∀ err, E.core.SignalProcess (request.ProcessID : Int) request.Options = some err →
        signalProcess P E w r b =
          w.Error P base.ActivityID err
            { b with trace := b.trace ++
                [.hostGetContainer base.ContainerID,
                 .coreSignalProcess (request.ProcessID : Int) request.Options] })) := by
  refine ⟨fun hbase => signalProcess_nilBase P E w r b request hdec hbase, ?_⟩
  intro base hbase
  unfold signalProcess
  simp only [hdec, hbase]
  refine ⟨?_, ?_⟩
  · intro c hget
    simp only [hget]
    refine ⟨?_, ?_⟩
    · intro err hproc
      simp [hproc, Bridge.emit]
    · intro p hproc
      refine ⟨_, rfl, ?_, ?_⟩
      · intro hkill
        simp [hproc, hkill, Bridge.emit]
      · intro err hkill
        simp [hproc, hkill, Bridge.emit]
  · intro e hget
    simp only [hget]
    refine ⟨?_, ?_⟩
    · intro hsig
      simp [hsig, Bridge.emit]
    · intro err hsig
      simp [hsig, Bridge.emit]

/-- Witness for C24: the sample request asks to signal process 101 of the v2
container `"c2"` with signal 0; the process is sent `SIGKILL`. -/
theorem signalProcess_routes_witness :
    sampleEnvRequests.json.ContainerSignalProcess [] =
      .ok { MessageBase := some { ContainerID := "c2", ActivityID := "a1" }
            ProcessID := 101, Options := { Signal := 0 } } ∧
    sampleEnvRequests.host.GetContainer "c2" = .ok sampleContainer ∧
    sampleContainer.GetProcess 101 = .ok sampleProcess ∧
    sampleProcess.Kill SIGKILL = none ∧
    (signalProcess protSample sampleEnvRequests
        { header := { Type_ := 2, Size := 0, ID := 5 } }
        { Header := { Type_ := 1, Size := 16, ID := 5 }, Message := [], Version := 4 }
        { protVer := 4 }).2.trace =
      [.hostGetContainer "c2", .containerGetProcess "c2" 101, .processKill "c2" 101 SIGKILL,
       .respSend
         { header := { Type_ := 2, Size := 0, ID := 5 }
           response := .base { ActivityID := "a1", Result := 0, ErrorRecords := [] } }] := by
  have h := signalProcess_routes protSample sampleEnvRequests
    { header := { Type_ := 2, Size := 0, ID := 5 } }
    { Header := { Type_ := 1, Size := 16, ID := 5 }, Message := [], Version := 4 }
    { protVer := 4 }
    { MessageBase := some { ContainerID := "c2", ActivityID := "a1" }
      ProcessID := 101, Options := { Signal := 0 } } rfl
  obtain ⟨signal, hsignal, hok, _⟩ :=
    ((h.2 { ContainerID := "c2", ActivityID := "a1" } rfl).1 sampleContainer rfl).2
      sampleProcess rfl
  refine ⟨rfl, rfl, rfl, rfl, ?_⟩
  rw [hok rfl, hsignal]
  rfl

/-! ### Properties of the UVM -/

theorem uvmProcessList_eq (pids : List Int) :
    uvmProcessList pids =
      List.replicate pids.length { ProcessID := 0 } ++
        pids.map (fun pid => { ProcessID := pid }) := by
  unfold uvmProcessList
  generalize List.replicate pids.length ({ ProcessID := 0 } : ProcessDetails) = init
  induction pids generalizing init with
  | nil => simp
  | cons pid rest ih => simp [List.foldl_cons, ih]

/-- C25 (the code at the failing input): a get-properties request for the UVM
while the host tracks the two processes 101 and 102.  The `ProcessList` is
made with length 2 and the two pids are appended to it, so the response lists
four entries, `0, 0, 101, 102`, not the two pids; `runtime.GetProperties` is
not called. -/
theorem getProperties_uvm_process_list :
    sampleEnvRequests.json.ContainerGetProperties [] =
      .ok { MessageBase := some { ContainerID := protSample.UVMContainerID, ActivityID := "a1" }
            Query := "" } ∧
    sampleEnvRequests.host.GetAllProcessPids = [101, 102] ∧
    uvmProcessList sampleEnvRequests.host.GetAllProcessPids =
      [{ ProcessID := 0 }, { ProcessID := 0 }, { ProcessID := 101 }, { ProcessID := 102 }] ∧
    (uvmProcessList sampleEnvRequests.host.GetAllProcessPids).length ≠
      sampleEnvRequests.host.GetAllProcessPids.length ∧
    getProperties protSample sampleEnvRequests
        { header := { Type_ := 2, Size := 0, ID := 5 } }
        { Header := { Type_ := 1, Size := 16, ID := 5 }, Message := [], Version := 4 }
        { protVer := 4 } =
      ({ header := { Type_ := 2, Size := 0, ID := 5 }, respWritten := true },
        { protVer := 4
          trace :=
            [.hostGetAllProcessPids,
             .respSend
               { header := { Type_ := 2, Size := 0, ID := 5 }
                 response := .getProperties
                   { MessageResponseBase := { ActivityID := "a1", Result := 0, ErrorRecords := [] }
                     Properties := "[0, 0, 101, 102]" } }] }) :=
  ⟨rfl, rfl, rfl, by decide, by decide⟩

/-! ### Waiting for a process -/

/-- Counterexample to C26 as stated: a wait request without an activity id whose
timer fires, and the timeout response carries the nil GUID, not the request's
(empty) `ActivityID`; and a wait request whose payload decodes without a
`MessageBase`, on which `waitOnProcess` panics when it reads
`request.ContainerID`: no process is looked up, no response is written and
nothing is sent on a done channel. -/
theorem waitOnProcess_fails_without_ActivityID :
    (∃ request base0 base,
      sampleEnvRequests.json.ContainerWaitForProcess [0] = .ok request ∧
      request.MessageBase = some base0 ∧
      base0.ActivityID = "" ∧
      sampleProcess.Wait.recv request.TimeoutInMs = none ∧
      (waitOnProcess protSample sampleEnvRequests
          { header := { Type_ := 2, Size := 0, ID := 5 } }
          { Header := { Type_ := 1, Size := 17, ID := 5 }, Message := [0], Version := 4 }
          { protVer := 4 }).2.trace =
        [.hostGetContainer "c2", .containerGetProcess "c2" 101, .processWait "c2" 101,
         .respSend { header := { Type_ := 2, Size := 0, ID := 5 }, response := .base base },
         .doneSend true, .doneClose] ∧
      base.Result = protSample.HvVmcomputeTimeout ∧
      base.ActivityID = "00000000-0000-0000-0000-000000000000" ∧
      base.ActivityID ≠ base0.ActivityID) ∧
    (∃ request,
      sampleEnvNilBase.json.ContainerWaitForProcess [] = .ok request ∧
      request.MessageBase = none ∧
      waitOnProcess protSample sampleEnvNilBase
          { header := { Type_ := 2, Size := 0, ID := 5 } }
          { Header := { Type_ := 1, Size := 16, ID := 5 }, Message := [], Version := 4 }
          { protVer := 4 } =
        ({ header := { Type_ := 2, Size := 0, ID := 5 }, respWritten := false },
          { protVer := 4, trace := [.panic nilDereference] })) :=
  ⟨⟨_, _, _, rfl, rfl, rfl, rfl, rfl, by decide, by decide, by decide⟩, ⟨_, rfl, rfl, rfl⟩⟩

/-- C26 (as amended): for every decodable wait-for-process request that has its
`MessageBase`, the channels of the process are obtained from the host container
when the host recognises the container and from `runtime.WaitProcess` otherwise.  When that
lookup succeeds, `waitOnProcess` writes exactly one response, determined by the
event it observes: a success response with the request's `ActivityID` and
`ExitCode = uint32(exit code)` when a value arrives on the exit channel, or an
error response with HRESULT `HvVmcomputeTimeout` when the `TimeoutInMs` timer
fires, which carries the request's `ActivityID`, or the nil GUID when that
`ActivityID` is empty.  In both cases `true` is sent on the done channel exactly
once, after the response is written, and the channel is closed.  If the lookup
fails, an error response is written and nothing is waited on.  On a decodable
request without a `MessageBase`, `waitOnProcess` only panics. -/
theorem waitOnProcess_select (P : Prot) (E : Env) (w : requestResponseWriter) (r : Request)
    (b : Bridge) (request : ContainerWaitForProcess)
    (hdec : E.json.ContainerWaitForProcess r.Message = .ok request)
    (htimeout : isInt32 P.HvVmcomputeTimeout) :
    (request.MessageBase = none →
      waitOnProcess P E w r b =
        (w, { protVer := b.protVer, trace := b.trace ++ [.panic nilDereference] })) ∧
    ∀ base, request.MessageBase = some base →
    ∃ (calls : List Event) (lookup : Except GoError WaitChans),
      -- the lookup of the channels
      (∀ c, E.host.GetContainer base.ContainerID = .ok c →
        (∀ err, c.GetProcess request.ProcessID = .error err →
          calls = [.hostGetContainer base.ContainerID,
            .containerGetProcess base.ContainerID request.ProcessID] ∧
          lookup = .error err) ∧
        (∀ p, c.GetProcess request.ProcessID = .ok p →
          calls = [.hostGetContainer base.ContainerID,
            .containerGetProcess base.ContainerID request.ProcessID,
            .processWait base.ContainerID request.ProcessID] ∧
          lookup = .ok p.Wait)) ∧
      (∀ e, E.host.GetContainer base.ContainerID = .error e →
        calls = [.hostGetContainer base.ContainerID,
          .coreWaitProcess (request.ProcessID : Int)] ∧
        lookup = E.core.WaitProcess (request.ProcessID : Int)) ∧
      -- a value arrives on the exit channel
      (∀ chans exitCode, lookup = .ok chans →
        chans.recv request.TimeoutInMs = some exitCode →
        waitOnProcess P E w r b =
          ({ w with respWritten := true },
            { protVer := b.protVer
              trace := b.trace ++ calls ++
                [.respSend
                  { header := w.header
                    response := .waitForProcess
                      { MessageResponseBase :=
                          { ActivityID := base.ActivityID, Result := 0, ErrorRecords := [] }
                        ExitCode := toUint32 exitCode } },
                 .doneSend true, .doneClose] })) ∧
      -- the timer fires
      (∀ chans, lookup = .ok chans → chans.recv request.TimeoutInMs = none →
        ∃ (response : MessageResponseBase) (record : ErrorRecord),
          waitOnProcess P E w r b =
            ({ w with respWritten := true },
              { protVer := b.protVer
                trace := b.trace ++ calls ++
                  [.respSend { header := w.header, response := .base response },
                   .doneSend true, .doneClose] }) ∧
          response.ActivityID =
            (if base.ActivityID = "" then "00000000-0000-0000-0000-000000000000"
             else base.ActivityID) ∧
          response.Result = P.HvVmcomputeTimeout ∧
          response.ErrorRecords = [record] ∧ record.Result = P.HvVmcomputeTimeout) ∧
      -- the lookup fails
      (∀ err, lookup = .error err →
        waitOnProcess P E w r b =
          ({ w with respWritten := true },
            { protVer := b.protVer
              trace := b.trace ++ calls ++
                [.respSend
                  { header := w.header
                    response := .base (setErrorForResponseBase P
                      { ActivityID :=
                          if base.ActivityID = "" then "00000000-0000-0000-0000-000000000000"
                          else base.ActivityID }
                      err) }] })) := by
  refine ⟨fun hbase => waitOnProcess_nilBase P E w r b request hdec hbase, ?_⟩
  intro base hbase
  have select : ∀ (calls : List Event) (chans : WaitChans),
      (∀ exitCode, chans.recv request.TimeoutInMs = some exitCode →
        waitOnProcessSelect P E w request base chans { b with trace := b.trace ++ calls } =
          ({ w with respWritten := true },
            { protVer := b.protVer
              trace := b.trace ++ calls ++
                [.respSend
                  { header := w.header
                    response := .waitForProcess
                      { MessageResponseBase :=
                          { ActivityID := base.ActivityID, Result := 0, ErrorRecords := [] }
                        ExitCode := toUint32 exitCode } },
                 .doneSend true, .doneClose] })) ∧
      (chans.recv request.TimeoutInMs = none →
        ∃ (response : MessageResponseBase) (record : ErrorRecord),
          waitOnProcessSelect P E w request base chans { b with trace := b.trace ++ calls } =
            ({ w with respWritten := true },
              { protVer := b.protVer
                trace := b.trace ++ calls ++
                  [.respSend { header := w.header, response := .base response },
                   .doneSend true, .doneClose] }) ∧
          response.ActivityID =
            (if base.ActivityID = "" then "00000000-0000-0000-0000-000000000000"
             else base.ActivityID) ∧
          response.Result = P.HvVmcomputeTimeout ∧
          response.ErrorRecords = [record] ∧ record.Result = P.HvVmcomputeTimeout) := by
    intro calls chans
    constructor
    · intro exitCode hrecv
      simp [waitOnProcessSelect, hrecv, waitOnProcessDone, requestResponseWriter.Write,
        Bridge.emit]
    · intro hrecv
      refine ⟨setErrorForResponseBase P
          { ActivityID :=
              if base.ActivityID = "" then "00000000-0000-0000-0000-000000000000"
              else base.ActivityID }
          (gcserr.NewHresultError P.HvVmcomputeTimeout (E.fmt.hresultError P.HvVmcomputeTimeout)
            (E.fmt.callers "waitOnProcess")), _, ?_, rfl, ?_, rfl, ?_⟩
      · simp [waitOnProcessSelect, hrecv, waitOnProcessDone, requestResponseWriter.Error,
          requestResponseWriter.Write, Bridge.emit]
      · simp [setErrorForResponseBase, gcserr.NewHresultError, toInt32_of_isInt32 _ htimeout]
      · simp [gcserr.NewHresultError, toInt32_of_isInt32 _ htimeout]
  unfold waitOnProcess
  simp only [hdec, hbase]
  cases hget : E.host.GetContainer base.ContainerID with
  | ok c =>
    dsimp only
    cases hproc : c.GetProcess request.ProcessID with
    | error err =>
      refine ⟨[.hostGetContainer base.ContainerID,
          .containerGetProcess base.ContainerID request.ProcessID], .error err,
        ?_, ?_, ?_, ?_, ?_⟩
      · intro c2 h
        cases h
        refine ⟨?_, ?_⟩
        · intro err2 h2
          rw [hproc] at h2
          cases h2
          exact ⟨rfl, rfl⟩
        · intro p h2
          rw [hproc] at h2
          cases h2
      · intro e h
        cases h
      · intro chans exitCode h
        cases h
      · intro chans h
        cases h
      · intro err2 h
        cases h
        simp [requestResponseWriter.Error, requestResponseWriter.Write, Bridge.emit]
    | ok p =>
      refine ⟨[.hostGetContainer base.ContainerID,
          .containerGetProcess base.ContainerID request.ProcessID,
          .processWait base.ContainerID request.ProcessID], .ok p.Wait,
        ?_, ?_, ?_, ?_, ?_⟩
      · intro c2 h
        cases h
        refine ⟨?_, ?_⟩
        · intro err2 h2
          rw [hproc] at h2
          cases h2
        · intro p2 h2
          rw [hproc] at h2
          cases h2
          exact ⟨rfl, rfl⟩
      · intro e h
        cases h
      · intro chans exitCode h hrecv
        cases h
        simpa [Bridge.emit] using (select _ p.Wait).1 exitCode hrecv
      · intro chans h hrecv
        cases h
        simpa [Bridge.emit] using (select _ p.Wait).2 hrecv
      · intro err h
        cases h
  | error e =>
    refine ⟨[.hostGetContainer base.ContainerID, .coreWaitProcess (request.ProcessID : Int)],
      E.core.WaitProcess (request.ProcessID : Int), ?_, ?_, ?_, ?_, ?_⟩
    · intro c h
      cases h
    · intro e2 _
      exact ⟨rfl, rfl⟩
    · intro chans exitCode h hrecv
      simp only [h]
      simpa [Bridge.emit] using (select _ chans).1 exitCode hrecv
    · intro chans h hrecv
      simp only [h]
      simpa [Bridge.emit] using (select _ chans).2 hrecv
    · intro err h
      simp [h, requestResponseWriter.Error, requestResponseWriter.Write, Bridge.emit]

/-- Witness for C26: the sample request waits up to 1000 ms for process 101 of
the v2 container `"c2"`, which exits with code 0. -/
theorem waitOnProcess_select_witness :
    sampleEnvRequests.json.ContainerWaitForProcess [] =
      .ok { MessageBase := some { ContainerID := "c2", ActivityID := "a1" }
            ProcessID := 101, TimeoutInMs := 1000 } ∧
    isInt32 protSample.HvVmcomputeTimeout ∧
    sampleEnvRequests.host.GetContainer "c2" = .ok sampleContainer ∧
    sampleContainer.GetProcess 101 = .ok sampleProcess ∧
    sampleProcess.Wait.recv 1000 = some 0 ∧
    (waitOnProcess protSample sampleEnvRequests
        { header := { Type_ := 2, Size := 0, ID := 5 } }
        { Header := { Type_ := 1, Size := 16, ID := 5 }, Message := [], Version := 4 }
        { protVer := 4 }).2.trace =
      [.hostGetContainer "c2", .containerGetProcess "c2" 101, .processWait "c2" 101,
       .respSend
         { header := { Type_ := 2, Size := 0, ID := 5 }
           response := .waitForProcess
             { MessageResponseBase := { ActivityID := "a1", Result := 0, ErrorRecords := [] }
               ExitCode := 0 } },
       .doneSend true, .doneClose] := by
  obtain ⟨calls, lookup, hhost, _, hexit, _, _⟩ :=
    (waitOnProcess_select protSample sampleEnvRequests
      { header := { Type_ := 2, Size := 0, ID := 5 } }
      { Header := { Type_ := 1, Size := 16, ID := 5 }, Message := [], Version := 4 }
      { protVer := 4 }
      { MessageBase := some { ContainerID := "c2", ActivityID := "a1" }
        ProcessID := 101, TimeoutInMs := 1000 }
      rfl (by decide)).2 { ContainerID := "c2", ActivityID := "a1" } rfl
  obtain ⟨hcalls, hlookup⟩ := (hhost sampleContainer rfl).2 sampleProcess rfl
  refine ⟨rfl, by decide, rfl, rfl, rfl, ?_⟩
  rw [hexit sampleProcess.Wait 0 hlookup rfl, hcalls]
  rfl

/-! ### Modifying settings -/

/-- Counterexample to C27 as stated: a modify-settings request without an
activity id that carries a v2 request for a container other than the UVM, and
the error response carries the nil GUID, not the request's (empty)
`ActivityID`; and a modify-settings request with a v1 request whose payload
decodes without a `MessageBase`, on which `modifySettings` panics when it reads
`request.ContainerID`: `runtime.ModifySettings` is not called and no response
is written. -/
theorem modifySettings_fails_without_ActivityID :
    (∃ request base0 base record,
      sampleEnvRequests.json.ContainerModifySettings [0] = .ok request ∧
      request.MessageBase = some base0 ∧
      request.Request = none ∧ request.V2Request = some { body := "v2" } ∧
      base0.ContainerID ≠ protSample.UVMContainerID ∧
      base0.ActivityID = "" ∧
      (modifySettings protSample sampleEnvRequests
          { header := { Type_ := 2, Size := 0, ID := 5 } }
          { Header := { Type_ := 1, Size := 17, ID := 5 }, Message := [0], Version := 4 }
          { protVer := 4 }).2.trace =
        [.respSend { header := { Type_ := 2, Size := 0, ID := 5 }, response := .base base }] ∧
      base.ErrorRecords = [record] ∧
      record.Message = "V2 Modify request not supported on anything but UVM" ∧
      base.ActivityID = "00000000-0000-0000-0000-000000000000" ∧
      base.ActivityID ≠ base0.ActivityID) ∧
    (∃ request,
      sampleEnvNilBase.json.ContainerModifySettings [] = .ok request ∧
      request.MessageBase = none ∧
      request.Request = some { body := "v1" } ∧
      modifySettings protSample sampleEnvNilBase
          { header := { Type_ := 2, Size := 0, ID := 5 } }
          { Header := { Type_ := 1, Size := 16, ID := 5 }, Message := [], Version := 4 }
          { protVer := 4 } =
        ({ header := { Type_ := 2, Size := 0, ID := 5 }, respWritten := false },
          { protVer := 4, trace := [.panic nilDereference] })) :=
  ⟨⟨_, _, _, _, rfl, rfl, rfl, rfl, by decide, rfl, rfl, rfl, rfl, by decide, by decide⟩,
    ⟨_, rfl, rfl, rfl, rfl⟩⟩

/-- C27 (as amended): for every decodable modify-settings request that has its
`MessageBase`: if the v1 `Request` is present, `modifySettings` calls
`runtime.ModifySettings(ContainerID, Request)` and nothing on the host (also
when `V2Request` is present too); else if `V2Request` is present, it calls
`host.ModifyHostSettings(V2Request)` only when `ContainerID == UVMContainerID`
and otherwise writes an error whose message is "V2 Modify request not supported
on anything but UVM" without calling any collaborator; else it writes an error
whose message is "neither Request nor v2Request was specified".  A successful
call is answered with the request's `ActivityID`; error responses carry the
request's `ActivityID`, or the nil GUID when that `ActivityID` is empty.  On a
decodable request without a `MessageBase`, `modifySettings` only panics. -/
theorem modifySettings_routes (P : Prot) (E : Env) (w : requestResponseWriter) (r : Request)
    (b : Bridge) (request : ContainerModifySettings)
    (hdec : E.json.ContainerModifySettings r.Message = .ok request) :
    (request.MessageBase = none →
      modifySettings P E w r b =
        (w, { protVer := b.protVer, trace := b.trace ++ [.panic nilDereference] })) ∧
    ∀ base, request.MessageBase = some base →
    -- the v1 request
    (∀ v1, request.Request = some v1 →
      (E.core.ModifySettings base.ContainerID v1 = none →
        modifySettings P E w r b =
          ({ w with respWritten := true },
            { protVer := b.protVer
              trace := b.trace ++ [.coreModifySettings base.ContainerID v1, .respSend
                { header := w.header
                  response := .base
                    { ActivityID := base.ActivityID, Result := 0, ErrorRecords := [] } }] })) ∧
      (∀ err, E.core.ModifySettings base.ContainerID v1 = some err →
        modifySettings P E w r b =
          ({ w with respWritten := true },
            { protVer := b.protVer
              trace := b.trace ++ [.coreModifySettings base.ContainerID v1, .respSend
                { header := w.header
                  response := .base (setErrorForResponseBase P
                    { ActivityID :=
                        if base.ActivityID = "" then "00000000-0000-0000-0000-000000000000"
                        else base.ActivityID }
                    err) }] }))) ∧
    -- the v2 request
    (∀ v2, request.Request = none → request.V2Request = some v2 →
      (base.ContainerID = P.UVMContainerID →
        (E.host.ModifyHostSettings v2 = none →
          modifySettings P E w r b =
            ({ w with respWritten := true },
              { protVer := b.protVer
                trace := b.trace ++ [.hostModifyHostSettings v2, .respSend
                  { header := w.header
                    response := .base
                      { ActivityID := base.ActivityID, Result := 0,
                        ErrorRecords := [] } }] })) ∧
        (∀ err, E.host.ModifyHostSettings v2 = some err →
          modifySettings P E w r b =
            ({ w with respWritten := true },
              { protVer := b.protVer
                trace := b.trace ++ [.hostModifyHostSettings v2, .respSend
                  { header := w.header
                    response := .base (setErrorForResponseBase P
                      { ActivityID :=
                          if base.ActivityID = "" then "00000000-0000-0000-0000-000000000000"
                          else base.ActivityID }
                      err) }] }))) ∧
      (base.ContainerID ≠ P.UVMContainerID →
        ∃ (response : MessageResponseBase) (record : ErrorRecord),
          modifySettings P E w r b =
            ({ w with respWritten := true },
              { protVer := b.protVer
                trace := b.trace ++
                  [.respSend { header := w.header, response := .base response }] }) ∧
          response.ActivityID =
            (if base.ActivityID = "" then "00000000-0000-0000-0000-000000000000"
             else base.ActivityID) ∧
          response.ErrorRecords = [record] ∧
          record.Message = "V2 Modify request not supported on anything but UVM")) ∧
    -- neither request
    (request.Request = none → request.V2Request = none →
      ∃ (response : MessageResponseBase) (record : ErrorRecord),
        modifySettings P E w r b =
          ({ w with respWritten := true },
            { protVer := b.protVer
              trace := b.trace ++
                [.respSend { header := w.header, response := .base response }] }) ∧
        response.ActivityID =
          (if base.ActivityID = "" then "00000000-0000-0000-0000-000000000000"
           else base.ActivityID) ∧
        response.ErrorRecords = [record] ∧
        record.Message = "neither Request nor v2Request was specified") := by
  refine ⟨fun hbase => modifySettings_nilBase P E w r b request hdec hbase, ?_⟩
  intro base hbase
  unfold modifySettings
  simp only [hdec, hbase]
  refine ⟨?_, ?_, ?_⟩
  · intro v1 h1
    refine ⟨?_, ?_⟩
    · intro hcall
      simp [h1, hcall, requestResponseWriter.Write, Bridge.emit]
    · intro err hcall
      simp [h1, hcall, requestResponseWriter.Error, requestResponseWriter.Write, Bridge.emit]
  · intro v2 h1 h2
    refine ⟨?_, ?_⟩
    · intro huvm
      refine ⟨?_, ?_⟩
      · intro hcall
        simp [h1, h2, huvm, hcall, requestResponseWriter.Write, Bridge.emit]
      · intro err hcall
        simp [h1, h2, huvm, hcall, requestResponseWriter.Error, requestResponseWriter.Write,
          Bridge.emit]
    · intro huvm
      refine ⟨setErrorForResponseBase P
          { ActivityID :=
              if base.ActivityID = "" then "00000000-0000-0000-0000-000000000000"
              else base.ActivityID }
          (errors.New "V2 Modify request not supported on anything but UVM"
            (E.fmt.callers "modifySettings")), _, ?_, rfl, rfl, rfl⟩
      simp [h1, h2, huvm, requestResponseWriter.Error, requestResponseWriter.Write, Bridge.emit]
  · intro h1 h2
    refine ⟨setErrorForResponseBase P
        { ActivityID :=
            if base.ActivityID = "" then "00000000-0000-0000-0000-000000000000"
            else base.ActivityID }
        (errors.New "neither Request nor v2Request was specified"
          (E.fmt.callers "modifySettings")), _, ?_, rfl, rfl, rfl⟩
    simp [h1, h2, requestResponseWriter.Error, requestResponseWriter.Write, Bridge.emit]

/-- Witness for C27: the sample request carries a v1 request for container
`"c1"`, which the runtime accepts. -/
theorem modifySettings_routes_witness :
    sampleEnvRequests.json.ContainerModifySettings [] =
      .ok { MessageBase := some { ContainerID := "c1", ActivityID := "a1" }
            Request := some { body := "v1" }, V2Request := none } ∧
    sampleEnvRequests.core.ModifySettings "c1" { body := "v1" } = none ∧
    modifySettings protSample sampleEnvRequests
        { header := { Type_ := 2, Size := 0, ID := 5 } }
        { Header := { Type_ := 1, Size := 16, ID := 5 }, Message := [], Version := 4 }
        { protVer := 4 } =
      ({ header := { Type_ := 2, Size := 0, ID := 5 }, respWritten := true },
        { protVer := 4
          trace := ([] : List Event) ++ [.coreModifySettings "c1" { body := "v1" }, .respSend
            { header := { Type_ := 2, Size := 0, ID := 5 }
              response := .base { ActivityID := "a1", Result := 0, ErrorRecords := [] } }] }) :=
  ⟨rfl, rfl,
    (((modifySettings_routes protSample sampleEnvRequests
      { header := { Type_ := 2, Size := 0, ID := 5 } }
      { Header := { Type_ := 1, Size := 16, ID := 5 }, Message := [], Version := 4 }
      { protVer := 4 }
      { MessageBase := some { ContainerID := "c1", ActivityID := "a1" }
        Request := some { body := "v1" }, V2Request := none } rfl).2
      { ContainerID := "c1", ActivityID := "a1" } rfl).1 { body := "v1" } rfl).1 rfl⟩

/-! ### Decoding failures -/

theorem Handler.registered_cases (P : Prot) (h : Handler) (hreg : h.registered P) :
    h = .negotiateProtocol ∨ h = .createContainer ∨ h = .startContainer ∨ h = .execProcess ∨
    h = .killContainer ∨ h = .shutdownContainer ∨ h = .signalProcess ∨ h = .getProperties ∨
    h = .waitOnProcess ∨ h = .resizeConsole ∨ h = .modifySettings := by
  obtain ⟨id, ver, hfind⟩ := hreg
  rw [Bridge.AssignHandlers_eq_registerAll, Mux.find_registerAll, Mux.find_NewBridgeMux] at hfind
  cases hl : lastRegistered (Bridge.registrations P) id ver with
  | none =>
    rw [hl] at hfind
    cases hfind
  | some found =>
    rw [hl] at hfind
    have hfound : found = h := Option.some.inj hfind
    obtain ⟨reg, hmem, _, _, hreg⟩ := lastRegistered_some _ _ _ _ hl
    rw [hfound] at hreg
    simp only [Bridge.registrations, List.mem_cons, List.mem_singleton, List.not_mem_nil,
      or_false] at hmem
    rcases hmem with rfl | rfl | rfl | rfl | rfl | rfl | rfl | rfl | rfl | rfl | rfl | rfl |
      rfl | rfl | rfl | rfl | rfl | rfl | rfl | rfl
    all_goals simp [← hreg]

/-- Counterexample to C28 as stated: the outer payload of an execute-process
request decodes, its `ProcessParameters` do not.  When the request has no
activity id, the error response carries the nil GUID, not the request's (empty)
`ActivityID`; when the payload has decoded without a `MessageBase`, no error
response is written at all, because `execProcess` panics when it reads
`request.ActivityID` for it. -/
theorem execProcess_nested_failure_loses_ActivityID :
    (∃ request base0 err base,
      sampleEnvRequests.json.ContainerExecuteProcess [] = .ok request ∧
      request.MessageBase = some base0 ∧
      sampleEnvRequests.json.ProcessParameters request.Settings.ProcessParameters =
        .error err ∧
      base0.ActivityID = "" ∧
      (execProcess protSample sampleEnvRequests
          { header := { Type_ := 2, Size := 0, ID := 5 } }
          { Header := { Type_ := 1, Size := 16, ID := 5 }, Message := [], Version := 4 }
          { protVer := 4 }).2.trace =
        [.respSend { header := { Type_ := 2, Size := 0, ID := 5 }, response := .base base }] ∧
      base.ErrorRecords ≠ [] ∧
      base.ActivityID = "00000000-0000-0000-0000-000000000000" ∧
      base.ActivityID ≠ base0.ActivityID) ∧
    (∃ request err,
      sampleEnvNilBase.json.ContainerExecuteProcess [0] = .ok request ∧
      request.MessageBase = none ∧
      sampleEnvNilBase.json.ProcessParameters request.Settings.ProcessParameters =
        .error err ∧
      execProcess protSample sampleEnvNilBase
          { header := { Type_ := 2, Size := 0, ID := 5 } }
          { Header := { Type_ := 1, Size := 17, ID := 5 }, Message := [0], Version := 4 }
          { protVer := 4 } =
        ({ header := { Type_ := 2, Size := 0, ID := 5 }, respWritten := false },
          { protVer := 4, trace := [.panic nilDereference] })) :=
  ⟨⟨_, _, _, _, rfl, rfl, rfl, rfl, rfl, by decide, by decide, by decide⟩,
    ⟨_, _, rfl, rfl, rfl, rfl⟩⟩

/-- C28 (as amended): for every handler registered by `AssignHandlers`, if the
request's outer payload fails to JSON-decode, the handler writes exactly one
error response, built from the decoding error, whose `ActivityID` is the nil
GUID, invokes no runtime or host operation, and leaves the selected protocol
version unchanged.  If instead the outer payload decodes but a nested JSON
string fails to decode (`ContainerConfig` in `createContainer`, as v2 settings
under protocol version 4 and above, as v1 settings otherwise or when its schema
version is below 2.0; `ProcessParameters` in `execProcess`) and the request
has its `MessageBase`, the handler likewise writes one error response and calls
nothing, and the response carries the request's `ActivityID`, or the nil GUID
when that `ActivityID` is empty.  When the request has no `MessageBase`, the
handler calls nothing and panics instead of writing the error response. -/
theorem handlers_decode_failure (P : Prot) (E : Env) (h : Handler)
    (w : requestResponseWriter) (r : Request) (b : Bridge) (hreg : h.registered P) :
    -- the outer payload
    (∀ err, h.decodeError? E r = some err →
      ∃ (msg : String) (site : StackTrace) (base : MessageResponseBase) (record : ErrorRecord),
        h.ServeMsg P E w r b =
          ({ w with respWritten := true },
            { protVer := b.protVer
              trace := b.trace ++
                [.respSend { header := w.header, response := .base base }] }) ∧
        base = setErrorForResponseBase P
          { ActivityID := "00000000-0000-0000-0000-000000000000" }
          (errors.Wrapf err msg site) ∧
        base.ActivityID = "00000000-0000-0000-0000-000000000000" ∧
        base.ErrorRecords = [record]) ∧
    -- the container configuration of a create request
    (∀ request base err, E.json.ContainerCreate r.Message = .ok request →
      request.MessageBase = some base →
      ¬ (b.protVer = PvV4 ∧ base.ContainerID = "00000000-0000-0000-0000-000000000000") →
      ((PvV4 ≤ b.protVer ∧
          E.json.VMHostedContainerSettingsV2 request.ContainerConfig = .error err) ∨
        ((b.protVer < PvV4 ∨ ∃ settingsV2,
            E.json.VMHostedContainerSettingsV2 request.ContainerConfig = .ok settingsV2 ∧
            settingsV2.SchemaVersion.Cmp { Major := 2, Minor := 0 } < 0) ∧
          E.json.VMHostedContainerSettings request.ContainerConfig = .error err)) →
      ∃ (msg : String) (site : StackTrace),
        createContainer P E w r b =
          ({ w with respWritten := true },
            { protVer := b.protVer
              trace := b.trace ++ [.respSend
                { header := w.header
                  response := .base (setErrorForResponseBase P
                    { ActivityID :=
                        if base.ActivityID = "" then "00000000-0000-0000-0000-000000000000"
                        else base.ActivityID }
                    (errors.Wrapf err msg site)) }] })) ∧
    -- the process parameters of an execute-process request
    (∀ request base err, E.json.ContainerExecuteProcess r.Message = .ok request →
      request.MessageBase = some base →
      E.json.ProcessParameters request.Settings.ProcessParameters = .error err →
      ∃ (msg : String) (site : StackTrace),
        execProcess P E w r b =
          ({ w with respWritten := true },
            { protVer := b.protVer
              trace := b.trace ++ [.respSend
                { header := w.header
                  response := .base (setErrorForResponseBase P
                    { ActivityID :=
                        if base.ActivityID = "" then "00000000-0000-0000-0000-000000000000"
                        else base.ActivityID }
                    (errors.Wrapf err msg site)) }] })) ∧
    -- a request without a `MessageBase`
    (∀ request, E.json.ContainerCreate r.Message = .ok request →
      request.MessageBase = none →
      createContainer P E w r b =
        (w, { protVer := b.protVer, trace := b.trace ++ [.panic nilDereference] })) ∧
    (∀ request err, E.json.ContainerExecuteProcess r.Message = .ok request →
      request.MessageBase = none →
      E.json.ProcessParameters request.Settings.ProcessParameters = .error err →
      execProcess P E w r b =
        (w, { protVer := b.protVer, trace := b.trace ++ [.panic nilDereference] })) := by
  refine ⟨?_, ?_, ?_, ?_, ?_⟩
  · intro err hdec
    have hcases := Handler.registered_cases P h hreg
    rcases hcases with hh | hh | hh | hh | hh | hh | hh | hh | hh | hh | hh <;> subst hh
    · cases hd : E.json.NegotiateProtocol r.Message with
      | ok request => simp [Handler.decodeError?, errorOf, hd] at hdec
      | error e =>
        simp only [Handler.decodeError?, errorOf, hd, Option.some.injEq] at hdec
        subst hdec
        exact ⟨_, _, _, _, by simp only [Handler.ServeMsg, negotiateProtocol, hd]; rfl,
          rfl, rfl, rfl⟩
    · cases hd : E.json.ContainerCreate r.Message with
      | ok request => simp [Handler.decodeError?, errorOf, hd] at hdec
      | error e =>
        simp only [Handler.decodeError?, errorOf, hd, Option.some.injEq] at hdec
        subst hdec
        exact ⟨_, _, _, _, by simp only [Handler.ServeMsg, createContainer, hd]; rfl,
          rfl, rfl, rfl⟩
    · cases hd : E.json.MessageBase r.Message with
      | ok request => simp [Handler.decodeError?, errorOf, hd] at hdec
      | error e =>
        simp only [Handler.decodeError?, errorOf, hd, Option.some.injEq] at hdec
        subst hdec
        exact ⟨_, _, _, _, by simp only [Handler.ServeMsg, startContainer, hd]; rfl,
          rfl, rfl, rfl⟩
    · cases hd : E.json.ContainerExecuteProcess r.Message with
      | ok request => simp [Handler.decodeError?, errorOf, hd] at hdec
      | error e =>
        simp only [Handler.decodeError?, errorOf, hd, Option.some.injEq] at hdec
        subst hdec
        exact ⟨_, _, _, _, by simp only [Handler.ServeMsg, execProcess, hd]; rfl,
          rfl, rfl, rfl⟩
    · cases hd : E.json.MessageBase r.Message with
      | ok request => simp [Handler.decodeError?, errorOf, hd] at hdec
      | error e =>
        simp only [Handler.decodeError?, errorOf, hd, Option.some.injEq] at hdec
        subst hdec
        exact ⟨_, _, _, _,
          by simp only [Handler.ServeMsg, killContainer, signalContainer, hd]; rfl,
          rfl, rfl, rfl⟩
    · cases hd : E.json.MessageBase r.Message with
      | ok request => simp [Handler.decodeError?, errorOf, hd] at hdec
      | error e =>
        simp only [Handler.decodeError?, errorOf, hd, Option.some.injEq] at hdec
        subst hdec
        exact ⟨_, _, _, _,
          by simp only [Handler.ServeMsg, shutdownContainer, signalContainer, hd]; rfl,
          rfl, rfl, rfl⟩
    · cases hd : E.json.ContainerSignalProcess r.Message with
      | ok request => simp [Handler.decodeError?, errorOf, hd] at hdec
      | error e =>
        simp only [Handler.decodeError?, errorOf, hd, Option.some.injEq] at hdec
        subst hdec
        exact ⟨_, _, _, _, by simp only [Handler.ServeMsg, signalProcess, hd]; rfl,
          rfl, rfl, rfl⟩
    · cases hd : E.json.ContainerGetProperties r.Message with
      | ok request => simp [Handler.decodeError?, errorOf, hd] at hdec
      | error e =>
        simp only [Handler.decodeError?, errorOf, hd, Option.some.injEq] at hdec
        subst hdec
        exact ⟨_, _, _, _, by simp only [Handler.ServeMsg, getProperties, hd]; rfl,
          rfl, rfl, rfl⟩
    · cases hd : E.json.ContainerWaitForProcess r.Message with
      | ok request => simp [Handler.decodeError?, errorOf, hd] at hdec
      | error e =>
        simp only [Handler.decodeError?, errorOf, hd, Option.some.injEq] at hdec
        subst hdec
        exact ⟨_, _, _, _, by simp only [Handler.ServeMsg, waitOnProcess, hd]; rfl,
          rfl, rfl, rfl⟩
    · cases hd : E.json.ContainerResizeConsole r.Message with
      | ok request => simp [Handler.decodeError?, errorOf, hd] at hdec
      | error e =>
        simp only [Handler.decodeError?, errorOf, hd, Option.some.injEq] at hdec
        subst hdec
        exact ⟨_, _, _, _, by simp only [Handler.ServeMsg, resizeConsole, hd]; rfl,
          rfl, rfl, rfl⟩
    · cases hd : E.json.ContainerModifySettings r.Message with
      | ok request => simp [Handler.decodeError?, errorOf, hd] at hdec
      | error e =>
        simp only [Handler.decodeError?, errorOf, hd, Option.some.injEq] at hdec
        subst hdec
        exact ⟨_, _, _, _, by simp only [Handler.ServeMsg, modifySettings, hd]; rfl,
          rfl, rfl, rfl⟩
  · intro request base err hdec hbase hskip hnested
    unfold createContainer
    simp only [hdec, hbase]
    rw [if_neg hskip]
    rcases hnested with ⟨hver, hcfg⟩ | ⟨hver, hcfg⟩
    · have hver2 : b.protVer ≥ PvV4 := hver
      simp only [hver2, if_true, hcfg]
      exact ⟨_, _, rfl⟩
    · rcases hver with hver | ⟨settingsV2, hcfg2, hschema⟩
      · have hver2 : ¬ b.protVer ≥ PvV4 := not_le.2 hver
        simp only [hver2, if_false]
        unfold createContainerFallback
        simp only [Bool.not_false, if_true, hcfg]
        exact ⟨_, _, rfl⟩
      · by_cases hver2 : b.protVer ≥ PvV4
        · have hschema2 : ¬ settingsV2.SchemaVersion.Cmp { Major := 2, Minor := 0 } ≥ 0 :=
            not_le.2 hschema
          simp only [hver2, if_true, hcfg2, hschema2, if_false]
          unfold createContainerFallback
          simp only [Bool.not_false, if_true, hcfg]
          exact ⟨_, _, rfl⟩
        · simp only [hver2, if_false]
          unfold createContainerFallback
          simp only [Bool.not_false, if_true, hcfg]
          exact ⟨_, _, rfl⟩
  · intro request base err hdec hbase hparams
    unfold execProcess
    simp only [hdec, hparams, hbase]
    exact ⟨_, _, rfl⟩
  · intro request hdec hbase
    exact createContainer_nilBase P E w r b request hdec hbase
  · intro request err hdec hbase hparams
    rw [execProcess_nilBase P E w r b request hdec hbase, hparams]
    simp

/-- Witness for C28: the sample decoder rejects every signal-process payload. -/
theorem handlers_decode_failure_witness :
    Handler.registered protSample .signalProcess ∧
    Handler.decodeError? sampleEnv .signalProcess
      { Header := { Type_ := 1, Size := 16, ID := 5 }, Message := [], Version := 4 } =
      some sampleError ∧
    ∃ (msg : String) (site : StackTrace) (base : MessageResponseBase) (record : ErrorRecord),
      Handler.ServeMsg protSample sampleEnv .signalProcess
          { header := { Type_ := 2, Size := 0, ID := 5 } }
          { Header := { Type_ := 1, Size := 16, ID := 5 }, Message := [], Version := 4 }
          { protVer := 4 } =
        ({ header := { Type_ := 2, Size := 0, ID := 5 }, respWritten := true },
          { protVer := 4
            trace := ([] : List Event) ++
              [.respSend
                { header := { Type_ := 2, Size := 0, ID := 5 }, response := .base base }] }) ∧
      base = setErrorForResponseBase protSample
        { ActivityID := "00000000-0000-0000-0000-000000000000" }
        (errors.Wrapf sampleError msg site) ∧
      base.ActivityID = "00000000-0000-0000-0000-000000000000" ∧
      base.ErrorRecords = [record] :=
  have hreg : Handler.registered protSample .signalProcess :=
    ⟨protSample.ComputeSystemSignalProcessV1, PvV4, by decide⟩
  ⟨hreg, rfl,
    (handlers_decode_failure protSample sampleEnv .signalProcess
      { header := { Type_ := 2, Size := 0, ID := 5 } }
      { Header := { Type_ := 1, Size := 16, ID := 5 }, Message := [], Version := 4 }
      { protVer := 4 } hreg).1 sampleError rfl⟩

/-! ### Success responses -/

/-- A run that sends one response between calls that send none. -/
theorem success_shape (w : requestResponseWriter) (b : Bridge) (out : requestResponseWriter × Bridge)
    (activityID : String) (calls : List Event) (payload : Payload) (after : List Event)
    (hout : out.2.trace =
      b.trace ++ calls ++ [.respSend { header := w.header, response := payload }] ++ after)
    (hcalls : calls.filterMap Event.response? = [])
    (hafter : after.filterMap Event.response? = [])
    (hresp : payload.responseBase =
      some { ActivityID := activityID, Result := 0, ErrorRecords := [] }) :
    ∃ (new : List Event) (payload : Payload),
      out.2.trace = b.trace ++ new ∧
      new.filterMap Event.response? = [{ header := w.header, response := payload }] ∧
      payload.responseBase =
        some { ActivityID := activityID, Result := 0, ErrorRecords := [] } := by
  refine ⟨calls ++ [.respSend { header := w.header, response := payload }] ++ after, payload,
    ?_, ?_, hresp⟩
  · rw [hout]
    simp
  · simp [List.filterMap_append, hcalls, hafter, Event.response?]

theorem negotiateProtocol_accepted_shape (P : Prot) (E : Env) (w : requestResponseWriter)
    (r : Request) (b : Bridge) (activityID : String)
    (hs : Handler.succeedsWith P E .negotiateProtocol r b activityID) :
    ∃ (new : List Event) (payload : Payload),
      (negotiateProtocol P E w r b).2.trace = b.trace ++ new ∧
      new.filterMap Event.response? = [{ header := w.header, response := payload }] ∧
      payload.responseBase =
        some { ActivityID := activityID, Result := 0, ErrorRecords := [] } := by
  obtain ⟨request, base, hdec, hbase, haid, hmax, hmin⟩ := hs
  have hacc : ¬ (request.MaximumVersion < PvV4 ∨ P.PvMax < request.MinimumVersion) := by
    intro h
    rcases h with h | h
    · exact absurd hmax (not_le.2 h)
    · exact absurd hmin (not_le.2 h)
  refine success_shape w b _ activityID []
    (.negotiate
      { MessageResponseBase := { ActivityID := base.ActivityID }
        Version := if P.PvMax < request.MaximumVersion then P.PvMax else request.MaximumVersion
        Capabilities := capabilities P }) [] ?_ rfl rfl ?_
  · simp only [negotiateProtocol, hdec, hbase, if_neg hacc]
    simp [requestResponseWriter.Write, Bridge.emit]
  · simp [Payload.responseBase, haid]

theorem createContainer_success_shape (P : Prot) (E : Env) (w : requestResponseWriter)
    (r : Request) (b : Bridge) (activityID : String)
    (hs : Handler.succeedsWith P E .createContainer r b activityID) :
    ∃ (new : List Event) (payload : Payload),
      (createContainer P E w r b).2.trace = b.trace ++ new ∧
      new.filterMap Event.response? = [{ header := w.header, response := payload }] ∧
      payload.responseBase =
        some { ActivityID := activityID, Result := 0, ErrorRecords := [] } := by
  obtain ⟨request, base, hdec, hbase, haid, hroute⟩ := hs
  have hv1 : ∀ settings, ¬ (b.protVer = PvV4 ∧
        base.ContainerID = "00000000-0000-0000-0000-000000000000") →
      E.json.VMHostedContainerSettings request.ContainerConfig = .ok settings →
      E.core.CreateContainer base.ContainerID settings = none →
      (createContainerFallback P E w request base none false b).2.trace =
        b.trace ++ [.coreCreateContainer base.ContainerID settings,
          .coreWaitContainer base.ContainerID,
          .goExitNotifier { exitCodeFn := (E.core.WaitContainer base.ContainerID).1,
                            ContainerID := base.ContainerID,
                            ActivityID := base.ActivityID }] ++
          [.respSend
            { header := w.header
              response := .create
                { MessageResponseBase := { ActivityID := base.ActivityID }
                  SelectedProtocolVersion :=
                    if b.protVer = PvInvalid then PvV3 else 0 } }] ++ [] := by
    intro settings _ hcfg hcreate
    unfold createContainerFallback
    simp only [Bool.not_false, if_true, hcfg, hcreate]
    unfold createContainerRespond createContainerNotify
    by_cases hinv : b.protVer = PvInvalid <;>
      simp [hinv, requestResponseWriter.Write, Bridge.emit]
  rcases hroute with hskip | ⟨hskip, hver, settingsV2, c, hcfg, hschema, hcreate⟩ |
    ⟨hskip, hver, settings, hcfg, hcreate⟩
  · refine success_shape w b _ activityID []
      (.create { MessageResponseBase := { ActivityID := base.ActivityID } }) [] ?_ rfl rfl ?_
    · simp only [createContainer, hdec, hbase, if_pos hskip]
      simp [requestResponseWriter.Write, Bridge.emit]
    · simp [Payload.responseBase, haid]
  · have hver2 : b.protVer ≥ PvV4 := hver
    have hinv : ¬ b.protVer = PvInvalid := by
      intro h
      rw [h] at hver
      exact absurd hver (by decide)
    refine success_shape w b _ activityID
      [.hostCreateContainer base.ContainerID settingsV2,
       .goExitNotifier { exitCodeFn := some c.Wait, ContainerID := base.ContainerID,
                         ActivityID := base.ActivityID }]
      (.create { MessageResponseBase := { ActivityID := base.ActivityID } }) [] ?_ rfl rfl ?_
    · simp only [createContainer, hdec, hbase, if_neg hskip, hver2, if_true, hcfg, hschema, hcreate]
      unfold createContainerFallback createContainerRespond createContainerNotify
      simp [hinv, requestResponseWriter.Write, Bridge.emit]
    · simp [Payload.responseBase, haid]
  · refine success_shape w b _ activityID
      [.coreCreateContainer base.ContainerID settings,
       .coreWaitContainer base.ContainerID,
       .goExitNotifier { exitCodeFn := (E.core.WaitContainer base.ContainerID).1,
                         ContainerID := base.ContainerID,
                         ActivityID := base.ActivityID }]
      (.create
        { MessageResponseBase := { ActivityID := base.ActivityID }
          SelectedProtocolVersion := if b.protVer = PvInvalid then PvV3 else 0 }) [] ?_ rfl rfl ?_
    · simp only [createContainer, hdec, hbase, if_neg hskip]
      rcases hver with hver | ⟨settingsV2, hcfg2, hschema⟩
      · have hver2 : ¬ b.protVer ≥ PvV4 := not_le.2 hver
        simp only [hver2, if_false]
        exact hv1 settings hskip hcfg hcreate
      · by_cases hver2 : b.protVer ≥ PvV4
        · have hschema2 : ¬ settingsV2.SchemaVersion.Cmp { Major := 2, Minor := 0 } ≥ 0 :=
            not_le.2 hschema
          simp only [hver2, if_true, hcfg2, hschema2, if_false]
          exact hv1 settings hskip hcfg hcreate
        · simp only [hver2, if_false]
          exact hv1 settings hskip hcfg hcreate
    · simp [Payload.responseBase, haid]

theorem execProcess_success_shape (P : Prot) (E : Env) (w : requestResponseWriter)
    (r : Request) (b : Bridge) (activityID : String)
    (hs : Handler.succeedsWith P E .execProcess r b activityID) :
    ∃ (new : List Event) (payload : Payload),
      (execProcess P E w r b).2.trace = b.trace ++ new ∧
      new.filterMap Event.response? = [{ header := w.header, response := payload }] ∧
      payload.responseBase =
        some { ActivityID := activityID, Result := 0, ErrorRecords := [] } := by
  obtain ⟨request, base, params, pid, hdec, hbase, haid, hparams, hroute⟩ := hs
  have hresp : (Payload.executeProcess
      { MessageResponseBase := { ActivityID := base.ActivityID }
        ProcessID := toUint32 pid }).responseBase =
      some { ActivityID := activityID, Result := 0, ErrorRecords := [] } := by
    simp [Payload.responseBase, haid]
  rcases hroute with ⟨hext, hcall⟩ | ⟨hext, hschema, c, hget, hcall⟩ | ⟨hext, hschema, hcall⟩
  · refine success_shape w b _ activityID
      [.coreRunExternalProcess params (execProcessConSettings request params)] _ [] ?_ rfl rfl
      hresp
    simp only [execProcess, hdec, hbase, hparams, if_pos hext, hcall, execProcessRespond]
    simp [requestResponseWriter.Write, Bridge.emit]
  · have hext2 : ¬ params.IsExternal = true := by simp [hext]
    rcases hcall with ⟨hoci, hcall⟩ | ⟨process, hoci, hcall⟩
    · refine success_shape w b _ activityID
        [.hostGetContainer base.ContainerID,
         .containerStart base.ContainerID (execProcessConSettings request params)] _ [] ?_
        rfl rfl hresp
      simp only [execProcess, hdec, hbase, hparams, if_neg hext2, if_pos hschema, hget, hoci, hcall,
        execProcessRespond]
      simp [requestResponseWriter.Write, Bridge.emit]
    · refine success_shape w b _ activityID
        [.hostGetContainer base.ContainerID,
         .containerExecProcess base.ContainerID process
           (execProcessConSettings request params)] _ [] ?_ rfl rfl hresp
      simp only [execProcess, hdec, hbase, hparams, if_neg hext2, if_pos hschema, hget, hoci, hcall,
        execProcessRespond]
      simp [requestResponseWriter.Write, Bridge.emit]
  · have hext2 : ¬ params.IsExternal = true := by simp [hext]
    have hschema2 : ¬ params.SchemaVersion.Cmp { Major := 2, Minor := 0 } ≥ 0 :=
      not_le.2 hschema
    refine success_shape w b _ activityID
      [.coreExecProcess base.ContainerID params (execProcessConSettings request params)] _ []
      ?_ rfl rfl hresp
    simp only [execProcess, hdec, hbase, hparams, if_neg hext2, if_neg hschema2, hcall,
      execProcessRespond]
    simp [requestResponseWriter.Write, Bridge.emit]

theorem signalContainer_success_shape (P : Prot) (E : Env) (w : requestResponseWriter)
    (r : Request) (signal : Int) (b : Bridge) (activityID : String)
    (hs : signalContainerSucceeds P E r signal activityID) :
    ∃ (new : List Event) (payload : Payload),
      (signalContainer P E w r signal b).2.trace = b.trace ++ new ∧
      new.filterMap Event.response? = [{ header := w.header, response := payload }] ∧
      payload.responseBase =
        some { ActivityID := activityID, Result := 0, ErrorRecords := [] } := by
  obtain ⟨request, hdec, haid, huvm, hroute⟩ := hs
  have hresp : (Payload.base { ActivityID := request.ActivityID }).responseBase =
      some { ActivityID := activityID, Result := 0, ErrorRecords := [] } := by
    simp [Payload.responseBase, haid]
  rcases hroute with ⟨c, hget, hcall⟩ | ⟨⟨err, hget⟩, hcall⟩
  · refine success_shape w b _ activityID
      [.hostGetContainer request.ContainerID, .containerKill request.ContainerID signal] _ []
      ?_ rfl rfl hresp
    simp only [signalContainer, hdec, if_neg huvm, hget, hcall]
    simp [requestResponseWriter.Write, Bridge.emit]
  · refine success_shape w b _ activityID
      [.hostGetContainer request.ContainerID, .coreSignalContainer request.ContainerID signal]
      _ [] ?_ rfl rfl hresp
    simp only [signalContainer, hdec, if_neg huvm, hget, hcall]
    simp [requestResponseWriter.Write, Bridge.emit]

theorem signalProcess_success_shape (P : Prot) (E : Env) (w : requestResponseWriter)
    (r : Request) (b : Bridge) (activityID : String)
    (hs : Handler.succeedsWith P E .signalProcess r b activityID) :
    ∃ (new : List Event) (payload : Payload),
      (signalProcess P E w r b).2.trace = b.trace ++ new ∧
      new.filterMap Event.response? = [{ header := w.header, response := payload }] ∧
      payload.responseBase =
        some { ActivityID := activityID, Result := 0, ErrorRecords := [] } := by
  obtain ⟨request, base, hdec, hbase, haid, hroute⟩ := hs
  have hresp : (Payload.base { ActivityID := base.ActivityID }).responseBase =
      some { ActivityID := activityID, Result := 0, ErrorRecords := [] } := by
    simp [Payload.responseBase, haid]
  rcases hroute with ⟨c, p, hget, hproc, hcall⟩ | ⟨⟨err, hget⟩, hcall⟩
  · refine success_shape w b _ activityID
      [.hostGetContainer base.ContainerID,
       .containerGetProcess base.ContainerID request.ProcessID,
       .processKill base.ContainerID request.ProcessID
         (if request.Options.Signal = 0 then SIGKILL else request.Options.Signal)] _ []
      ?_ rfl rfl hresp
    simp only [signalProcess, hdec, hbase, hget, hproc, hcall]
    simp [requestResponseWriter.Write, Bridge.emit]
  · refine success_shape w b _ activityID
      [.hostGetContainer base.ContainerID,
       .coreSignalProcess (request.ProcessID : Int) request.Options] _ [] ?_ rfl rfl hresp
    simp only [signalProcess, hdec, hbase, hget, hcall]
    simp [requestResponseWriter.Write, Bridge.emit]

theorem getProperties_success_shape (P : Prot) (E : Env) (w : requestResponseWriter)
    (r : Request) (b : Bridge) (activityID : String)
    (hs : Handler.succeedsWith P E .getProperties r b activityID) :
    ∃ (new : List Event) (payload : Payload),
      (getProperties P E w r b).2.trace = b.trace ++ new ∧
      new.filterMap Event.response? = [{ header := w.header, response := payload }] ∧
      payload.responseBase =
        some { ActivityID := activityID, Result := 0, ErrorRecords := [] } := by
  obtain ⟨request, base, hdec, hbase, haid, hroute⟩ := hs
  have hresp : ∀ propertyJSON, (Payload.getProperties
      { MessageResponseBase := { ActivityID := base.ActivityID }
        Properties := propertyJSON }).responseBase =
      some { ActivityID := activityID, Result := 0, ErrorRecords := [] } := by
    intro propertyJSON
    simp [Payload.responseBase, haid]
  rcases hroute with ⟨huvm, propertyJSON, hjson⟩ | ⟨huvm, properties, hcall, hprops⟩
  · refine success_shape w b _ activityID [.hostGetAllProcessPids] _ [] ?_ rfl rfl
      (hresp propertyJSON)
    simp only [getProperties, hdec, hbase, if_pos huvm, getPropertiesRespond, hjson]
    simp [requestResponseWriter.Write, Bridge.emit]
  · rcases hprops with hnone | ⟨p, propertyJSON, hsome, hjson⟩
    · refine success_shape w b _ activityID
        [.coreGetProperties base.ContainerID request.Query] _ [] ?_ rfl rfl
        (hresp "\x7b\x7d")
      simp only [getProperties, hdec, hbase, if_neg huvm, hcall, hnone, getPropertiesRespond]
      simp [requestResponseWriter.Write, Bridge.emit]
    · refine success_shape w b _ activityID
        [.coreGetProperties base.ContainerID request.Query] _ [] ?_ rfl rfl
        (hresp propertyJSON)
      simp only [getProperties, hdec, hbase, if_neg huvm, hcall, hsome, getPropertiesRespond, hjson]
      simp [requestResponseWriter.Write, Bridge.emit]

theorem waitOnProcess_success_shape (P : Prot) (E : Env) (w : requestResponseWriter)
    (r : Request) (b : Bridge) (activityID : String)
    (hs : Handler.succeedsWith P E .waitOnProcess r b activityID) :
    ∃ (new : List Event) (payload : Payload),
      (waitOnProcess P E w r b).2.trace = b.trace ++ new ∧
      new.filterMap Event.response? = [{ header := w.header, response := payload }] ∧
      payload.responseBase =
        some { ActivityID := activityID, Result := 0, ErrorRecords := [] } := by
  obtain ⟨request, base, chans, exitCode, hdec, hbase, haid, hroute, hrecv⟩ := hs
  have hresp : (Payload.waitForProcess
      { MessageResponseBase := { ActivityID := base.ActivityID }
        ExitCode := toUint32 exitCode }).responseBase =
      some { ActivityID := activityID, Result := 0, ErrorRecords := [] } := by
    simp [Payload.responseBase, haid]
  rcases hroute with ⟨c, p, hget, hproc, hwait⟩ | ⟨⟨err, hget⟩, hcall⟩
  · subst hwait
    refine success_shape w b _ activityID
      [.hostGetContainer base.ContainerID,
       .containerGetProcess base.ContainerID request.ProcessID,
       .processWait base.ContainerID request.ProcessID] _ [.doneSend true, .doneClose]
      ?_ rfl rfl hresp
    simp only [waitOnProcess, hdec, hbase, hget, hproc, waitOnProcessSelect, hrecv, waitOnProcessDone]
    simp [requestResponseWriter.Write, Bridge.emit]
  · refine success_shape w b _ activityID
      [.hostGetContainer base.ContainerID, .coreWaitProcess (request.ProcessID : Int)] _
      [.doneSend true, .doneClose] ?_ rfl rfl hresp
    simp only [waitOnProcess, hdec, hbase, hget, hcall, waitOnProcessSelect, hrecv, waitOnProcessDone]
    simp [requestResponseWriter.Write, Bridge.emit]

theorem modifySettings_success_shape (P : Prot) (E : Env) (w : requestResponseWriter)
    (r : Request) (b : Bridge) (activityID : String)
    (hs : Handler.succeedsWith P E .modifySettings r b activityID) :
    ∃ (new : List Event) (payload : Payload),
      (modifySettings P E w r b).2.trace = b.trace ++ new ∧
      new.filterMap Event.response? = [{ header := w.header, response := payload }] ∧
      payload.responseBase =
        some { ActivityID := activityID, Result := 0, ErrorRecords := [] } := by
  obtain ⟨request, base, hdec, hbase, haid, hroute⟩ := hs
  have hresp : (Payload.base { ActivityID := base.ActivityID }).responseBase =
      some { ActivityID := activityID, Result := 0, ErrorRecords := [] } := by
    simp [Payload.responseBase, haid]
  rcases hroute with ⟨v1, h1, hcall⟩ | ⟨h1, v2, h2, huvm, hcall⟩
  · refine success_shape w b _ activityID [.coreModifySettings base.ContainerID v1] _ []
      ?_ rfl rfl hresp
    simp only [modifySettings, hdec, hbase, h1, hcall]
    simp [requestResponseWriter.Write, Bridge.emit]
  · have huvm2 : ¬ base.ContainerID ≠ P.UVMContainerID := not_not.2 huvm
    refine success_shape w b _ activityID [.hostModifyHostSettings v2] _ [] ?_ rfl rfl hresp
    simp only [modifySettings, hdec, hbase, h1, h2, if_neg huvm2, hcall]
    simp [requestResponseWriter.Write, Bridge.emit]

/-- Counterexample to C29 as stated: a negotiation request that decodes and
offers no version above 3, for which no collaborator is invoked, so none
fails, and the response is an error (its `Result` is not 0 and it has an error
record); and a resize-console request whose payload decodes without a
`MessageBase`, for which the one collaborator invoked, `ResizeConsole`,
succeeds, and no response is written, because `resizeConsole` panics when it
reads `request.ActivityID` for the response. -/
theorem handlers_decodable_request_without_success_response :
    (∃ request base0 base,
      Handler.registered protSample .negotiateProtocol ∧
      sampleEnv.json.NegotiateProtocol [3, 3] = .ok request ∧
      request.MessageBase = some base0 ∧
      (Handler.negotiateProtocol.ServeMsg protSample sampleEnv
          { header := { Type_ := 2, Size := 0, ID := 5 } }
          { Header := { Type_ := 1, Size := 18, ID := 5 }, Message := [3, 3], Version := 0 }
          { }).2.trace =
        [.respSend { header := { Type_ := 2, Size := 0, ID := 5 }, response := .base base }] ∧
      base.ActivityID = base0.ActivityID ∧
      base.Result = protSample.HrVmcomputeUnsupportedProtocolVersion ∧
      base.Result ≠ 0 ∧ base.ErrorRecords ≠ []) ∧
    (∃ request,
      Handler.registered protSample .resizeConsole ∧
      sampleEnvNilBase.json.ContainerResizeConsole [] = .ok request ∧
      request.MessageBase = none ∧
      sampleEnvNilBase.core.ResizeConsole (request.ProcessID : Int) request.Height
        request.Width = none ∧
      Handler.resizeConsole.ServeMsg protSample sampleEnvNilBase
          { header := { Type_ := 2, Size := 0, ID := 5 } }
          { Header := { Type_ := 1, Size := 16, ID := 5 }, Message := [], Version := 4 }
          { protVer := 4 } =
        ({ header := { Type_ := 2, Size := 0, ID := 5 }, respWritten := false },
          { protVer := 4
            trace := [.coreResizeConsole 101 24 80, .panic nilDereference] })) :=
  ⟨⟨_, _, _, ⟨protSample.ComputeSystemNegotiateProtocolV1, PvInvalid, by decide⟩, rfl, rfl,
      rfl, by decide, by decide, by decide, by decide⟩,
    ⟨_, ⟨protSample.ComputeSystemResizeConsoleV1, PvV4, by decide⟩, rfl, rfl, rfl, rfl⟩⟩

/-- C29 (as amended): for every handler registered by `AssignHandlers` and
every request on the handler's success path, that is, a request that decodes
(nested JSON strings included) and has its `MessageBase`, that the handler does
not reject on its own account (`negotiateProtocol`: the offered range reaches
version 4 and starts at or below `PvMax`; `modifySettings`: a v1 request, or a
v2 request addressed to the UVM), and on which every operation the handler
relies on succeeds (no timeout occurs, the properties marshal), other than a
kill or shutdown of the UVM (which writes nothing), exactly one response is
written, and it has `ActivityID` equal to the request's `ActivityID`, `Result`
equal to 0 and an empty `ErrorRecords` list. -/
theorem handlers_success_response (P : Prot) (E : Env) (h : Handler)
    (w : requestResponseWriter) (r : Request) (b : Bridge) (activityID : String)
    (hsucc : h.succeedsWith P E r b activityID) :
    ∃ (new : List Event) (payload : Payload),
      (h.ServeMsg P E w r b).2.trace = b.trace ++ new ∧
      new.filterMap Event.response? = [{ header := w.header, response := payload }] ∧
      payload.responseBase =
        some { ActivityID := activityID, Result := 0, ErrorRecords := [] } := by
  cases h with
  | UnknownMessage => exact absurd hsucc (by simp [Handler.succeedsWith])
  | func ops => exact absurd hsucc (by simp [Handler.succeedsWith])
  | negotiateProtocol => exact negotiateProtocol_accepted_shape P E w r b activityID hsucc
  | createContainer => exact createContainer_success_shape P E w r b activityID hsucc
  | startContainer =>
    obtain ⟨request, hdec, haid⟩ := hsucc
    refine success_shape w b _ activityID []
      (.base { ActivityID := request.ActivityID }) [] ?_ rfl rfl ?_
    · simp only [Handler.ServeMsg, startContainer, hdec]
      simp [requestResponseWriter.Write, Bridge.emit]
    · simp [Payload.responseBase, haid]
  | execProcess => exact execProcess_success_shape P E w r b activityID hsucc
  | killContainer => exact signalContainer_success_shape P E w r SIGKILL b activityID hsucc
  | shutdownContainer => exact signalContainer_success_shape P E w r SIGTERM b activityID hsucc
  | signalProcess => exact signalProcess_success_shape P E w r b activityID hsucc
  | getProperties => exact getProperties_success_shape P E w r b activityID hsucc
  | waitOnProcess => exact waitOnProcess_success_shape P E w r b activityID hsucc
  | resizeConsole =>
    obtain ⟨request, base, hdec, hbase, haid, hcall⟩ := hsucc
    refine success_shape w b _ activityID
      [.coreResizeConsole (request.ProcessID : Int) request.Height request.Width]
      (.base { ActivityID := base.ActivityID }) [] ?_ rfl rfl ?_
    · simp only [Handler.ServeMsg, resizeConsole, hdec, hcall, hbase]
      simp [requestResponseWriter.Write, Bridge.emit]
    · simp [Payload.responseBase, haid]
  | modifySettings => exact modifySettings_success_shape P E w r b activityID hsucc

/-- Witness for C29: the sample start request decodes with activity id
`"a1"`. -/
theorem handlers_success_response_witness :
    Handler.registered protSample .startContainer ∧
    Handler.succeedsWith protSample sampleEnv .startContainer
      { Header := { Type_ := 1, Size := 16, ID := 5 }, Message := [], Version := 4 }
      { protVer := 4 } "a1" ∧
    ∃ (new : List Event) (payload : Payload),
      (Handler.startContainer.ServeMsg protSample sampleEnv
          { header := { Type_ := 2, Size := 0, ID := 5 } }
          { Header := { Type_ := 1, Size := 16, ID := 5 }, Message := [], Version := 4 }
          { protVer := 4 }).2.trace = ([] : List Event) ++ new ∧
      new.filterMap Event.response? =
        [{ header := { Type_ := 2, Size := 0, ID := 5 }, response := payload }] ∧
      payload.responseBase = some { ActivityID := "a1", Result := 0, ErrorRecords := [] } :=
  have hsucc : Handler.succeedsWith protSample sampleEnv .startContainer
      { Header := { Type_ := 1, Size := 16, ID := 5 }, Message := [], Version := 4 }
      { protVer := 4 } "a1" := ⟨{ ContainerID := "c1", ActivityID := "a1" }, rfl, rfl⟩
  ⟨⟨protSample.ComputeSystemStartV1, PvV4, by decide⟩, hsucc,
    handlers_success_response protSample sampleEnv .startContainer
      { header := { Type_ := 2, Size := 0, ID := 5 } }
      { Header := { Type_ := 1, Size := 16, ID := 5 }, Message := [], Version := 4 }
      { protVer := 4 } "a1" hsucc⟩

/-! ### Framing of responses -/

theorem putUintLE_length (n x : Nat) : (putUintLE n x).length = n := by
  induction n generalizing x with
  | zero => rfl
  | succ n ih => simp [putUintLE, ih]

theorem getUintLE_putUintLE (n x : Nat) : getUintLE (putUintLE n x) = x % 256 ^ n := by
  induction n generalizing x with
  | zero => simp [putUintLE, getUintLE, Nat.mod_one]
  | succ n ih =>
    simp only [putUintLE, getUintLE, ih]
    rw [pow_succ, Nat.mul_comm (256 ^ n) 256, Nat.mod_mul]

theorem MessageHeader.encode_length (h : MessageHeader) : h.encode.length = 16 := by
  simp [MessageHeader.encode, putUintLE_length]

theorem MessageHeader.encode_size (h : MessageHeader) :
    (h.encode.drop 4).take 4 = putUintLE 4 h.Size := by
  unfold MessageHeader.encode
  rw [List.append_assoc, List.drop_append_of_le_length (by simp [putUintLE_length])]
  rw [List.drop_of_length_le (by simp [putUintLE_length]), List.nil_append]
  rw [List.take_append_of_le_length (by simp [putUintLE_length])]
  exact List.take_of_length_le (by simp [putUintLE_length])

theorem toUint32_natCast (n : Nat) : toUint32 (n : Int) = n % 2 ^ 32 := by
  unfold toUint32
  have h : ((n : Int) % 2 ^ 32) = ((n % 2 ^ 32 : Nat) : Int) := by
    push_cast
    rfl
  rw [h]
  exact Int.toNat_natCast _

/-- C30: for every response or notification that the egress task serializes
(its payload marshals to `responseBytes`), the header written to the stream is
the header of the response with `Size` set to 16 plus the byte length of the
marshaled payload, as a 32-bit value (so exactly that sum when it is below
`2^32`); its encoding is 16 bytes whose bytes 4 to 7 hold that size in
little-endian order; and the header is written before the payload: when no
write fails the stream grows by the encoded header followed by the payload,
when the write of the header fails no payload byte is written, and when the
write of the payload fails the complete header precedes the payload bytes
written. -/
theorem ListenAndServe.egressStep_frame (X : EgressEnv) (resp : bridgeResponse) (s : Egress)
    (responseBytes : Bytes) (hm : X.Marshal resp.response = .ok responseBytes) :
    ∃ header : MessageHeader,
      -- the header that is written
      header.Type_ = resp.header.Type_ ∧ header.ID = resp.header.ID ∧
      header.Size = (16 + responseBytes.length) % 2 ^ 32 ∧
      (16 + responseBytes.length < 2 ^ 32 → header.Size = 16 + responseBytes.length) ∧
      -- its bytes on the stream
      header.encode.length = 16 ∧
      getUintLE ((header.encode.drop 4).take 4) = (16 + responseBytes.length) % 2 ^ 32 ∧
      -- no write fails
      (s.bridgeOut.fault s.bridgeOut.written header.encode = none →
        s.bridgeOut.fault (s.bridgeOut.written ++ header.encode) responseBytes = none →
        (ListenAndServe.egressStep X resp s).bridgeOut.written =
          s.bridgeOut.written ++ header.encode ++ responseBytes ∧
        (ListenAndServe.egressStep X resp s).responseErrChan = s.responseErrChan) ∧
      -- the write of the header fails
      (∀ n err, s.bridgeOut.fault s.bridgeOut.written header.encode = some (n, err) →
        (ListenAndServe.egressStep X resp s).bridgeOut.written =
          s.bridgeOut.written ++ header.encode.take n ∧
        (ListenAndServe.egressStep X resp s).responseErrChan.length =
          s.responseErrChan.length + 1) ∧
      -- the write of the payload fails
      (∀ n err, s.bridgeOut.fault s.bridgeOut.written header.encode = none →
        s.bridgeOut.fault (s.bridgeOut.written ++ header.encode) responseBytes =
          some (n, err) →
        (ListenAndServe.egressStep X resp s).bridgeOut.written =
          s.bridgeOut.written ++ header.encode ++ responseBytes.take n ∧
        (ListenAndServe.egressStep X resp s).responseErrChan.length =
          s.responseErrChan.length + 1) := by
  have hsize : toUint32 ((responseBytes.length + MessageHeaderSize : Nat) : Int) =
      (16 + responseBytes.length) % 2 ^ 32 := by
    rw [toUint32_natCast, MessageHeaderSize, Nat.add_comm]
  refine ⟨{ Type_ := resp.header.Type_
            Size := toUint32 ((responseBytes.length + MessageHeaderSize : Nat) : Int)
            ID := resp.header.ID },
    rfl, rfl, hsize, ?_, MessageHeader.encode_length _, ?_, ?_, ?_, ?_⟩
  · intro hlt
    rw [hsize]
    exact Nat.mod_eq_of_lt hlt
  · rw [MessageHeader.encode_size, getUintLE_putUintLE]
    show toUint32 ((responseBytes.length + MessageHeaderSize : Nat) : Int) % 256 ^ 4 = _
    rw [hsize, show (256 : Nat) ^ 4 = 2 ^ 32 by norm_num]
    exact Nat.mod_mod _ _
  · intro h1 h2
    simp only [ListenAndServe.egressStep, hm, binary.Write, Writer.Write, h1, h2]
    simp
  · intro n err h1
    simp only [ListenAndServe.egressStep, hm, binary.Write, Writer.Write, h1]
    simp
  · intro n err h1 h2
    simp only [ListenAndServe.egressStep, hm, binary.Write, Writer.Write, h1, h2]
    simp

/-- Witness for C30: a response with a payload of two bytes is framed with
`Size = 18`. -/
theorem ListenAndServe.egressStep_frame_witness :
    sampleEgressEnv.Marshal (.base { ActivityID := "a1" }) = .ok [123, 125] ∧
    (ListenAndServe.egressStep sampleEgressEnv
        { header := { Type_ := 2, Size := 0, ID := 5 }, response := .base { ActivityID := "a1" } }
        { bridgeOut := sampleWriter, responseErrChan := [] }).bridgeOut.written =
      [2, 0, 0, 0, 18, 0, 0, 0, 5, 0, 0, 0, 0, 0, 0, 0, 123, 125] := by
  obtain ⟨header, htype, hid, hsize, _, _, _, hok, _, _⟩ :=
    ListenAndServe.egressStep_frame sampleEgressEnv
      { header := { Type_ := 2, Size := 0, ID := 5 }, response := .base { ActivityID := "a1" } }
      { bridgeOut := sampleWriter, responseErrChan := [] } [123, 125] rfl
  refine ⟨rfl, ?_⟩
  rw [(hok rfl rfl).1]
  have hheader : header = { Type_ := 2, Size := 18, ID := 5 } := by
    cases header
    simp only [MessageHeader.mk.injEq]
    exact ⟨htype, hsize, hid⟩
  rw [hheader]
  rfl

/-! ### The header on the wire -/

theorem putUintLE_getElem? (n x i : Nat) (hi : i < n) :
    (putUintLE n x)[i]? = some (x / 256 ^ i % 256) := by
  induction n generalizing x i with
  | zero => exact absurd hi (Nat.not_lt_zero _)
  | succ n ih =>
    cases i with
    | zero => simp [putUintLE]
    | succ i =>
      simp only [putUintLE, List.getElem?_cons_succ]
      rw [ih (x / 256) i (Nat.lt_of_succ_lt_succ hi), Nat.div_div_eq_div_mul, pow_succ,
        Nat.mul_comm]

theorem putUintLE_lt (n x : Nat) : ∀ y ∈ putUintLE n x, y < 256 := by
  induction n generalizing x with
  | zero => simp [putUintLE]
  | succ n ih =>
    intro y hy
    simp only [putUintLE, List.mem_cons] at hy
    rcases hy with hy | hy
    · rw [hy]
      exact Nat.mod_lt _ (by decide)
    · exact ih _ y hy

theorem MessageHeader.encode_type (h : MessageHeader) :
    h.encode.take 4 = putUintLE 4 h.Type_ := by
  unfold MessageHeader.encode
  rw [List.append_assoc, List.take_append_of_le_length (by simp [putUintLE_length])]
  exact List.take_of_length_le (by simp [putUintLE_length])

theorem MessageHeader.encode_id (h : MessageHeader) :
    (h.encode.drop 8).take 8 = putUintLE 8 h.ID := by
  unfold MessageHeader.encode
  have hlen : (putUintLE 4 h.Type_ ++ putUintLE 4 h.Size).length = 8 := by
    simp [putUintLE_length]
  rw [← hlen, List.drop_left]
  exact List.take_of_length_le (by simp [putUintLE_length])

/-- C31: for every message header with `Type` and `Size` of 32 bits and `ID` of
64 bits, the little-endian encoding written by the egress task is exactly 16
bytes, with `Type` in bytes 0 to 3, `Size` in bytes 4 to 7 and `ID` in bytes 8
to 15, each field with its least significant byte first, and decoding those 16
bytes with the little-endian decoder of the ingress task returns the same
header. -/
theorem MessageHeader.decode_encode (h : MessageHeader)
    (htype : h.Type_ < 2 ^ 32) (hsize : h.Size < 2 ^ 32) (hid : h.ID < 2 ^ 64) :
    h.encode.length = 16 ∧
    (∀ y ∈ h.encode, y < 256) ∧
    (∀ i, i < 4 → h.encode[i]? = some (h.Type_ / 256 ^ i % 256)) ∧
    (∀ i, i < 4 → h.encode[4 + i]? = some (h.Size / 256 ^ i % 256)) ∧
    (∀ i, i < 8 → h.encode[8 + i]? = some (h.ID / 256 ^ i % 256)) ∧
    MessageHeader.decode h.encode = h := by
  refine ⟨MessageHeader.encode_length h, ?_, ?_, ?_, ?_, ?_⟩
  · intro y hy
    simp only [MessageHeader.encode, List.mem_append] at hy
    rcases hy with (hy | hy) | hy <;> exact putUintLE_lt _ _ y hy
  · intro i hi
    unfold MessageHeader.encode
    rw [List.append_assoc, List.getElem?_append_left (by simpa [putUintLE_length] using hi)]
    exact putUintLE_getElem? 4 _ i hi
  · intro i hi
    unfold MessageHeader.encode
    rw [List.append_assoc, List.getElem?_append_right (by simp [putUintLE_length])]
    rw [List.getElem?_append_left (by simpa [putUintLE_length] using hi)]
    simp only [putUintLE_length, Nat.add_sub_cancel_left]
    exact putUintLE_getElem? 4 _ i hi
  · intro i hi
    unfold MessageHeader.encode
    rw [List.getElem?_append_right (by simp [putUintLE_length])]
    simp only [List.length_append, putUintLE_length, Nat.add_sub_cancel_left]
    exact putUintLE_getElem? 8 _ i hi
  · unfold MessageHeader.decode
    rw [MessageHeader.encode_type, MessageHeader.encode_size, MessageHeader.encode_id,
      getUintLE_putUintLE, getUintLE_putUintLE, getUintLE_putUintLE]
    rw [show (256 : Nat) ^ 4 = 2 ^ 32 by norm_num, show (256 : Nat) ^ 8 = 2 ^ 64 by norm_num,
      Nat.mod_eq_of_lt htype, Nat.mod_eq_of_lt hsize, Nat.mod_eq_of_lt hid]

/-- Witness for C31: the header of a response to request 5. -/
theorem MessageHeader.decode_encode_witness :
    (0x20100101 : Nat) < 2 ^ 32 ∧ (18 : Nat) < 2 ^ 32 ∧ (5 : Nat) < 2 ^ 64 ∧
    MessageHeader.encode { Type_ := 0x20100101, Size := 18, ID := 5 } =
      [1, 1, 16, 32, 18, 0, 0, 0, 5, 0, 0, 0, 0, 0, 0, 0] ∧
    MessageHeader.decode
        (MessageHeader.encode { Type_ := 0x20100101, Size := 18, ID := 5 }) =
      { Type_ := 0x20100101, Size := 18, ID := 5 } :=
  ⟨by decide, by decide, by decide, by decide,
    (MessageHeader.decode_encode { Type_ := 0x20100101, Size := 18, ID := 5 }
      (by decide) (by decide) (by decide)).2.2.2.2.2⟩

/-! ### The ingress task -/

theorem ListenAndServe.ingressStep_header (E : Env) (b : Bridge) (s : Ingress) :
    ∃ tail, (ListenAndServe.ingressStep E b s).trace = s.trace ++ .readHeader :: tail := by
  unfold ListenAndServe.ingressStep
  rcases hread : binary.Read s.bridgeIn with ⟨res, rest⟩
  cases res with
  | error err => exact ⟨_, rfl⟩
  | ok header =>
    dsimp only
    rcases hpay : ReadFull rest (toUint32 ((header.Size : Int) - (MessageHeaderSize : Int))) []
      with ⟨res2, rest2⟩
    cases res2 with
    | error err => exact ⟨_, rfl⟩
    | ok message => exact ⟨_, rfl⟩

/-- Counterexample to C32 as stated.  On a stream that has ended, the header
read fails, the error is reported, and the next run of the loop reads the
header again.  On a stream whose first read times out, the error is reported,
and the next run of the loop reads the bytes that follow as a frame and sends
the request on. -/
theorem ListenAndServe.ingress_reads_after_failure :
    (ListenAndServe.ingressLoop sampleEnv [{ protVer := 4 }, { protVer := 4 }]
        { bridgeIn := [], trace := [] }).trace =
      [.readHeader,
       .requestErrSend (errors.Wrapf EOF "bridge: failed reading message header" sampleStack),
       .readHeader,
       .requestErrSend (errors.Wrapf EOF "bridge: failed reading message header" sampleStack)] ∧
    (ListenAndServe.ingressLoop sampleEnv [{ protVer := 4 }, { protVer := 4 }]
        { bridgeIn := sampleStreamTimeout, trace := [] }).trace =
      [.readHeader,
       .requestErrSend
         (errors.Wrapf sampleTimeout "bridge: failed reading message header" sampleStack),
       .readHeader, .readPayload 1,
       .requestSend
         { Header := { Type_ := 1, Size := 17, ID := 5 }, Message := [7], Version := 4 }] := by
  constructor <;> decide

/-- C32 (as amended): after a header read or a payload read fails, the ingress
reader reports the error to the dispatch engine, with one send on the request
error channel of the error wrapped in "bridge: failed reading message header"
or "bridge: failed reading message payload"; that report is what
`ListenAndServe` returns when its `select` receives it.  The reader itself
does not stop: once the report has been received it runs its loop again, and
its next step is a header read on what is left of the same stream, so the bytes
that follow are interpreted as a frame. -/
theorem ListenAndServe.ingress_continues (E : Env) (b b2 : Bridge) (s : Ingress) :
    -- the header read fails
    (∀ err rest, binary.Read s.bridgeIn = (.error err, rest) →
      ListenAndServe.ingressStep E b s =
        { bridgeIn := rest
          trace := s.trace ++
            [.readHeader,
             .requestErrSend (errors.Wrapf err "bridge: failed reading message header"
               (E.fmt.callers "ListenAndServe"))] } ∧
      ListenAndServe.conerr (.requestErr (errors.Wrapf err
          "bridge: failed reading message header" (E.fmt.callers "ListenAndServe"))) =
        some (errors.Wrapf err "bridge: failed reading message header"
          (E.fmt.callers "ListenAndServe")) ∧
      ListenAndServe.ingressLoop E [b, b2] s =
        ListenAndServe.ingressStep E b2
          { bridgeIn := rest
            trace := s.trace ++
              [.readHeader,
               .requestErrSend (errors.Wrapf err "bridge: failed reading message header"
                 (E.fmt.callers "ListenAndServe"))] } ∧
      ∃ tail, (ListenAndServe.ingressLoop E [b, b2] s).trace =
        s.trace ++
          [.readHeader,
           .requestErrSend (errors.Wrapf err "bridge: failed reading message header"
             (E.fmt.callers "ListenAndServe"))] ++
          .readHeader :: tail) ∧
    -- the payload read fails
    (∀ header rest err rest2, binary.Read s.bridgeIn = (.ok header, rest) →
      ReadFull rest (toUint32 ((header.Size : Int) - (MessageHeaderSize : Int))) [] =
        (.error err, rest2) →
      ListenAndServe.ingressStep E b s =
        { bridgeIn := rest2
          trace := s.trace ++
            [.readHeader,
             .readPayload (toUint32 ((header.Size : Int) - (MessageHeaderSize : Int))),
             .requestErrSend (errors.Wrapf err "bridge: failed reading message payload"
               (E.fmt.callers "ListenAndServe"))] } ∧
      ListenAndServe.conerr (.requestErr (errors.Wrapf err
          "bridge: failed reading message payload" (E.fmt.callers "ListenAndServe"))) =
        some (errors.Wrapf err "bridge: failed reading message payload"
          (E.fmt.callers "ListenAndServe")) ∧
      ListenAndServe.ingressLoop E [b, b2] s =
        ListenAndServe.ingressStep E b2
          { bridgeIn := rest2
            trace := s.trace ++
              [.readHeader,
               .readPayload (toUint32 ((header.Size : Int) - (MessageHeaderSize : Int))),
               .requestErrSend (errors.Wrapf err "bridge: failed reading message payload"
                 (E.fmt.callers "ListenAndServe"))] } ∧
      ∃ tail, (ListenAndServe.ingressLoop E [b, b2] s).trace =
        s.trace ++
          [.readHeader,
           .readPayload (toUint32 ((header.Size : Int) - (MessageHeaderSize : Int))),
           .requestErrSend (errors.Wrapf err "bridge: failed reading message payload"
             (E.fmt.callers "ListenAndServe"))] ++
          .readHeader :: tail) := by
  refine ⟨?_, ?_⟩
  · intro err rest hread
    have hstep : ListenAndServe.ingressStep E b s =
        { bridgeIn := rest
          trace := s.trace ++
            [.readHeader,
             .requestErrSend (errors.Wrapf err "bridge: failed reading message header"
               (E.fmt.callers "ListenAndServe"))] } := by
      simp only [ListenAndServe.ingressStep, hread]
    have hloop : ListenAndServe.ingressLoop E [b, b2] s =
        ListenAndServe.ingressStep E b2 (ListenAndServe.ingressStep E b s) := rfl
    refine ⟨hstep, rfl, by rw [hloop, hstep], ?_⟩
    obtain ⟨tail, htail⟩ := ListenAndServe.ingressStep_header E b2
      (ListenAndServe.ingressStep E b s)
    refine ⟨tail, ?_⟩
    rw [hloop, htail, hstep]
  · intro header rest err rest2 hread hpay
    have hstep : ListenAndServe.ingressStep E b s =
        { bridgeIn := rest2
          trace := s.trace ++
            [.readHeader,
             .readPayload (toUint32 ((header.Size : Int) - (MessageHeaderSize : Int))),
             .requestErrSend (errors.Wrapf err "bridge: failed reading message payload"
               (E.fmt.callers "ListenAndServe"))] } := by
      simp only [ListenAndServe.ingressStep, hread, hpay]
    have hloop : ListenAndServe.ingressLoop E [b, b2] s =
        ListenAndServe.ingressStep E b2 (ListenAndServe.ingressStep E b s) := rfl
    refine ⟨hstep, rfl, by rw [hloop, hstep], ?_⟩
    obtain ⟨tail, htail⟩ := ListenAndServe.ingressStep_header E b2
      (ListenAndServe.ingressStep E b s)
    refine ⟨tail, ?_⟩
    rw [hloop, htail, hstep]

/-- C37: the ingress reader never rejects a header because of its `Size` field.
After every successful header read the next step is the payload read, for a
buffer of `header.Size - 16` bytes computed in unsigned 32-bit arithmetic: that
is `Size - 16` for every 32-bit `Size >= 16`, and `Size - 16 + 2^32`, which is
at least `2^32 - 16`, for every `Size < 16`.  What follows depends on that read
alone: the request is sent on, or the failure of the payload read is
reported. -/
theorem ListenAndServe.ingressStep_payload_length (E : Env) (b : Bridge) (s : Ingress)
    (header : MessageHeader) (rest : Reader)
    (hread : binary.Read s.bridgeIn = (.ok header, rest)) :
    ∃ (n : Nat) (last : IngressEvent),
      (ListenAndServe.ingressStep E b s).trace =
        s.trace ++ [.readHeader, .readPayload n, last] ∧
      ((∃ message rest2, ReadFull rest n [] = (.ok message, rest2) ∧
          last = .requestSend
            { Header := header, Message := message, Version := b.protVer }) ∨
        (∃ err rest2, ReadFull rest n [] = (.error err, rest2) ∧
          last = .requestErrSend (errors.Wrapf err "bridge: failed reading message payload"
            (E.fmt.callers "ListenAndServe")))) ∧
      (n : Int) = ((header.Size : Int) - 16) % 2 ^ 32 ∧
      (16 ≤ header.Size → header.Size < 2 ^ 32 → n = header.Size - 16) ∧
      (header.Size < 16 → n = header.Size + 2 ^ 32 - 16 ∧ 2 ^ 32 - 16 ≤ n) := by
  have hn : ((toUint32 ((header.Size : Int) - (MessageHeaderSize : Int)) : Nat) : Int) =
      ((header.Size : Int) - 16) % 2 ^ 32 := by
    unfold toUint32 MessageHeaderSize
    exact Int.toNat_of_nonneg (Int.emod_nonneg _ (by norm_num))
  refine ⟨toUint32 ((header.Size : Int) - (MessageHeaderSize : Int)), ?_⟩
  rcases hpay : ReadFull rest (toUint32 ((header.Size : Int) - (MessageHeaderSize : Int))) []
    with ⟨res2, rest2⟩
  have harith1 : 16 ≤ header.Size → header.Size < 2 ^ 32 →
      toUint32 ((header.Size : Int) - (MessageHeaderSize : Int)) = header.Size - 16 := by
    intro h1 h2
    have : ((toUint32 ((header.Size : Int) - (MessageHeaderSize : Int)) : Nat) : Int) =
        ((header.Size - 16 : Nat) : Int) := by
      rw [hn, Int.emod_eq_of_lt (by omega) (by omega)]
      omega
    exact_mod_cast this
  have harith2 : header.Size < 16 →
      toUint32 ((header.Size : Int) - (MessageHeaderSize : Int)) = header.Size + 2 ^ 32 - 16 ∧
      2 ^ 32 - 16 ≤ toUint32 ((header.Size : Int) - (MessageHeaderSize : Int)) := by
    intro h1
    have : ((toUint32 ((header.Size : Int) - (MessageHeaderSize : Int)) : Nat) : Int) =
        ((header.Size + 2 ^ 32 - 16 : Nat) : Int) := by
      rw [hn]
      have h2 : ((header.Size : Int) - 16) % 2 ^ 32 =
          ((header.Size : Int) - 16 + 2 ^ 32) % 2 ^ 32 := by
        rw [Int.add_emod_self]
      rw [h2, Int.emod_eq_of_lt (by omega) (by omega)]
      omega
    have h3 : toUint32 ((header.Size : Int) - (MessageHeaderSize : Int)) =
        header.Size + 2 ^ 32 - 16 := by exact_mod_cast this
    exact ⟨h3, by omega⟩
  cases res2 with
  | error err =>
    refine ⟨_, ?_, Or.inr ⟨err, rest2, rfl, rfl⟩, hn, harith1, harith2⟩
    simp only [ListenAndServe.ingressStep, hread, hpay]
  | ok message =>
    refine ⟨_, ?_, Or.inl ⟨message, rest2, rfl, rfl⟩, hn, harith1, harith2⟩
    simp only [ListenAndServe.ingressStep, hread, hpay, ListenAndServe.ingress]

/-- Witness for C37: a header that announces a frame of 3 bytes makes the
reader ask for 4294967283 payload bytes; the stream has none. -/
theorem ListenAndServe.ingressStep_payload_length_witness :
    binary.Read sampleStreamShort = (.ok { Type_ := 1, Size := 3, ID := 5 }, []) ∧
    (ListenAndServe.ingressStep sampleEnv { protVer := 4 }
        { bridgeIn := sampleStreamShort, trace := [] }).trace =
      [.readHeader, .readPayload 4294967283,
       .requestErrSend
         (errors.Wrapf EOF "bridge: failed reading message payload" sampleStack)] := by
  have hread : binary.Read sampleStreamShort = (.ok { Type_ := 1, Size := 3, ID := 5 }, []) :=
    rfl
  obtain ⟨n, last, htrace, hlast, _, _, hsmall⟩ :=
    ListenAndServe.ingressStep_payload_length sampleEnv { protVer := 4 }
      { bridgeIn := sampleStreamShort, trace := [] } { Type_ := 1, Size := 3, ID := 5 } []
      hread
  have hn : n = 4294967283 := (hsmall (by decide)).1
  subst hn
  refine ⟨hread, ?_⟩
  rw [htrace]
  have herr2 : ReadFull [] 4294967283 [] = (.error EOF, []) := rfl
  rcases hlast with ⟨message, rest2, hok, _⟩ | ⟨err, rest2, herr, hl⟩
  · rw [herr2] at hok
    cases hok
  · rw [herr2] at herr
    cases herr
    rw [hl]
    rfl

/-- Witness for C32: on a stream that has ended the header read fails with
`io.EOF`; the report is followed by another header read. -/
theorem ListenAndServe.ingress_continues_witness :
    binary.Read ([] : Reader) = (.error EOF, []) ∧
    ∃ tail, (ListenAndServe.ingressLoop sampleEnv [{ protVer := 4 }, { protVer := 4 }]
        { bridgeIn := [], trace := [] }).trace =
      ([] : List IngressEvent) ++
        [.readHeader,
         .requestErrSend (errors.Wrapf EOF "bridge: failed reading message header"
           (sampleEnv.fmt.callers "ListenAndServe"))] ++
        .readHeader :: tail :=
  ⟨rfl,
    (((ListenAndServe.ingress_continues sampleEnv { protVer := 4 } { protVer := 4 }
      { bridgeIn := [], trace := [] }).1 EOF [] rfl).2.2.2)⟩

/-! ### The exit-code function of the wait-and-notify task -/

/-- C36 (the code at the failing input): a legacy create request for container
`"c1"` while `runtime.WaitContainer` fails.  The error is only logged: the
handler spawns the wait-and-notify task with the nil exit-code function that
the failed call returned, and the task panics when it calls it. -/
theorem createContainer_spawns_task_without_exit_function :
    sampleEnvWaitFails.json.ContainerCreate [0] =
      .ok { MessageBase := some { ContainerID := "c1", ActivityID := "a1" }
            ContainerConfig := "v1" } ∧
    sampleEnvWaitFails.core.WaitContainer "c1" = (none, some sampleError) ∧
    (createContainer protSample sampleEnvWaitFails
        { header := { Type_ := 2, Size := 0, ID := 5 } }
        { Header := { Type_ := 1, Size := 17, ID := 5 }, Message := [0], Version := 0 }
        { }).2.trace =
      [.coreCreateContainer "c1" { body := "v1" },
       .coreWaitContainer "c1",
       .goExitNotifier { exitCodeFn := none, ContainerID := "c1", ActivityID := "a1" },
       .respSend
         { header := { Type_ := 2, Size := 0, ID := 5 }
           response := .create
             { MessageResponseBase := { ActivityID := "a1", Result := 0, ErrorRecords := [] }
               SelectedProtocolVersion := 3 } }] ∧
    (ExitNotifier.run protSample
        { exitCodeFn := none, ContainerID := "c1", ActivityID := "a1" } { protVer := 3 }).2 =
      some "runtime error: invalid memory address or nil pointer dereference" := by
  refine ⟨rfl, rfl, ?_, rfl⟩
  decide

/-! ### The negotiated version -/

/-- C38: for every NegotiateProtocol request that `negotiateProtocol` accepts
(the request decodes with its `MessageBase` and passes the range check), with
the constants of the program, in which `PvMax` is `PvV4`, the selected version
`v = min(PvMax, MaximumVersion)`, which is also the `Version` of the response,
satisfies `PvV4 <= v <= PvMax` and lies inside the range the host offered:
`MinimumVersion <= v <= MaximumVersion`. -/
theorem negotiateProtocol_selected_range (P : Prot) (E : Env) (w : requestResponseWriter)
    (r : Request) (b : Bridge) (request : NegotiateProtocol) (base : MessageBase)
    (hdec : E.json.NegotiateProtocol r.Message = .ok request)
    (hbase : request.MessageBase = some base)
    (hacc : ¬ (request.MaximumVersion < PvV4 ∨ P.PvMax < request.MinimumVersion))
    (hP : P.PvMax = PvV4) :
    ∃ v : Nat,
      (negotiateProtocol P E w r b).2.protVer = v ∧
      (negotiateProtocol P E w r b).2.trace = b.trace ++ [.respSend
        { header := w.header
          response := .negotiate
            { MessageResponseBase :=
                { ActivityID := base.ActivityID, Result := 0, ErrorRecords := [] }
              Version := v
              Capabilities := capabilities P } }] ∧
      v = min P.PvMax request.MaximumVersion ∧
      PvV4 ≤ v ∧ v ≤ P.PvMax ∧
      request.MinimumVersion ≤ v ∧ v ≤ request.MaximumVersion := by
  have hmax : PvV4 ≤ request.MaximumVersion := by
    by_contra h
    exact hacc (Or.inl (not_le.1 h))
  have hminle : request.MinimumVersion ≤ P.PvMax := by
    by_contra h
    exact hacc (Or.inr (not_le.1 h))
  have hmin : (if P.PvMax < request.MaximumVersion then P.PvMax else request.MaximumVersion) =
      min P.PvMax request.MaximumVersion := by
    by_cases hlt : P.PvMax < request.MaximumVersion
    · rw [if_pos hlt, Nat.min_eq_left (Nat.le_of_lt hlt)]
    · rw [if_neg hlt, Nat.min_eq_right (Nat.le_of_not_lt hlt)]
  have hrun : negotiateProtocol P E w r b =
      ({ w with respWritten := true },
        { protVer := min P.PvMax request.MaximumVersion
          trace := b.trace ++ [.respSend
            { header := w.header
              response := .negotiate
                { MessageResponseBase :=
                    { ActivityID := base.ActivityID, Result := 0, ErrorRecords := [] }
                  Version := min P.PvMax request.MaximumVersion
                  Capabilities := capabilities P } }] }) := by
    simp only [negotiateProtocol, hdec, hbase, if_neg hacc, hmin]
    rfl
  refine ⟨min P.PvMax request.MaximumVersion, by rw [hrun], by rw [hrun], rfl,
    le_min (le_of_eq hP.symm) hmax, min_le_left _ _, ?_, min_le_right _ _⟩
  rw [hP] at hminle
  rw [hP]
  exact le_min hminle (le_trans hminle hmax)

/-- Witness for C38: the request that offers versions 4 to 7 to a bridge whose
`PvMax` is 4. -/
theorem negotiateProtocol_selected_range_witness :
    sampleEnv.json.NegotiateProtocol [4, 7] =
      .ok { MessageBase := some { ContainerID := "", ActivityID := "a1" }
            MinimumVersion := 4, MaximumVersion := 7 } ∧
    ¬ ((7 : Nat) < PvV4 ∨ protSample.PvMax < 4) ∧
    protSample.PvMax = PvV4 ∧
    (negotiateProtocol protSample sampleEnv
        { header := { Type_ := 2, Size := 0, ID := 5 } }
        { Header := { Type_ := 1, Size := 18, ID := 5 }, Message := [4, 7], Version := 0 }
        { }).2.protVer = 4 := by
  obtain ⟨v, hv, _, hmin, _⟩ :=
    negotiateProtocol_selected_range protSample sampleEnv
      { header := { Type_ := 2, Size := 0, ID := 5 } }
      { Header := { Type_ := 1, Size := 18, ID := 5 }, Message := [4, 7], Version := 0 }
      { }
      { MessageBase := some { ContainerID := "", ActivityID := "a1" }
        MinimumVersion := 4, MaximumVersion := 7 }
      { ContainerID := "", ActivityID := "a1" }
      rfl rfl (by decide) (by decide)
  refine ⟨rfl, by decide, by decide, ?_⟩
  rw [hv, hmin]
  decide

/-! ### Failure of a create request -/

/-- C39: `createContainer` is atomic with respect to the bridge state on
failure.  Whenever a run of `createContainer` writes an error response (a
response with an error record), whatever the cause, the selected protocol
version is unchanged (it stays `PvInvalid` if it was `PvInvalid`), the one
response written is a bare `MessageResponseBase`, which has no
`SelectedProtocolVersion`, and no wait-and-notify task is spawned. -/
theorem createContainer_failure_atomic (P : Prot) (E : Env) (w : requestResponseWriter)
    (r : Request) (b : Bridge) (new : List Event)
    (hnew : (createContainer P E w r b).2.trace = b.trace ++ new)
    (herr : ∃ resp ∈ new.filterMap Event.response?, ∃ base,
      resp.response.responseBase = some base ∧ base.ErrorRecords ≠ []) :
    (createContainer P E w r b).2.protVer = b.protVer ∧
    (b.protVer = PvInvalid → (createContainer P E w r b).2.protVer = PvInvalid) ∧
    new.filterMap Event.task? = [] ∧
    ∃ base, new.filterMap Event.response? = [{ header := w.header, response := .base base }] ∧
      base.ErrorRecords ≠ [] := by
  obtain ⟨resp, hmem, rbase, hrbase, hrec⟩ := herr
  have key : (createContainer P E w r b).2.protVer = b.protVer ∧
      new.filterMap Event.task? = [] ∧
      ∃ base, new.filterMap Event.response? =
          [{ header := w.header, response := .base base }] ∧
        base.ErrorRecords ≠ [] := by
    cases createContainer_outcome P E w r b with
    | panicked request hdec hbase hout =>
      exfalso
      rw [hout] at hnew
      have hnew2 : new = [.panic nilDereference] := by
        have h : b.trace ++ [.panic nilDereference] = b.trace ++ new := by
          rw [← hnew]
          simp [Bridge.emit]
        exact (List.append_cancel_left h).symm
      rw [hnew2] at hmem
      simp [List.filterMap_cons, Event.response?] at hmem
    | failed activityID err calls hcalls hout =>
      rw [hout] at hnew ⊢
      have hnew2 : new = calls ++ [.respSend
          { header := w.header
            response := .base (setErrorForResponseBase P
              { ActivityID :=
                  if activityID = "" then "00000000-0000-0000-0000-000000000000"
                  else activityID }
              err) }] := by
        have h : b.trace ++ (calls ++ [.respSend
            { header := w.header
              response := .base (setErrorForResponseBase P
                { ActivityID :=
                    if activityID = "" then "00000000-0000-0000-0000-000000000000"
                    else activityID }
                err) }]) = b.trace ++ new := by
          rw [← hnew]
          simp [requestResponseWriter.Error, requestResponseWriter.Write, Bridge.emit]
        exact (List.append_cancel_left h).symm
      refine ⟨rfl, ?_, ?_⟩
      · rw [hnew2]
        rcases hcalls with hc | ⟨id, s, hc⟩ | ⟨id, s, hc⟩ <;>
          simp [hc, List.filterMap_cons, Event.task?]
      · refine ⟨setErrorForResponseBase P
            { ActivityID :=
                if activityID = "" then "00000000-0000-0000-0000-000000000000"
                else activityID }
            err, ?_, ?_⟩
        · rw [hnew2]
          rcases hcalls with hc | ⟨id, s, hc⟩ | ⟨id, s, hc⟩ <;>
            simp [hc, List.filterMap_cons, Event.response?]
        · simp [setErrorForResponseBase]
    | skipped request base hdec hbase hskip hout =>
      exfalso
      rw [hout] at hnew
      have hnew2 : new = [.respSend
          { header := w.header
            response := .create { MessageResponseBase := { ActivityID := base.ActivityID } } }] := by
        have h : b.trace ++ [.respSend
            { header := w.header
              response := .create
                { MessageResponseBase := { ActivityID := base.ActivityID } } }] =
            b.trace ++ new := by
          rw [← hnew]
          simp [requestResponseWriter.Write, Bridge.emit]
        exact (List.append_cancel_left h).symm
      rw [hnew2] at hmem
      simp [List.filterMap_cons, Event.response?] at hmem
      rw [hmem] at hrbase
      simp [Payload.responseBase] at hrbase
      rw [← hrbase] at hrec
      exact hrec rfl
    | createdV2 request base settingsV2 c hdec hbase hskip hver hcfg hschema hcreate hout =>
      exfalso
      rw [hout] at hnew
      have hnew2 := (List.append_cancel_left hnew).symm
      rw [hnew2] at hmem
      simp [List.filterMap_cons, Event.response?] at hmem
      rw [hmem] at hrbase
      simp [Payload.responseBase] at hrbase
      rw [← hrbase] at hrec
      exact hrec rfl
    | createdV1 request base settings hdec hbase hskip hver hcfg hcreate hout =>
      exfalso
      rw [hout] at hnew
      have hnew2 := (List.append_cancel_left hnew).symm
      rw [hnew2] at hmem
      simp [List.filterMap_cons, Event.response?] at hmem
      rw [hmem] at hrbase
      simp [Payload.responseBase] at hrbase
      rw [← hrbase] at hrec
      exact hrec rfl
  refine ⟨key.1, ?_, key.2.1, key.2.2⟩
  intro hinv
  rw [key.1, hinv]

/-- Witness for C39: a legacy create request whose container configuration
does not decode, received before any version is selected. -/
theorem createContainer_failure_atomic_witness :
    ∃ new : List Event,
      (createContainer protSample sampleEnvBadConfig
          { header := { Type_ := 2, Size := 0, ID := 5 } }
          { Header := { Type_ := 1, Size := 17, ID := 5 }, Message := [0], Version := 0 }
          { }).2.trace = ([] : List Event) ++ new ∧
      (∃ resp ∈ new.filterMap Event.response?, ∃ base,
        resp.response.responseBase = some base ∧ base.ErrorRecords ≠ []) ∧
      (createContainer protSample sampleEnvBadConfig
          { header := { Type_ := 2, Size := 0, ID := 5 } }
          { Header := { Type_ := 1, Size := 17, ID := 5 }, Message := [0], Version := 0 }
          { }).2.protVer = PvInvalid ∧
      new.filterMap Event.task? = [] :=
  have hnew : (createContainer protSample sampleEnvBadConfig
      { header := { Type_ := 2, Size := 0, ID := 5 } }
      { Header := { Type_ := 1, Size := 17, ID := 5 }, Message := [0], Version := 0 }
      { }).2.trace =
      ([] : List Event) ++
        [.respSend
          { header := { Type_ := 2, Size := 0, ID := 5 }
            response := .base (setErrorForResponseBase protSample { ActivityID := "a1" }
              (errors.Wrapf sampleError "failed to unmarshal JSON for ContainerConfig \"v1\""
                sampleStack)) }] := by decide
  have herr : ∃ resp ∈ List.filterMap Event.response?
      [Event.respSend
        { header := { Type_ := 2, Size := 0, ID := 5 }
          response := .base (setErrorForResponseBase protSample { ActivityID := "a1" }
            (errors.Wrapf sampleError "failed to unmarshal JSON for ContainerConfig \"v1\""
              sampleStack)) }], ∃ base,
      resp.response.responseBase = some base ∧ base.ErrorRecords ≠ [] :=
    ⟨_, List.mem_singleton.2 rfl, _, rfl, by decide⟩
  have h := createContainer_failure_atomic protSample sampleEnvBadConfig
    { header := { Type_ := 2, Size := 0, ID := 5 } }
    { Header := { Type_ := 1, Size := 17, ID := 5 }, Message := [0], Version := 0 }
    { } _ hnew herr
  ⟨_, hnew, herr, h.2.1 rfl, h.2.2.1⟩

/-! ### Size estimation for ext4 -/

theorem growTenPercent_sample (outOfRange : Nat → Nat) :
    growTenPercent outOfRange 10 = 11 ∧ growTenPercent outOfRange 1000000 = 1100000 ∧
    growTenPercent outOfRange 59 = 64 := by
  refine ⟨?_, ?_, ?_⟩ <;>
    · unfold growTenPercent float64ToUint64
      rw [if_pos (by decide)]
      decide

theorem dropTo53_spec : ∀ (fuel n : Nat), n < 2 ^ (53 + fuel) →
    n / 2 ^ dropTo53 fuel n < 2 ^ 53 ∧
    (0 < dropTo53 fuel n → 2 ^ 52 ≤ n / 2 ^ dropTo53 fuel n)
  | 0, n, h => by
    simp only [dropTo53, Nat.pow_zero, Nat.div_one, Nat.lt_irrefl, false_implies, and_true]
    exact h
  | fuel + 1, n, h => by
    unfold dropTo53
    by_cases hn : n < 2 ^ 53
    · rw [if_pos hn]
      simp only [Nat.pow_zero, Nat.div_one, Nat.lt_irrefl, false_implies, and_true]
      exact hn
    · rw [if_neg hn]
      have h2 : n / 2 < 2 ^ (53 + fuel) := by
        rw [Nat.div_lt_iff_lt_mul (by decide)]
        calc n < 2 ^ (53 + (fuel + 1)) := h
          _ = 2 ^ (53 + fuel) * 2 := by rw [← Nat.add_assoc, Nat.pow_succ]
      obtain ⟨ih1, ih2⟩ := dropTo53_spec fuel (n / 2) h2
      have hdiv : n / 2 ^ (dropTo53 fuel (n / 2) + 1) = n / 2 / 2 ^ dropTo53 fuel (n / 2) := by
        rw [Nat.pow_succ, Nat.mul_comm, Nat.div_div_eq_div_mul]
      rw [hdiv]
      refine ⟨ih1, fun _ => ?_⟩
      by_cases hd : 0 < dropTo53 fuel (n / 2)
      · exact ih2 hd
      · have h0 : dropTo53 fuel (n / 2) = 0 := by omega
        rw [h0, Nat.pow_zero, Nat.div_one]
        omega

/-- Rounding to `float64` changes a number below `2^181` by at most one part in
`2^53`. -/
theorem roundFloat64_bounds (n : Nat) (hn : n < 2 ^ 181) :
    (2 ^ 53 - 1) * n ≤ roundFloat64 n * 2 ^ 53 ∧ roundFloat64 n * 2 ^ 53 ≤ (2 ^ 53 + 1) * n := by
  obtain ⟨h1, h2⟩ := dropTo53_spec 128 n hn
  unfold roundFloat64
  by_cases hd : dropTo53 128 n = 0
  · simp only [hd, if_true]
    constructor <;> omega
  · simp only [hd, if_false]
    generalize dropTo53 128 n = d at h1 h2 hd
    have hq : 2 ^ 52 ≤ n / 2 ^ d := h2 (by omega)
    have hD : 2 ^ d = 2 * 2 ^ (d - 1) := by
      have hd1 : d = d - 1 + 1 := by omega
      conv_lhs => rw [hd1, Nat.pow_succ]
      omega
    have hdm : 2 ^ d * (n / 2 ^ d) + n % 2 ^ d = n := Nat.div_add_mod n (2 ^ d)
    have hrem : n % 2 ^ d < 2 ^ d := Nat.mod_lt _ (Nat.pow_pos (by decide))
    have hp : 2 ^ (d - 1) * 2 ^ 52 ≤ 2 ^ (d - 1) * (n / 2 ^ d) := Nat.mul_le_mul_left _ hq
    generalize n / 2 ^ d = q at hq hdm hp ⊢
    generalize n % 2 ^ d = rem at hdm hrem ⊢
    rw [hD] at hdm hrem ⊢
    generalize 2 ^ (d - 1) = H at hdm hrem hp ⊢
    have hHq : 2 * H * q = 2 * (H * q) := by ring
    rw [hHq] at hdm
    by_cases hc : rem > H ∨ (rem = H ∧ q % 2 = 1)
    · rw [if_pos hc]
      have hrH : H ≤ rem := by
        rcases hc with h | ⟨h, _⟩ <;> omega
      have he : (q + 1) * (2 * H) = 2 * (H * q) + 2 * H := by ring
      rw [he]
      generalize H * q = p at hdm hp ⊢
      constructor <;> omega
    · rw [if_neg hc]
      have hrH : rem ≤ H := by
        by_contra h
        exact hc (Or.inl (by omega))
      have he : q * (2 * H) = 2 * (H * q) := by ring
      rw [he]
      generalize H * q = p at hdm hp ⊢
      constructor <;> omega

/-- The rounded product `float64(x) * 1.10` is within two parts in `2^53` of
the exact product of `x` and the `float64` nearest to 1.10. -/
theorem mulTenPercent_bounds (x : Nat) (hx : x < 2 ^ 64) :
    (2 ^ 53 - 1) * ((2 ^ 53 - 1) * (x * 4953959590107546)) ≤ mulTenPercent x * 2 ^ 106 ∧
    mulTenPercent x * 2 ^ 106 ≤ (2 ^ 53 + 1) * ((2 ^ 53 + 1) * (x * 4953959590107546)) := by
  obtain ⟨a1, a2⟩ := roundFloat64_bounds x (by omega)
  have hr : roundFloat64 x < 2 ^ 65 := by omega
  have hprod : roundFloat64 x * 4953959590107546 < 2 ^ 181 := by omega
  obtain ⟨b1, b2⟩ := roundFloat64_bounds (roundFloat64 x * 4953959590107546) hprod
  unfold mulTenPercent
  generalize roundFloat64 (roundFloat64 x * 4953959590107546) = R at b1 b2 ⊢
  generalize roundFloat64 x = r at a1 a2 b1 b2 hr hprod
  constructor <;> omega

/-- What `uint64(float64(x) * 1.10)` is when 110% of `x` is at most
`2^64 - 2^13`: the conversion is in range, whatever the implementation does
out of range, and the result `g` is 110% of `x` up to the rounding of the
product and the discarded fraction. -/
theorem growTenPercent_bounds (outOfRange : Nat → Nat) (x : Nat)
    (hx : 11 * x ≤ 10 * (2 ^ 64 - 2 ^ 13)) :
    growTenPercent outOfRange x = mulTenPercent x / 2 ^ 52 ∧
    growTenPercent outOfRange x < 2 ^ 64 ∧
    11 * x * (2 ^ 52 - 1) < 10 * (growTenPercent outOfRange x + 1) * 2 ^ 52 ∧
    10 * growTenPercent outOfRange x * 2 ^ 51 ≤ 11 * x * (2 ^ 51 + 1) := by
  obtain ⟨h1, h2⟩ := mulTenPercent_bounds x (by omega)
  have hdm := Nat.div_add_mod (mulTenPercent x) (2 ^ 52)
  have hlt : mulTenPercent x % 2 ^ 52 < 2 ^ 52 := Nat.mod_lt _ (by decide)
  have hrange : mulTenPercent x / 2 ^ 52 < 2 ^ 64 := by omega
  have heq : growTenPercent outOfRange x = mulTenPercent x / 2 ^ 52 := by
    unfold growTenPercent float64ToUint64
    rw [if_pos hrange]
  rw [heq]
  refine ⟨rfl, hrange, ?_, ?_⟩ <;> omega


theorem addU64_of_lt (x y : Nat) (h : x + y < 2 ^ 64) : addU64 x y = x + y :=
  Nat.mod_eq_of_lt h

theorem mulU64_of_lt (x y : Nat) (h : x * y < 2 ^ 64) : mulU64 x y = x * y :=
  Nat.mod_eq_of_lt h

theorem roundUp_eq (n a : Nat) (ha : 0 < a) :
    roundUp n a = if n % a = 0 then n else n + a - n % a := by
  unfold roundUp
  have hdm := Nat.div_add_mod n a
  by_cases hr : n % a = 0
  · rw [if_pos hr]
    rw [hr, Nat.add_zero] at hdm
    have h1 : (n + a - 1) / a = n / a := by
      have h2 : n + a - 1 = a - 1 + a * (n / a) := by omega
      rw [h2, Nat.add_mul_div_left _ _ ha, Nat.div_eq_of_lt (by omega), Nat.zero_add]
    rw [h1, Nat.mul_comm]
    exact hdm
  · rw [if_neg hr]
    have hlt : n % a < a := Nat.mod_lt _ ha
    have h1 : (n + a - 1) / a = n / a + 1 := by
      have h2 : n + a - 1 = n % a - 1 + a * (n / a + 1) := by
        rw [Nat.mul_add, Nat.mul_one]
        omega
      rw [h2, Nat.add_mul_div_left _ _ ha, Nat.div_eq_of_lt (by omega), Nat.zero_add]
    rw [h1, Nat.add_mul, Nat.one_mul, Nat.mul_comm]
    omega

/-- The number `roundUp n a` is the least multiple of `a` that is at least
`n`. -/
theorem roundUp_least (n a : Nat) (ha : 0 < a) :
    a ∣ roundUp n a ∧ n ≤ roundUp n a ∧ (∀ m, a ∣ m → n ≤ m → roundUp n a ≤ m) ∧
    (a ∣ n → roundUp n a = n) := by
  have hdm := Nat.div_add_mod n a
  have hlt : n % a < a := Nat.mod_lt _ ha
  refine ⟨Dvd.intro_left _ rfl, ?_, ?_, ?_⟩
  · rw [roundUp_eq n a ha]
    split <;> omega
  · intro m hm hnm
    obtain ⟨k, hk⟩ := hm
    rw [roundUp_eq n a ha]
    by_cases hr : n % a = 0
    · rw [if_pos hr]
      exact hnm
    · rw [if_neg hr]
      have hk2 : n / a < k := by
        by_contra hcon
        have hle : k ≤ n / a := Nat.le_of_not_lt hcon
        have h3 : a * k ≤ a * (n / a) := Nat.mul_le_mul_left a hle
        omega
      have h4 : a * (n / a + 1) ≤ a * k := Nat.mul_le_mul_left a hk2
      rw [Nat.mul_add, Nat.mul_one] at h4
      omega
  · intro hdvd
    rw [roundUp_eq n a ha, if_pos (Nat.mod_eq_zero_of_dvd hdvd)]

theorem alignN_eq_roundUp (n a : Nat) (ha : 0 < a) (hn : n < 2 ^ 64) (ha2 : a < 2 ^ 64)
    (hfit : roundUp n a < 2 ^ 64) : alignN n a = some (roundUp n a) := by
  unfold alignN
  rw [if_neg (Nat.pos_iff_ne_zero.1 ha), roundUp_eq n a ha]
  rw [roundUp_eq n a ha] at hfit
  have hlt : n % a < a := Nat.mod_lt _ ha
  by_cases hr : n % a = 0
  · rw [if_pos hr, if_pos hr]
  · rw [if_neg hr, if_neg hr]
    rw [if_neg hr] at hfit
    congr 1
    unfold subU64 addU64
    by_cases hna : n + a < 2 ^ 64
    · rw [Nat.mod_eq_of_lt hna]
      have h1 : n + a + 2 ^ 64 - n % a = (n + a - n % a) + 2 ^ 64 := by omega
      rw [h1, Nat.add_mod_right, Nat.mod_eq_of_lt hfit]
    · have h0 : (n + a) % 2 ^ 64 = n + a - 2 ^ 64 := by
        rw [Nat.mod_eq_sub_mod (Nat.le_of_not_lt hna), Nat.mod_eq_of_lt (by omega)]
      rw [h0]
      have h1 : n + a - 2 ^ 64 + 2 ^ 64 - n % a = n + a - n % a := by omega
      rw [h1, Nat.mod_eq_of_lt hfit]

theorem roundUp_ge (n a : Nat) (ha : 0 < a) : n ≤ roundUp n a := (roundUp_least n a ha).2.1

theorem Ext4Fs.addInode_eq (e : Ext4Fs) (h1 : e.numInodes + 1 < 2 ^ 64)
    (h2 : e.totalSize + e.InodeSize < 2 ^ 64) :
    e.addInode =
      { e with numInodes := e.numInodes + 1, totalSize := e.totalSize + e.InodeSize } := by
  simp [Ext4Fs.addInode, addU64_of_lt _ _ h1, addU64_of_lt _ _ h2]

/-- Counterexample to C33 as stated: with a block size of 0, for which the size
context can be initialised, `CalcRegFileSize` does not complete: it counts the
inode and then panics in `alignN` with a division by zero. -/
theorem Ext4Fs.CalcRegFileSize_panics_without_blocks :
    Ext4Fs.InitSizeContext { BlockSize := 0, InodeSize := 256, totalSize := 0, numInodes := 0 } =
      sampleExt4Zero ∧
    sampleExt4Zero.CalcRegFileSize "f" 5 =
      ({ BlockSize := 0, InodeSize := 256, totalSize := 5120, numInodes := 12 },
        some "runtime error: integer divide by zero") := by
  decide

/-- C33 (as amended): the size accounting of `Ext4Fs` equals a reference sum.
After `InitSizeContext`, `numInodes = 11` and (absent 64-bit overflow)
`totalSize = max(2048 + 11 * InodeSize, BlockSize)`.  Thereafter, absent 64-bit
overflow, each call changes `(numInodes, totalSize)` by exactly:
`CalcRegFileSize(fileSize)`, for a block size above 0: `(+1, +InodeSize +
BlockSize + fileSize rounded up to a multiple of BlockSize)`; `CalcDirSize`:
`(+1, +InodeSize + 3 * BlockSize)`; `CalcHardlinkSize`: `(+0, +BlockSize)`;
`CalcCharDeviceSize`, `CalcBlockDeviceSize`, `CalcFIFOPipeSize`,
`CalcSocketSize`: `(+1, +InodeSize)`; `CalcAddExAttrSize`: `(+0, +0)`.  None
changes `BlockSize` or `InodeSize`, and `GetSizeInfo` returns the current pair.
With a block size of 0, `CalcRegFileSize` panics after it has counted the
inode. -/
theorem Ext4Fs.size_accounting (e : Ext4Fs) :
    -- InitSizeContext
    (e.InitSizeContext.numInodes = 11 ∧
      e.InitSizeContext.BlockSize = e.BlockSize ∧
      e.InitSizeContext.InodeSize = e.InodeSize ∧
      (2048 + 11 * e.InodeSize < 2 ^ 64 →
        e.InitSizeContext.totalSize = max (2048 + 11 * e.InodeSize) e.BlockSize)) ∧
    -- CalcRegFileSize
    (∀ fileName fileSize, 0 < e.BlockSize → e.numInodes + 1 < 2 ^ 64 →
      e.totalSize + (e.InodeSize + e.BlockSize + roundUp fileSize e.BlockSize) < 2 ^ 64 →
      e.CalcRegFileSize fileName fileSize =
        ({ e with
            numInodes := e.numInodes + 1
            totalSize :=
              e.totalSize + (e.InodeSize + e.BlockSize + roundUp fileSize e.BlockSize) },
          none)) ∧
    (∀ fileName fileSize, e.BlockSize = 0 →
      (e.CalcRegFileSize fileName fileSize).2 =
        some "runtime error: integer divide by zero") ∧
    (∀ n, 0 < e.BlockSize →
      e.BlockSize ∣ roundUp n e.BlockSize ∧ n ≤ roundUp n e.BlockSize ∧
      ∀ m, e.BlockSize ∣ m → n ≤ m → roundUp n e.BlockSize ≤ m) ∧
    -- CalcDirSize
    (∀ dirName, e.numInodes + 1 < 2 ^ 64 →
      e.totalSize + (e.InodeSize + 3 * e.BlockSize) < 2 ^ 64 →
      e.CalcDirSize dirName =
        { e with
          numInodes := e.numInodes + 1
          totalSize := e.totalSize + (e.InodeSize + 3 * e.BlockSize) }) ∧
    -- CalcHardlinkSize
    (∀ srcName dstName, e.totalSize + e.BlockSize < 2 ^ 64 →
      e.CalcHardlinkSize srcName dstName =
        { e with totalSize := e.totalSize + e.BlockSize }) ∧
    -- CalcCharDeviceSize, CalcBlockDeviceSize, CalcFIFOPipeSize, CalcSocketSize
    (∀ (name : String) (major minor : Nat), e.numInodes + 1 < 2 ^ 64 →
      e.totalSize + e.InodeSize < 2 ^ 64 →
      e.CalcCharDeviceSize name major minor =
        { e with numInodes := e.numInodes + 1, totalSize := e.totalSize + e.InodeSize } ∧
      e.CalcBlockDeviceSize name major minor =
        { e with numInodes := e.numInodes + 1, totalSize := e.totalSize + e.InodeSize } ∧
      e.CalcFIFOPipeSize name =
        { e with numInodes := e.numInodes + 1, totalSize := e.totalSize + e.InodeSize } ∧
      e.CalcSocketSize name =
        { e with numInodes := e.numInodes + 1, totalSize := e.totalSize + e.InodeSize }) ∧
    -- CalcAddExAttrSize
    (∀ fileName attr data flags, e.CalcAddExAttrSize fileName attr data flags = e) ∧
    -- GetSizeInfo
    e.GetSizeInfo = { NumInodes := e.numInodes, TotalSize := e.totalSize } := by
  refine ⟨⟨rfl, rfl, rfl, ?_⟩, ?_, ?_, ?_, ?_, ?_, ?_, ?_, rfl⟩
  · intro h
    have h11 : 11 * e.InodeSize < 2 ^ 64 := by omega
    simp only [Ext4Fs.InitSizeContext, mulU64_of_lt _ _ h11, addU64_of_lt _ _ h, maxU64]
    by_cases hgt : 2048 + 11 * e.InodeSize > e.BlockSize
    · rw [if_pos hgt, max_eq_left (Nat.le_of_lt hgt)]
    · rw [if_neg hgt, max_eq_right (Nat.le_of_not_lt hgt)]
  · intro fileName fileSize hB h1 h2
    have hge := roundUp_ge fileSize e.BlockSize hB
    have halign := alignN_eq_roundUp fileSize e.BlockSize hB (by omega) (by omega) (by omega)
    have ha1 : addU64 (e.totalSize + e.InodeSize) e.BlockSize =
        e.totalSize + e.InodeSize + e.BlockSize := addU64_of_lt _ _ (by omega)
    have ha2 : addU64 (e.totalSize + e.InodeSize + e.BlockSize)
        (roundUp fileSize e.BlockSize) =
        e.totalSize + e.InodeSize + e.BlockSize + roundUp fileSize e.BlockSize :=
      addU64_of_lt _ _ (by omega)
    unfold Ext4Fs.CalcRegFileSize
    rw [Ext4Fs.addInode_eq e h1 (by omega)]
    simp only [halign, ha1, ha2]
    simp [Nat.add_assoc]
  · intro fileName fileSize hB
    simp [Ext4Fs.CalcRegFileSize, Ext4Fs.addInode, alignN, hB]
  · intro n hB
    have h := roundUp_least n e.BlockSize hB
    exact ⟨h.1, h.2.1, h.2.2.1⟩
  · intro dirName h1 h2
    have hm : mulU64 3 e.BlockSize = 3 * e.BlockSize := mulU64_of_lt _ _ (by omega)
    have ha : addU64 (e.totalSize + e.InodeSize) (3 * e.BlockSize) =
        e.totalSize + e.InodeSize + 3 * e.BlockSize := addU64_of_lt _ _ (by omega)
    unfold Ext4Fs.CalcDirSize
    rw [Ext4Fs.addInode_eq e h1 (by omega)]
    simp only [hm, ha]
    simp [Nat.add_assoc]
  · intro srcName dstName h
    simp [Ext4Fs.CalcHardlinkSize, addU64_of_lt _ _ h]
  · intro name major minor h1 h2
    exact ⟨Ext4Fs.addInode_eq e h1 h2, Ext4Fs.addInode_eq e h1 h2, Ext4Fs.addInode_eq e h1 h2,
      Ext4Fs.addInode_eq e h1 h2⟩
  · intro fileName attr data flags
    rfl

/-- Witness for C33: a file of 5000 bytes with blocks of 4096 bytes and inodes
of 256 bytes adds one inode and `256 + 4096 + 8192` bytes. -/
theorem Ext4Fs.size_accounting_witness :
    sampleExt4.InitSizeContext =
      { BlockSize := 4096, InodeSize := 256, totalSize := 4864, numInodes := 11 } ∧
    roundUp 5000 4096 = 8192 ∧
    sampleExt4.InitSizeContext.CalcRegFileSize "f" 5000 =
      ({ BlockSize := 4096, InodeSize := 256, totalSize := 17408, numInodes := 12 }, none) := by
  refine ⟨by decide, by decide, ?_⟩
  rw [(Ext4Fs.size_accounting sampleExt4.InitSizeContext).2.1 "f" 5000 (by decide) (by decide)
    (by decide)]
  decide

/-- C34 (the code at the failing input): a symlink whose target is exactly 60
bytes long, with blocks of 4096 bytes.  The code tests `len(dstName) > 60`, so
it treats this target as inline and adds the inode only; a target that is not
shorter than 60 takes `60` rounded up to a multiple of the block size, 4096
bytes, in addition. -/
theorem Ext4Fs.CalcSymlinkSize_inlines_60 :
    sampleTarget60.utf8ByteSize = 60 ∧
    ¬ sampleTarget60.utf8ByteSize < 60 ∧
    roundUp 60 4096 = 4096 ∧
    sampleExt4.InitSizeContext.CalcSymlinkSize "link" sampleTarget60 =
      ({ BlockSize := 4096, InodeSize := 256, totalSize := 4864 + 256, numInodes := 12 },
        none) ∧
    sampleExt4.InitSizeContext.CalcSymlinkSize "link" (sampleTarget60 ++ "x") =
      ({ BlockSize := 4096, InodeSize := 256, totalSize := 4864 + 256 + 4096,
         numInodes := 12 }, none) := by
  decide

/-- Counterexample to C35 as stated, with blocks of 4096 bytes and with blocks
of one byte: `FinalizeSizeContext` leaves a `totalSize` that is below 110% of
the earlier `totalSize`, so it is not a multiple of `64 * BlockSize` that is
at least the earlier size grown by 10%.  The code computes
`uint64(float64(totalSize) * 1.10)`, which rounds the product to 53 bits and
discards the fraction, and aligns that value.  Both conversions are in range,
so the result does not depend on the implementation. -/
theorem Ext4Fs.FinalizeSizeContext_below_ten_percent :
    (0 < sampleExt4Large.BlockSize ∧
      64 * sampleExt4Large.BlockSize < 2 ^ 64 ∧
      11 * sampleExt4Large.totalSize < 10 * 2 ^ 64 ∧
      (sampleExt4Large.FinalizeSizeContext sampleOutOfRange).2 = none ∧
      (sampleExt4Large.FinalizeSizeContext sampleOutOfRange).1.totalSize =
        1241178701566836736 ∧
      64 * sampleExt4Large.BlockSize ∣ 1241178701566836736 ∧
      10 * 1241178701566836736 < 11 * sampleExt4Large.totalSize) ∧
    (0 < sampleExt4Small.BlockSize ∧
      64 * sampleExt4Small.BlockSize < 2 ^ 64 ∧
      11 * sampleExt4Small.totalSize < 10 * 2 ^ 64 ∧
      (sampleExt4Small.FinalizeSizeContext sampleOutOfRange).2 = none ∧
      (sampleExt4Small.FinalizeSizeContext sampleOutOfRange).1.totalSize = 64 ∧
      64 * sampleExt4Small.BlockSize ∣ 64 ∧
      10 * 64 < 11 * sampleExt4Small.totalSize) := by
  have hL : growTenPercent sampleOutOfRange 1128344274151669814 = 1241178701566836736 := by
    unfold growTenPercent float64ToUint64
    rw [if_pos (by decide)]
    decide
  have hS : growTenPercent sampleOutOfRange 59 = 64 := by
    unfold growTenPercent float64ToUint64
    rw [if_pos (by decide)]
    decide
  have hn : growTenPercent sampleOutOfRange 20 = 22 := by
    unfold growTenPercent float64ToUint64
    rw [if_pos (by decide)]
    decide
  have h1 : growTenPercent sampleOutOfRange 1 = 1 := by
    unfold growTenPercent float64ToUint64
    rw [if_pos (by decide)]
    decide
  have hFL : sampleExt4Large.FinalizeSizeContext sampleOutOfRange =
      ({ BlockSize := 4096, InodeSize := 256, totalSize := 1241178701566836736,
         numInodes := 22 }, none) := by
    simp only [Ext4Fs.FinalizeSizeContext, sampleExt4Large, hL, hn]
    decide
  have hFS : sampleExt4Small.FinalizeSizeContext sampleOutOfRange =
      ({ BlockSize := 1, InodeSize := 1, totalSize := 64, numInodes := 1 }, none) := by
    simp only [Ext4Fs.FinalizeSizeContext, sampleExt4Small, hS, h1]
    decide
  rw [hFL, hFS]
  decide

/-- C35 (as amended): for every `Ext4Fs` with `BlockSize > 0` and no 64-bit
overflow (`64 * BlockSize` and the rounding stay below `2^64`, and 110% of
`totalSize` is at most `2^64 - 2^13`), `FinalizeSizeContext` returns, and
afterwards `totalSize` is a multiple of `64 * BlockSize`: the smallest one that
is at least `g`, the value of `uint64(float64(totalSize) * 1.10)` for the
earlier `totalSize`.  This `g` is 110% of the earlier `totalSize` up to the
rounding of the product and the discarded fraction:
`1.1 * totalSize * (1 - 2^-52) - 1 < g <= 1.1 * totalSize * (1 + 2^-51)`; the
final `totalSize` may be below 110% of the earlier one.  `numInodes` becomes
`uint64(float64(numInodes) * 1.10)`, with the same bounds when 110% of it is at
most `2^64 - 2^13`.  In particular, for `a > 0` and absent overflow,
`alignN(n, a)` returns the least multiple of `a` that is at least `n`, and `n`
itself when `n` is a multiple of `a`. -/
theorem Ext4Fs.FinalizeSizeContext_aligned (e : Ext4Fs) (outOfRange : Nat → Nat)
    (hB : 0 < e.BlockSize) (hmul : 64 * e.BlockSize < 2 ^ 64)
    (hgrow : 11 * e.totalSize ≤ 10 * (2 ^ 64 - 2 ^ 13))
    (hfit : roundUp (growTenPercent outOfRange e.totalSize) (64 * e.BlockSize) < 2 ^ 64) :
    (∃ (e' : Ext4Fs) (g : Nat), e.FinalizeSizeContext outOfRange = (e', none) ∧
      g = growTenPercent outOfRange e.totalSize ∧
      g = mulTenPercent e.totalSize / 2 ^ 52 ∧ g < 2 ^ 64 ∧
      11 * e.totalSize * (2 ^ 52 - 1) < 10 * (g + 1) * 2 ^ 52 ∧
      10 * g * 2 ^ 51 ≤ 11 * e.totalSize * (2 ^ 51 + 1) ∧
      e'.BlockSize = e.BlockSize ∧ e'.InodeSize = e.InodeSize ∧
      e'.numInodes = growTenPercent outOfRange e.numInodes ∧
      (11 * e.numInodes ≤ 10 * (2 ^ 64 - 2 ^ 13) →
        e'.numInodes = mulTenPercent e.numInodes / 2 ^ 52 ∧ e'.numInodes < 2 ^ 64 ∧
        11 * e.numInodes * (2 ^ 52 - 1) < 10 * (e'.numInodes + 1) * 2 ^ 52 ∧
        10 * e'.numInodes * 2 ^ 51 ≤ 11 * e.numInodes * (2 ^ 51 + 1)) ∧
      64 * e.BlockSize ∣ e'.totalSize ∧
      g ≤ e'.totalSize ∧
      ∀ m, 64 * e.BlockSize ∣ m → g ≤ m → e'.totalSize ≤ m) ∧
    (∀ n a, 0 < a → n < 2 ^ 64 → a < 2 ^ 64 → roundUp n a < 2 ^ 64 →
      ∃ r, alignN n a = some r ∧ a ∣ r ∧ n ≤ r ∧ (∀ m, a ∣ m → n ≤ m → r ≤ m) ∧
        (a ∣ n → r = n)) := by
  have halign : ∀ n a, 0 < a → n < 2 ^ 64 → a < 2 ^ 64 → roundUp n a < 2 ^ 64 →
      ∃ r, alignN n a = some r ∧ a ∣ r ∧ n ≤ r ∧ (∀ m, a ∣ m → n ≤ m → r ≤ m) ∧
        (a ∣ n → r = n) := by
    intro n a ha hn ha2 hfit2
    have h := roundUp_least n a ha
    exact ⟨_, alignN_eq_roundUp n a ha hn ha2 hfit2, h.1, h.2.1, h.2.2.1, h.2.2.2⟩
  refine ⟨?_, halign⟩
  have hm : mulU64 64 e.BlockSize = 64 * e.BlockSize := mulU64_of_lt _ _ hmul
  have hpos : 0 < 64 * e.BlockSize := by omega
  have hne : ¬ 64 * e.BlockSize = 0 := by omega
  obtain ⟨g1, g2, g3, g4⟩ := growTenPercent_bounds outOfRange e.totalSize hgrow
  by_cases hr : growTenPercent outOfRange e.totalSize % (64 * e.BlockSize) = 0
  · refine ⟨{ e with totalSize := growTenPercent outOfRange e.totalSize,
                      numInodes := growTenPercent outOfRange e.numInodes }, _, ?_, rfl,
      g1, g2, g3, g4, rfl, rfl, rfl,
      growTenPercent_bounds outOfRange e.numInodes,
      Nat.dvd_of_mod_eq_zero hr, le_refl _, ?_⟩
    · simp [Ext4Fs.FinalizeSizeContext, hm, hne, hr]
    · intro m _ hle
      exact hle
  · obtain ⟨r, hr1, hr2, hr3, hr4, _⟩ :=
      halign (growTenPercent outOfRange e.totalSize) (64 * e.BlockSize) hpos g2 hmul hfit
    refine ⟨{ e with totalSize := r, numInodes := growTenPercent outOfRange e.numInodes }, _,
      ?_, rfl, g1, g2, g3, g4, rfl, rfl, rfl,
      growTenPercent_bounds outOfRange e.numInodes, hr2, hr3, hr4⟩
    simp [Ext4Fs.FinalizeSizeContext, hm, hne, hr, hr1]

/-- Witness for C35: 1000000 bytes grow to 1100000 and are aligned to the next
multiple of `64 * 4096`, which is 1310720. -/
theorem Ext4Fs.FinalizeSizeContext_aligned_witness :
    0 < sampleExt4Full.BlockSize ∧ 64 * sampleExt4Full.BlockSize < 2 ^ 64 ∧
    11 * sampleExt4Full.totalSize ≤ 10 * (2 ^ 64 - 2 ^ 13) ∧
    roundUp (growTenPercent sampleOutOfRange sampleExt4Full.totalSize)
      (64 * sampleExt4Full.BlockSize) = 1310720 ∧
    sampleExt4Full.FinalizeSizeContext sampleOutOfRange =
      ({ BlockSize := 4096, InodeSize := 256, totalSize := 1310720, numInodes := 22 },
        none) ∧
    ∃ (e' : Ext4Fs) (g : Nat), sampleExt4Full.FinalizeSizeContext sampleOutOfRange = (e', none) ∧
      g = growTenPercent sampleOutOfRange sampleExt4Full.totalSize ∧
      g = mulTenPercent sampleExt4Full.totalSize / 2 ^ 52 ∧ g < 2 ^ 64 ∧
      11 * sampleExt4Full.totalSize * (2 ^ 52 - 1) < 10 * (g + 1) * 2 ^ 52 ∧
      10 * g * 2 ^ 51 ≤ 11 * sampleExt4Full.totalSize * (2 ^ 51 + 1) ∧
      e'.BlockSize = sampleExt4Full.BlockSize ∧ e'.InodeSize = sampleExt4Full.InodeSize ∧
      e'.numInodes = growTenPercent sampleOutOfRange sampleExt4Full.numInodes ∧
      (11 * sampleExt4Full.numInodes ≤ 10 * (2 ^ 64 - 2 ^ 13) →
        e'.numInodes = mulTenPercent sampleExt4Full.numInodes / 2 ^ 52 ∧
        e'.numInodes < 2 ^ 64 ∧
        11 * sampleExt4Full.numInodes * (2 ^ 52 - 1) < 10 * (e'.numInodes + 1) * 2 ^ 52 ∧
        10 * e'.numInodes * 2 ^ 51 ≤ 11 * sampleExt4Full.numInodes * (2 ^ 51 + 1)) ∧
      64 * sampleExt4Full.BlockSize ∣ e'.totalSize ∧
      g ≤ e'.totalSize ∧
      ∀ m, 64 * sampleExt4Full.BlockSize ∣ m → g ≤ m → e'.totalSize ≤ m :=
  ⟨by decide, by decide, by decide, by decide, by decide,
    (Ext4Fs.FinalizeSizeContext_aligned sampleExt4Full sampleOutOfRange (by decide) (by decide)
      (by decide) (by decide)).1⟩

/-! ### The invariant of the size context -/

/-- What one `Calc*` call does to the size context, absent overflow, also when
it panics: the sizes of blocks and inodes stay, the inodes of the call are
counted, and the total grows by at least one inode size for each of them. -/
theorem Ext4Fs.call_step (e : Ext4Fs) (c : Ext4Fs.Call) (hfit : c.fits e) :
    (e.call c).1.BlockSize = e.BlockSize ∧ (e.call c).1.InodeSize = e.InodeSize ∧
    (e.call c).1.numInodes = e.numInodes + c.inodes ∧
    e.totalSize + c.inodes * e.InodeSize ≤ (e.call c).1.totalSize := by
  obtain ⟨h1, h2⟩ := hfit
  cases c with
  | regFile fileName fileSize =>
    simp only [Ext4Fs.Call.inodes, Ext4Fs.Call.bytes] at h1 h2
    have hadd := Ext4Fs.addInode_eq e h1 (by omega)
    by_cases hB : e.BlockSize = 0
    · simp [Ext4Fs.call, Ext4Fs.CalcRegFileSize, hadd, alignN, hB, Ext4Fs.Call.inodes,
        addU64_of_lt _ _ (show e.totalSize + e.InodeSize + 0 < 2 ^ 64 by omega)]
    · have hpos : 0 < e.BlockSize := Nat.pos_of_ne_zero hB
      have hge := roundUp_ge fileSize e.BlockSize hpos
      have halign := alignN_eq_roundUp fileSize e.BlockSize hpos (by omega) (by omega)
        (by omega)
      have ha1 : addU64 (e.totalSize + e.InodeSize) e.BlockSize =
          e.totalSize + e.InodeSize + e.BlockSize := addU64_of_lt _ _ (by omega)
      have ha2 : addU64 (e.totalSize + e.InodeSize + e.BlockSize)
          (roundUp fileSize e.BlockSize) =
          e.totalSize + e.InodeSize + e.BlockSize + roundUp fileSize e.BlockSize :=
        addU64_of_lt _ _ (by omega)
      simp only [Ext4Fs.call, Ext4Fs.CalcRegFileSize, hadd, halign, ha1, ha2,
        Ext4Fs.Call.inodes]
      refine ⟨trivial, trivial, trivial, ?_⟩
      omega
  | dir dirName =>
    simp only [Ext4Fs.Call.inodes, Ext4Fs.Call.bytes] at h1 h2
    have hadd := Ext4Fs.addInode_eq e h1 (by omega)
    have hm : mulU64 3 e.BlockSize = 3 * e.BlockSize := mulU64_of_lt _ _ (by omega)
    have ha : addU64 (e.totalSize + e.InodeSize) (3 * e.BlockSize) =
        e.totalSize + e.InodeSize + 3 * e.BlockSize := addU64_of_lt _ _ (by omega)
    simp only [Ext4Fs.call, Ext4Fs.CalcDirSize, hadd, hm, ha, Ext4Fs.Call.inodes]
    refine ⟨trivial, trivial, trivial, ?_⟩
    omega
  | symlink srcName dstName =>
    simp only [Ext4Fs.Call.inodes, Ext4Fs.Call.bytes] at h1 h2
    by_cases hlen : dstName.utf8ByteSize > 60
    · rw [if_pos hlen] at h2
      have hadd := Ext4Fs.addInode_eq e h1 (by omega)
      by_cases hB : e.BlockSize = 0
      · simp [Ext4Fs.call, Ext4Fs.CalcSymlinkSize, hadd, alignN, hB, hlen, Ext4Fs.Call.inodes]
      · have hpos : 0 < e.BlockSize := Nat.pos_of_ne_zero hB
        have hge := roundUp_ge dstName.utf8ByteSize e.BlockSize hpos
        have hble : e.BlockSize ≤ roundUp dstName.utf8ByteSize e.BlockSize := by
          have hdvd := (roundUp_least dstName.utf8ByteSize e.BlockSize hpos).1
          exact Nat.le_of_dvd (by omega) hdvd
        have halign := alignN_eq_roundUp dstName.utf8ByteSize e.BlockSize hpos (by omega)
          (by omega) (by omega)
        have ha : addU64 (e.totalSize + e.InodeSize)
            (roundUp dstName.utf8ByteSize e.BlockSize) =
            e.totalSize + e.InodeSize + roundUp dstName.utf8ByteSize e.BlockSize :=
          addU64_of_lt _ _ (by omega)
        simp only [Ext4Fs.call, Ext4Fs.CalcSymlinkSize, hadd, if_pos hlen, halign, ha,
          Ext4Fs.Call.inodes]
        refine ⟨trivial, trivial, trivial, ?_⟩
        omega
    · rw [if_neg hlen] at h2
      have hadd := Ext4Fs.addInode_eq e h1 (by omega)
      simp [Ext4Fs.call, Ext4Fs.CalcSymlinkSize, hadd, hlen, Ext4Fs.Call.inodes]
  | hardlink srcName dstName =>
    simp only [Ext4Fs.Call.inodes, Ext4Fs.Call.bytes] at h1 h2
    simp [Ext4Fs.call, Ext4Fs.CalcHardlinkSize, addU64_of_lt _ _ h2, Ext4Fs.Call.inodes]
  | charDevice devName major minor =>
    simp only [Ext4Fs.Call.inodes, Ext4Fs.Call.bytes] at h1 h2
    simp [Ext4Fs.call, Ext4Fs.CalcCharDeviceSize, Ext4Fs.addInode_eq e h1 h2,
      Ext4Fs.Call.inodes]
  | blockDevice devName major minor =>
    simp only [Ext4Fs.Call.inodes, Ext4Fs.Call.bytes] at h1 h2
    simp [Ext4Fs.call, Ext4Fs.CalcBlockDeviceSize, Ext4Fs.addInode_eq e h1 h2,
      Ext4Fs.Call.inodes]
  | fifoPipe pipeName =>
    simp only [Ext4Fs.Call.inodes, Ext4Fs.Call.bytes] at h1 h2
    simp [Ext4Fs.call, Ext4Fs.CalcFIFOPipeSize, Ext4Fs.addInode_eq e h1 h2, Ext4Fs.Call.inodes]
  | socket sockName =>
    simp only [Ext4Fs.Call.inodes, Ext4Fs.Call.bytes] at h1 h2
    simp [Ext4Fs.call, Ext4Fs.CalcSocketSize, Ext4Fs.addInode_eq e h1 h2, Ext4Fs.Call.inodes]
  | addExAttr fileName attr data flags =>
    simp [Ext4Fs.call, Ext4Fs.CalcAddExAttrSize, Ext4Fs.Call.inodes]

theorem Ext4Fs.calls_cons (e : Ext4Fs) (c : Ext4Fs.Call) (cs : List Ext4Fs.Call) :
    e.calls (c :: cs) =
      if (e.call c).2 = none then (e.call c).1.calls cs else e.call c := by
  rcases hc : e.call c with ⟨e', panic⟩
  cases panic with
  | none => simp [Ext4Fs.calls, hc]
  | some msg => simp [Ext4Fs.calls, hc]

/-- What a sequence of `Calc*` calls does to the size context, absent
overflow. -/
theorem Ext4Fs.calls_step (cs : List Ext4Fs.Call) (e : Ext4Fs) (hfits : e.fitsAll cs) :
    (e.calls cs).1.BlockSize = e.BlockSize ∧ (e.calls cs).1.InodeSize = e.InodeSize ∧
    e.numInodes ≤ (e.calls cs).1.numInodes ∧
    e.totalSize + ((e.calls cs).1.numInodes - e.numInodes) * e.InodeSize ≤
      (e.calls cs).1.totalSize := by
  induction cs generalizing e with
  | nil => simp [Ext4Fs.calls]
  | cons c cs ih =>
    obtain ⟨hfit, hrest⟩ := hfits
    obtain ⟨h1, h2, h3, h4⟩ := Ext4Fs.call_step e c hfit
    rw [Ext4Fs.calls_cons]
    by_cases hp : (e.call c).2 = none
    · rw [if_pos hp]
      obtain ⟨i1, i2, i3, i4⟩ := ih (e.call c).1 hrest
      rw [h2, h3] at i4
      rw [h3] at i3
      refine ⟨by rw [i1, h1], by rw [i2, h2], by omega, ?_⟩
      have hsplit : (e.call c).1.calls cs |>.1.numInodes - e.numInodes =
          ((e.call c).1.calls cs |>.1.numInodes - (e.numInodes + c.inodes)) + c.inodes := by
        omega
      rw [hsplit, Nat.add_mul]
      omega
    · rw [if_neg hp]
      refine ⟨h1, h2, by omega, ?_⟩
      rw [h3, Nat.add_sub_cancel_left]
      exact h4

theorem Ext4Fs.fitsAll_append (cs1 cs2 : List Ext4Fs.Call) (e : Ext4Fs)
    (hfits : e.fitsAll (cs1 ++ cs2)) :
    e.fitsAll cs1 ∧ ((e.calls cs1).2 = none → (e.calls cs1).1.fitsAll cs2) ∧
    e.calls (cs1 ++ cs2) =
      if (e.calls cs1).2 = none then (e.calls cs1).1.calls cs2 else e.calls cs1 := by
  induction cs1 generalizing e with
  | nil => exact ⟨trivial, fun _ => hfits, by simp [Ext4Fs.calls]⟩
  | cons c cs ih =>
    obtain ⟨hfit, hrest⟩ := hfits
    obtain ⟨i1, i2, i3⟩ := ih (e.call c).1 hrest
    refine ⟨⟨hfit, i1⟩, ?_, ?_⟩
    · rw [Ext4Fs.calls_cons]
      by_cases hp : (e.call c).2 = none
      · rw [if_pos hp]
        exact i2
      · rw [if_neg hp]
        intro h
        exact absurd h hp
    · rw [List.cons_append, Ext4Fs.calls_cons, Ext4Fs.calls_cons]
      by_cases hp : (e.call c).2 = none
      · rw [if_pos hp, if_pos hp]
        exact i3
      · rw [if_neg hp, if_neg hp, if_neg hp]

/-- C40: the invariant of the size context.  After `InitSizeContext` followed
by any finite sequence of `Calc*` calls, absent 64-bit overflow (and also when
one of the calls panics, which ends the sequence), `numInodes >= 11` and
`totalSize >= 2048 + numInodes * InodeSize`; and `numInodes` and `totalSize`
never decrease across `Calc*` calls: not in one call from any size context, and
not from any earlier point of the sequence to its end. -/
theorem Ext4Fs.size_invariant (e : Ext4Fs) (cs : List Ext4Fs.Call)
    (hinit : 2048 + 11 * e.InodeSize < 2 ^ 64) (hfits : e.InitSizeContext.fitsAll cs) :
    11 ≤ (e.InitSizeContext.calls cs).1.numInodes ∧
    2048 + (e.InitSizeContext.calls cs).1.numInodes * (e.InitSizeContext.calls cs).1.InodeSize ≤
      (e.InitSizeContext.calls cs).1.totalSize ∧
    (∀ (e' : Ext4Fs) (c : Ext4Fs.Call), c.fits e' →
      e'.numInodes ≤ (e'.call c).1.numInodes ∧ e'.totalSize ≤ (e'.call c).1.totalSize) ∧
    (∀ cs1 cs2, cs = cs1 ++ cs2 →
      (e.InitSizeContext.calls cs1).1.numInodes ≤ (e.InitSizeContext.calls cs).1.numInodes ∧
      (e.InitSizeContext.calls cs1).1.totalSize ≤ (e.InitSizeContext.calls cs).1.totalSize) := by
  have h11 : 11 * e.InodeSize < 2 ^ 64 := by omega
  have hn : e.InitSizeContext.numInodes = 11 := rfl
  have hi : e.InitSizeContext.InodeSize = e.InodeSize := rfl
  have ht : 2048 + 11 * e.InodeSize ≤ e.InitSizeContext.totalSize := by
    simp only [Ext4Fs.InitSizeContext, mulU64_of_lt _ _ h11, addU64_of_lt _ _ hinit, maxU64]
    split <;> omega
  obtain ⟨_, s2, s3, s4⟩ := Ext4Fs.calls_step cs e.InitSizeContext hfits
  rw [hn] at s3
  rw [hn, hi] at s4
  refine ⟨s3, ?_, ?_, ?_⟩
  · rw [s2, hi]
    have hsplit : (e.InitSizeContext.calls cs).1.numInodes =
        ((e.InitSizeContext.calls cs).1.numInodes - 11) + 11 := by omega
    have hmul : (e.InitSizeContext.calls cs).1.numInodes * e.InodeSize =
        ((e.InitSizeContext.calls cs).1.numInodes - 11) * e.InodeSize + 11 * e.InodeSize := by
      rw [← Nat.add_mul, ← hsplit]
    omega
  · intro e' c hfit
    obtain ⟨_, _, h3, h4⟩ := Ext4Fs.call_step e' c hfit
    exact ⟨by omega, le_trans (Nat.le_add_right _ _) h4⟩
  · intro cs1 cs2 hcs
    subst hcs
    obtain ⟨_, a2, a3⟩ := Ext4Fs.fitsAll_append cs1 cs2 e.InitSizeContext hfits
    rw [a3]
    by_cases hp : (e.InitSizeContext.calls cs1).2 = none
    · rw [if_pos hp]
      obtain ⟨_, _, t3, t4⟩ := Ext4Fs.calls_step cs2 _ (a2 hp)
      exact ⟨t3, le_trans (Nat.le_add_right _ _) t4⟩
    · rw [if_neg hp]
      exact ⟨le_refl _, le_refl _⟩

/-- Witness for C40: a directory, a file of 5000 bytes and a hard link, with
blocks of 4096 bytes and inodes of 256 bytes. -/
theorem Ext4Fs.size_invariant_witness :
    2048 + 11 * sampleExt4.InodeSize < 2 ^ 64 ∧
    sampleExt4.InitSizeContext.fitsAll [.dir "d", .regFile "f" 5000, .hardlink "f" "g"] ∧
    sampleExt4.InitSizeContext.calls [.dir "d", .regFile "f" 5000, .hardlink "f" "g"] =
      ({ BlockSize := 4096, InodeSize := 256, totalSize := 34048, numInodes := 13 }, none) ∧
    11 ≤ (sampleExt4.InitSizeContext.calls
      [.dir "d", .regFile "f" 5000, .hardlink "f" "g"]).1.numInodes ∧
    2048 +
        (sampleExt4.InitSizeContext.calls
          [.dir "d", .regFile "f" 5000, .hardlink "f" "g"]).1.numInodes *
        (sampleExt4.InitSizeContext.calls
          [.dir "d", .regFile "f" 5000, .hardlink "f" "g"]).1.InodeSize ≤
      (sampleExt4.InitSizeContext.calls
        [.dir "d", .regFile "f" 5000, .hardlink "f" "g"]).1.totalSize :=
  have hfits : sampleExt4.InitSizeContext.fitsAll
      [.dir "d", .regFile "f" 5000, .hardlink "f" "g"] := by
    simp only [Ext4Fs.fitsAll, Ext4Fs.Call.fits]
    decide
  have h := Ext4Fs.size_invariant sampleExt4 [.dir "d", .regFile "f" 5000, .hardlink "f" "g"]
    (by decide) hfits
  ⟨by decide, hfits, by decide, h.1, h.2.1⟩

end OpenGCS
